import Mathlib

/-!
# simple-modbus: application server and RTU framer

A shallow embedding of `simple_modbus_server.c` and `simple_modbus_rtu.c`.

* Machine integers are `Nat`/`Int`; every store into a `uint8_t`/`uint16_t`
  object is reduced `% 256` / `% 65536` explicitly.  `int` is 32 bits wide, so
  the promoted arithmetic of the source never overflows and is done in `Nat`/`Int`.
* The module-level singletons `server_` and `rtu_` become explicit state that is
  passed through every function together with the state of the host and the
  list of calls made into the host (the trace).
* A host callback that receives a pointer it may write through returns the list
  of bytes it stored from that pointer on; `blit` puts them into the buffer.
* A null function pointer is `none`.
* `write_frame` and `write_regs` only read the buffer they are handed; `read_frame` and
  the register read callbacks may store to it.
* A read outside an array yields 0 and a store outside an array is dropped.
-/

namespace SimpleModbus

/-! ## errno values (Linux numbering) -/

def EAGAIN : Int := 11
def EFAULT : Int := 14
def EBUSY : Int := 16
def EINVAL : Int := 22
def EBADMSG : Int := 74
def ENOBUFS : Int := 105
def ETIMEDOUT : Int := 110

/-! ## Constants of `simple_modbus_server.c` -/

def MODBUS_MAX_FRAME_SIZE : Nat := 256
def MODBUS_MIN_FRAME_SIZE : Int := 4
def MODBUS_MAX_NUMBER_OF_READ_REGS : Nat := 0x7D
def MODBUS_MAX_NUMBER_OF_WRITE_REGS : Nat := 0x7B

def MODBUS_FUNC_READ_HOLDING_REGS : Nat := 0x03
def MODBUS_FUNC_READ_INPUT_REGS : Nat := 0x04
def MODBUS_FUNC_WRITE_SINGLE_REG : Nat := 0x06
def MODBUS_FUNC_WRITE_MULTIPLE_REGS : Nat := 0x10

def MODBUS_EXC_ILLEGAL_FUNCTION : Nat := 0x01
def MODBUS_EXC_ILLEGAL_DATA_ADDRESS : Nat := 0x02
def MODBUS_EXC_ILLEGAL_DATA_VALUE : Nat := 0x03
def MODBUS_EXC_SERVER_DEVICE_FAILURE : Nat := 0x04

def MODBUS_FUNC_READ_INPUT_REGS_FRAME_LENGTH : Int := 8
def MODBUS_FUNC_READ_HOLDING_REGS_FRAME_LENGTH : Int := 8
def MODBUS_FUNC_WRITE_SINGLE_REG_FRAME_LENGTH : Int := 8
def MODBUS_FUNC_WRITE_MULT_REGS_MIN_FRAME_LENGTH : Int := 11

/-! ## Byte buffers -/

/-- Read of `buf[i]`; a read outside the array yields 0. -/
def rd (buf : List Nat) (i : Nat) : Nat := buf.getD i 0

/-- Store `buf[i] = (uint8_t) v`; a store outside the array is dropped. -/
def wr (buf : List Nat) (i : Nat) (v : Nat) : List Nat := buf.set i (v % 256)

/-- Bytes `src` stored at `buf[off]`, `buf[off+1]`, ... by a callback that was
handed the pointer `&buf[off]`; stores that would fall outside `buf` are dropped. -/
def blit (buf : List Nat) (off : Nat) (src : List Nat) : List Nat :=
  buf.take off ++ (src.map (· % 256)).take (buf.length - off) ++ buf.drop (off + src.length)

/-- Conversion of an `int16_t` value to `uint16_t`. -/
def to_u16 (x : Int) : Nat := (x % 65536).toNat

/-! ## CRC -/

/-- One round of the inner loop of `calculate_crc`. -/
def crc_shift (crc : Nat) : Nat :=
  if crc &&& 0x0001 ≠ 0 then (crc >>> 1) ^^^ 0xA001 else crc >>> 1

/-- One round of the outer loop of `calculate_crc`: `crc ^= data[i]`, then the
inner loop `for (j = 8; j != 0; j--)`. -/
def crc_update (crc : Nat) (byte : Nat) : Nat :=
  (List.range 8).foldl (fun c _ => crc_shift c) (crc ^^^ byte)

/-- Source function `calculate_crc(data, length)`. -/
def calculate_crc (data : List Nat) (length : Int) : Nat :=
  let crc := (List.range length.toNat).foldl (fun c i => crc_update c (rd data i)) 0xFFFF
  ((crc <<< 8) % 65536) ||| (crc >>> 8)

/-! ## Application server: data model -/

inductive server_state_t where
  | SERVER_STATE_IDLE
  | SERVER_STATE_PROCESSING_REQUEST
  | SERVER_STATE_SEND_REPLY
  deriving DecidableEq, Repr

open server_state_t

/-- A call made by the server into the host. -/
inductive Event where
  /-- Call `transport->read_frame(server_.buffer, max_length)`. -/
  | read_frame (max_length : Nat)
  /-- Call `transport->write_frame(server_.buffer, length)`; `frame` is `buffer[0..length]`. -/
  | write_frame (frame : List Nat) (length : Nat)
  /-- Call `callbacks->read_input_regs(&buffer[3], n_regs, start_addr)`. -/
  | read_input_regs (n_regs start_addr : Nat)
  /-- Call `callbacks->read_holding_regs(&buffer[3], n_regs, start_addr)`. -/
  | read_holding_regs (n_regs start_addr : Nat)
  /-- Call `callbacks->write_regs(data, n_regs, start_addr)`; `data` is the `2 * n_regs`
  bytes found at the pointer. -/
  | write_regs (data : List Nat) (n_regs start_addr : Nat)
  deriving DecidableEq, Repr

/-- Slot `int16_t (*read_frame)(uint8_t* buffer, uint16_t max_length)`: from the host
state, the buffer and `max_length` to the new host state, the bytes stored at
`buffer[0..]` and the returned value. -/
abbrev read_frame_fn (σ : Type) := σ → List Nat → Nat → σ × List Nat × Int

/-- Slot `int16_t (*write_frame)(uint8_t* buffer, uint16_t length)`: the buffer is only
read ("the buffer containing the frame to send"). -/
abbrev write_frame_fn (σ : Type) := σ → List Nat → Nat → σ × Int

/-- Register read callback `(buffer, n_regs, start_addr)`: it is handed the memory
from the pointer on and returns the bytes it stored there and its result. -/
abbrev read_regs_fn (σ : Type) := σ → List Nat → Nat → Nat → σ × List Nat × Int

/-- Register write callback `(buffer, n_regs, start_addr)`; the buffer is `const`. -/
abbrev write_regs_fn (σ : Type) := σ → List Nat → Nat → Nat → σ × Int

structure smb_transport_if_t (σ : Type) where
  read_frame : Option (read_frame_fn σ)
  write_frame : Option (write_frame_fn σ)

structure smb_server_if_t (σ : Type) where
  read_input_regs : Option (read_regs_fn σ)
  read_holding_regs : Option (read_regs_fn σ)
  write_regs : Option (write_regs_fn σ)

structure server_t (σ : Type) where
  addr : Nat
  transport : Option (smb_transport_if_t σ)
  callbacks : Option (smb_server_if_t σ)
  state : server_state_t
  buffer : List Nat
  buffer_index : Nat
  frame_length : Int

/-- The singleton `server_`, the host and the calls made so far. -/
structure World (σ : Type) where
  server : server_t σ
  host : σ
  trace : List Event

/-- Static initialiser of `server_`. -/
def server_init (σ : Type) : server_t σ :=
  { addr := 0, transport := none, callbacks := none, state := SERVER_STATE_IDLE,
    buffer := List.replicate MODBUS_MAX_FRAME_SIZE 0, buffer_index := 0, frame_length := 0 }

/-! ## Application server: operations -/

section Server

variable {σ : Type}

/-- Source function `reset_state`. -/
def reset_state (w : World σ) : World σ :=
  { w with server := { w.server with buffer_index := 0, state := SERVER_STATE_IDLE,
                                     frame_length := 0 } }

/-- Source function `send_reply`. -/
def send_reply (wf : write_frame_fn σ) (w : World σ) : World σ × Int :=
  let length := to_u16 w.server.frame_length
  let r := wf w.host w.server.buffer length
  let w1 : World σ :=
    { server := { w.server with state := SERVER_STATE_SEND_REPLY },
      host := r.1,
      trace := w.trace ++ [Event.write_frame (w.server.buffer.take length) length] }
  let write_ret := r.2
  if write_ret < 0 then (reset_state w1, write_ret)
  else if write_ret = 0 then (reset_state w1, 0)
  else (w1, -EAGAIN)

/-- Source function `prepare_error_reply`. -/
def prepare_error_reply (addr : Nat) (error_code : Nat) (w : World σ) : World σ :=
  let b0 := wr w.server.buffer 0 addr
  let b1 := wr b0 1 (rd b0 1 ||| 0x80)
  let b2 := wr b1 2 error_code
  let crc := calculate_crc b2 3
  let b3 := wr b2 3 ((crc &&& 0xFF00) >>> 8)
  let b4 := wr b3 4 (crc &&& 0x00FF)
  { w with server := { w.server with buffer := b4, frame_length := 5 } }

/-- Source function `process_write_regs(buffer, n_regs)`, where `buffer` is
`&server_.buffer[off]`. -/
def process_write_regs (wf : write_frame_fn σ) (write_regs : write_regs_fn σ)
    (off : Nat) (n_regs : Nat) (w : World σ) : World σ × Int :=
  let buf := w.server.buffer
  let start_addr_high := (rd buf 2 <<< 8) % 65536
  let start_addr_low := rd buf 3
  let start_addr := start_addr_high ||| start_addr_low
  let r := write_regs w.host (buf.drop off) n_regs start_addr
  let w1 : World σ :=
    { w with host := r.1,
             trace := w.trace ++ [Event.write_regs ((buf.drop off).take (2 * n_regs))
                                    n_regs start_addr] }
  let ret := r.2
  if ret = 0 then
    ({ w1 with server := { w1.server with state := SERVER_STATE_PROCESSING_REQUEST } }, -EAGAIN)
  else if ret = (n_regs : Int) then
    let n_response_bytes : Nat := 6
    let crc := calculate_crc buf (n_response_bytes : Int)
    let b6 := wr buf n_response_bytes ((crc &&& 0xFF00) >>> 8)
    let b7 := wr b6 (n_response_bytes + 1) (crc &&& 0x00FF)
    send_reply wf { w1 with server := { w1.server with buffer := b7,
                                                       frame_length := ((n_response_bytes + 2 : Nat) : Int) } }
  else
    send_reply wf (prepare_error_reply w1.server.addr MODBUS_EXC_ILLEGAL_DATA_ADDRESS w1)

/-- Source function `process_read_regs(read_func)`; `ev` names the slot the
function pointer was taken from. -/
def process_read_regs (wf : write_frame_fn σ) (read_func : read_regs_fn σ)
    (ev : Nat → Nat → Event) (w : World σ) : World σ × Int :=
  let buf := w.server.buffer
  let n_regs_high := (rd buf 4 <<< 8) % 65536
  let n_regs_low := rd buf 5
  let n_regs := n_regs_high ||| n_regs_low
  if n_regs > MODBUS_MAX_NUMBER_OF_READ_REGS then
    send_reply wf (prepare_error_reply w.server.addr MODBUS_EXC_ILLEGAL_DATA_VALUE w)
  else
    let start_addr_high := (rd buf 2 <<< 8) % 65536
    let start_addr_low := rd buf 3
    let start_addr := start_addr_high ||| start_addr_low
    let r := read_func w.host (buf.drop 3) n_regs start_addr
    let buf1 := blit buf 3 r.2.1
    let w1 : World σ :=
      { server := { w.server with buffer := buf1 },
        host := r.1,
        trace := w.trace ++ [ev n_regs start_addr] }
    let ret := r.2.2
    if ret = 0 then
      ({ w1 with server := { w1.server with state := SERVER_STATE_PROCESSING_REQUEST } },
        -EAGAIN)
    else if ret = (n_regs : Int) then
      let n_bytes := (2 * n_regs) % 65536
      let b2 := wr buf1 2 n_bytes
      let n_header_bytes : Nat := 3
      let crc := calculate_crc b2 ((n_header_bytes + n_bytes : Nat) : Int)
      let b3 := wr b2 (n_header_bytes + n_bytes) ((crc &&& 0xFF00) >>> 8)
      let b4 := wr b3 (n_header_bytes + n_bytes + 1) (crc &&& 0x00FF)
      send_reply wf { w1 with server := { w1.server with
                                            buffer := b4,
                                            frame_length := ((n_header_bytes + n_bytes + 2 : Nat) : Int) } }
    else
      send_reply wf (prepare_error_reply w1.server.addr MODBUS_EXC_ILLEGAL_DATA_ADDRESS w1)

/-- Source function `process_read_holding_regs`. -/
def process_read_holding_regs (wf : write_frame_fn σ) (cb : smb_server_if_t σ)
    (w : World σ) : World σ × Int :=
  match cb.read_holding_regs with
  | none => send_reply wf (prepare_error_reply w.server.addr MODBUS_EXC_ILLEGAL_FUNCTION w)
  | some f =>
    if w.server.frame_length ≠ MODBUS_FUNC_READ_HOLDING_REGS_FRAME_LENGTH then
      send_reply wf (prepare_error_reply w.server.addr MODBUS_EXC_ILLEGAL_DATA_VALUE w)
    else
      process_read_regs wf f Event.read_holding_regs w

/-- Source function `process_read_input_regs`. -/
def process_read_input_regs (wf : write_frame_fn σ) (cb : smb_server_if_t σ)
    (w : World σ) : World σ × Int :=
  match cb.read_input_regs with
  | none => send_reply wf (prepare_error_reply w.server.addr MODBUS_EXC_ILLEGAL_FUNCTION w)
  | some f =>
    if w.server.frame_length ≠ MODBUS_FUNC_READ_INPUT_REGS_FRAME_LENGTH then
      send_reply wf (prepare_error_reply w.server.addr MODBUS_EXC_ILLEGAL_DATA_VALUE w)
    else
      process_read_regs wf f Event.read_input_regs w

/-- Source function `process_write_single_reg`. -/
def process_write_single_reg (wf : write_frame_fn σ) (cb : smb_server_if_t σ)
    (w : World σ) : World σ × Int :=
  match cb.write_regs with
  | none => send_reply wf (prepare_error_reply w.server.addr MODBUS_EXC_ILLEGAL_FUNCTION w)
  | some f =>
    if w.server.frame_length ≠ MODBUS_FUNC_WRITE_SINGLE_REG_FRAME_LENGTH then
      send_reply wf (prepare_error_reply w.server.addr MODBUS_EXC_ILLEGAL_DATA_VALUE w)
    else
      process_write_regs wf f 4 1 w

/-- Source function `process_write_multiple_regs`. -/
def process_write_multiple_regs (wf : write_frame_fn σ) (cb : smb_server_if_t σ)
    (w : World σ) : World σ × Int :=
  match cb.write_regs with
  | none => send_reply wf (prepare_error_reply w.server.addr MODBUS_EXC_ILLEGAL_FUNCTION w)
  | some f =>
    if w.server.frame_length < MODBUS_FUNC_WRITE_MULT_REGS_MIN_FRAME_LENGTH then
      send_reply wf (prepare_error_reply w.server.addr MODBUS_EXC_ILLEGAL_DATA_VALUE w)
    else
      let buf := w.server.buffer
      let n_regs_high := (rd buf 4 <<< 8) % 65536
      let n_regs_low := rd buf 5
      let n_regs := n_regs_high ||| n_regs_low
      let n_bytes := rd buf 6
      let expected_frame_len := (7 + (2 * n_regs) + 2) % 65536
      if w.server.frame_length ≠ (expected_frame_len : Int) ∨ n_bytes ≠ 2 * n_regs ∨
          n_regs > MODBUS_MAX_NUMBER_OF_WRITE_REGS then
        send_reply wf (prepare_error_reply w.server.addr MODBUS_EXC_ILLEGAL_DATA_VALUE w)
      else
        process_write_regs wf f 7 n_regs w

/-- Source function `process_frame`. -/
def process_frame (wf : write_frame_fn σ) (cb : smb_server_if_t σ)
    (w : World σ) : World σ × Int :=
  let function_code := rd w.server.buffer 1
  if function_code = MODBUS_FUNC_READ_INPUT_REGS then process_read_input_regs wf cb w
  else if function_code = MODBUS_FUNC_READ_HOLDING_REGS then process_read_holding_regs wf cb w
  else if function_code = MODBUS_FUNC_WRITE_SINGLE_REG then process_write_single_reg wf cb w
  else if function_code = MODBUS_FUNC_WRITE_MULTIPLE_REGS then
    process_write_multiple_regs wf cb w
  else send_reply wf (prepare_error_reply w.server.addr MODBUS_EXC_ILLEGAL_FUNCTION w)

/-- Source function `exec_state_idle`. -/
def exec_state_idle (rf : read_frame_fn σ) (wf : write_frame_fn σ) (cb : smb_server_if_t σ)
    (w : World σ) : World σ × Int :=
  let r := rf w.host w.server.buffer MODBUS_MAX_FRAME_SIZE
  let buf := blit w.server.buffer 0 r.2.1
  let w1 : World σ :=
    { server := { w.server with buffer := buf },
      host := r.1,
      trace := w.trace ++ [Event.read_frame MODBUS_MAX_FRAME_SIZE] }
  let read_len := r.2.2
  if read_len < 0 then (w1, read_len)
  else if read_len = 0 then (w1, 0)
  else if read_len < MODBUS_MIN_FRAME_SIZE then (w1, -EBADMSG)
  else
    let crc := calculate_crc buf (read_len - 2)
    if crc ≠ ((rd buf (read_len - 2).toNat <<< 8) ||| rd buf (read_len - 1).toNat) % 65536 then
      (w1, -EBADMSG)
    else if rd buf 0 = w1.server.addr then
      process_frame wf cb { w1 with server := { w1.server with frame_length := read_len } }
    else
      (w1, 0)

/-- Source function `smb_server_poll`.  The `default` label of the `switch` is not
modelled: `server_state_t` has the three values of the `enum` and no other. -/
def smb_server_poll (w : World σ) : World σ × Int :=
  match w.server.transport with
  | none => (w, -EFAULT)
  | some t =>
    match t.read_frame with
    | none => (w, -EFAULT)
    | some rf =>
      match t.write_frame with
      | none => (w, -EFAULT)
      | some wf =>
        match w.server.callbacks with
        | none => (w, -EFAULT)
        | some cb =>
          match w.server.state with
          | SERVER_STATE_IDLE => exec_state_idle rf wf cb w
          | SERVER_STATE_PROCESSING_REQUEST => process_frame wf cb w
          | SERVER_STATE_SEND_REPLY => send_reply wf w

/-- Source function `smb_server_config`. -/
def smb_server_config (server_addr : Nat) (transport : Option (smb_transport_if_t σ))
    (server_cb : Option (smb_server_if_t σ)) (w : World σ) : World σ × Int :=
  let s0 : server_t σ :=
    { addr := 0, transport := none, callbacks := none, state := SERVER_STATE_IDLE,
      buffer_index := 0, frame_length := 0,
      buffer := w.server.buffer.map (fun _ => 0) }
  let w0 : World σ := { w with server := s0 }
  if 0 = server_addr then (w0, -EINVAL)
  else
    match transport with
    | none => (w0, -EFAULT)
    | some t =>
      if t.read_frame.isNone then (w0, -EFAULT)
      else if t.write_frame.isNone then (w0, -EFAULT)
      else
        match server_cb with
        | none => (w0, -EFAULT)
        | some cb =>
          ({ w0 with server := { s0 with addr := server_addr, transport := some t,
                                         callbacks := some cb } }, 0)

end Server

/-! ## RTU framer: data model -/

def MODBUS_RTU_BUFFER_SIZE : Nat := 256
def UINT8_MAX : Nat := 255

inductive rtu_state_t where
  | RTU_STATE_INIT
  | RTU_STATE_IDLE
  | RTU_STATE_EMIT
  | RTU_STATE_RECEIVE
  | RTU_STATE_CONTROL_AND_WAIT
  | RTU_STATE_PROCESS_RX_FRAME
  | RTU_STATE_WAIT_FOR_TX_COMPLETE
  | RTU_STATE_TX_TIMEOUT
  deriving DecidableEq, Repr

inductive rtu_action_t where
  | RTU_ACTION_NONE
  | RTU_ACTION_RX
  | RTU_ACTION_TX
  | RTU_ACTION_TIMEOUT
  | RTU_ACTION_PROCESS_RX
  deriving DecidableEq, Repr

open rtu_state_t rtu_action_t

/-- A non-null `uint8_t*`: the identity of the pointed-to buffer and the memory
found from the pointer on. -/
structure byte_ptr where
  id : Nat
  mem : List Nat
  deriving DecidableEq, Repr

/-- Source type `struct rtu_event_t`; a null `bytes` is `none`. -/
structure rtu_event_t where
  action : rtu_action_t
  bytes : Option byte_ptr
  n_bytes : Nat

/-- A call made by the framer into the host. -/
inductive RtuEvent where
  /-- Call `interface->start_counter(count_duration_us)`. -/
  | start_counter (count_duration_us : Nat)
  /-- Call `interface->write(bytes, length)`; `bytes` is the `length` bytes found at
  the pointer. -/
  | write (bytes : List Nat) (length : Nat)
  /-- Call `interface->frame_received()`. -/
  | frame_received
  deriving DecidableEq, Repr

/-- Source type `struct smb_rtu_if_t` over a host with state `τ`. -/
structure smb_rtu_if_t (τ : Type) where
  start_counter : Option (τ → Nat → τ)
  write : Option (τ → List Nat → Nat → τ × Int)
  frame_received : Option (τ → τ)

/-- Source type `struct rtu_t`; `current_tx_buffer` holds the identity of a buffer. -/
structure rtu_t (τ : Type) where
  addr : Nat
  interface : Option (smb_rtu_if_t τ)
  state : rtu_state_t
  t_1_5char_us : Nat
  t_3_5char_us : Nat
  buffer_index : Nat
  rx_buffer : List Nat
  current_tx_buffer : Option Nat
  current_tx_length : Nat

/-- The singleton `rtu_`, the UART/timer host and the calls made so far. -/
structure RtuWorld (τ : Type) where
  rtu : rtu_t τ
  host : τ
  trace : List RtuEvent

/-- Static initialiser of `rtu_`. -/
def rtu_init (τ : Type) : rtu_t τ :=
  { addr := 0, interface := none, state := RTU_STATE_INIT, t_1_5char_us := 0,
    t_3_5char_us := 0, buffer_index := 0,
    rx_buffer := List.replicate MODBUS_RTU_BUFFER_SIZE 0,
    current_tx_buffer := none, current_tx_length := 0 }

/-! ## RTU framer: operations

Every `exec_*` function returns the new world, the bytes it stored through
`event->bytes` and the `int16_t` result.  The guard `NULL == event` of the source
is not modelled: `event` is always the address of a local variable. -/

section Rtu

variable {τ : Type}

/-- Call of `rtu_.interface->start_counter(d)` through a non-null slot. -/
def call_start_counter (sc : τ → Nat → τ) (d : Nat) (w : RtuWorld τ) : RtuWorld τ :=
  { w with host := sc w.host d, trace := w.trace ++ [RtuEvent.start_counter d] }

/-- Source function `smb_rtu_reset`. -/
def smb_rtu_reset (w : RtuWorld τ) : RtuWorld τ :=
  { w with rtu := { addr := 0, state := RTU_STATE_INIT, interface := none,
                    t_1_5char_us := 0, t_3_5char_us := 0, buffer_index := 0,
                    current_tx_buffer := none, current_tx_length := 0,
                    rx_buffer := w.rtu.rx_buffer.map (fun _ => 0) } }

/-- The `switch (baud_rate)` of `smb_rtu_config`: the pair
`(t_1_5char_us, t_3_5char_us)`, or `none` for the `default` label. -/
def baud_rate_timings (baud_rate : Nat) : Option (Nat × Nat) :=
  if baud_rate = 1200 then some (13750, 32083)
  else if baud_rate = 2400 then some (6875, 16041)
  else if baud_rate = 4800 then some (3437, 8020)
  else if baud_rate = 9600 then some (1719, 4010)
  else if baud_rate = 14400 then some (1146, 2674)
  else if baud_rate = 19200 then some (859, 2005)
  else if baud_rate = 28800 ∨ baud_rate = 38400 ∨ baud_rate = 57600 ∨ baud_rate = 76800 ∨
      baud_rate = 115200 then some (750, 1750)
  else none

/-- Source function `smb_rtu_config`. -/
def smb_rtu_config (addr : Nat) (baud_rate : Nat) (interface : Option (smb_rtu_if_t τ))
    (w : RtuWorld τ) : RtuWorld τ × Int :=
  if 0 = addr then (w, -EINVAL)
  else if UINT8_MAX = addr then (w, -EINVAL)
  else
    match interface with
    | none => (w, -EFAULT)
    | some itf =>
      match itf.start_counter with
      | none => (w, -EFAULT)
      | some sc =>
        if itf.write.isNone then (w, -EFAULT)
        else if itf.frame_received.isNone then (w, -EFAULT)
        else
          match baud_rate_timings baud_rate with
          | none => (w, -EINVAL)
          | some t =>
            let r : rtu_t τ :=
              { w.rtu with t_1_5char_us := t.1, t_3_5char_us := t.2,
                           rx_buffer := w.rtu.rx_buffer.map (fun _ => 0),
                           addr := addr, buffer_index := 0, interface := some itf }
            (call_start_counter sc r.t_3_5char_us { w with rtu := r }, 0)

/-- Source function `exec_init`. -/
def exec_init (event : rtu_event_t) (w : RtuWorld τ) : RtuWorld τ × List Nat × Int :=
  match w.rtu.interface with
  | none => (w, [], -EFAULT)
  | some itf =>
    match itf.start_counter with
    | none => (w, [], -EFAULT)
    | some sc =>
      if event.action = RTU_ACTION_TIMEOUT then
        ({ w with rtu := { w.rtu with state := RTU_STATE_IDLE, buffer_index := 0 } }, [], 0)
      else if event.action = RTU_ACTION_PROCESS_RX then (w, [], 0)
      else (call_start_counter sc w.rtu.t_3_5char_us w, [], -EAGAIN)

/-- Source function `exec_idle`. -/
def exec_idle (event : rtu_event_t) (w : RtuWorld τ) : RtuWorld τ × List Nat × Int :=
  match w.rtu.interface with
  | none => (w, [], -EFAULT)
  | some itf =>
    match itf.start_counter with
    | none => (w, [], -EFAULT)
    | some sc =>
      if event.action = RTU_ACTION_RX then
        match event.bytes with
        | none => (w, [], -EFAULT)
        | some p =>
          if event.n_bytes > 1 ∨ event.n_bytes = 0 then (w, [], -EFAULT)
          else
            let w1 : RtuWorld τ :=
              { w with rtu := { w.rtu with rx_buffer := wr w.rtu.rx_buffer 0 (rd p.mem 0),
                                           buffer_index := 1 } }
            let w2 := call_start_counter sc w1.rtu.t_1_5char_us w1
            ({ w2 with rtu := { w2.rtu with state := RTU_STATE_RECEIVE } }, [], 0)
      else if event.action = RTU_ACTION_PROCESS_RX then (w, [], 0)
      else if event.action = RTU_ACTION_TX then
        match event.bytes, itf.write with
        | none, _ => (w, [], -EFAULT)
        | some _, none => (w, [], -EFAULT)
        | some p, some write =>
          if event.n_bytes = 0 ∨ event.n_bytes > MODBUS_RTU_BUFFER_SIZE then (w, [], -EFAULT)
          else
            let r := write w.host p.mem event.n_bytes
            let w1 : RtuWorld τ :=
              { w with host := r.1,
                       trace := w.trace ++ [RtuEvent.write (p.mem.take event.n_bytes)
                                              event.n_bytes] }
            let n_bytes := r.2
            if n_bytes < 0 then (w1, [], n_bytes)
            else if n_bytes < (event.n_bytes : Int) then
              let w2 : RtuWorld τ :=
                { w1 with rtu := { w1.rtu with buffer_index := to_u16 n_bytes,
                                               state := RTU_STATE_EMIT,
                                               current_tx_buffer := some p.id,
                                               current_tx_length := event.n_bytes } }
              (call_start_counter sc w2.rtu.t_1_5char_us w2, [], -EAGAIN)
            else
              let w2 : RtuWorld τ :=
                { w1 with rtu := { w1.rtu with state := RTU_STATE_WAIT_FOR_TX_COMPLETE } }
              (call_start_counter sc w2.rtu.t_3_5char_us w2, [], 0)
      else (w, [], -EFAULT)

/-- Source function `exec_emitting`. -/
def exec_emitting (event : rtu_event_t) (w : RtuWorld τ) : RtuWorld τ × List Nat × Int :=
  match w.rtu.interface with
  | none => (w, [], -EFAULT)
  | some itf =>
    match itf.write with
    | none => (w, [], -EFAULT)
    | some write =>
      if event.action = RTU_ACTION_TX then
        match event.bytes with
        | none => (w, [], -EFAULT)
        | some p =>
          if w.rtu.buffer_index ≥ event.n_bytes then (w, [], -EFAULT)
          else if w.rtu.current_tx_buffer ≠ some p.id then (w, [], -EBUSY)
          else if w.rtu.current_tx_length ≠ event.n_bytes then (w, [], -EINVAL)
          else
            let n_remaining_bytes : Int := (event.n_bytes : Int) - (w.rtu.buffer_index : Int)
            let bytes := p.mem.drop w.rtu.buffer_index
            let r := write w.host bytes (to_u16 n_remaining_bytes)
            let w1 : RtuWorld τ :=
              { w with host := r.1,
                       trace := w.trace ++ [RtuEvent.write (bytes.take (to_u16 n_remaining_bytes))
                                              (to_u16 n_remaining_bytes)] }
            let n_bytes := r.2
            -- a null `start_counter` slot is dereferenced by the source here; configuration
            -- rules it out, the model then leaves the timer alone
            let arm (d : Nat) (v : RtuWorld τ) : RtuWorld τ :=
              match itf.start_counter with
              | none => v
              | some sc => call_start_counter sc d v
            if n_bytes < 0 then
              let w2 : RtuWorld τ :=
                { w1 with rtu := { w1.rtu with state := RTU_STATE_WAIT_FOR_TX_COMPLETE } }
              (arm w2.rtu.t_3_5char_us w2, [], n_bytes)
            else if n_bytes < n_remaining_bytes then
              let w2 : RtuWorld τ :=
                { w1 with rtu := { w1.rtu with
                    buffer_index := (w1.rtu.buffer_index + n_bytes.toNat) % 65536 } }
              (arm w2.rtu.t_1_5char_us w2, [], -EAGAIN)
            else if n_bytes = n_remaining_bytes then
              let w2 : RtuWorld τ :=
                { w1 with rtu := { w1.rtu with state := RTU_STATE_WAIT_FOR_TX_COMPLETE } }
              (arm w2.rtu.t_3_5char_us w2, [], 0)
            else (w1, [], -EFAULT)
      else if event.action = RTU_ACTION_TIMEOUT then
        ({ w with rtu := { w.rtu with state := RTU_STATE_TX_TIMEOUT } }, [], 0)
      else (w, [], -EBUSY)

/-- Source function `exec_receiving`. -/
def exec_receiving (event : rtu_event_t) (w : RtuWorld τ) : RtuWorld τ × List Nat × Int :=
  match w.rtu.interface with
  | none => (w, [], -EFAULT)
  | some itf =>
    match itf.start_counter with
    | none => (w, [], -EFAULT)
    | some sc =>
      if event.action = RTU_ACTION_RX then
        match event.bytes with
        | none => (w, [], -EFAULT)
        | some p =>
          if event.n_bytes > 1 ∨ event.n_bytes = 0 then (w, [], -EFAULT)
          else if w.rtu.buffer_index ≥ MODBUS_RTU_BUFFER_SIZE then (w, [], -ENOBUFS)
          else
            let w1 : RtuWorld τ :=
              { w with rtu := { w.rtu with
                  rx_buffer := wr w.rtu.rx_buffer w.rtu.buffer_index (rd p.mem 0),
                  buffer_index := (w.rtu.buffer_index + 1) % 65536 } }
            (call_start_counter sc w1.rtu.t_1_5char_us w1, [], 0)
      else if event.action = RTU_ACTION_TIMEOUT then
        let w1 : RtuWorld τ :=
          { w with rtu := { w.rtu with state := RTU_STATE_CONTROL_AND_WAIT } }
        (call_start_counter sc
          (to_u16 ((w1.rtu.t_3_5char_us : Int) - (w1.rtu.t_1_5char_us : Int))) w1, [], 0)
      else if event.action = RTU_ACTION_PROCESS_RX then (w, [], 0)
      else if event.action = RTU_ACTION_TX then (w, [], -EBUSY)
      else (w, [], -EFAULT)

/-- Source function `exec_waiting`. -/
def exec_waiting (event : rtu_event_t) (w : RtuWorld τ) : RtuWorld τ × List Nat × Int :=
  match w.rtu.interface with
  | none => (w, [], -EFAULT)
  | some itf =>
    match itf.start_counter, itf.frame_received with
    | none, _ => (w, [], -EFAULT)
    | some _, none => (w, [], -EFAULT)
    | some sc, some fr =>
      if event.action = RTU_ACTION_RX then
        (call_start_counter sc w.rtu.t_3_5char_us w, [], -EBUSY)
      else if event.action = RTU_ACTION_TIMEOUT then
        let addr := rd w.rtu.rx_buffer 0
        if 0 = addr ∨ w.rtu.addr = addr then
          ({ rtu := { w.rtu with state := RTU_STATE_PROCESS_RX_FRAME },
             host := fr w.host,
             trace := w.trace ++ [RtuEvent.frame_received] }, [], 0)
        else
          ({ w with rtu := { w.rtu with state := RTU_STATE_IDLE } }, [], 0)
      else if event.action = RTU_ACTION_PROCESS_RX then (w, [], 0)
      else if event.action = RTU_ACTION_TX then (w, [], -EBUSY)
      else (w, [], -EFAULT)

/-- Source function `exec_process`. -/
def exec_process (event : rtu_event_t) (w : RtuWorld τ) : RtuWorld τ × List Nat × Int :=
  if event.action = RTU_ACTION_PROCESS_RX then
    if w.rtu.buffer_index ≥ event.n_bytes then (w, [], -EINVAL)
    else
      let n_rx_bytes := w.rtu.buffer_index
      let copied := (List.range n_rx_bytes).map (fun i => rd w.rtu.rx_buffer i)
      ({ w with rtu := { w.rtu with state := RTU_STATE_IDLE } }, copied, (n_rx_bytes : Int))
  else if event.action = RTU_ACTION_RX ∨ event.action = RTU_ACTION_TX then (w, [], -EBUSY)
  else (w, [], -EFAULT)

/-- Source function `exec_wait_for_tx_complete`. -/
def exec_wait_for_tx_complete (event : rtu_event_t) (w : RtuWorld τ) :
    RtuWorld τ × List Nat × Int :=
  if event.action = RTU_ACTION_TIMEOUT then
    ({ w with rtu := { w.rtu with state := RTU_STATE_IDLE } }, [], 0)
  else (w, [], -EBUSY)

/-- Source function `exec_tx_timeout`. -/
def exec_tx_timeout (event : rtu_event_t) (w : RtuWorld τ) : RtuWorld τ × List Nat × Int :=
  match w.rtu.interface with
  | none => (w, [], -EFAULT)
  | some itf =>
    match itf.start_counter with
    | none => (w, [], -EFAULT)
    | some sc =>
      if event.action = RTU_ACTION_TX then
        match event.bytes with
        | none => (w, [], -EFAULT)
        | some p =>
          if w.rtu.current_tx_buffer = some p.id then
            let w1 : RtuWorld τ :=
              { w with rtu := { w.rtu with state := RTU_STATE_WAIT_FOR_TX_COMPLETE } }
            (call_start_counter sc w1.rtu.t_3_5char_us w1, [], -ETIMEDOUT)
          else (w, [], -EBUSY)
      else (w, [], -EBUSY)

/-- Source function `exec_sm`. -/
def exec_sm (event : rtu_event_t) (w : RtuWorld τ) : RtuWorld τ × List Nat × Int :=
  match w.rtu.state with
  | RTU_STATE_INIT => exec_init event w
  | RTU_STATE_IDLE => exec_idle event w
  | RTU_STATE_EMIT => exec_emitting event w
  | RTU_STATE_RECEIVE => exec_receiving event w
  | RTU_STATE_CONTROL_AND_WAIT => exec_waiting event w
  | RTU_STATE_PROCESS_RX_FRAME => exec_process event w
  | RTU_STATE_WAIT_FOR_TX_COMPLETE => exec_wait_for_tx_complete event w
  | RTU_STATE_TX_TIMEOUT => exec_tx_timeout event w

/-- Identity given to the local variable `byte` of `smb_rtu_receive`. -/
def rx_byte_id : Nat := 0

/-- Source function `smb_rtu_receive`. -/
def smb_rtu_receive (byte : Nat) (w : RtuWorld τ) : RtuWorld τ × Int :=
  match w.rtu.interface with
  | none => (w, -EFAULT)
  | some _ =>
    let r := exec_sm { action := RTU_ACTION_RX, bytes := some ⟨rx_byte_id, [byte % 256]⟩,
                       n_bytes := 1 } w
    (r.1, r.2.2)

/-- Source function `smb_rtu_timer_timeout`. -/
def smb_rtu_timer_timeout (w : RtuWorld τ) : RtuWorld τ × Int :=
  match w.rtu.interface with
  | none => (w, -EFAULT)
  | some _ =>
    let r := exec_sm { action := RTU_ACTION_TIMEOUT, bytes := none, n_bytes := 0 } w
    (r.1, r.2.2)

/-- Source function `smb_rtu_read_pdu`; the second component is the bytes stored
at `buffer[0..]`. -/
def smb_rtu_read_pdu (buffer : Option byte_ptr) (length : Nat) (w : RtuWorld τ) :
    RtuWorld τ × List Nat × Int :=
  match w.rtu.interface with
  | none => (w, [], -EFAULT)
  | some _ =>
    match buffer with
    | none => (w, [], -EFAULT)
    | some p => exec_sm { action := RTU_ACTION_PROCESS_RX, bytes := some p, n_bytes := length } w

/-- Source function `smb_rtu_write_pdu`. -/
def smb_rtu_write_pdu (buffer : Option byte_ptr) (length : Nat) (w : RtuWorld τ) :
    RtuWorld τ × Int :=
  match w.rtu.interface with
  | none => (w, -EFAULT)
  | some _ =>
    match buffer with
    | none => (w, -EFAULT)
    | some p =>
      if length > MODBUS_RTU_BUFFER_SIZE then (w, -EINVAL)
      else
        let r := exec_sm { action := RTU_ACTION_TX, bytes := some p, n_bytes := length } w
        (r.1, r.2.2)

end Rtu

/-! ## The integrated library: server transport bound to the framer

Binding of `examples/stm32/*/Src`: `.read_frame = smb_rtu_read_pdu`,
`.write_frame = smb_rtu_write_pdu`.  The host of the server is the framer together
with its own host. -/

/-- Identity of the array `server_.buffer`. -/
def server_buffer_id : Nat := 1

/-- The transport of the examples: the two slots are the framer's entry points,
called on `server_.buffer`. -/
def rtu_transport (τ : Type) : smb_transport_if_t (RtuWorld τ) :=
  { read_frame := some (fun h buf max_length =>
      smb_rtu_read_pdu (some ⟨server_buffer_id, buf⟩) max_length h),
    write_frame := some (fun h buf length =>
      smb_rtu_write_pdu (some ⟨server_buffer_id, buf⟩) length h) }

/-! ## Vocabulary of the statements -/

section Vocabulary

variable {σ : Type}

/-- Contents of a `uint8_t` array. -/
def is_bytes (buf : List Nat) : Prop := ∀ b ∈ buf, b < 256

/-- What the C types say about `server_`: a 256-byte buffer and an 8-bit address. -/
def server_ok (s : server_t σ) : Prop :=
  s.buffer.length = MODBUS_MAX_FRAME_SIZE ∧ is_bytes s.buffer ∧ s.addr < 256

/-- The server holds a transport with both slots set and a callback set, as after a
successful `smb_server_config`. -/
def bound_to (s : server_t σ) (rf : read_frame_fn σ) (wf : write_frame_fn σ)
    (cb : smb_server_if_t σ) : Prop :=
  s.transport = some ⟨some rf, some wf⟩ ∧ s.callbacks = some cb

/-- Value returned by `read_frame` when polled in this world. -/
def inbound_len (rf : read_frame_fn σ) (w : World σ) : Int :=
  (rf w.host w.server.buffer MODBUS_MAX_FRAME_SIZE).2.2

/-- Contents of `server_.buffer` once `read_frame` has returned: the inbound frame is
`inbound_buf[0 .. inbound_len]`. -/
def inbound_buf (rf : read_frame_fn σ) (w : World σ) : List Nat :=
  blit w.server.buffer 0 (rf w.host w.server.buffer MODBUS_MAX_FRAME_SIZE).2.1

/-- The CRC test of `exec_state_idle` on a frame `buf[0 .. len]`: `calculate_crc` over
the first `len - 2` bytes equals `(buf[len-2] << 8) | buf[len-1]`. -/
def crc_matches (buf : List Nat) (len : Int) : Prop :=
  calculate_crc buf (len - 2) =
    ((rd buf (len - 2).toNat <<< 8) ||| rd buf (len - 1).toNat) % 65536

instance (buf : List Nat) (len : Int) : Decidable (crc_matches buf len) := by
  unfold crc_matches; infer_instance

/-- The world right after the `read_frame` call of `exec_state_idle`. -/
def after_read (rf : read_frame_fn σ) (w : World σ) : World σ :=
  { server := { w.server with buffer := inbound_buf rf w },
    host := (rf w.host w.server.buffer MODBUS_MAX_FRAME_SIZE).1,
    trace := w.trace ++ [Event.read_frame MODBUS_MAX_FRAME_SIZE] }

/-- The world in which `process_frame` is entered from `exec_state_idle`. -/
def accepted (rf : read_frame_fn σ) (w : World σ) : World σ :=
  { after_read rf w with
    server := { (after_read rf w).server with frame_length := inbound_len rf w } }

/-- Big-endian 16-bit value of `buf[i]`, `buf[i+1]`. -/
def be16 (buf : List Nat) (i : Nat) : Nat := rd buf i * 256 + rd buf (i + 1)

/-- The 5-byte exception reply `[addr, fc | 0x80, code, crc_hi, crc_lo]`, the CRC taken
over the first three bytes. -/
def exception_frame (addr fc error_code : Nat) : List Nat :=
  let crc := calculate_crc [addr, fc ||| 0x80, error_code] 3
  [addr, fc ||| 0x80, error_code, crc / 256, crc % 256]

/-- The event is a call of one of the three register callbacks. -/
def Event.is_register_call : Event → Bool
  | Event.read_input_regs _ _ => true
  | Event.read_holding_regs _ _ => true
  | Event.write_regs _ _ _ => true
  | _ => false

/-- The event is a call of `write_frame`. -/
def Event.is_write_frame : Event → Bool
  | Event.write_frame _ _ => true
  | _ => false

end Vocabulary

section Vocabulary2

variable {σ : Type}

/-- The callback slot that serves function code `fc` is null, or `fc` is none of the
four supported function codes. -/
def no_handler (cb : smb_server_if_t σ) (fc : Nat) : Prop :=
  (fc = 0x03 ∧ cb.read_holding_regs = none) ∨ (fc = 0x04 ∧ cb.read_input_regs = none) ∨
    ((fc = 0x06 ∨ fc = 0x10) ∧ cb.write_regs = none) ∨
    (fc ≠ 0x03 ∧ fc ≠ 0x04 ∧ fc ≠ 0x06 ∧ fc ≠ 0x10)

/-- Function code `fc` is a register read served by the callback `f`, whose calls are
logged as `ev`. -/
def read_handler (cb : smb_server_if_t σ) (fc : Nat) (f : read_regs_fn σ)
    (ev : Nat → Nat → Event) : Prop :=
  (fc = 0x03 ∧ cb.read_holding_regs = some f ∧ ev = Event.read_holding_regs) ∨
    (fc = 0x04 ∧ cb.read_input_regs = some f ∧ ev = Event.read_input_regs)

/-- Result of the register read callback when `process_read_regs` calls it in `w`. -/
def read_regs_ret (f : read_regs_fn σ) (w : World σ) : Int :=
  (f w.host (w.server.buffer.drop 3) (be16 w.server.buffer 4) (be16 w.server.buffer 2)).2.2

/-- The world right after the register read callback returned in `process_read_regs`. -/
def after_read_regs (f : read_regs_fn σ) (ev : Nat → Nat → Event) (w : World σ) : World σ :=
  { server := { w.server with
      buffer := blit w.server.buffer 3
        (f w.host (w.server.buffer.drop 3) (be16 w.server.buffer 4)
          (be16 w.server.buffer 2)).2.1 },
    host := (f w.host (w.server.buffer.drop 3) (be16 w.server.buffer 4)
      (be16 w.server.buffer 2)).1,
    trace := w.trace ++ [ev (be16 w.server.buffer 4) (be16 w.server.buffer 2)] }

/-- Result of `write_regs` when `process_write_regs(&buffer[off], n_regs)` calls it. -/
def write_regs_ret (f : write_regs_fn σ) (off n_regs : Nat) (w : World σ) : Int :=
  (f w.host (w.server.buffer.drop off) n_regs (be16 w.server.buffer 2)).2

/-- The world right after `write_regs` returned in `process_write_regs`. -/
def after_write_regs (f : write_regs_fn σ) (off n_regs : Nat) (w : World σ) : World σ :=
  { w with
    host := (f w.host (w.server.buffer.drop off) n_regs (be16 w.server.buffer 2)).1,
    trace := w.trace ++ [Event.write_regs ((w.server.buffer.drop off).take (2 * n_regs)) n_regs
      (be16 w.server.buffer 2)] }

/-- The server state with the phase set to `ProcessingRequest`. -/
def set_processing (w : World σ) : World σ :=
  { w with server := { w.server with state := SERVER_STATE_PROCESSING_REQUEST } }

/-- The normal reply to a register read as `process_read_regs` composes it in place. -/
def compose_read_reply (n_regs : Nat) (w : World σ) : World σ :=
  let n_bytes := (2 * n_regs) % 65536
  let b2 := wr w.server.buffer 2 n_bytes
  let crc := calculate_crc b2 ((3 + n_bytes : Nat) : Int)
  let b3 := wr b2 (3 + n_bytes) ((crc &&& 0xFF00) >>> 8)
  let b4 := wr b3 (3 + n_bytes + 1) (crc &&& 0x00FF)
  { w with server := { w.server with buffer := b4,
                                      frame_length := ((3 + n_bytes + 2 : Nat) : Int) } }

/-- The normal reply to a register write as `process_write_regs` composes it in place. -/
def compose_write_reply (w : World σ) : World σ :=
  let crc := calculate_crc w.server.buffer 6
  let b6 := wr w.server.buffer 6 ((crc &&& 0xFF00) >>> 8)
  let b7 := wr b6 7 (crc &&& 0x00FF)
  { w with server := { w.server with buffer := b7, frame_length := 8 } }

/-- The acceptance test of `process_write_multiple_regs` as the specification words it:
length at least 11 and equal to `9 + 2 * q`, byte count `2 * q`, at most 123 registers. -/
def write_multiple_valid (buf : List Nat) (len : Int) : Prop :=
  11 ≤ len ∧ len = 9 + 2 * (be16 buf 4 : Int) ∧ rd buf 6 = 2 * be16 buf 4 ∧ be16 buf 4 ≤ 123

instance (buf : List Nat) (len : Int) : Decidable (write_multiple_valid buf len) := by
  unfold write_multiple_valid; infer_instance

/-! ### Fixtures: a host without state -/

/-- A `read_frame` that delivers `frame` and returns its length. -/
def fixed_read_frame (frame : List Nat) : read_frame_fn Unit :=
  fun h _ _ => (h, frame, (frame.length : Int))

/-- A `write_frame` that returns `ret`. -/
def fixed_write_frame (ret : Int) : write_frame_fn Unit := fun h _ _ => (h, ret)

/-- A register read callback that stores `data` and returns `ret`. -/
def fixed_read_regs (data : List Nat) (ret : Int) : read_regs_fn Unit :=
  fun h _ _ _ => (h, data, ret)

/-- A register write callback that returns `ret`. -/
def fixed_write_regs (ret : Int) : write_regs_fn Unit := fun h _ _ _ => (h, ret)

/-- The server configured with address `addr` on a host that delivers `frame`, answers
`write_frame` with `wret` and has the callback set `cb`. -/
def fixture (addr : Nat) (frame : List Nat) (wret : Int) (cb : smb_server_if_t Unit) :
    World Unit :=
  (smb_server_config addr
    (some ⟨some (fixed_read_frame frame), some (fixed_write_frame wret)⟩) (some cb)
    ⟨server_init Unit, (), []⟩).1

end Vocabulary2

section Runs

variable {σ : Type}

/-- What `process_frame`, entered in `w`, has done by the time it is in `w1` and has
not composed a reply yet: it has called register callbacks only, and the first three
bytes of the buffer and the frame length are those of `w`. -/
structure Derived (w w1 : World σ) : Prop where
  ok : server_ok w1.server
  addr : w1.server.addr = w.server.addr
  transport : w1.server.transport = w.server.transport
  callbacks : w1.server.callbacks = w.server.callbacks
  frame_length : w1.server.frame_length = w.server.frame_length
  head : ∀ j, j < 3 → rd w1.server.buffer j = rd w.server.buffer j
  trace : ∃ evs, w1.trace = w.trace ++ evs ∧ ∀ e ∈ evs, e.is_register_call = true

/-- What holds of the world `pre` in which `process_frame`, entered in `w`, calls
`send_reply`: a reply of 5 to 256 bytes with a matching CRC is in the buffer. -/
structure Composed (w pre : World σ) : Prop where
  ok : server_ok pre.server
  addr : pre.server.addr = w.server.addr
  transport : pre.server.transport = w.server.transport
  callbacks : pre.server.callbacks = w.server.callbacks
  len_ge : 5 ≤ pre.server.frame_length
  len_le : pre.server.frame_length ≤ 256
  crc : crc_matches pre.server.buffer pre.server.frame_length
  byte0 : rd pre.server.buffer 0 = w.server.addr ∨
    rd pre.server.buffer 0 = rd w.server.buffer 0
  byte1 : rd pre.server.buffer 1 = rd w.server.buffer 1 ∨
    rd pre.server.buffer 1 = rd w.server.buffer 1 ||| 0x80
  trace : ∃ evs, pre.trace = w.trace ++ evs ∧ ∀ e ∈ evs, e.is_register_call = true

/-- One poll, made after the host has changed on its own by `g` (bytes arrived, time
passed). -/
def poll_after (g : σ → σ) (w : World σ) : World σ :=
  (smb_server_poll { w with host := g w.host }).1

/-- A run of polls; `env` lists how the host changes before each of them. -/
def run_polls : List (σ → σ) → World σ → World σ
  | [], w => w
  | g :: env, w => run_polls env (poll_after g w)

/-- The polls that follow while the server is not back in Idle. -/
def poll_while_busy : List (σ → σ) → World σ → World σ
  | [], w => w
  | g :: env, w =>
    if w.server.state = SERVER_STATE_IDLE then w else poll_while_busy env (poll_after g w)

/-- The poll that reads a request in `w`, and the polls that follow until the server is
back in Idle (or `env` is used up): the polls that answer the request. -/
def answer (env : List (σ → σ)) (w : World σ) : World σ :=
  poll_while_busy env (smb_server_poll w).1

/-- The frame is `len` bytes long and passes the CRC test that `exec_state_idle` applies
to inbound frames. -/
def frame_crc_valid (frame : List Nat) (len : Nat) : Prop :=
  frame.length = len ∧ is_bytes frame ∧ crc_matches frame (len : Int)

end Runs

section Outcomes

variable {σ : Type}

/-- The two ways `process_frame`, entered in `w`, can end with result `r`: a register
callback reported busy, or a reply was composed and handed to `send_reply`. -/
def Outcome (wf : write_frame_fn σ) (w : World σ) (r : World σ × Int) : Prop :=
  (∃ w1, Derived w w1 ∧ r = (set_processing w1, -EAGAIN)) ∨
    (∃ pre, Composed w pre ∧ r = send_reply wf pre)

end Outcomes

section Invariants

variable {σ : Type}

/-- The reply in the buffer is ready to be sent: 5 to 256 bytes with a matching CRC. -/
def reply_ready (s : server_t σ) : Prop :=
  5 ≤ s.frame_length ∧ s.frame_length ≤ 256 ∧ crc_matches s.buffer s.frame_length

/-- Invariant of the server state: in Idle `frame_length` is 0, in SendReply a reply
with a matching CRC is in the buffer. -/
def server_inv (s : server_t σ) : Prop :=
  server_ok s ∧ (s.state = SERVER_STATE_IDLE → s.frame_length = 0) ∧
    (s.state = SERVER_STATE_SEND_REPLY → reply_ready s)

/-- What a frame handed to `write_frame` by a step that started in `w` looks like. -/
def sent_frame_ok (w : World σ) (frame : List Nat) (len : Nat) : Prop :=
  frame_crc_valid frame len ∧ 5 ≤ len ∧ len ≤ 256 ∧
    (rd frame 0 = w.server.addr ∨ rd frame 0 = rd w.server.buffer 0) ∧
    (rd frame 1 = rd w.server.buffer 1 ∨ rd frame 1 = rd w.server.buffer 1 ||| 0x80)

/-- Relation between the world `w` in which `process_frame` or `send_reply` is entered
and the world `w'` it leaves. -/
structure Stepped (w w' : World σ) : Prop where
  ok : server_ok w'.server
  addr : w'.server.addr = w.server.addr
  transport : w'.server.transport = w.server.transport
  callbacks : w'.server.callbacks = w.server.callbacks
  events : ∃ evs, w'.trace = w.trace ++ evs ∧
    (∀ e ∈ evs, e.is_register_call = true ∨ e.is_write_frame = true) ∧
    ∀ frame len, Event.write_frame frame len ∈ evs → sent_frame_ok w frame len
  idle : w'.server.state = SERVER_STATE_IDLE → w'.server.frame_length = 0
  processing : w'.server.state = SERVER_STATE_PROCESSING_REQUEST →
    (∀ j, j < 3 → rd w'.server.buffer j = rd w.server.buffer j) ∧
      w'.server.frame_length = w.server.frame_length
  sending : w'.server.state = SERVER_STATE_SEND_REPLY →
    reply_ready w'.server ∧
      (rd w'.server.buffer 0 = w.server.addr ∨ rd w'.server.buffer 0 = rd w.server.buffer 0) ∧
      (rd w'.server.buffer 1 = rd w.server.buffer 1 ∨
        rd w'.server.buffer 1 = rd w.server.buffer 1 ||| 0x80)

end Invariants

section Answering

variable {σ : Type}

/-- State of the server while it answers a request with function code `fc` sent to
address `a`: the first two bytes of the buffer are `a` and `fc`, or `fc | 0x80`. -/
def answering (rf : read_frame_fn σ) (wf : write_frame_fn σ) (cb : smb_server_if_t σ)
    (a fc : Nat) (s : server_t σ) : Prop :=
  bound_to s rf wf cb ∧ server_inv s ∧ s.addr = a ∧ rd s.buffer 0 = a ∧
    (rd s.buffer 1 = fc ∨ rd s.buffer 1 = fc ||| 0x80)

/-- The reply frame carries the server address `a` and the function code `fc`, the
latter possibly with bit 7 set. -/
def reply_header (a fc : Nat) (frame : List Nat) : Prop :=
  rd frame 0 = a ∧ (rd frame 1 = fc ∨ rd frame 1 = fc ||| 0x80)

end Answering

/-! ### Concrete requests (server address 0x01) -/

section Concrete

/-- No register callback is defined. -/
def no_callbacks : smb_server_if_t Unit :=
  { read_input_regs := none, read_holding_regs := none, write_regs := none }

/-- Only `read_holding_regs` is defined: it stores `data` and returns `ret`. -/
def holding_only (data : List Nat) (ret : Int) : smb_server_if_t Unit :=
  { read_input_regs := none, read_holding_regs := some (fixed_read_regs data ret),
    write_regs := none }

/-- Only `write_regs` is defined: it returns `ret`. -/
def write_only (ret : Int) : smb_server_if_t Unit :=
  { read_input_regs := none, read_holding_regs := none,
    write_regs := some (fixed_write_regs ret) }

/-- Read two holding registers from address 0: `01 03 00 00 00 02 C4 0B`. -/
def read_two_frame : List Nat := [0x01, 0x03, 0x00, 0x00, 0x00, 0x02, 0xC4, 0x0B]

/-- The request `read_two_frame` with a callback that stores `00 01 02 03` and returns
4, which is `2 * n_regs`. -/
def c1_world : World Unit := fixture 0x01 read_two_frame 0 (holding_only [0x00, 0x01, 0x02, 0x03] 4)

/-- The request `read_two_frame` with a callback that stores `00 01 02 03` and returns
2, which is `n_regs`. -/
def c9_world : World Unit := fixture 0x01 read_two_frame 0 (holding_only [0x00, 0x01, 0x02, 0x03] 2)

/-- A frame with a wrong CRC: `01 04 00 00`. -/
def c5_frame : List Nat := [0x01, 0x04, 0x00, 0x00]

def c5_world : World Unit := fixture 0x01 c5_frame 0 no_callbacks

/-- A CRC-valid frame for server 2: `02 00 00 D0`. -/
def c6_frame : List Nat := [0x02, 0x00, 0x00, 0xD0]

def c6_world : World Unit := fixture 0x01 c6_frame 0 no_callbacks

/-- Read input registers, 4 bytes long: `01 04 01 E3`. -/
def c8_frame : List Nat := [0x01, 0x04, 0x01, 0xE3]

def c8_world : World Unit := fixture 0x01 c8_frame 0 no_callbacks

/-- Write one register, 0x402A, at address 0x4273: `01 10 42 73 00 01 02 40 2A 7F 48`. -/
def c10_frame : List Nat :=
  [0x01, 0x10, 0x42, 0x73, 0x00, 0x01, 0x02, 0x40, 0x2A, 0x7F, 0x48]

def c10_world : World Unit := fixture 0x01 c10_frame 0 (write_only 1)

end Concrete

/-! ### The integrated library on a UART that accepts a reply in two parts -/

section ConcreteIntegrated

/-- The event is a call of the UART `write`. -/
def RtuEvent.is_write : RtuEvent → Bool
  | RtuEvent.write _ _ => true
  | _ => false

/-- A UART/timer host whose state counts the calls of `write`: the first call accepts
all bytes but the last one, every later call accepts all bytes. -/
def slow_uart : smb_rtu_if_t Nat :=
  { start_counter := some (fun h _ => h),
    write := some (fun h _ length => (h + 1, if h = 0 then (length : Int) - 1 else (length : Int))),
    frame_received := some (fun h => h) }

/-- The framer configured for address 1 at 9600 baud, after the start-up timeout, the
four bytes `01 04 01 E3` and the two silent-interval timeouts: a frame is pending. -/
def c2_framer : RtuWorld Nat :=
  let w0 := (smb_rtu_config 0x01 9600 (some slow_uart) ⟨rtu_init Nat, 0, []⟩).1
  let w1 := (smb_rtu_timer_timeout w0).1
  let w2 := [0x01, 0x04, 0x01, 0xE3].foldl (fun w b => (smb_rtu_receive b w).1) w1
  (smb_rtu_timer_timeout (smb_rtu_timer_timeout w2).1).1

/-- The server of the examples: transport bound to the framer, no register callback,
so that the pending frame is answered with a 5-byte exception reply. -/
def c2_world : World (RtuWorld Nat) :=
  (smb_server_config 0x01 (some (rtu_transport Nat))
    (some { read_input_regs := none, read_holding_regs := none, write_regs := none })
    ⟨server_init (RtuWorld Nat), c2_framer, []⟩).1

end ConcreteIntegrated

/-! ### Register calls, emission and configuration -/

section Calls

variable {σ : Type}

/-- The call of a register callback that a valid request leads to. -/
structure RegisterCall (σ : Type) where
  /-- The call as it appears in the trace: callback, `n_regs`, `start_addr`. -/
  event : Event
  /-- The number of registers passed to the callback. -/
  n_regs : Nat
  /-- The value the callback returned. -/
  ret : Int
  /-- The world right after the callback returned. -/
  after : World σ
  /-- The world in which the normal reply has been composed. -/
  reply : World σ

/-- The call `process_read_regs` makes through `f`. -/
def read_call (f : read_regs_fn σ) (ev : Nat → Nat → Event) (w : World σ) : RegisterCall σ :=
  { event := ev (be16 w.server.buffer 4) (be16 w.server.buffer 2),
    n_regs := be16 w.server.buffer 4,
    ret := read_regs_ret f w,
    after := after_read_regs f ev w,
    reply := compose_read_reply (be16 w.server.buffer 4) (after_read_regs f ev w) }

/-- The call `process_write_regs(&buffer[off], n_regs)` makes through `f`. -/
def write_call (f : write_regs_fn σ) (off n_regs : Nat) (w : World σ) : RegisterCall σ :=
  { event := Event.write_regs ((w.server.buffer.drop off).take (2 * n_regs)) n_regs
      (be16 w.server.buffer 2),
    n_regs := n_regs,
    ret := write_regs_ret f off n_regs w,
    after := after_write_regs f off n_regs w,
    reply := compose_write_reply (after_write_regs f off n_regs w) }

/-- The register call `process_frame` makes for the request in the buffer of `w`, when
the request passes the checks of its `process_*` handler: 0x03 and 0x04 need a length
of 8 and a quantity of at most 125, 0x06 a length of 8, 0x10 a length of at least 11
that is `9 + 2 * qty`, a byte count of `2 * qty` and a quantity of at most 123; the
callback has to be defined.  `none` for every other request. -/
def register_call (cb : smb_server_if_t σ) (w : World σ) : Option (RegisterCall σ) :=
  let buf := w.server.buffer
  if rd buf 1 = 0x03 then
    match cb.read_holding_regs with
    | none => none
    | some f =>
      if w.server.frame_length = 8 ∧ be16 buf 4 ≤ 125 then
        some (read_call f Event.read_holding_regs w)
      else none
  else if rd buf 1 = 0x04 then
    match cb.read_input_regs with
    | none => none
    | some f =>
      if w.server.frame_length = 8 ∧ be16 buf 4 ≤ 125 then
        some (read_call f Event.read_input_regs w)
      else none
  else if rd buf 1 = 0x06 then
    match cb.write_regs with
    | none => none
    | some f => if w.server.frame_length = 8 then some (write_call f 4 1 w) else none
  else if rd buf 1 = 0x10 then
    match cb.write_regs with
    | none => none
    | some f =>
      if write_multiple_valid buf w.server.frame_length then
        some (write_call f 7 (be16 buf 4) w)
      else none
  else none

/-- Value returned by `write_frame` when `send_reply` is entered in `pre`. -/
def write_frame_ret (wf : write_frame_fn σ) (pre : World σ) : Int :=
  (wf pre.host pre.server.buffer (to_u16 pre.server.frame_length)).2

/-- What `smb_server_poll` returns after `write_frame` returned `r`: 0 for 0, `-EAGAIN`
for a positive value, the value itself when it is negative. -/
def emit_result (r : Int) : Int :=
  if r < 0 then r else if r = 0 then 0 else -EAGAIN

/-- The `write_frame` call `send_reply` makes in `pre`, as it appears in the trace. -/
def emitted (pre : World σ) : Event :=
  Event.write_frame (pre.server.buffer.take (to_u16 pre.server.frame_length))
    (to_u16 pre.server.frame_length)

/-- Both slots of the transport are set. -/
def transport_complete : Option (smb_transport_if_t σ) → Bool
  | some { read_frame := some _, write_frame := some _ } => true
  | _ => false

/-- The server is zeroized and unconfigured. -/
def zeroized (s : server_t σ) : Prop :=
  s.addr = 0 ∧ s.transport = none ∧ s.callbacks = none ∧ s.state = SERVER_STATE_IDLE ∧
    s.buffer_index = 0 ∧ s.frame_length = 0 ∧ ∀ b ∈ s.buffer, b = 0

/-- The world in which the next poll is entered after the host has changed by `g`. -/
def host_step (g : σ → σ) (w : World σ) : World σ := { w with host := g w.host }

end Calls

section FramerVocabulary

variable {τ : Type}

/-- The rows of the baud-rate table: baud rate, t1.5 and t3.5 in microseconds. -/
def baud_table : List (Nat × Nat × Nat) :=
  [(1200, 13750, 32083), (2400, 6875, 16041), (4800, 3437, 8020), (9600, 1719, 4010),
   (14400, 1146, 2674), (19200, 859, 2005), (28800, 750, 1750), (38400, 750, 1750),
   (57600, 750, 1750), (76800, 750, 1750), (115200, 750, 1750)]

/-- The supported baud rates. -/
def supported_bauds : List Nat :=
  [1200, 2400, 4800, 9600, 14400, 19200, 28800, 38400, 57600, 76800, 115200]

/-- All three slots of the host interface are set. -/
def interface_complete : Option (smb_rtu_if_t τ) → Bool
  | some { start_counter := some _, write := some _, frame_received := some _ } => true
  | _ => false

/-- The framer configured for address 1 at 9600 baud on `slow_uart`, after the start-up
timeout: phase Idle. -/
def idle_framer : RtuWorld Nat :=
  (smb_rtu_timer_timeout
    (smb_rtu_config 0x01 9600 (some slow_uart) ⟨rtu_init Nat, 0, []⟩).1).1

end FramerVocabulary

/-! ### Concrete requests and hosts for the register calls and the configuration -/

section Concrete2

/-- Write 0x4242 to register 0: `01 06 00 00 42 42 39 5B`. -/
def c11_frame : List Nat := [0x01, 0x06, 0x00, 0x00, 0x42, 0x42, 0x39, 0x5B]

/-- The request `c11_frame` with a `write_regs` that returns 1. -/
def c11_world : World Unit := fixture 0x01 c11_frame 0 (write_only 1)

/-- Write 123 registers from address 0x4273: `01 10 42 73 00 7B F6`, the data bytes
`07 08 ... FC` (byte `i` of the frame is `i`) and the CRC bytes `F7 85`. -/
def c12_frame : List Nat :=
  [0x01, 0x10, 0x42, 0x73, 0x00, 0x7B, 0xF6] ++ (List.range 246).map (· + 7) ++ [0xF7, 0x85]

/-- The request `c12_frame` with a `write_regs` that returns 123. -/
def c12_world : World Unit := fixture 0x01 c12_frame 0 (write_only 123)

/-- Write 4 to register 0: `01 06 00 00 00 04 88 09`. -/
def c13_frame : List Nat := [0x01, 0x06, 0x00, 0x00, 0x00, 0x04, 0x88, 0x09]

/-- The request `c13_frame` with a `write_regs` that returns -1. -/
def c13_world : World Unit := fixture 0x01 c13_frame 0 (write_only (-1))

/-- A `write_regs` that reports busy at its first call and success from then on; the
host state counts its calls. -/
def busy_once : write_regs_fn Nat :=
  fun h _ n_regs _ => (h + 1, if h = 0 then 0 else (n_regs : Int))

/-- A host that delivers `c13_frame`, accepts every reply and has `busy_once` as its
`write_regs`. -/
def c14_world : World Nat :=
  (smb_server_config 0x01
    (some ⟨some (fun h _ _ => (h, c13_frame, 8)), some (fun h _ _ => (h, 0))⟩)
    (some { read_input_regs := none, read_holding_regs := none,
            write_regs := some busy_once })
    ⟨server_init Nat, 0, []⟩).1

/-- The request `c11_frame` on a host whose `write_frame` returns 7: one byte was not
accepted. -/
def c15_world : World Unit := fixture 0x01 c11_frame 7 (write_only 1)

/-- A buffer of five bytes handed to `smb_rtu_write_pdu`. -/
def five_bytes : byte_ptr := { id := 2, mem := [0x01, 0x84, 0x01, 0x82, 0xC0] }

/-- The framer `idle_framer` after `smb_rtu_write_pdu(five_bytes, 5)`: the UART has
accepted four of the five bytes. -/
def emitting_framer : RtuWorld Nat := (smb_rtu_write_pdu (some five_bytes) 5 idle_framer).1

end Concrete2

/-! ### Runs of the framer -/

section FramerRuns

variable {τ : Type}

/-- The framer is configured: `rtu_.interface` points to an interface whose three slots
are `sc`, `wrt` and `fr`, as after a successful `smb_rtu_config`. -/
def configured (w : RtuWorld τ) (sc : τ → Nat → τ) (wrt : τ → List Nat → Nat → τ × Int)
    (fr : τ → τ) : Prop :=
  w.rtu.interface = some ⟨some sc, some wrt, some fr⟩

/-- The pair `(t_1_5char_us, t_3_5char_us)` is a row of the baud-rate table, as after a
successful `smb_rtu_config`. -/
def timings_ok (r : rtu_t τ) : Prop :=
  ∃ baud, (baud, r.t_1_5char_us, r.t_3_5char_us) ∈ baud_table

/-- The world after the bytes `bs` were handed to `smb_rtu_receive` one by one. -/
def rx_bytes : List Nat → RtuWorld τ → RtuWorld τ
  | [], w => w
  | b :: bs, w => rx_bytes bs (smb_rtu_receive b w).1

/-- The values `smb_rtu_receive` returned for the bytes `bs`. -/
def rx_results : List Nat → RtuWorld τ → List Int
  | [], _ => []
  | b :: bs, w => (smb_rtu_receive b w).2 :: rx_results bs (smb_rtu_receive b w).1

/-- The world after the bytes `bs` and the two timeouts that end a frame: t1.5 after the
last byte, then the rest of t3.5. -/
def rx_frame (bs : List Nat) (w : RtuWorld τ) : RtuWorld τ :=
  (smb_rtu_timer_timeout (smb_rtu_timer_timeout (rx_bytes bs w)).1).1

/-- What the framer holds after the bytes `b` were received in a row, the first of them
in Idle in `w0`: they are in `rx_buffer` in the order of arrival, and the only calls made
are one `start_counter(t1.5)` per byte. -/
structure Received (w0 : RtuWorld τ) (b : List Nat) (w : RtuWorld τ) : Prop where
  state : w.rtu.state = RTU_STATE_RECEIVE
  index : w.rtu.buffer_index = b.length
  bytes : ∀ i, i < b.length → rd w.rtu.rx_buffer i = rd b i % 256
  length : w.rtu.rx_buffer.length = w0.rtu.rx_buffer.length
  addr : w.rtu.addr = w0.rtu.addr
  interface : w.rtu.interface = w0.rtu.interface
  t_1_5 : w.rtu.t_1_5char_us = w0.rtu.t_1_5char_us
  t_3_5 : w.rtu.t_3_5char_us = w0.rtu.t_3_5char_us
  trace : w.trace =
    w0.trace ++ List.replicate b.length (RtuEvent.start_counter w0.rtu.t_1_5char_us)

/-- The world after `k` calls of `smb_rtu_write_pdu(p, len)` in a row. -/
def tx_calls (p : byte_ptr) (len : Nat) : Nat → RtuWorld τ → RtuWorld τ
  | 0, w => w
  | k + 1, w => (smb_rtu_write_pdu (some p) len (tx_calls p len k w)).1

/-- The value `host.write` returns in `w` when it is offered the bytes of `p` from
offset `s` up to `len`. -/
def host_write_ret (p : byte_ptr) (len s : Nat) (w : RtuWorld τ) : Int :=
  match w.rtu.interface with
  | none => 0
  | some itf =>
    match itf.write with
    | none => 0
    | some write => (write w.host (p.mem.drop s) (len - s)).2

/-- The number of bytes the host has accepted in the first `k` calls of
`smb_rtu_write_pdu(p, len)`: the sum of the values `host.write` returned. -/
def tx_sent (p : byte_ptr) (len : Nat) : Nat → RtuWorld τ → Nat
  | 0, _ => 0
  | k + 1, w =>
    tx_sent p len k w + (host_write_ret p len (tx_sent p len k w) (tx_calls p len k w)).toNat

/-- The bytes the host has accepted in the first `k` calls of `smb_rtu_write_pdu(p, len)`:
of the bytes offered in each call, as many as `host.write` returned. -/
def tx_accepted (p : byte_ptr) (len : Nat) : Nat → RtuWorld τ → List Nat
  | 0, _ => []
  | k + 1, w =>
    tx_accepted p len k w ++
      ((p.mem.drop (tx_sent p len k w)).take (len - tx_sent p len k w)).take
        (host_write_ret p len (tx_sent p len k w) (tx_calls p len k w)).toNat

/-- Phase of the framer while `smb_rtu_write_pdu(p, len)` is repeated and `s` bytes have
been accepted: Idle before the first call, then Emitting with the buffer identity, the
length and `s` recorded. -/
def TxReady (p : byte_ptr) (len s : Nat) (w : RtuWorld τ) : Prop :=
  (w.rtu.state = RTU_STATE_IDLE ∧ s = 0) ∨
    (w.rtu.state = RTU_STATE_EMIT ∧ w.rtu.buffer_index = s ∧
      w.rtu.current_tx_buffer = some p.id ∧ w.rtu.current_tx_length = len)

end FramerRuns

/-! ### Concrete framers (address 1, 9600 baud, host `slow_uart`) -/

section ConcreteFramers

/-- The framer right after `smb_rtu_config`: phase Init. -/
def init_framer : RtuWorld Nat :=
  (smb_rtu_config 0x01 9600 (some slow_uart) ⟨rtu_init Nat, 0, []⟩).1

/-- The framer after the bytes `01 02 03 04` were received in Idle: phase Receiving. -/
def receiving_framer : RtuWorld Nat := rx_bytes [0x01, 0x02, 0x03, 0x04] idle_framer

/-- The framer `receiving_framer` after the t1.5 timeout: phase ControlAndWait. -/
def waiting_framer : RtuWorld Nat := (smb_rtu_timer_timeout receiving_framer).1

/-- The framer in ControlAndWait with the frame `2B 02 03 04` of another server. -/
def foreign_framer : RtuWorld Nat :=
  (smb_rtu_timer_timeout (rx_bytes [0x2B, 0x02, 0x03, 0x04] idle_framer)).1

/-- The framer with the frame `01 02 03 04` pending: phase ProcessRxFrame. -/
def pending_framer : RtuWorld Nat := rx_frame [0x01, 0x02, 0x03, 0x04] idle_framer

/-- The framer `emitting_framer` after a second `smb_rtu_write_pdu(five_bytes, 5)`, which
the UART accepts in full: phase WaitForTxComplete. -/
def tx_done_framer : RtuWorld Nat := (smb_rtu_write_pdu (some five_bytes) 5 emitting_framer).1

/-- The framer `emitting_framer` after a timeout: phase TxTimeout. -/
def tx_timeout_framer : RtuWorld Nat := (smb_rtu_timer_timeout emitting_framer).1

/-- A buffer other than `five_bytes`. -/
def other_bytes : byte_ptr := { id := 3, mem := [0x01, 0x84, 0x01, 0x82, 0xC0] }

/-- The 42-byte PDU of the test `WritePduLessThanRequested_EAGAIN`. -/
def pdu42 : byte_ptr :=
  { id := 4,
    mem := [195, 3, 254, 169, 121, 221, 218, 120, 78, 250, 102, 143, 113, 141, 19, 182, 233,
      90, 13, 75, 125, 204, 10, 240, 84, 217, 141, 28, 250, 17, 40, 83, 164, 224, 135, 185,
      136, 146, 199, 70, 156, 49] }

/-- A frame of 256 bytes for server 1, the largest the receive buffer holds. -/
def full_frame : List Nat := 0x01 :: List.replicate 255 0x02

end ConcreteFramers

/-! ### The CRC-16 of Modbus over Serial Line, as the specification words it -/

section CrcReference

/-- One shift of the reference CRC: the accumulator is shifted right by one bit and the
polynomial 0xA001 is XORed in when the bit shifted out was 1. -/
def crc16_bit (c : Nat) : Nat := if c % 2 = 1 then (c / 2) ^^^ 0xA001 else c / 2

/-- One byte of the reference CRC: XOR the byte into the low byte of the accumulator,
then shift eight times. -/
def crc16_byte (c b : Nat) : Nat := crc16_bit^[8] (c ^^^ b)

/-- The reference CRC-16 of Modbus RTU: initial value 0xFFFF, the bytes taken in order,
no final XOR. -/
def crc16_modbus : List Nat → Nat := List.foldl crc16_byte 0xFFFF

/-- A 16-bit word with its two bytes exchanged. -/
def byte_swap (x : Nat) : Nat := (x % 256) * 256 + x / 256

/-- The ASCII string `123456789`, the check input of the CRC catalogues. -/
def crc_check_input : List Nat := [0x31, 0x32, 0x33, 0x34, 0x35, 0x36, 0x37, 0x38, 0x39]

end CrcReference

/-! ### Events of the framer API -/

section FramerOps

variable {τ : Type}

/-- An event delivered to the framer through its API: a received byte, a timer timeout,
`smb_rtu_read_pdu(buffer, length)` or `smb_rtu_write_pdu(buffer, length)` with a non-null
buffer. -/
inductive framer_op where
  | rx (byte : Nat)
  | timeout
  | read_pdu (buffer : byte_ptr) (length : Nat)
  | write_pdu (buffer : byte_ptr) (length : Nat)
  deriving DecidableEq, Repr

/-- The API call that delivers the event: the new world and the value returned. -/
def framer_step : framer_op → RtuWorld τ → RtuWorld τ × Int
  | framer_op.rx byte, w => smb_rtu_receive byte w
  | framer_op.timeout, w => smb_rtu_timer_timeout w
  | framer_op.read_pdu buffer length, w =>
    ((smb_rtu_read_pdu (some buffer) length w).1, (smb_rtu_read_pdu (some buffer) length w).2.2)
  | framer_op.write_pdu buffer length, w => smb_rtu_write_pdu (some buffer) length w

/-- The world after a sequence of events. -/
def framer_run : List framer_op → RtuWorld τ → RtuWorld τ
  | [], w => w
  | op :: ops, w => framer_run ops (framer_step op w).1

/-- The values returned for a sequence of events. -/
def framer_results : List framer_op → RtuWorld τ → List Int
  | [], _ => []
  | op :: ops, w => (framer_step op w).2 :: framer_results ops (framer_step op w).1

/-- The event is a timer timeout. -/
def framer_op.is_timeout : framer_op → Bool
  | framer_op.timeout => true
  | _ => false

/-- The index invariants of the framer: `buffer_index` is at most 256, and in Emitting
it is below the recorded frame length, which is at most 256. -/
def index_inv (r : rtu_t τ) : Prop :=
  r.buffer_index ≤ MODBUS_RTU_BUFFER_SIZE ∧
    (r.state = RTU_STATE_EMIT →
      r.buffer_index < r.current_tx_length ∧ r.current_tx_length ≤ MODBUS_RTU_BUFFER_SIZE)

/-- The length or capacity the event carries is at most 256, the size of the buffers. -/
def framer_op.length_ok : framer_op → Prop
  | framer_op.read_pdu _ length => length ≤ MODBUS_RTU_BUFFER_SIZE
  | framer_op.write_pdu _ length => length ≤ MODBUS_RTU_BUFFER_SIZE
  | _ => True

instance (op : framer_op) : Decidable op.length_ok := by
  cases op <;> unfold framer_op.length_ok <;> infer_instance

/-- The value `exec_process` returns for an event that does not read the pending frame
out: `-EBUSY` for a byte and for a write, `-EFAULT` for a timeout, `-EINVAL` for a read. -/
def refused_result : framer_op → Int
  | framer_op.rx _ => -EBUSY
  | framer_op.timeout => -EFAULT
  | framer_op.read_pdu _ _ => -EINVAL
  | framer_op.write_pdu _ _ => -EBUSY

end FramerOps

/-! ### Further concrete hosts and requests -/

section Concrete3

/-- The event is a call of `read_frame`. -/
def Event.is_read_frame : Event → Bool
  | Event.read_frame _ => true
  | _ => false

/-- A UART host that breaks the contract of `write`: its first call accepts all bytes
but the last one, every later call reports one byte more than it was offered. -/
def greedy_uart : smb_rtu_if_t Nat :=
  { start_counter := some (fun h _ => h),
    write := some (fun h _ length =>
      (h + 1, if h = 0 then (length : Int) - 1 else (length : Int) + 1)),
    frame_received := some (fun h => h) }

/-- The framer configured for address 1 at 9600 baud on `greedy_uart`, after the start-up
timeout and `smb_rtu_write_pdu(five_bytes, 5)`: phase Emitting, four bytes sent. -/
def overrun_framer : RtuWorld Nat :=
  (smb_rtu_write_pdu (some five_bytes) 5
    (smb_rtu_timer_timeout
      (smb_rtu_config 0x01 9600 (some greedy_uart) ⟨rtu_init Nat, 0, []⟩).1).1).1

/-- Read zero holding registers from address 0: `01 03 00 00 00 00 45 CA`. -/
def zero_read_frame : List Nat := [0x01, 0x03, 0x00, 0x00, 0x00, 0x00, 0x45, 0xCA]

/-- The request `zero_read_frame` with a callback that stores nothing and returns 0. -/
def c40_busy_world : World Unit := fixture 0x01 zero_read_frame 0 (holding_only [] 0)

/-- The request `zero_read_frame` with a callback that stores nothing and returns 1. -/
def c40_fail_world : World Unit := fixture 0x01 zero_read_frame 0 (holding_only [] 1)

end Concrete3

/-! ## Bytes, buffers and the CRC word -/

theorem rd_lt {buf : List Nat} (h : is_bytes buf) (i : Nat) : rd buf i < 256 := by
  unfold rd
  by_cases hi : i < buf.length
  · rw [List.getD_eq_getElem _ _ hi]
    exact h _ (List.getElem_mem hi)
  · rw [List.getD_eq_default _ _ (by omega)]
    norm_num

theorem wr_length (buf : List Nat) (i v : Nat) : (wr buf i v).length = buf.length := by
  simp [wr]

theorem wr_is_bytes {buf : List Nat} (h : is_bytes buf) (i v : Nat) : is_bytes (wr buf i v) := by
  intro b hb
  unfold wr at hb
  rcases List.mem_or_eq_of_mem_set hb with hb | hb
  · exact h b hb
  · subst hb; exact Nat.mod_lt _ (by norm_num)

theorem rd_wr_same {buf : List Nat} {i : Nat} (h : i < buf.length) (v : Nat) :
    rd (wr buf i v) i = v % 256 := by
  simp [rd, wr, List.getElem?_set, h]

theorem rd_wr_ne (buf : List Nat) {i j : Nat} (h : i ≠ j) (v : Nat) :
    rd (wr buf i v) j = rd buf j := by
  simp [rd, wr, List.getElem?_set, h]

theorem rd_take (buf : List Nat) {j k : Nat} (h : j < k) : rd (buf.take k) j = rd buf j := by
  simp [rd, List.getElem?_take, h]

theorem blit_length (buf : List Nat) (off : Nat) (src : List Nat) :
    (blit buf off src).length = buf.length := by
  simp only [blit, List.length_append, List.length_take, List.length_map, List.length_drop]
  omega

theorem blit_is_bytes {buf : List Nat} (h : is_bytes buf) (off : Nat) (src : List Nat) :
    is_bytes (blit buf off src) := by
  intro b hb
  simp only [blit, List.mem_append] at hb
  rcases hb with (hb | hb) | hb
  · exact h b (List.mem_of_mem_take hb)
  · have := List.mem_of_mem_take hb
    simp only [List.mem_map] at this
    obtain ⟨a, _, rfl⟩ := this
    exact Nat.mod_lt _ (by norm_num)
  · exact h b (List.mem_of_mem_drop hb)

theorem rd_blit_lt (buf : List Nat) {off j : Nat} (src : List Nat) (h : j < off) :
    rd (blit buf off src) j = rd buf j := by
  unfold rd blit
  simp only [List.getD_eq_getElem?_getD, List.append_assoc]
  by_cases hj : j < buf.length
  · rw [List.getElem?_append_left (by simp; omega)]
    simp [List.getElem?_take, h]
  · have h1 : buf[j]? = none := by simp; omega
    have h2 : (List.take off buf ++ (List.take (buf.length - off) (List.map (· % 256) src) ++
        List.drop (off + src.length) buf))[j]? = none := by
      simp only [List.getElem?_eq_none_iff, List.length_append, List.length_take,
        List.length_map, List.length_drop]
      omega
    rw [h1, h2]

theorem crc_shift_lt {c : Nat} (h : c < 65536) : crc_shift c < 65536 := by
  unfold crc_shift
  have h1 : c >>> 1 < 2 ^ 16 := by
    rw [Nat.shiftRight_eq_div_pow]; omega
  split
  · exact Nat.xor_lt_two_pow h1 (by norm_num)
  · omega

theorem crc_update_lt {c b : Nat} (h : c < 65536) (hb : b < 256) : crc_update c b < 65536 := by
  unfold crc_update
  have h0 : c ^^^ b < 2 ^ 16 := Nat.xor_lt_two_pow (by omega) (by omega)
  simp only [List.range, List.range.loop, List.foldl]
  iterate 8 apply crc_shift_lt
  exact h0

theorem hi_byte (c : Nat) (h : c < 65536) : ((c &&& 0xFF00) >>> 8) % 256 = c / 256 := by
  have e : (c &&& 0xFF00) >>> 8 = c >>> 8 := by
    apply Nat.eq_of_testBit_eq
    intro i
    simp only [Nat.testBit_shiftRight, Nat.testBit_and]
    by_cases hi : i < 8
    · have : (0xFF00 : Nat).testBit (8 + i) = true := by
        interval_cases i <;> rfl
      simp [this]
    · have : c.testBit (8 + i) = false := by
        apply Nat.testBit_lt_two_pow
        calc c < 2 ^ 16 := h
          _ ≤ 2 ^ (8 + i) := Nat.pow_le_pow_right (by norm_num) (by omega)
      simp [this]
  rw [e, Nat.shiftRight_eq_div_pow]; omega

theorem lo_byte (c : Nat) : (c &&& 0x00FF) % 256 = c % 256 := by
  have : (0xFF : Nat) = 2 ^ 8 - 1 := by norm_num
  rw [this, Nat.and_pow_two_sub_one_eq_mod]; omega

theorem join_bytes (hi lo : Nat) (h : lo < 256) : (hi <<< 8) ||| lo = hi * 256 + lo := by
  rw [Nat.shiftLeft_eq, Nat.mul_comm hi, ← Nat.mul_add_lt_is_or (by omega) hi]

/-- The 16-bit word the source assembles from two buffer bytes is their big-endian
value. -/
theorem word_eq_be16 {buf : List Nat} (h : is_bytes buf) (i : Nat) :
    ((rd buf i <<< 8) % 65536) ||| rd buf (i + 1) = be16 buf i := by
  have h1 := rd_lt h i
  have h2 := rd_lt h (i + 1)
  have e : (rd buf i <<< 8) % 65536 = rd buf i <<< 8 := by
    rw [Nat.shiftLeft_eq]; omega
  rw [e, join_bytes _ _ h2, be16]

theorem crc_acc_congr (d1 d2 : List Nat) (n : Nat) (h : ∀ i, i < n → rd d1 i = rd d2 i) :
    (List.range n).foldl (fun c i => crc_update c (rd d1 i)) 0xFFFF =
    (List.range n).foldl (fun c i => crc_update c (rd d2 i)) 0xFFFF := by
  induction n with
  | zero => simp only [List.range_zero, List.foldl_nil]
  | succ n ih =>
    rw [List.range_succ, List.foldl_append, List.foldl_append, ih (fun i hi => h i (by omega))]
    simp only [List.foldl_cons, List.foldl_nil, h n (by omega)]

theorem crc_acc_lt (d : List Nat) (hd : is_bytes d) (n : Nat) :
    (List.range n).foldl (fun c i => crc_update c (rd d i)) 0xFFFF < 65536 := by
  induction n with
  | zero => simp
  | succ n ih =>
    rw [List.range_succ, List.foldl_append]
    simp only [List.foldl_cons, List.foldl_nil]
    exact crc_update_lt ih (rd_lt hd n)

/-- The CRC of `calculate_crc(data, L)` depends on `data[0 .. L]` only. -/
theorem calculate_crc_congr (d1 d2 : List Nat) (L : Int)
    (h : ∀ i, i < L.toNat → rd d1 i = rd d2 i) : calculate_crc d1 L = calculate_crc d2 L := by
  unfold calculate_crc
  simp only [crc_acc_congr d1 d2 L.toNat h]

theorem calculate_crc_lt (d : List Nat) (hd : is_bytes d) (L : Int) :
    calculate_crc d L < 65536 := by
  unfold calculate_crc
  have h := crc_acc_lt d hd L.toNat
  apply Nat.or_lt_two_pow (n := 16)
  · exact Nat.mod_lt _ (by norm_num)
  · rw [Nat.shiftRight_eq_div_pow]; omega

theorem or_0x80_lt {fc : Nat} (h : fc < 256) : fc ||| 0x80 < 256 :=
  Nat.or_lt_two_pow (n := 8) h (by norm_num)

/-! ## The server, function by function -/

section ServerLemmas

variable {σ : Type}

theorem poll_idle {w : World σ} {rf : read_frame_fn σ} {wf : write_frame_fn σ}
    {cb : smb_server_if_t σ} (hb : bound_to w.server rf wf cb)
    (hs : w.server.state = SERVER_STATE_IDLE) :
    smb_server_poll w = exec_state_idle rf wf cb w := by
  simp [smb_server_poll, hb.1, hb.2, hs]

theorem poll_processing {w : World σ} {rf : read_frame_fn σ} {wf : write_frame_fn σ}
    {cb : smb_server_if_t σ} (hb : bound_to w.server rf wf cb)
    (hs : w.server.state = SERVER_STATE_PROCESSING_REQUEST) :
    smb_server_poll w = process_frame wf cb w := by
  simp [smb_server_poll, hb.1, hb.2, hs]

theorem poll_send_reply {w : World σ} {rf : read_frame_fn σ} {wf : write_frame_fn σ}
    {cb : smb_server_if_t σ} (hb : bound_to w.server rf wf cb)
    (hs : w.server.state = SERVER_STATE_SEND_REPLY) :
    smb_server_poll w = send_reply wf w := by
  simp [smb_server_poll, hb.1, hb.2, hs]

theorem exec_state_idle_neg {w : World σ} (rf : read_frame_fn σ) (wf : write_frame_fn σ)
    (cb : smb_server_if_t σ) (h : inbound_len rf w < 0) :
    exec_state_idle rf wf cb w = (after_read rf w, inbound_len rf w) := by
  unfold inbound_len at h
  simp only [exec_state_idle, after_read, inbound_len, inbound_buf, h, if_true, if_false,
    lt_self_iff_false]

theorem exec_state_idle_zero {w : World σ} (rf : read_frame_fn σ) (wf : write_frame_fn σ)
    (cb : smb_server_if_t σ) (h : inbound_len rf w = 0) :
    exec_state_idle rf wf cb w = (after_read rf w, 0) := by
  unfold inbound_len at h
  simp only [exec_state_idle, after_read, inbound_len, inbound_buf, h, if_true, if_false,
    lt_self_iff_false]

theorem exec_state_idle_short {w : World σ} (rf : read_frame_fn σ) (wf : write_frame_fn σ)
    (cb : smb_server_if_t σ) (h1 : 1 ≤ inbound_len rf w) (h2 : inbound_len rf w ≤ 3) :
    exec_state_idle rf wf cb w = (after_read rf w, -EBADMSG) := by
  unfold inbound_len at h1 h2
  have e1 : ¬ (rf w.host w.server.buffer MODBUS_MAX_FRAME_SIZE).2.2 < 0 := by omega
  have e2 : ¬ (rf w.host w.server.buffer MODBUS_MAX_FRAME_SIZE).2.2 = 0 := by omega
  have e3 : (rf w.host w.server.buffer MODBUS_MAX_FRAME_SIZE).2.2 < 4 := by omega
  simp only [exec_state_idle, after_read, inbound_len, inbound_buf, e1, e2, e3,
    MODBUS_MIN_FRAME_SIZE, if_true, if_false]

theorem exec_state_idle_bad_crc {w : World σ} (rf : read_frame_fn σ) (wf : write_frame_fn σ)
    (cb : smb_server_if_t σ) (h1 : 4 ≤ inbound_len rf w)
    (h2 : ¬ crc_matches (inbound_buf rf w) (inbound_len rf w)) :
    exec_state_idle rf wf cb w = (after_read rf w, -EBADMSG) := by
  unfold inbound_len inbound_buf crc_matches at *
  have e1 : ¬ (rf w.host w.server.buffer MODBUS_MAX_FRAME_SIZE).2.2 < 0 := by omega
  have e2 : ¬ (rf w.host w.server.buffer MODBUS_MAX_FRAME_SIZE).2.2 = 0 := by omega
  have e3 : ¬ (rf w.host w.server.buffer MODBUS_MAX_FRAME_SIZE).2.2 < 4 := by omega
  simp only [exec_state_idle, after_read, inbound_len, inbound_buf, e1, e2, e3, h2,
    MODBUS_MIN_FRAME_SIZE, if_true, if_false, ne_eq, not_false_eq_true]

theorem exec_state_idle_other {w : World σ} (rf : read_frame_fn σ) (wf : write_frame_fn σ)
    (cb : smb_server_if_t σ) (h1 : 4 ≤ inbound_len rf w)
    (h2 : crc_matches (inbound_buf rf w) (inbound_len rf w))
    (h3 : rd (inbound_buf rf w) 0 ≠ w.server.addr) :
    exec_state_idle rf wf cb w = (after_read rf w, 0) := by
  unfold inbound_len inbound_buf crc_matches at *
  have e1 : ¬ (rf w.host w.server.buffer MODBUS_MAX_FRAME_SIZE).2.2 < 0 := by omega
  have e2 : ¬ (rf w.host w.server.buffer MODBUS_MAX_FRAME_SIZE).2.2 = 0 := by omega
  have e3 : ¬ (rf w.host w.server.buffer MODBUS_MAX_FRAME_SIZE).2.2 < 4 := by omega
  simp only [exec_state_idle, after_read, inbound_len, inbound_buf, e1, e2, e3, h2, h3,
    MODBUS_MIN_FRAME_SIZE, if_true, if_false, ne_eq, not_true_eq_false]

theorem exec_state_idle_accept {w : World σ} (rf : read_frame_fn σ) (wf : write_frame_fn σ)
    (cb : smb_server_if_t σ) (h1 : 4 ≤ inbound_len rf w)
    (h2 : crc_matches (inbound_buf rf w) (inbound_len rf w))
    (h3 : rd (inbound_buf rf w) 0 = w.server.addr) :
    exec_state_idle rf wf cb w = process_frame wf cb (accepted rf w) := by
  unfold inbound_len inbound_buf crc_matches at *
  have e1 : ¬ (rf w.host w.server.buffer MODBUS_MAX_FRAME_SIZE).2.2 < 0 := by omega
  have e2 : ¬ (rf w.host w.server.buffer MODBUS_MAX_FRAME_SIZE).2.2 = 0 := by omega
  have e3 : ¬ (rf w.host w.server.buffer MODBUS_MAX_FRAME_SIZE).2.2 < 4 := by omega
  simp only [exec_state_idle, after_read, accepted, inbound_len, inbound_buf, e1, e2, e3, h2,
    h3, MODBUS_MIN_FRAME_SIZE, if_true, if_false, ne_eq, not_true_eq_false]

theorem send_reply_trace (wf : write_frame_fn σ) (w : World σ) :
    (send_reply wf w).1.trace =
      w.trace ++ [Event.write_frame (w.server.buffer.take (to_u16 w.server.frame_length))
        (to_u16 w.server.frame_length)] := by
  unfold send_reply
  simp only []
  split_ifs <;> rfl

theorem send_reply_ret (wf : write_frame_fn σ) (w : World σ) :
    (send_reply wf w).2 =
      if (wf w.host w.server.buffer (to_u16 w.server.frame_length)).2 < 0 then
        (wf w.host w.server.buffer (to_u16 w.server.frame_length)).2
      else if (wf w.host w.server.buffer (to_u16 w.server.frame_length)).2 = 0 then 0
      else -EAGAIN := by
  unfold send_reply
  simp only []
  split_ifs <;> rfl

theorem prepare_error_reply_frame (addr error_code : Nat) (w : World σ)
    (hlen : 5 ≤ w.server.buffer.length) (hb : is_bytes w.server.buffer) (ha : addr < 256)
    (he : error_code < 256) :
    (prepare_error_reply addr error_code w).server.buffer.take 5 =
      exception_frame addr (rd w.server.buffer 1) error_code := by
  obtain ⟨s, h, t⟩ := w
  obtain ⟨a, tr, cbs, st, buf, bi, fl⟩ := s
  simp only at hlen hb
  match buf, hlen, hb with
  | x0 :: x1 :: x2 :: x3 :: x4 :: rest, _, hb =>
    have hx1 : x1 < 256 := hb x1 (by simp)
    have h1 : (x1 ||| 128) % 256 = x1 ||| 128 := Nat.mod_eq_of_lt (or_0x80_lt hx1)
    have hcrc : calculate_crc (addr :: (x1 ||| 128) :: error_code :: x3 :: x4 :: rest) 3 =
        calculate_crc [addr, x1 ||| 128, error_code] 3 := by
      apply calculate_crc_congr
      intro i hi
      have : i < 3 := hi
      interval_cases i <;> rfl
    have hbytes : is_bytes [addr, x1 ||| 128, error_code] := by
      intro b hb'
      simp only [List.mem_cons, List.mem_singleton, List.not_mem_nil, or_false] at hb'
      rcases hb' with rfl | rfl | rfl
      · exact ha
      · exact or_0x80_lt hx1
      · exact he
    have hlt := calculate_crc_lt _ hbytes 3
    simp only [prepare_error_reply, wr, rd, List.set_cons_zero, List.set_cons_succ,
      List.getD_cons_succ, List.getD_cons_zero, List.take_succ_cons, List.take_zero,
      exception_frame, Nat.mod_eq_of_lt ha, Nat.mod_eq_of_lt he, h1, hcrc, hi_byte _ hlt,
      lo_byte]

/-- An exception reply is what `write_frame` is handed after `prepare_error_reply`. -/
theorem send_error_reply_trace (wf : write_frame_fn σ) (error_code : Nat) (w : World σ)
    (hok : server_ok w.server) (he : error_code < 256) :
    (send_reply wf (prepare_error_reply w.server.addr error_code w)).1.trace =
      w.trace ++ [Event.write_frame
        (exception_frame w.server.addr (rd w.server.buffer 1) error_code) 5] := by
  rw [send_reply_trace]
  have hlen : 5 ≤ w.server.buffer.length := by
    rw [hok.1]; decide
  have h5 : to_u16 (prepare_error_reply w.server.addr error_code w).server.frame_length = 5 := rfl
  rw [h5, prepare_error_reply_frame _ _ _ hlen hok.2.1 hok.2.2 he]
  rfl

end ServerLemmas

section ServerLemmas2
variable {σ : Type}

theorem prepare_error_reply_trace (addr error_code : Nat) (w : World σ) :
    (prepare_error_reply addr error_code w).trace = w.trace := rfl

theorem process_frame_no_handler (wf : write_frame_fn σ) (cb : smb_server_if_t σ)
    (w : World σ) (h : no_handler cb (rd w.server.buffer 1)) :
    process_frame wf cb w =
      send_reply wf (prepare_error_reply w.server.addr MODBUS_EXC_ILLEGAL_FUNCTION w) := by
  unfold process_frame
  simp only [ MODBUS_FUNC_READ_INPUT_REGS, MODBUS_FUNC_READ_HOLDING_REGS,
    MODBUS_FUNC_WRITE_SINGLE_REG, MODBUS_FUNC_WRITE_MULTIPLE_REGS]
  rcases h with ⟨h1, h2⟩ | ⟨h1, h2⟩ | ⟨h1 | h1, h2⟩ | ⟨h3, h4, h6, h10⟩
  · simp only [h1, process_read_holding_regs, h2]
    rw [if_neg (by decide), if_pos True.intro]
  · simp only [h1, process_read_input_regs, h2]
    rw [if_pos True.intro]
  · simp only [h1, process_write_single_reg, h2]
    rw [if_neg (by decide), if_neg (by decide), if_pos True.intro]
  · simp only [h1, process_write_multiple_regs, h2]
    rw [if_neg (by decide), if_neg (by decide), if_neg (by decide), if_pos True.intro]
  · simp only [h3, h4, h6, h10, if_false]

theorem process_frame_read (wf : write_frame_fn σ) (cb : smb_server_if_t σ)
    (w : World σ) (f : read_regs_fn σ) (ev : Nat → Nat → Event)
    (h : read_handler cb (rd w.server.buffer 1) f ev) :
    process_frame wf cb w =
      if w.server.frame_length ≠ 8 then
        send_reply wf (prepare_error_reply w.server.addr MODBUS_EXC_ILLEGAL_DATA_VALUE w)
      else process_read_regs wf f ev w := by
  unfold process_frame
  simp only [ MODBUS_FUNC_READ_INPUT_REGS, MODBUS_FUNC_READ_HOLDING_REGS,
    MODBUS_FUNC_WRITE_SINGLE_REG, MODBUS_FUNC_WRITE_MULTIPLE_REGS]
  rcases h with ⟨h1, h2, h3⟩ | ⟨h1, h2, h3⟩
  · subst h3
    simp only [h1, process_read_holding_regs, h2,
      MODBUS_FUNC_READ_HOLDING_REGS_FRAME_LENGTH]
    rw [if_neg (by decide), if_pos True.intro]
  · subst h3
    simp only [h1, process_read_input_regs, h2,
      MODBUS_FUNC_READ_INPUT_REGS_FRAME_LENGTH]
    rw [if_pos True.intro]

theorem process_read_regs_too_many (wf : write_frame_fn σ) (f : read_regs_fn σ)
    (ev : Nat → Nat → Event) (w : World σ) (hb : is_bytes w.server.buffer)
    (h : 125 < be16 w.server.buffer 4) :
    process_read_regs wf f ev w =
      send_reply wf (prepare_error_reply w.server.addr MODBUS_EXC_ILLEGAL_DATA_VALUE w) := by
  unfold process_read_regs
  simp only [word_eq_be16 hb, MODBUS_MAX_NUMBER_OF_READ_REGS]
  rw [if_pos (by omega)]

theorem process_read_regs_call (wf : write_frame_fn σ) (f : read_regs_fn σ)
    (ev : Nat → Nat → Event) (w : World σ) (hb : is_bytes w.server.buffer)
    (h : be16 w.server.buffer 4 ≤ 125) :
    process_read_regs wf f ev w =
      if read_regs_ret f w = 0 then (set_processing (after_read_regs f ev w), -EAGAIN)
      else if read_regs_ret f w = (be16 w.server.buffer 4 : Int) then
        send_reply wf (compose_read_reply (be16 w.server.buffer 4) (after_read_regs f ev w))
      else
        send_reply wf (prepare_error_reply w.server.addr MODBUS_EXC_ILLEGAL_DATA_ADDRESS
          (after_read_regs f ev w)) := by
  unfold process_read_regs
  simp only [word_eq_be16 hb, MODBUS_MAX_NUMBER_OF_READ_REGS]
  rw [if_neg (by omega)]
  simp only [read_regs_ret, after_read_regs, set_processing, compose_read_reply]

theorem process_write_regs_eq (wf : write_frame_fn σ) (f : write_regs_fn σ)
    (off n_regs : Nat) (w : World σ) (hb : is_bytes w.server.buffer) :
    process_write_regs wf f off n_regs w =
      if write_regs_ret f off n_regs w = 0 then
        (set_processing (after_write_regs f off n_regs w), -EAGAIN)
      else if write_regs_ret f off n_regs w = (n_regs : Int) then
        send_reply wf (compose_write_reply (after_write_regs f off n_regs w))
      else
        send_reply wf (prepare_error_reply w.server.addr MODBUS_EXC_ILLEGAL_DATA_ADDRESS
          (after_write_regs f off n_regs w)) := by
  unfold process_write_regs
  simp only [word_eq_be16 hb, write_regs_ret, after_write_regs, set_processing,
    compose_write_reply, Nat.cast_ofNat, Nat.reduceAdd]

theorem process_frame_write_single (wf : write_frame_fn σ) (cb : smb_server_if_t σ)
    (w : World σ) (f : write_regs_fn σ) (h1 : rd w.server.buffer 1 = 0x06)
    (h2 : cb.write_regs = some f) :
    process_frame wf cb w =
      if w.server.frame_length ≠ 8 then
        send_reply wf (prepare_error_reply w.server.addr MODBUS_EXC_ILLEGAL_DATA_VALUE w)
      else process_write_regs wf f 4 1 w := by
  unfold process_frame
  simp only [ MODBUS_FUNC_READ_INPUT_REGS, MODBUS_FUNC_READ_HOLDING_REGS,
    MODBUS_FUNC_WRITE_SINGLE_REG, MODBUS_FUNC_WRITE_MULTIPLE_REGS]
  simp only [h1, process_write_single_reg, h2, MODBUS_FUNC_WRITE_SINGLE_REG_FRAME_LENGTH]
  rw [if_neg (by decide), if_neg (by decide), if_pos True.intro]

/-- The 16-bit wrap of `expected_frame_len` makes no difference to the acceptance test
of `process_write_multiple_regs`. -/
theorem write_multiple_test (buf : List Nat) (len : Int) (h11 : ¬ len < 11) :
    (¬ (len ≠ (((7 + 2 * be16 buf 4 + 2) % 65536 : Nat) : Int) ∨ rd buf 6 ≠ 2 * be16 buf 4 ∨
        be16 buf 4 > 123)) ↔ write_multiple_valid buf len := by
  unfold write_multiple_valid
  constructor
  · intro h
    push_neg at h
    obtain ⟨e1, e2, e3⟩ := h
    refine ⟨by omega, ?_, e2, e3⟩
    rw [e1]
    omega
  · rintro ⟨_, e1, e2, e3⟩
    push_neg
    refine ⟨?_, e2, e3⟩
    rw [e1]
    omega

theorem process_frame_write_multiple (wf : write_frame_fn σ) (cb : smb_server_if_t σ)
    (w : World σ) (f : write_regs_fn σ) (hb : is_bytes w.server.buffer)
    (h1 : rd w.server.buffer 1 = 0x10) (h2 : cb.write_regs = some f) :
    process_frame wf cb w =
      if write_multiple_valid w.server.buffer w.server.frame_length then
        process_write_regs wf f 7 (be16 w.server.buffer 4) w
      else
        send_reply wf (prepare_error_reply w.server.addr MODBUS_EXC_ILLEGAL_DATA_VALUE w) := by
  unfold process_frame
  simp only [ MODBUS_FUNC_READ_INPUT_REGS, MODBUS_FUNC_READ_HOLDING_REGS,
    MODBUS_FUNC_WRITE_SINGLE_REG, MODBUS_FUNC_WRITE_MULTIPLE_REGS]
  simp only [h1, process_write_multiple_regs, h2,
    MODBUS_FUNC_WRITE_MULT_REGS_MIN_FRAME_LENGTH, MODBUS_MAX_NUMBER_OF_WRITE_REGS,
    word_eq_be16 hb]
  rw [if_neg (by decide), if_neg (by decide), if_neg (by decide), if_pos True.intro]
  by_cases h11 : w.server.frame_length < 11
  · have hv : ¬ write_multiple_valid w.server.buffer w.server.frame_length := by
      intro hv
      have := hv.1
      omega
    rw [if_pos h11, if_neg hv]
  · rw [if_neg h11]
    by_cases hv : write_multiple_valid w.server.buffer w.server.frame_length
    · rw [if_pos hv, if_neg ((write_multiple_test _ _ h11).mpr hv)]
    · rw [if_neg hv, if_pos]
      by_contra hn
      exact hv ((write_multiple_test _ _ h11).mp hn)

end ServerLemmas2

section ServerLemmas3

variable {σ : Type}

theorem accepted_ok {w : World σ} (rf : read_frame_fn σ) (h : server_ok w.server) :
    server_ok (accepted rf w).server := by
  obtain ⟨h1, h2, h3⟩ := h
  refine ⟨?_, ?_, h3⟩
  · show (blit _ _ _).length = _
    rw [blit_length]; exact h1
  · exact blit_is_bytes h2 _ _

theorem accepted_trace (rf : read_frame_fn σ) (w : World σ) :
    (accepted rf w).trace = w.trace ++ [Event.read_frame 256] := rfl

/-- A call of `send_reply` adds one event, a `write_frame`. -/
theorem send_reply_adds (wf : write_frame_fn σ) (w : World σ) :
    ∃ e, (send_reply wf w).1.trace = w.trace ++ [e] ∧ e.is_write_frame = true :=
  ⟨_, send_reply_trace wf w, rfl⟩

/-- Trace of `process_read_regs` when the callback is called: the call, then at most a
`write_frame`. -/
theorem process_read_regs_call_trace (wf : write_frame_fn σ) (f : read_regs_fn σ)
    (ev : Nat → Nat → Event) (w : World σ) (hb : is_bytes w.server.buffer)
    (h : be16 w.server.buffer 4 ≤ 125) :
    ∃ rest, (process_read_regs wf f ev w).1.trace =
        w.trace ++ [ev (be16 w.server.buffer 4) (be16 w.server.buffer 2)] ++ rest ∧
      ∀ e ∈ rest, e.is_write_frame = true := by
  rw [process_read_regs_call wf f ev w hb h]
  split_ifs
  · exact ⟨[], by simp only [List.append_nil]; rfl, by simp⟩
  · obtain ⟨e, h1, h2⟩ := send_reply_adds wf (compose_read_reply (be16 w.server.buffer 4) (after_read_regs f ev w))
    refine ⟨[e], ?_, ?_⟩
    · rw [h1]; rfl
    · intro e' he
      rw [List.mem_singleton] at he
      subst he; exact h2
  · obtain ⟨e, h1, h2⟩ := send_reply_adds wf (prepare_error_reply w.server.addr MODBUS_EXC_ILLEGAL_DATA_ADDRESS
      (after_read_regs f ev w))
    refine ⟨[e], ?_, ?_⟩
    · rw [h1, prepare_error_reply_trace]; rfl
    · intro e' he
      rw [List.mem_singleton] at he
      subst he; exact h2

/-- Trace of `process_write_regs`: the call of `write_regs`, then at most a
`write_frame`. -/
theorem process_write_regs_trace (wf : write_frame_fn σ) (f : write_regs_fn σ)
    (off n_regs : Nat) (w : World σ) (hb : is_bytes w.server.buffer) :
    ∃ rest, (process_write_regs wf f off n_regs w).1.trace =
        w.trace ++ [Event.write_regs ((w.server.buffer.drop off).take (2 * n_regs)) n_regs
          (be16 w.server.buffer 2)] ++ rest ∧
      ∀ e ∈ rest, e.is_write_frame = true := by
  rw [process_write_regs_eq wf f off n_regs w hb]
  split_ifs
  · exact ⟨[], by simp only [List.append_nil]; rfl, by simp⟩
  · obtain ⟨e, h1, h2⟩ := send_reply_adds wf (compose_write_reply (after_write_regs f off n_regs w))
    refine ⟨[e], ?_, ?_⟩
    · rw [h1]; rfl
    · intro e' he
      rw [List.mem_singleton] at he
      subst he; exact h2
  · obtain ⟨e, h1, h2⟩ := send_reply_adds wf (prepare_error_reply w.server.addr MODBUS_EXC_ILLEGAL_DATA_ADDRESS
      (after_write_regs f off n_regs w))
    refine ⟨[e], ?_, ?_⟩
    · rw [h1, prepare_error_reply_trace]; rfl
    · intro e' he
      rw [List.mem_singleton] at he
      subst he; exact h2

end ServerLemmas3

/-- Storing the two halves of a CRC word and joining them again gives the word. -/
theorem crc_split_join (c : Nat) (h : c < 65536) :
    (((((c &&& 0xFF00) >>> 8) % 256) <<< 8) ||| ((c &&& 0x00FF) % 256)) % 65536 = c := by
  rw [hi_byte c h, lo_byte, join_bytes _ _ (Nat.mod_lt _ (by norm_num))]
  omega

/-- The CRC word stored high byte first behind `n` bytes makes a frame of `n + 2` bytes
that passes the CRC test. -/
theorem crc_sealed (b : List Nat) (n : Nat) (hb : is_bytes b) (hn : n + 1 < b.length) :
    crc_matches
      (wr (wr b n ((calculate_crc b (n : Int) &&& 0xFF00) >>> 8)) (n + 1)
        (calculate_crc b (n : Int) &&& 0x00FF)) ((n + 2 : Nat) : Int) := by
  unfold crc_matches
  have e1 : (((n + 2 : Nat) : Int) - 2) = (n : Int) := by push_cast; omega
  have e2 : (((n + 2 : Nat) : Int) - 2).toNat = n := by rw [e1]; rfl
  have e3 : (((n + 2 : Nat) : Int) - 1).toNat = n + 1 := by
    have : (((n + 2 : Nat) : Int) - 1) = ((n + 1 : Nat) : Int) := by push_cast; omega
    rw [this]; rfl
  rw [e2, e3, e1]
  set c := calculate_crc b (n : Int) with hc
  have hlt : c < 65536 := calculate_crc_lt b hb _
  have hcongr : calculate_crc (wr (wr b n ((c &&& 0xFF00) >>> 8)) (n + 1) (c &&& 0x00FF)) (n : Int)
      = c := by
    rw [hc]
    apply calculate_crc_congr
    intro i hi
    have hi' : i < n := hi
    rw [rd_wr_ne _ (by omega), rd_wr_ne _ (by omega)]
  rw [hcongr, rd_wr_ne _ (by omega), rd_wr_same (by omega : n < b.length),
    rd_wr_same (by rw [wr_length]; omega)]
  exact (crc_split_join c hlt).symm

section Compose
variable {σ : Type}

theorem derived_refl (w : World σ) (hok : server_ok w.server) : Derived w w :=
  ⟨hok, rfl, rfl, rfl, rfl, fun _ _ => rfl, [], (List.append_nil _).symm, by simp⟩

theorem derived_after_read_regs {w w1 : World σ} (h : Derived w w1) (f : read_regs_fn σ)
    (ev : Nat → Nat → Event) (hev : ∀ a b, (ev a b).is_register_call = true) :
    Derived w (after_read_regs f ev w1) := by
  obtain ⟨evs, ht, he⟩ := h.trace
  refine ⟨⟨?_, blit_is_bytes h.ok.2.1 _ _, h.ok.2.2⟩, h.addr, h.transport, h.callbacks,
    h.frame_length, ?_, evs ++ [ev (be16 w1.server.buffer 4) (be16 w1.server.buffer 2)], ?_, ?_⟩
  · show (blit _ _ _).length = _
    rw [blit_length]; exact h.ok.1
  · intro j hj
    show rd (blit _ _ _) j = _
    rw [rd_blit_lt _ _ hj]; exact h.head j hj
  · show w1.trace ++ _ = _
    rw [ht, List.append_assoc]
  · intro e hm
    rcases List.mem_append.mp hm with hm | hm
    · exact he e hm
    · rw [List.mem_singleton] at hm
      subst hm; exact hev _ _

theorem derived_after_write_regs {w w1 : World σ} (h : Derived w w1) (f : write_regs_fn σ)
    (off n_regs : Nat) : Derived w (after_write_regs f off n_regs w1) := by
  obtain ⟨evs, ht, he⟩ := h.trace
  refine ⟨h.ok, h.addr, h.transport, h.callbacks, h.frame_length, h.head,
    evs ++ [Event.write_regs ((w1.server.buffer.drop off).take (2 * n_regs)) n_regs
      (be16 w1.server.buffer 2)], ?_, ?_⟩
  · show w1.trace ++ _ = _
    rw [ht, List.append_assoc]
  · intro e hm
    rcases List.mem_append.mp hm with hm | hm
    · exact he e hm
    · rw [List.mem_singleton] at hm
      subst hm; rfl

theorem composed_error {w w1 : World σ} (h : Derived w w1) (c : Nat) :
    Composed w (prepare_error_reply w1.server.addr c w1) := by
  have hlen := h.ok.1
  have hby := h.ok.2.1
  have ha := h.ok.2.2
  simp only [ MODBUS_MAX_FRAME_SIZE] at hlen
  have hb0 : is_bytes (wr w1.server.buffer 0 w1.server.addr) := wr_is_bytes hby _ _
  have hb2 : is_bytes (wr (wr (wr w1.server.buffer 0 w1.server.addr) 1
      (rd (wr w1.server.buffer 0 w1.server.addr) 1 ||| 0x80)) 2 c) :=
    wr_is_bytes (wr_is_bytes hb0 _ _) _ _
  have hl2 : 3 + 1 < (wr (wr (wr w1.server.buffer 0 w1.server.addr) 1
      (rd (wr w1.server.buffer 0 w1.server.addr) 1 ||| 0x80)) 2 c).length := by
    rw [wr_length, wr_length, wr_length, hlen]; decide
  have hseal := crc_sealed _ 3 hb2 hl2
  refine ⟨⟨?_, ?_, ha⟩, h.addr, h.transport, h.callbacks, ?_, ?_, ?_, ?_, ?_, h.trace⟩
  · simp only [prepare_error_reply, wr_length]; exact h.ok.1
  · simp only [prepare_error_reply]
    exact wr_is_bytes (wr_is_bytes hb2 _ _) _ _
  · simp only [prepare_error_reply]; decide
  · simp only [prepare_error_reply]; decide
  · simp only [prepare_error_reply]
    exact hseal
  · left
    simp only [prepare_error_reply]
    rw [rd_wr_ne _ (by decide), rd_wr_ne _ (by decide), rd_wr_ne _ (by decide),
      rd_wr_ne _ (by decide), rd_wr_same (by omega), Nat.mod_eq_of_lt ha, h.addr]
  · right
    simp only [prepare_error_reply]
    rw [rd_wr_ne _ (by decide), rd_wr_ne _ (by decide), rd_wr_ne _ (by decide),
      rd_wr_same (by rw [wr_length]; omega), rd_wr_ne _ (by decide),
      Nat.mod_eq_of_lt (or_0x80_lt (rd_lt hby 1)), h.head 1 (by decide)]

theorem composed_write_reply {w w1 : World σ} (h : Derived w w1) :
    Composed w (compose_write_reply w1) := by
  have hlen := h.ok.1
  have hby := h.ok.2.1
  simp only [ MODBUS_MAX_FRAME_SIZE] at hlen
  have hseal := crc_sealed w1.server.buffer 6 hby (by omega)
  refine ⟨⟨?_, ?_, h.ok.2.2⟩, h.addr, h.transport, h.callbacks, ?_, ?_, ?_, ?_, ?_, h.trace⟩
  · simp only [compose_write_reply, wr_length]; exact h.ok.1
  · simp only [compose_write_reply]
    exact wr_is_bytes (wr_is_bytes hby _ _) _ _
  · simp only [compose_write_reply]; decide
  · simp only [compose_write_reply]; decide
  · simp only [compose_write_reply]
    exact hseal
  · right
    simp only [compose_write_reply]
    rw [rd_wr_ne _ (by decide), rd_wr_ne _ (by decide), h.head 0 (by decide)]
  · left
    simp only [compose_write_reply]
    rw [rd_wr_ne _ (by decide), rd_wr_ne _ (by decide), h.head 1 (by decide)]

theorem composed_read_reply {w w1 : World σ} (h : Derived w w1) (n : Nat) (hn : n ≤ 125) :
    Composed w (compose_read_reply n w1) := by
  have hlen := h.ok.1
  have hby := h.ok.2.1
  simp only [ MODBUS_MAX_FRAME_SIZE] at hlen
  have hnb : (2 * n) % 65536 = 2 * n := Nat.mod_eq_of_lt (by omega)
  have hb2 : is_bytes (wr w1.server.buffer 2 (2 * n)) := wr_is_bytes hby _ _
  have hseal := crc_sealed (wr w1.server.buffer 2 (2 * n)) (3 + 2 * n) hb2
    (by rw [wr_length]; omega)
  refine ⟨⟨?_, ?_, h.ok.2.2⟩, h.addr, h.transport, h.callbacks, ?_, ?_, ?_, ?_, ?_, h.trace⟩
  · simp only [compose_read_reply, wr_length]; exact h.ok.1
  · simp only [compose_read_reply]
    exact wr_is_bytes (wr_is_bytes (wr_is_bytes hby _ _) _ _) _ _
  · simp only [compose_read_reply, hnb]; omega
  · simp only [compose_read_reply, hnb]; omega
  · simp only [compose_read_reply, hnb]
    exact hseal
  · right
    simp only [compose_read_reply, hnb]
    rw [rd_wr_ne _ (by omega), rd_wr_ne _ (by omega), rd_wr_ne _ (by decide),
      h.head 0 (by decide)]
  · left
    simp only [compose_read_reply, hnb]
    rw [rd_wr_ne _ (by omega), rd_wr_ne _ (by omega), rd_wr_ne _ (by decide),
      h.head 1 (by decide)]

end Compose


section Outcome
variable {σ : Type}

theorem handler_cases (cb : smb_server_if_t σ) (fc : Nat) (h : ¬ no_handler cb fc) :
    (∃ f ev, read_handler cb fc f ev ∧ ∀ a b, (ev a b).is_register_call = true) ∨
      (∃ f, fc = 0x06 ∧ cb.write_regs = some f) ∨ (∃ f, fc = 0x10 ∧ cb.write_regs = some f) := by
  unfold no_handler at h
  push_neg at h
  obtain ⟨h3, h4, h6, hother⟩ := h
  by_cases e3 : fc = 0x03
  · cases hcb : cb.read_holding_regs with
    | none => exact absurd hcb (h3 e3)
    | some f => exact Or.inl ⟨f, _, Or.inl ⟨e3, hcb, rfl⟩, fun _ _ => rfl⟩
  by_cases e4 : fc = 0x04
  · cases hcb : cb.read_input_regs with
    | none => exact absurd hcb (h4 e4)
    | some f => exact Or.inl ⟨f, _, Or.inr ⟨e4, hcb, rfl⟩, fun _ _ => rfl⟩
  by_cases e6 : fc = 0x06
  · cases hcb : cb.write_regs with
    | none => exact absurd hcb (h6 (Or.inl e6))
    | some f => exact Or.inr (Or.inl ⟨f, e6, rfl⟩)
  · have e10 := hother e3 e4 e6
    cases hcb : cb.write_regs with
    | none => exact absurd hcb (h6 (Or.inr e10))
    | some f => exact Or.inr (Or.inr ⟨f, e10, rfl⟩)

theorem outcome_error (wf : write_frame_fn σ) {w w1 : World σ} (h : Derived w w1) (c : Nat) :
    Outcome wf w (send_reply wf (prepare_error_reply w1.server.addr c w1)) :=
  Or.inr ⟨_, composed_error h c, rfl⟩

theorem process_read_regs_outcome (wf : write_frame_fn σ) (f : read_regs_fn σ)
    (ev : Nat → Nat → Event) (hev : ∀ a b, (ev a b).is_register_call = true) (w : World σ)
    (hok : server_ok w.server) : Outcome wf w (process_read_regs wf f ev w) := by
  by_cases hq : be16 w.server.buffer 4 ≤ 125
  · rw [process_read_regs_call wf f ev w hok.2.1 hq]
    have hd := derived_after_read_regs (derived_refl w hok) f ev hev
    split_ifs
    · exact Or.inl ⟨_, hd, rfl⟩
    · exact Or.inr ⟨_, composed_read_reply hd _ hq, rfl⟩
    · exact outcome_error wf hd _
  · rw [process_read_regs_too_many wf f ev w hok.2.1 (by omega)]
    exact outcome_error wf (derived_refl w hok) _

theorem process_write_regs_outcome (wf : write_frame_fn σ) (f : write_regs_fn σ)
    (off n_regs : Nat) (w : World σ) (hok : server_ok w.server) :
    Outcome wf w (process_write_regs wf f off n_regs w) := by
  rw [process_write_regs_eq wf f off n_regs w hok.2.1]
  have hd := derived_after_write_regs (derived_refl w hok) f off n_regs
  split_ifs
  · exact Or.inl ⟨_, hd, rfl⟩
  · exact Or.inr ⟨_, composed_write_reply hd, rfl⟩
  · exact outcome_error wf hd _

/-- Every run of `process_frame` ends in one of the two outcomes. -/
theorem process_frame_outcome (wf : write_frame_fn σ) (cb : smb_server_if_t σ) (w : World σ)
    (hok : server_ok w.server) : Outcome wf w (process_frame wf cb w) := by
  by_cases hnh : no_handler cb (rd w.server.buffer 1)
  · rw [process_frame_no_handler wf cb w hnh]
    exact outcome_error wf (derived_refl w hok) _
  rcases handler_cases cb _ hnh with ⟨f, ev, hh, hev⟩ | ⟨f, h1, h2⟩ | ⟨f, h1, h2⟩
  · rw [process_frame_read wf cb w f ev hh]
    split_ifs
    · exact outcome_error wf (derived_refl w hok) _
    · exact process_read_regs_outcome wf f ev hev w hok
  · rw [process_frame_write_single wf cb w f h1 h2]
    split_ifs
    · exact outcome_error wf (derived_refl w hok) _
    · exact process_write_regs_outcome wf f 4 1 w hok
  · rw [process_frame_write_multiple wf cb w f hok.2.1 h1 h2]
    split_ifs
    · exact process_write_regs_outcome wf f 7 _ w hok
    · exact outcome_error wf (derived_refl w hok) _

end Outcome

section Steps
variable {σ : Type}

theorem to_u16_of_range {x : Int} (h0 : 0 ≤ x) (h1 : x ≤ 256) : to_u16 x = x.toNat := by
  unfold to_u16
  rw [Int.emod_eq_of_lt h0 (by omega)]

/-- The CRC test on a frame taken out of the buffer is the CRC test on the buffer. -/
theorem crc_matches_take (buf : List Nat) (n : Nat) (h2 : 2 ≤ n) :
    crc_matches (buf.take n) (n : Int) ↔ crc_matches buf (n : Int) := by
  unfold crc_matches
  have e2 : ((n : Int) - 2).toNat = n - 2 := by omega
  have e1 : ((n : Int) - 1).toNat = n - 1 := by omega
  rw [e1, e2, rd_take buf (by omega : n - 2 < n), rd_take buf (by omega : n - 1 < n)]
  have hc : calculate_crc (buf.take n) ((n : Int) - 2) = calculate_crc buf ((n : Int) - 2) := by
    apply calculate_crc_congr
    intro i hi
    rw [e2] at hi
    exact rd_take buf (by omega)
  rw [hc]

theorem send_reply_state (wf : write_frame_fn σ) (w : World σ) :
    (send_reply wf w).1.server.buffer = w.server.buffer ∧
    (send_reply wf w).1.server.addr = w.server.addr ∧
    (send_reply wf w).1.server.transport = w.server.transport ∧
    (send_reply wf w).1.server.callbacks = w.server.callbacks ∧
    ((send_reply wf w).1.server.state = SERVER_STATE_IDLE ∧
        (send_reply wf w).1.server.frame_length = 0 ∨
      (send_reply wf w).1.server.state = SERVER_STATE_SEND_REPLY ∧
        (send_reply wf w).1.server.frame_length = w.server.frame_length) := by
  unfold send_reply
  simp only []
  split_ifs
  · exact ⟨rfl, rfl, rfl, rfl, Or.inl ⟨rfl, rfl⟩⟩
  · exact ⟨rfl, rfl, rfl, rfl, Or.inl ⟨rfl, rfl⟩⟩
  · exact ⟨rfl, rfl, rfl, rfl, Or.inr ⟨rfl, rfl⟩⟩

/-- The frame `send_reply` hands to `write_frame` when a ready reply is in the buffer. -/
theorem sent_frame (wf : write_frame_fn σ) (w : World σ) (hok : server_ok w.server)
    (hr : reply_ready w.server) :
    (send_reply wf w).1.trace =
        w.trace ++ [Event.write_frame (w.server.buffer.take w.server.frame_length.toNat)
          w.server.frame_length.toNat] ∧
      frame_crc_valid (w.server.buffer.take w.server.frame_length.toNat)
        w.server.frame_length.toNat ∧
      5 ≤ w.server.frame_length.toNat ∧ w.server.frame_length.toNat ≤ 256 ∧
      rd (w.server.buffer.take w.server.frame_length.toNat) 0 = rd w.server.buffer 0 ∧
      rd (w.server.buffer.take w.server.frame_length.toNat) 1 = rd w.server.buffer 1 := by
  obtain ⟨h5, h256, hcrc⟩ := hr
  have hlen : w.server.buffer.length = 256 := hok.1
  have hcast : ((w.server.frame_length.toNat : Nat) : Int) = w.server.frame_length :=
    Int.toNat_of_nonneg (by omega)
  refine ⟨?_, ⟨?_, ?_, ?_⟩, by omega, by omega, rd_take _ (by omega), rd_take _ (by omega)⟩
  · rw [send_reply_trace, to_u16_of_range (by omega) h256]
  · rw [List.length_take, hlen]; omega
  · exact fun b hb => hok.2.1 b (List.mem_of_mem_take hb)
  · rw [crc_matches_take _ _ (by omega), hcast]
    exact hcrc

theorem send_reply_stepped (wf : write_frame_fn σ) (w : World σ) (hok : server_ok w.server)
    (hr : reply_ready w.server) : Stepped w (send_reply wf w).1 := by
  obtain ⟨hb, ha, ht, hc, hst⟩ := send_reply_state wf w
  obtain ⟨htr, hv, h5, h256, hb0, hb1⟩ := sent_frame wf w hok hr
  refine ⟨?_, ha, ht, hc, ⟨_, htr, ?_, ?_⟩, ?_, ?_, ?_⟩
  · exact ⟨by rw [hb]; exact hok.1, by rw [hb]; exact hok.2.1, by rw [ha]; exact hok.2.2⟩
  · intro e he
    rw [List.mem_singleton] at he
    subst he; exact Or.inr rfl
  · intro frame len hm
    rw [List.mem_singleton] at hm
    injection hm with e1 e2
    subst e1 e2
    exact ⟨hv, h5, h256, Or.inr hb0, Or.inl hb1⟩
  · intro hs
    rcases hst with ⟨_, h⟩ | ⟨h, _⟩
    · exact h
    · rw [hs] at h; exact absurd h (by decide)
  · intro hs
    rcases hst with ⟨h, _⟩ | ⟨h, _⟩ <;> (rw [hs] at h; exact absurd h (by decide))
  · intro hs
    rcases hst with ⟨h, _⟩ | ⟨_, h⟩
    · rw [hs] at h; exact absurd h (by decide)
    · refine ⟨?_, Or.inr (by rw [hb]), Or.inl (by rw [hb])⟩
      unfold reply_ready
      rw [h, hb]
      exact hr

theorem or_0x80_idem (x : Nat) : (x ||| 0x80) ||| 0x80 = x ||| 0x80 := by
  rw [Nat.or_assoc, Nat.or_self]

theorem process_frame_stepped (wf : write_frame_fn σ) (cb : smb_server_if_t σ) (w : World σ)
    (hok : server_ok w.server) : Stepped w (process_frame wf cb w).1 := by
  rcases process_frame_outcome wf cb w hok with ⟨w1, hd, hr⟩ | ⟨pre, hc, hr⟩
  · rw [hr]
    obtain ⟨evs, ht, he⟩ := hd.trace
    refine ⟨hd.ok, hd.addr, hd.transport, hd.callbacks, ⟨evs, ht, fun e h => Or.inl (he e h), ?_⟩,
      ?_, ?_, ?_⟩
    · intro frame len hm
      exact Bool.noConfusion (he _ hm)
    · intro hs
      exact server_state_t.noConfusion hs
    · intro _
      exact ⟨hd.head, hd.frame_length⟩
    · intro hs
      exact server_state_t.noConfusion hs
  · rw [hr]
    have hready : reply_ready pre.server := ⟨hc.len_ge, hc.len_le, hc.crc⟩
    obtain ⟨hb, ha, ht, hcb, hst⟩ := send_reply_state wf pre
    obtain ⟨htr, hv, h5, h256, hb0, hb1⟩ := sent_frame wf pre hc.ok hready
    obtain ⟨evs, hpt, hpe⟩ := hc.trace
    refine ⟨?_, ha.trans hc.addr, ht.trans hc.transport, hcb.trans hc.callbacks,
      ⟨evs ++ [Event.write_frame (pre.server.buffer.take pre.server.frame_length.toNat)
        pre.server.frame_length.toNat], ?_, ?_, ?_⟩, ?_, ?_, ?_⟩
    · exact ⟨by rw [hb]; exact hc.ok.1, by rw [hb]; exact hc.ok.2.1,
        by rw [ha]; exact hc.ok.2.2⟩
    · rw [htr, hpt, List.append_assoc]
    · intro e he
      rcases List.mem_append.mp he with he | he
      · exact Or.inl (hpe e he)
      · rw [List.mem_singleton] at he
        subst he; exact Or.inr rfl
    · intro frame len hm
      rcases List.mem_append.mp hm with hm | hm
      · exact Bool.noConfusion (hpe _ hm)
      · rw [List.mem_singleton] at hm
        injection hm with e1 e2
        subst e1 e2
        refine ⟨hv, h5, h256, ?_, ?_⟩
        · rw [hb0]; exact hc.byte0
        · rw [hb1]; exact hc.byte1
    · intro hs
      rcases hst with ⟨_, h⟩ | ⟨h, _⟩
      · exact h
      · rw [hs] at h; exact absurd h (by decide)
    · intro hs
      rcases hst with ⟨h, _⟩ | ⟨h, _⟩ <;> (rw [hs] at h; exact absurd h (by decide))
    · intro hs
      rcases hst with ⟨h, _⟩ | ⟨_, h⟩
      · rw [hs] at h; exact absurd h (by decide)
      · refine ⟨?_, by rw [hb]; exact hc.byte0, by rw [hb]; exact hc.byte1⟩
        unfold reply_ready
        rw [h, hb]
        exact hready

end Steps

section Polls
variable {σ : Type}

theorem stepped_inv {w w' : World σ} (h : Stepped w w') : server_inv w'.server :=
  ⟨h.ok, h.idle, fun hs => (h.sending hs).1⟩

theorem stepped_bound {w w' : World σ} {rf : read_frame_fn σ} {wf : write_frame_fn σ}
    {cb : smb_server_if_t σ} (h : Stepped w w') (hb : bound_to w.server rf wf cb) :
    bound_to w'.server rf wf cb :=
  ⟨h.transport.trans hb.1, h.callbacks.trans hb.2⟩

/-- In Idle, `exec_state_idle` either stops after `read_frame` or enters `process_frame`
on a CRC-valid frame of at least 4 bytes addressed to the server. -/
theorem exec_state_idle_cases (rf : read_frame_fn σ) (wf : write_frame_fn σ)
    (cb : smb_server_if_t σ) (w : World σ) :
    (∃ r, exec_state_idle rf wf cb w = (after_read rf w, r)) ∨
      (4 ≤ inbound_len rf w ∧ crc_matches (inbound_buf rf w) (inbound_len rf w) ∧
        rd (inbound_buf rf w) 0 = w.server.addr ∧
        exec_state_idle rf wf cb w = process_frame wf cb (accepted rf w)) := by
  by_cases h0 : inbound_len rf w < 0
  · exact Or.inl ⟨_, exec_state_idle_neg rf wf cb h0⟩
  by_cases h1 : inbound_len rf w = 0
  · exact Or.inl ⟨_, exec_state_idle_zero rf wf cb h1⟩
  by_cases h4 : inbound_len rf w ≤ 3
  · exact Or.inl ⟨_, exec_state_idle_short rf wf cb (by omega) h4⟩
  by_cases hc : crc_matches (inbound_buf rf w) (inbound_len rf w)
  · by_cases ha : rd (inbound_buf rf w) 0 = w.server.addr
    · exact Or.inr ⟨by omega, hc, ha, exec_state_idle_accept rf wf cb (by omega) hc ha⟩
    · exact Or.inl ⟨_, exec_state_idle_other rf wf cb (by omega) hc ha⟩
  · exact Or.inl ⟨_, exec_state_idle_bad_crc rf wf cb (by omega) hc⟩

/-- One poll of a configured server: what it does to the state and to the trace. -/
theorem poll_stepped (w : World σ) (rf : read_frame_fn σ) (wf : write_frame_fn σ)
    (cb : smb_server_if_t σ) (hb : bound_to w.server rf wf cb) (hinv : server_inv w.server) :
    (w.server.state = SERVER_STATE_IDLE ∧
        ((smb_server_poll w).1 = after_read rf w ∨
          Stepped (accepted rf w) (smb_server_poll w).1)) ∨
      (w.server.state ≠ SERVER_STATE_IDLE ∧ Stepped w (smb_server_poll w).1) := by
  cases hs : w.server.state with
  | SERVER_STATE_IDLE =>
    left
    refine ⟨rfl, ?_⟩
    rw [poll_idle hb hs]
    rcases exec_state_idle_cases rf wf cb w with ⟨r, h⟩ | ⟨_, _, _, h⟩
    · left; rw [h]
    · right; rw [h]
      exact process_frame_stepped wf cb _ (accepted_ok rf hinv.1)
  | SERVER_STATE_PROCESSING_REQUEST =>
    right
    refine ⟨fun h => server_state_t.noConfusion h, ?_⟩
    rw [poll_processing hb hs]
    exact process_frame_stepped wf cb w hinv.1
  | SERVER_STATE_SEND_REPLY =>
    right
    refine ⟨fun h => server_state_t.noConfusion h, ?_⟩
    rw [poll_send_reply hb hs]
    exact send_reply_stepped wf w hinv.1 (hinv.2.2 hs)

/-- One poll keeps the binding and the invariant, and every frame it hands to
`write_frame` has 5 to 256 bytes and a matching CRC. -/
theorem poll_keeps_inv (w : World σ) (rf : read_frame_fn σ) (wf : write_frame_fn σ)
    (cb : smb_server_if_t σ) (hb : bound_to w.server rf wf cb) (hinv : server_inv w.server) :
    bound_to (smb_server_poll w).1.server rf wf cb ∧ server_inv (smb_server_poll w).1.server ∧
      ∃ evs, (smb_server_poll w).1.trace = w.trace ++ evs ∧
        ∀ frame len, Event.write_frame frame len ∈ evs →
          frame_crc_valid frame len ∧ 5 ≤ len ∧ len ≤ 256 := by
  rcases poll_stepped w rf wf cb hb hinv with ⟨hs, h | h⟩ | ⟨_, h⟩
  · rw [h]
    refine ⟨hb, ⟨⟨?_, blit_is_bytes hinv.1.2.1 _ _, hinv.1.2.2⟩, hinv.2.1, ?_⟩,
      [Event.read_frame 256], rfl, ?_⟩
    · show (blit _ _ _).length = _
      rw [blit_length]; exact hinv.1.1
    · intro h'
      have h2 : w.server.state = SERVER_STATE_SEND_REPLY := h'
      rw [hs] at h2
      exact server_state_t.noConfusion h2
    · intro frame len hm
      rw [List.mem_singleton] at hm
      exact Event.noConfusion hm
  · obtain ⟨evs, ht, _, he⟩ := h.events
    refine ⟨stepped_bound h hb, stepped_inv h, Event.read_frame 256 :: evs, ?_, ?_⟩
    · rw [ht, accepted_trace, List.append_assoc]; rfl
    · intro frame len hm
      rcases List.mem_cons.mp hm with hm | hm
      · exact Event.noConfusion hm
      · obtain ⟨h1, h2, h3, _⟩ := he frame len hm
        exact ⟨h1, h2, h3⟩
  · obtain ⟨evs, ht, _, he⟩ := h.events
    refine ⟨stepped_bound h hb, stepped_inv h, evs, ht, ?_⟩
    intro frame len hm
    obtain ⟨h1, h2, h3, _⟩ := he frame len hm
    exact ⟨h1, h2, h3⟩

end Polls

section RunLemmas

variable {σ : Type}

theorem neg_EINVAL_ne : (-EINVAL : Int) ≠ 0 := by decide

theorem neg_EFAULT_ne : (-EFAULT : Int) ≠ 0 := by decide

/-- A successful `smb_server_config` leaves a bound server that satisfies the invariant. -/
theorem config_success (server_addr : Nat) (transport : Option (smb_transport_if_t σ))
    (server_cb : Option (smb_server_if_t σ)) (w : World σ)
    (hbuf : w.server.buffer.length = MODBUS_MAX_FRAME_SIZE) (haddr : server_addr < 256)
    (hcfg : (smb_server_config server_addr transport server_cb w).2 = 0) :
    ∃ rf wf cb, bound_to (smb_server_config server_addr transport server_cb w).1.server rf wf cb ∧
      server_inv (smb_server_config server_addr transport server_cb w).1.server ∧
      (smb_server_config server_addr transport server_cb w).1.server.addr = server_addr ∧
      (smb_server_config server_addr transport server_cb w).1.server.state = SERVER_STATE_IDLE ∧
      (smb_server_config server_addr transport server_cb w).1.trace = w.trace := by
  unfold smb_server_config at hcfg ⊢
  simp only [] at hcfg ⊢
  by_cases h0 : 0 = server_addr
  · rw [if_pos h0] at hcfg
    exact absurd hcfg neg_EINVAL_ne
  rw [if_neg h0] at hcfg ⊢
  cases transport with
  | none => exact absurd hcfg neg_EFAULT_ne
  | some t =>
    obtain ⟨trf, twf⟩ := t
    cases trf with
    | none => exact absurd hcfg neg_EFAULT_ne
    | some rf =>
      cases twf with
      | none => exact absurd hcfg neg_EFAULT_ne
      | some wf =>
        cases server_cb with
        | none => exact absurd hcfg neg_EFAULT_ne
        | some cb =>
          refine ⟨rf, wf, cb, ⟨rfl, rfl⟩, ⟨⟨?_, ?_, haddr⟩, fun _ => rfl, ?_⟩, rfl, rfl, rfl⟩
          · show (w.server.buffer.map _).length = _
            rw [List.length_map]; exact hbuf
          · intro b hb
            have hb' : b ∈ w.server.buffer.map (fun _ => 0) := hb
            rw [List.mem_map] at hb'
            obtain ⟨_, _, rfl⟩ := hb'
            decide
          · intro hs
            exact server_state_t.noConfusion hs

theorem run_polls_valid (env : List (σ → σ)) (w : World σ) (rf : read_frame_fn σ)
    (wf : write_frame_fn σ) (cb : smb_server_if_t σ) (hb : bound_to w.server rf wf cb)
    (hinv : server_inv w.server) :
    ∃ evs, (run_polls env w).trace = w.trace ++ evs ∧
      ∀ frame len, Event.write_frame frame len ∈ evs →
        frame_crc_valid frame len ∧ 5 ≤ len ∧ len ≤ 256 := by
  induction env generalizing w with
  | nil => exact ⟨[], (List.append_nil _).symm, fun _ _ h => absurd h (List.not_mem_nil _)⟩
  | cons g env ih =>
    obtain ⟨hb1, hinv1, evs1, ht1, he1⟩ :=
      poll_keeps_inv { w with host := g w.host } rf wf cb hb hinv
    obtain ⟨evs2, ht2, he2⟩ := ih (poll_after g w) hb1 hinv1
    refine ⟨evs1 ++ evs2, ?_, ?_⟩
    · show (run_polls env (poll_after g w)).trace = _
      rw [ht2]
      show (smb_server_poll { w with host := g w.host }).1.trace ++ evs2 = _
      rw [ht1, List.append_assoc]
    · intro frame len hm
      rcases List.mem_append.mp hm with hm | hm
      · exact he1 frame len hm
      · exact he2 frame len hm

/-- On a frame of bytes the 16-bit cast in the CRC test changes nothing. -/
theorem crc_matches_bytes {frame : List Nat} {len : Int} (hb : is_bytes frame)
    (h : crc_matches frame len) :
    calculate_crc frame (len - 2) =
      (rd frame (len - 2).toNat <<< 8) ||| rd frame (len - 1).toNat := by
  unfold crc_matches at h
  rw [h]
  apply Nat.mod_eq_of_lt
  have h1 := rd_lt hb (len - 2).toNat
  have h2 := rd_lt hb (len - 1).toNat
  rw [join_bytes _ _ h2]
  omega

theorem reply_header_step {fc x y : Nat} (hx : x = fc ∨ x = fc ||| 0x80)
    (hy : y = x ∨ y = x ||| 0x80) : y = fc ∨ y = fc ||| 0x80 := by
  rcases hx with rfl | rfl <;> rcases hy with rfl | rfl
  · exact Or.inl rfl
  · exact Or.inr rfl
  · exact Or.inr rfl
  · exact Or.inr (or_0x80_idem _)

/-- A step that starts with the address and function code in place hands out frames
with that header and, unless it ends in Idle, leaves them in place. -/
theorem answering_step {w w' : World σ} {rf : read_frame_fn σ} {wf : write_frame_fn σ}
    {cb : smb_server_if_t σ} {a fc : Nat} (hb : bound_to w.server rf wf cb)
    (ha : w.server.addr = a) (h0 : rd w.server.buffer 0 = a)
    (h1 : rd w.server.buffer 1 = fc ∨ rd w.server.buffer 1 = fc ||| 0x80)
    (h : Stepped w w') :
    (w'.server.state ≠ SERVER_STATE_IDLE → answering rf wf cb a fc w'.server) ∧
      ∃ evs, w'.trace = w.trace ++ evs ∧
        ∀ frame len, Event.write_frame frame len ∈ evs → reply_header a fc frame := by
  constructor
  · intro hs
    refine ⟨stepped_bound h hb, stepped_inv h, h.addr.trans ha, ?_, ?_⟩
    · cases hst : w'.server.state with
      | SERVER_STATE_IDLE => exact absurd hst hs
      | SERVER_STATE_PROCESSING_REQUEST =>
        rw [(h.processing hst).1 0 (by decide)]; exact h0
      | SERVER_STATE_SEND_REPLY =>
        rcases (h.sending hst).2.1 with e | e
        · rw [e]; exact ha
        · rw [e]; exact h0
    · cases hst : w'.server.state with
      | SERVER_STATE_IDLE => exact absurd hst hs
      | SERVER_STATE_PROCESSING_REQUEST =>
        rw [(h.processing hst).1 1 (by decide)]; exact h1
      | SERVER_STATE_SEND_REPLY =>
        exact reply_header_step h1 (h.sending hst).2.2
  · obtain ⟨evs, ht, _, he⟩ := h.events
    refine ⟨evs, ht, ?_⟩
    intro frame len hm
    obtain ⟨_, _, _, hb0, hb1⟩ := he frame len hm
    refine ⟨?_, reply_header_step h1 hb1⟩
    rcases hb0 with e | e
    · rw [e]; exact ha
    · rw [e]; exact h0

theorem poll_while_busy_header (env : List (σ → σ)) (w : World σ) (rf : read_frame_fn σ)
    (wf : write_frame_fn σ) (cb : smb_server_if_t σ) (a fc : Nat)
    (h : w.server.state ≠ SERVER_STATE_IDLE → answering rf wf cb a fc w.server) :
    ∃ evs, (poll_while_busy env w).trace = w.trace ++ evs ∧
      ∀ frame len, Event.write_frame frame len ∈ evs → reply_header a fc frame := by
  induction env generalizing w with
  | nil => exact ⟨[], (List.append_nil _).symm, fun _ _ h => absurd h (List.not_mem_nil _)⟩
  | cons g env ih =>
    unfold poll_while_busy
    by_cases hs : w.server.state = SERVER_STATE_IDLE
    · rw [if_pos hs]
      exact ⟨[], (List.append_nil _).symm, fun _ _ h => absurd h (List.not_mem_nil _)⟩
    · rw [if_neg hs]
      obtain ⟨hb, hinv, ha, h0, h1⟩ := h hs
      have hstep : Stepped { w with host := g w.host } (poll_after g w) := by
        rcases poll_stepped { w with host := g w.host } rf wf cb hb hinv with ⟨hi, _⟩ | ⟨_, hst⟩
        · exact absurd hi hs
        · exact hst
      obtain ⟨hnext, evs1, ht1, he1⟩ :=
        answering_step (w := { w with host := g w.host }) hb ha h0 h1 hstep
      obtain ⟨evs2, ht2, he2⟩ := ih (poll_after g w) hnext
      refine ⟨evs1 ++ evs2, ?_, ?_⟩
      · rw [ht2, ht1, List.append_assoc]
      · intro frame len hm
        rcases List.mem_append.mp hm with hm | hm
        · exact he1 frame len hm
        · exact he2 frame len hm

end RunLemmas

/-! ### Register calls -/

section CallLemmas
variable {σ : Type}

/-- `process_frame` on a request that leads to a register call. -/
theorem process_frame_call (wf : write_frame_fn σ) (cb : smb_server_if_t σ) (w : World σ)
    (c : RegisterCall σ) (hb : is_bytes w.server.buffer) (hc : register_call cb w = some c) :
    process_frame wf cb w =
      if c.ret = 0 then (set_processing c.after, -EAGAIN)
      else if c.ret = (c.n_regs : Int) then send_reply wf c.reply
      else send_reply wf
        (prepare_error_reply w.server.addr MODBUS_EXC_ILLEGAL_DATA_ADDRESS c.after) := by
  unfold register_call at hc
  simp only [] at hc
  by_cases h3 : rd w.server.buffer 1 = 0x03
  · rw [if_pos h3] at hc
    cases hf : cb.read_holding_regs with
    | none => rw [hf] at hc; exact Option.noConfusion hc
    | some f =>
      rw [hf] at hc
      simp only [] at hc
      by_cases hv : w.server.frame_length = 8 ∧ be16 w.server.buffer 4 ≤ 125
      · rw [if_pos hv] at hc
        injection hc with hc
        subst hc
        rw [process_frame_read wf cb w f Event.read_holding_regs (Or.inl ⟨h3, hf, rfl⟩),
          if_neg (fun h => h hv.1), process_read_regs_call wf f _ w hb hv.2]
        rfl
      · rw [if_neg hv] at hc; exact Option.noConfusion hc
  rw [if_neg h3] at hc
  by_cases h4 : rd w.server.buffer 1 = 0x04
  · rw [if_pos h4] at hc
    cases hf : cb.read_input_regs with
    | none => rw [hf] at hc; exact Option.noConfusion hc
    | some f =>
      rw [hf] at hc
      simp only [] at hc
      by_cases hv : w.server.frame_length = 8 ∧ be16 w.server.buffer 4 ≤ 125
      · rw [if_pos hv] at hc
        injection hc with hc
        subst hc
        rw [process_frame_read wf cb w f Event.read_input_regs (Or.inr ⟨h4, hf, rfl⟩),
          if_neg (fun h => h hv.1), process_read_regs_call wf f _ w hb hv.2]
        rfl
      · rw [if_neg hv] at hc; exact Option.noConfusion hc
  rw [if_neg h4] at hc
  by_cases h6 : rd w.server.buffer 1 = 0x06
  · rw [if_pos h6] at hc
    cases hf : cb.write_regs with
    | none => rw [hf] at hc; exact Option.noConfusion hc
    | some f =>
      rw [hf] at hc
      simp only [] at hc
      by_cases hv : w.server.frame_length = 8
      · rw [if_pos hv] at hc
        injection hc with hc
        subst hc
        rw [process_frame_write_single wf cb w f h6 hf, if_neg (fun h => h hv),
          process_write_regs_eq wf f 4 1 w hb]
        rfl
      · rw [if_neg hv] at hc; exact Option.noConfusion hc
  rw [if_neg h6] at hc
  by_cases h10 : rd w.server.buffer 1 = 0x10
  · rw [if_pos h10] at hc
    cases hf : cb.write_regs with
    | none => rw [hf] at hc; exact Option.noConfusion hc
    | some f =>
      rw [hf] at hc
      simp only [] at hc
      by_cases hv : write_multiple_valid w.server.buffer w.server.frame_length
      · rw [if_pos hv] at hc
        injection hc with hc
        subst hc
        rw [process_frame_write_multiple wf cb w f hb h10 hf, if_pos hv,
          process_write_regs_eq wf f 7 _ w hb]
        rfl
      · rw [if_neg hv] at hc; exact Option.noConfusion hc
  · rw [if_neg h10] at hc; exact Option.noConfusion hc

theorem register_call_write_single (cb : smb_server_if_t σ) (w : World σ)
    (f : write_regs_fn σ) (h1 : rd w.server.buffer 1 = 0x06) (h2 : cb.write_regs = some f)
    (h8 : w.server.frame_length = 8) :
    register_call cb w = some (write_call f 4 1 w) := by
  unfold register_call
  simp only []
  rw [if_neg (by rw [h1]; decide), if_neg (by rw [h1]; decide), if_pos h1, h2]
  simp only []
  rw [if_pos h8]

theorem register_call_write_multiple (cb : smb_server_if_t σ) (w : World σ)
    (f : write_regs_fn σ) (h1 : rd w.server.buffer 1 = 0x10) (h2 : cb.write_regs = some f)
    (hv : write_multiple_valid w.server.buffer w.server.frame_length) :
    register_call cb w = some (write_call f 7 (be16 w.server.buffer 4) w) := by
  unfold register_call
  simp only []
  rw [if_neg (by rw [h1]; decide), if_neg (by rw [h1]; decide), if_neg (by rw [h1]; decide),
    if_pos h1, h2]
  simp only []
  rw [if_pos hv]

/-- The three kinds of register call. -/
theorem register_call_cases (cb : smb_server_if_t σ) (w : World σ) (c : RegisterCall σ)
    (hc : register_call cb w = some c) :
    (∃ f ev, read_handler cb (rd w.server.buffer 1) f ev ∧ w.server.frame_length = 8 ∧
        be16 w.server.buffer 4 ≤ 125 ∧ c = read_call f ev w) ∨
      (∃ f, rd w.server.buffer 1 = 0x06 ∧ cb.write_regs = some f ∧
        w.server.frame_length = 8 ∧ c = write_call f 4 1 w) ∨
      (∃ f, rd w.server.buffer 1 = 0x10 ∧ cb.write_regs = some f ∧
        write_multiple_valid w.server.buffer w.server.frame_length ∧
        c = write_call f 7 (be16 w.server.buffer 4) w) := by
  unfold register_call at hc
  simp only [] at hc
  by_cases h3 : rd w.server.buffer 1 = 0x03
  · rw [if_pos h3] at hc
    cases hf : cb.read_holding_regs with
    | none => rw [hf] at hc; exact Option.noConfusion hc
    | some f =>
      rw [hf] at hc
      simp only [] at hc
      by_cases hv : w.server.frame_length = 8 ∧ be16 w.server.buffer 4 ≤ 125
      · rw [if_pos hv] at hc
        injection hc with hc
        exact Or.inl ⟨f, _, Or.inl ⟨h3, hf, rfl⟩, hv.1, hv.2, hc.symm⟩
      · rw [if_neg hv] at hc; exact Option.noConfusion hc
  rw [if_neg h3] at hc
  by_cases h4 : rd w.server.buffer 1 = 0x04
  · rw [if_pos h4] at hc
    cases hf : cb.read_input_regs with
    | none => rw [hf] at hc; exact Option.noConfusion hc
    | some f =>
      rw [hf] at hc
      simp only [] at hc
      by_cases hv : w.server.frame_length = 8 ∧ be16 w.server.buffer 4 ≤ 125
      · rw [if_pos hv] at hc
        injection hc with hc
        exact Or.inl ⟨f, _, Or.inr ⟨h4, hf, rfl⟩, hv.1, hv.2, hc.symm⟩
      · rw [if_neg hv] at hc; exact Option.noConfusion hc
  rw [if_neg h4] at hc
  by_cases h6 : rd w.server.buffer 1 = 0x06
  · rw [if_pos h6] at hc
    cases hf : cb.write_regs with
    | none => rw [hf] at hc; exact Option.noConfusion hc
    | some f =>
      rw [hf] at hc
      simp only [] at hc
      by_cases hv : w.server.frame_length = 8
      · rw [if_pos hv] at hc
        injection hc with hc
        exact Or.inr (Or.inl ⟨f, h6, rfl, hv, hc.symm⟩)
      · rw [if_neg hv] at hc; exact Option.noConfusion hc
  rw [if_neg h6] at hc
  by_cases h10 : rd w.server.buffer 1 = 0x10
  · rw [if_pos h10] at hc
    cases hf : cb.write_regs with
    | none => rw [hf] at hc; exact Option.noConfusion hc
    | some f =>
      rw [hf] at hc
      simp only [] at hc
      by_cases hv : write_multiple_valid w.server.buffer w.server.frame_length
      · rw [if_pos hv] at hc
        injection hc with hc
        exact Or.inr (Or.inr ⟨f, h10, rfl, hv, hc.symm⟩)
      · rw [if_neg hv] at hc; exact Option.noConfusion hc
  · rw [if_neg h10] at hc; exact Option.noConfusion hc

/-- After the callback returned, the first three bytes, the frame length and the
configuration are untouched and the trace has grown by the call. -/
theorem register_call_after (cb : smb_server_if_t σ) (w : World σ) (c : RegisterCall σ)
    (hok : server_ok w.server) (hc : register_call cb w = some c) :
    Derived w c.after ∧ c.after.trace = w.trace ++ [c.event] ∧
      c.event.is_register_call = true ∧ c.after.server.state = w.server.state := by
  rcases register_call_cases cb w c hc with ⟨f, ev, hh, _, _, rfl⟩ | ⟨f, _, _, _, rfl⟩ |
    ⟨f, _, _, _, rfl⟩
  · have hev : ∀ a b, (ev a b).is_register_call = true := by
      rcases hh with ⟨_, _, rfl⟩ | ⟨_, _, rfl⟩ <;> exact fun _ _ => rfl
    exact ⟨derived_after_read_regs (derived_refl w hok) f ev hev, rfl, hev _ _, rfl⟩
  · exact ⟨derived_after_write_regs (derived_refl w hok) f 4 1, rfl, rfl, rfl⟩
  · exact ⟨derived_after_write_regs (derived_refl w hok) f 7 _, rfl, rfl, rfl⟩

end CallLemmas

/-! ### Reply frames of the register writes -/

section FrameLemmas

variable {σ : Type}

theorem rd_ext {a b : List Nat} (hl : a.length = b.length)
    (h : ∀ i, i < a.length → rd a i = rd b i) : a = b := by
  apply List.ext_getElem hl
  intro i h1 h2
  have := h i h1
  unfold rd at this
  rwa [List.getD_eq_getElem _ _ h1, List.getD_eq_getElem _ _ h2] at this

theorem wr_same {b : List Nat} {i v : Nat} (h : v % 256 = rd b i) : wr b i v = b := by
  apply rd_ext (wr_length b i v)
  intro j hj
  rw [wr_length] at hj
  by_cases hij : i = j
  · subst hij
    rw [rd_wr_same hj, h]
  · rw [rd_wr_ne b hij]

theorem rd_drop (b : List Nat) (off i : Nat) : rd (b.drop off) i = rd b (off + i) := by
  unfold rd
  simp only [List.getD_eq_getElem?_getD, List.getElem?_drop]

theorem drop_take_two (b : List Nat) (off : Nat) (h : off + 2 ≤ b.length) :
    (b.drop off).take 2 = [rd b off, rd b (off + 1)] := by
  apply rd_ext
  · simp only [List.length_take, List.length_drop, List.length_cons, List.length_nil]
    omega
  · intro i hi
    simp only [List.length_take, List.length_drop] at hi
    have hi2 : i < 2 := by omega
    rw [rd_take _ hi2, rd_drop]
    interval_cases i
    · rfl
    · rfl

/-- A reply composed by `process_write_regs` over a CRC-valid 8-byte request leaves the
buffer as it is: the recomputed CRC is the one the request carries. -/
theorem compose_write_reply_echo (w : World σ) (hb : is_bytes w.server.buffer)
    (hcrc : crc_matches w.server.buffer 8) :
    (compose_write_reply w).server.buffer = w.server.buffer := by
  have h := crc_matches_bytes hb hcrc
  have e6 : ((8 : Int) - 2) = 6 := by decide
  have e7 : ((8 : Int) - 1) = 7 := by decide
  rw [e6, e7] at h
  have t6 : (6 : Int).toNat = 6 := rfl
  have t7 : (7 : Int).toNat = 7 := rfl
  rw [t6, t7, join_bytes _ _ (rd_lt hb 7)] at h
  have h6 := rd_lt hb 6
  have h7 := rd_lt hb 7
  have hc : calculate_crc w.server.buffer 6 < 65536 := calculate_crc_lt _ hb _
  show wr (wr w.server.buffer 6 _) 7 _ = w.server.buffer
  have hhi : ((calculate_crc w.server.buffer 6 &&& 0xFF00) >>> 8) % 256 =
      rd w.server.buffer 6 := by
    rw [hi_byte _ hc, h]
    omega
  have hlo : (calculate_crc w.server.buffer 6 &&& 0x00FF) % 256 = rd w.server.buffer 7 := by
    rw [lo_byte, h]
    omega
  rw [wr_same hhi, wr_same hlo]

/-- The 8 bytes of a reply composed by `process_write_regs`: the first six bytes of the
buffer and the CRC over them, high byte of the CRC word first. -/
theorem compose_write_reply_frame (w : World σ) (hb : is_bytes w.server.buffer)
    (hl : 8 ≤ w.server.buffer.length) :
    (compose_write_reply w).server.buffer.take 8 =
      w.server.buffer.take 6 ++
        [calculate_crc (w.server.buffer.take 6) 6 / 256,
         calculate_crc (w.server.buffer.take 6) 6 % 256] := by
  have hcg : calculate_crc (w.server.buffer.take 6) 6 = calculate_crc w.server.buffer 6 :=
    calculate_crc_congr _ _ _ (fun i hi => rd_take _ hi)
  have hc : calculate_crc w.server.buffer 6 < 65536 := calculate_crc_lt _ hb _
  rw [hcg]
  show (wr (wr w.server.buffer 6 _) 7 _).take 8 = _
  apply rd_ext
  · simp only [List.length_take, wr_length, List.length_append, List.length_cons,
      List.length_nil]
    omega
  · intro i hi
    simp only [List.length_take, wr_length] at hi
    have hi8 : i < 8 := by omega
    rw [rd_take _ hi8]
    by_cases h7 : i = 7
    · subst h7
      rw [rd_wr_same (by rw [wr_length]; omega), lo_byte]
      unfold rd
      rw [List.getD_append_right _ _ _ _ (by simp only [List.length_take]; omega)]
      simp only [List.length_take]
      rw [Nat.min_eq_left (by omega)]
      rfl
    rw [rd_wr_ne _ (Ne.symm h7)]
    by_cases h6 : i = 6
    · subst h6
      rw [rd_wr_same (by omega), hi_byte _ hc]
      unfold rd
      rw [List.getD_append_right _ _ _ _ (by simp only [List.length_take]; omega)]
      simp only [List.length_take]
      rw [Nat.min_eq_left (by omega)]
      rfl
    rw [rd_wr_ne _ (Ne.symm h6)]
    have hi6 : i < 6 := by omega
    unfold rd
    rw [List.getD_append _ _ _ _ (by simp only [List.length_take]; omega)]
    exact (rd_take _ hi6).symm

end FrameLemmas

/-! ### Configuration of the framer -/

section FramerLemmas

variable {τ : Type}

theorem interface_complete_iff (interface : Option (smb_rtu_if_t τ)) :
    interface_complete interface = true ↔
      ∃ sc wr fr, interface = some ⟨some sc, some wr, some fr⟩ := by
  constructor
  · intro h
    match interface, h with
    | some ⟨some sc, some wr, some fr⟩, _ => exact ⟨sc, wr, fr, rfl⟩
  · rintro ⟨sc, wr, fr, rfl⟩
    rfl

/-- With a valid address and a complete interface `smb_rtu_config` is decided by the
`switch` on the baud rate. -/
theorem smb_rtu_config_complete (addr baud_rate : Nat) (sc : τ → Nat → τ)
    (wr : τ → List Nat → Nat → τ × Int) (fr : τ → τ) (w : RtuWorld τ)
    (h0 : addr ≠ 0) (h255 : addr ≠ 255) :
    smb_rtu_config addr baud_rate (some ⟨some sc, some wr, some fr⟩) w =
      match baud_rate_timings baud_rate with
      | none => (w, -EINVAL)
      | some t =>
        ({ rtu := { w.rtu with t_1_5char_us := t.1, t_3_5char_us := t.2,
                               rx_buffer := w.rtu.rx_buffer.map (fun _ => 0),
                               addr := addr, buffer_index := 0,
                               interface := some ⟨some sc, some wr, some fr⟩ },
            host := sc w.host t.2,
            trace := w.trace ++ [RtuEvent.start_counter t.2] }, 0) := by
  unfold smb_rtu_config
  rw [if_neg (fun h => h0 h.symm), if_neg (fun h => h255 h.symm)]
  simp only [Option.isNone_some, Bool.false_eq_true, if_false]
  cases baud_rate_timings baud_rate with
  | none => rfl
  | some t => rfl

theorem baud_rate_timings_spec (b : Nat) :
    (∀ t, baud_rate_timings b = some t ↔ (b, t.1, t.2) ∈ baud_table) ∧
      (baud_rate_timings b = none ↔ b ∉ supported_bauds) := by
  unfold baud_rate_timings
  split_ifs with h1 h2 h3 h4 h5 h6 h7
  · subst h1
    refine ⟨fun t => ?_, by decide⟩
    obtain ⟨a, c⟩ := t
    simp [baud_table]
    omega
  · subst h2
    refine ⟨fun t => ?_, by decide⟩
    obtain ⟨a, c⟩ := t
    simp [baud_table]
    omega
  · subst h3
    refine ⟨fun t => ?_, by decide⟩
    obtain ⟨a, c⟩ := t
    simp [baud_table]
    omega
  · subst h4
    refine ⟨fun t => ?_, by decide⟩
    obtain ⟨a, c⟩ := t
    simp [baud_table]
    omega
  · subst h5
    refine ⟨fun t => ?_, by decide⟩
    obtain ⟨a, c⟩ := t
    simp [baud_table]
    omega
  · subst h6
    refine ⟨fun t => ?_, by decide⟩
    obtain ⟨a, c⟩ := t
    simp [baud_table]
    omega
  · rcases h7 with h | h | h | h | h <;> subst h <;>
      (refine ⟨fun t => ?_, by decide⟩
       obtain ⟨a, c⟩ := t
       simp [baud_table]
       omega)
  · push_neg at h7
    obtain ⟨e1, e2, e3, e4, e5⟩ := h7
    refine ⟨fun t => ?_, ?_⟩
    · obtain ⟨a, c⟩ := t
      simp [baud_table, h1, h2, h3, h4, h5, h6, e1, e2, e3, e4, e5]
    · simp [supported_bauds, h1, h2, h3, h4, h5, h6, e1, e2, e3, e4, e5]

end FramerLemmas

/-! ### Emission -/

section EmitLemmas

variable {σ : Type}

theorem register_call_not_write_frame {e : Event} (h : e.is_register_call = true) :
    e.is_write_frame = false := by
  cases e <;> first | rfl | exact Bool.noConfusion h

/-- Every poll that calls `write_frame` does so through `send_reply`, entered in a world
`pre` that holds a reply ready to be sent and that the poll has reached without calling
`write_frame`. -/
theorem poll_emits (w : World σ) (rf : read_frame_fn σ) (wf : write_frame_fn σ)
    (cb : smb_server_if_t σ) (hb : bound_to w.server rf wf cb) (hinv : server_inv w.server) :
    (∃ evs, (smb_server_poll w).1.trace = w.trace ++ evs ∧
        ∀ e ∈ evs, e.is_write_frame = false) ∨
      (∃ pre, smb_server_poll w = send_reply wf pre ∧ bound_to pre.server rf wf cb ∧
        server_ok pre.server ∧ reply_ready pre.server ∧
        ∃ evs, pre.trace = w.trace ++ evs ∧ ∀ e ∈ evs, e.is_write_frame = false) := by
  obtain ⟨hok, _, hsend⟩ := hinv
  have key : ∀ w0 : World σ, server_ok w0.server → bound_to w0.server rf wf cb →
      (∃ evs, (process_frame wf cb w0).1.trace = w0.trace ++ evs ∧
          ∀ e ∈ evs, e.is_write_frame = false) ∨
        (∃ pre, process_frame wf cb w0 = send_reply wf pre ∧ bound_to pre.server rf wf cb ∧
          server_ok pre.server ∧ reply_ready pre.server ∧
          ∃ evs, pre.trace = w0.trace ++ evs ∧ ∀ e ∈ evs, e.is_write_frame = false) := by
    intro w0 hok0 hb0
    rcases process_frame_outcome wf cb w0 hok0 with ⟨w1, hd, hr⟩ | ⟨pre, hc, hr⟩
    · left
      obtain ⟨evs, ht, he⟩ := hd.trace
      exact ⟨evs, by rw [hr]; exact ht, fun e hm => register_call_not_write_frame (he e hm)⟩
    · right
      obtain ⟨evs, ht, he⟩ := hc.trace
      exact ⟨pre, hr, ⟨hc.transport.trans hb0.1, hc.callbacks.trans hb0.2⟩, hc.ok,
        ⟨hc.len_ge, hc.len_le, hc.crc⟩, evs, ht,
        fun e hm => register_call_not_write_frame (he e hm)⟩
  cases hs : w.server.state with
  | SERVER_STATE_IDLE =>
    rw [poll_idle hb hs]
    rcases exec_state_idle_cases rf wf cb w with ⟨r, hr⟩ | ⟨_, _, _, hr⟩
    · left
      rw [hr]
      refine ⟨[Event.read_frame MODBUS_MAX_FRAME_SIZE], rfl, ?_⟩
      intro e hm
      rw [List.mem_singleton] at hm
      subst hm
      rfl
    · rw [hr]
      rcases key (accepted rf w) (accepted_ok rf hok) hb with ⟨evs, ht, he⟩ |
        ⟨pre, hp, hbp, hokp, hrp, evs, ht, he⟩
      · left
        refine ⟨Event.read_frame 256 :: evs, ?_, ?_⟩
        · rw [ht, accepted_trace, List.append_assoc]
          rfl
        · intro e hm
          rcases List.mem_cons.mp hm with rfl | hm
          · rfl
          · exact he e hm
      · right
        refine ⟨pre, hp, hbp, hokp, hrp, Event.read_frame 256 :: evs, ?_, ?_⟩
        · rw [ht, accepted_trace, List.append_assoc]
          rfl
        · intro e hm
          rcases List.mem_cons.mp hm with rfl | hm
          · rfl
          · exact he e hm
  | SERVER_STATE_PROCESSING_REQUEST =>
    rw [poll_processing hb hs]
    exact key w hok hb
  | SERVER_STATE_SEND_REPLY =>
    right
    exact ⟨w, poll_send_reply hb hs, hb, hok, hsend hs, [], (List.append_nil _).symm,
      fun _ hm => absurd hm (List.not_mem_nil _)⟩

/-- The three ways `send_reply` ends, by the value `write_frame` returned. -/
theorem send_reply_cases (wf : write_frame_fn σ) (pre : World σ) :
    (write_frame_ret wf pre = 0 →
      (send_reply wf pre).1.server.state = SERVER_STATE_IDLE ∧
      (send_reply wf pre).1.server.frame_length = 0 ∧ (send_reply wf pre).2 = 0) ∧
    (write_frame_ret wf pre < 0 →
      (send_reply wf pre).1.server.state = SERVER_STATE_IDLE ∧
      (send_reply wf pre).1.server.frame_length = 0 ∧
      (send_reply wf pre).2 = write_frame_ret wf pre) ∧
    (0 < write_frame_ret wf pre →
      (send_reply wf pre).1.server.state = SERVER_STATE_SEND_REPLY ∧
      (send_reply wf pre).1.server.frame_length = pre.server.frame_length ∧
      (send_reply wf pre).1.server.buffer = pre.server.buffer ∧
      (send_reply wf pre).2 = -EAGAIN) := by
  unfold write_frame_ret send_reply
  simp only []
  refine ⟨fun h => ?_, fun h => ?_, fun h => ?_⟩
  · rw [if_neg (by omega), if_pos h]
    exact ⟨rfl, rfl, rfl⟩
  · rw [if_pos h]
    exact ⟨rfl, rfl, rfl⟩
  · rw [if_neg (by omega), if_neg (by omega)]
    exact ⟨rfl, rfl, rfl, rfl⟩

theorem send_reply_result (wf : write_frame_fn σ) (pre : World σ) :
    (send_reply wf pre).2 = emit_result (write_frame_ret wf pre) := by
  rw [send_reply_ret]
  rfl

end EmitLemmas

section CallLemmas2

variable {σ : Type}

end CallLemmas2

/-! ### The CRC loop in parts -/

section CrcLoop

theorem foldl_range'_split (f : Nat → Nat → Nat) (c a m n : Nat) :
    (List.range' a (m + n)).foldl f c =
      (List.range' (a + m) n).foldl f ((List.range' a m).foldl f c) := by
  rw [← List.foldl_append, Nat.add_comm m n]
  have := List.range'_append a m n 1
  rw [Nat.one_mul] at this
  rw [this]

theorem foldl_range'_congr (f g : Nat → Nat → Nat) (a n : Nat)
    (h : ∀ c i, a ≤ i → i < a + n → f c i = g c i) (c : Nat) :
    (List.range' a n).foldl f c = (List.range' a n).foldl g c := by
  induction n generalizing a c with
  | zero => rfl
  | succ n ih =>
    rw [List.range'_succ, List.foldl_cons, List.foldl_cons, h c a (Nat.le_refl _) (by omega)]
    exact ih (a + 1) (fun c i h1 h2 => h c i (by omega) (by omega)) _

/-- The CRC test on a frame of `n + 2` bytes, from the value `v` of the CRC register
after the loop over the first `n` bytes and the two bytes that follow. -/
theorem crc_matches_of_loop (buf : List Nat) (n v hi lo : Nat)
    (hv : (List.range n).foldl (fun c i => crc_update c (rd buf i)) 0xFFFF = v)
    (hhi : rd buf n = hi) (hlo : rd buf (n + 1) = lo)
    (h : ((v <<< 8) % 65536) ||| (v >>> 8) = ((hi <<< 8) ||| lo) % 65536) :
    crc_matches buf ((n + 2 : Nat) : Int) := by
  unfold crc_matches calculate_crc
  have e2 : (((n + 2 : Nat) : Int) - 2).toNat = n := by omega
  have e1 : (((n + 2 : Nat) : Int) - 1).toNat = n + 1 := by omega
  simp only []
  rw [e2, e1, hv, hhi, hlo]
  exact h

end CrcLoop

/-! ### Steps of the framer -/

section FramerSteps

variable {τ : Type}

theorem receive_idle {w : RtuWorld τ} {sc : τ → Nat → τ} {wrt : τ → List Nat → Nat → τ × Int}
    {fr : τ → τ} (hc : configured w sc wrt fr) (hs : w.rtu.state = RTU_STATE_IDLE)
    (byte : Nat) :
    smb_rtu_receive byte w =
      ({ rtu := { w.rtu with rx_buffer := wr w.rtu.rx_buffer 0 (byte % 256),
                             buffer_index := 1, state := RTU_STATE_RECEIVE },
         host := sc w.host w.rtu.t_1_5char_us,
         trace := w.trace ++ [RtuEvent.start_counter w.rtu.t_1_5char_us] }, 0) := by
  have hc2 : w.rtu.interface = some ⟨some sc, some wrt, some fr⟩ := hc
  unfold smb_rtu_receive exec_sm exec_idle
  rw [hc2, hs]
  simp only [if_true]
  rw [if_neg (by decide)]
  rfl

theorem receive_receiving {w : RtuWorld τ} {sc : τ → Nat → τ}
    {wrt : τ → List Nat → Nat → τ × Int} {fr : τ → τ} (hc : configured w sc wrt fr)
    (hs : w.rtu.state = RTU_STATE_RECEIVE) (byte : Nat) :
    smb_rtu_receive byte w =
      if w.rtu.buffer_index ≥ MODBUS_RTU_BUFFER_SIZE then (w, -ENOBUFS)
      else
        ({ rtu := { w.rtu with
                    rx_buffer := wr w.rtu.rx_buffer w.rtu.buffer_index (byte % 256),
                    buffer_index := (w.rtu.buffer_index + 1) % 65536 },
           host := sc w.host w.rtu.t_1_5char_us,
           trace := w.trace ++ [RtuEvent.start_counter w.rtu.t_1_5char_us] }, 0) := by
  have hc2 : w.rtu.interface = some ⟨some sc, some wrt, some fr⟩ := hc
  unfold smb_rtu_receive exec_sm exec_receiving
  rw [hc2, hs]
  simp only [if_true]
  rw [if_neg (by decide)]
  by_cases h : w.rtu.buffer_index ≥ MODBUS_RTU_BUFFER_SIZE
  · rw [if_pos h, if_pos h]
  · rw [if_neg h, if_neg h]
    rfl

theorem timeout_receiving {w : RtuWorld τ} {sc : τ → Nat → τ}
    {wrt : τ → List Nat → Nat → τ × Int} {fr : τ → τ} (hc : configured w sc wrt fr)
    (hs : w.rtu.state = RTU_STATE_RECEIVE) :
    smb_rtu_timer_timeout w =
      ({ rtu := { w.rtu with state := RTU_STATE_CONTROL_AND_WAIT },
         host := sc w.host
           (to_u16 ((w.rtu.t_3_5char_us : Int) - (w.rtu.t_1_5char_us : Int))),
         trace := w.trace ++ [RtuEvent.start_counter
           (to_u16 ((w.rtu.t_3_5char_us : Int) - (w.rtu.t_1_5char_us : Int)))] }, 0) := by
  have hc2 : w.rtu.interface = some ⟨some sc, some wrt, some fr⟩ := hc
  unfold smb_rtu_timer_timeout exec_sm exec_receiving
  rw [hc2, hs]
  rfl

theorem receive_waiting {w : RtuWorld τ} {sc : τ → Nat → τ}
    {wrt : τ → List Nat → Nat → τ × Int} {fr : τ → τ} (hc : configured w sc wrt fr)
    (hs : w.rtu.state = RTU_STATE_CONTROL_AND_WAIT) (byte : Nat) :
    smb_rtu_receive byte w = (call_start_counter sc w.rtu.t_3_5char_us w, -EBUSY) := by
  have hc2 : w.rtu.interface = some ⟨some sc, some wrt, some fr⟩ := hc
  unfold smb_rtu_receive exec_sm exec_waiting
  rw [hc2, hs]
  rfl

theorem timeout_waiting {w : RtuWorld τ} {sc : τ → Nat → τ}
    {wrt : τ → List Nat → Nat → τ × Int} {fr : τ → τ} (hc : configured w sc wrt fr)
    (hs : w.rtu.state = RTU_STATE_CONTROL_AND_WAIT) :
    smb_rtu_timer_timeout w =
      if 0 = rd w.rtu.rx_buffer 0 ∨ w.rtu.addr = rd w.rtu.rx_buffer 0 then
        ({ rtu := { w.rtu with state := RTU_STATE_PROCESS_RX_FRAME },
           host := fr w.host,
           trace := w.trace ++ [RtuEvent.frame_received] }, 0)
      else ({ w with rtu := { w.rtu with state := RTU_STATE_IDLE } }, 0) := by
  have hc2 : w.rtu.interface = some ⟨some sc, some wrt, some fr⟩ := hc
  unfold smb_rtu_timer_timeout exec_sm exec_waiting
  rw [hc2, hs]
  simp only []
  by_cases h : 0 = rd w.rtu.rx_buffer 0 ∨ w.rtu.addr = rd w.rtu.rx_buffer 0
  · simp only [if_pos h, if_true]
    rfl
  · simp only [if_neg h, if_true]
    rfl

theorem read_pdu_process {w : RtuWorld τ} {itf : smb_rtu_if_t τ}
    (hc : w.rtu.interface = some itf) (hs : w.rtu.state = RTU_STATE_PROCESS_RX_FRAME)
    (p : byte_ptr) (cap : Nat) :
    smb_rtu_read_pdu (some p) cap w =
      if w.rtu.buffer_index ≥ cap then (w, [], -EINVAL)
      else
        ({ w with rtu := { w.rtu with state := RTU_STATE_IDLE } },
          (List.range w.rtu.buffer_index).map (fun i => rd w.rtu.rx_buffer i),
          (w.rtu.buffer_index : Int)) := by
  unfold smb_rtu_read_pdu exec_sm exec_process
  rw [hc, hs]
  simp only [if_true]

theorem received_first {w : RtuWorld τ} {sc : τ → Nat → τ}
    {wrt : τ → List Nat → Nat → τ × Int} {fr : τ → τ} (hc : configured w sc wrt fr)
    (hs : w.rtu.state = RTU_STATE_IDLE) (hl : w.rtu.rx_buffer.length = MODBUS_RTU_BUFFER_SIZE)
    (x : Nat) :
    Received w [x] (smb_rtu_receive x w).1 ∧ (smb_rtu_receive x w).2 = 0 := by
  rw [receive_idle hc hs]
  refine ⟨⟨rfl, rfl, ?_, ?_, rfl, rfl, rfl, rfl, rfl⟩, rfl⟩
  · intro i hi
    have hi0 : i = 0 := by
      simp only [List.length_singleton] at hi
      omega
    subst hi0
    show rd (wr w.rtu.rx_buffer 0 (x % 256)) 0 = rd [x] 0 % 256
    rw [rd_wr_same (by rw [hl]; decide)]
    show x % 256 % 256 = x % 256
    omega
  · exact wr_length _ _ _

theorem received_next {w0 w : RtuWorld τ} {sc : τ → Nat → τ}
    {wrt : τ → List Nat → Nat → τ × Int} {fr : τ → τ} {b : List Nat}
    (hc : configured w0 sc wrt fr)
    (hl : w0.rtu.rx_buffer.length = MODBUS_RTU_BUFFER_SIZE) (h : Received w0 b w)
    (hn : b.length < MODBUS_RTU_BUFFER_SIZE) (x : Nat) :
    Received w0 (b ++ [x]) (smb_rtu_receive x w).1 ∧ (smb_rtu_receive x w).2 = 0 := by
  have hcw : configured w sc wrt fr := h.interface.trans hc
  have hidx : ¬ w.rtu.buffer_index ≥ MODBUS_RTU_BUFFER_SIZE := by
    rw [h.index]
    omega
  have h256 : MODBUS_RTU_BUFFER_SIZE = 256 := rfl
  rw [receive_receiving hcw h.state, if_neg hidx]
  refine ⟨⟨h.state, ?_, ?_, ?_, h.addr, h.interface, h.t_1_5, h.t_3_5, ?_⟩, rfl⟩
  · show (w.rtu.buffer_index + 1) % 65536 = (b ++ [x]).length
    rw [h.index, List.length_append, List.length_singleton]
    omega
  · intro i hi
    show rd (wr w.rtu.rx_buffer w.rtu.buffer_index (x % 256)) i = rd (b ++ [x]) i % 256
    rw [List.length_append, List.length_singleton] at hi
    by_cases hib : i = b.length
    · subst hib
      rw [h.index, rd_wr_same (by rw [h.length, hl]; exact hn)]
      unfold rd
      rw [List.getD_append_right _ _ _ _ (Nat.le_refl _), Nat.sub_self]
      show x % 256 % 256 = x % 256
      omega
    · have hlt : i < b.length := by omega
      rw [rd_wr_ne _ (by rw [h.index]; exact Ne.symm hib), h.bytes i hlt]
      unfold rd
      rw [List.getD_append _ _ _ _ hlt]
  · show (wr w.rtu.rx_buffer w.rtu.buffer_index (x % 256)).length = _
    rw [wr_length, h.length]
  · show w.trace ++ [RtuEvent.start_counter w.rtu.t_1_5char_us] = _
    rw [h.trace, h.t_1_5, List.length_append, List.length_singleton, List.replicate_succ',
      List.append_assoc]

/-- Bytes received in a row after the first are appended to the buffered ones; each
`smb_rtu_receive` returns 0. -/
theorem received_more {w0 : RtuWorld τ} {sc : τ → Nat → τ}
    {wrt : τ → List Nat → Nat → τ × Int} {fr : τ → τ} (hc : configured w0 sc wrt fr)
    (hl : w0.rtu.rx_buffer.length = MODBUS_RTU_BUFFER_SIZE) (bs : List Nat) :
    ∀ (b : List Nat) (w : RtuWorld τ), Received w0 b w →
      b.length + bs.length ≤ MODBUS_RTU_BUFFER_SIZE →
      Received w0 (b ++ bs) (rx_bytes bs w) ∧
        rx_results bs w = List.replicate bs.length 0 := by
  induction bs with
  | nil =>
    intro b w h _
    rw [List.append_nil]
    exact ⟨h, rfl⟩
  | cons x bs ih =>
    intro b w h hn
    rw [List.length_cons] at hn
    obtain ⟨h1, h2⟩ := received_next hc hl h (by omega) x
    obtain ⟨h3, h4⟩ := ih (b ++ [x]) _ h1 (by
      rw [List.length_append, List.length_singleton]
      omega)
    rw [List.append_assoc] at h3
    refine ⟨h3, ?_⟩
    show (smb_rtu_receive x w).2 :: rx_results bs (smb_rtu_receive x w).1 = _
    rw [h2, h4]
    rfl

/-- Reception of up to 256 bytes in a row, starting in Idle. -/
theorem received_all {w : RtuWorld τ} {sc : τ → Nat → τ}
    {wrt : τ → List Nat → Nat → τ × Int} {fr : τ → τ} (hc : configured w sc wrt fr)
    (hs : w.rtu.state = RTU_STATE_IDLE) (hl : w.rtu.rx_buffer.length = MODBUS_RTU_BUFFER_SIZE)
    (b : List Nat) (h1 : 1 ≤ b.length) (h256 : b.length ≤ MODBUS_RTU_BUFFER_SIZE) :
    Received w b (rx_bytes b w) ∧ rx_results b w = List.replicate b.length 0 := by
  cases b with
  | nil => exact absurd h1 (by decide)
  | cons x bs =>
    obtain ⟨h2, h3⟩ := received_first hc hs hl x
    rw [List.length_cons] at h256
    obtain ⟨h4, h5⟩ := received_more hc hl bs [x] _ h2 (by
      rw [List.length_singleton]
      omega)
    refine ⟨h4, ?_⟩
    show (smb_rtu_receive x w).2 :: rx_results bs (smb_rtu_receive x w).1 = _
    rw [h3, h5]
    rfl

end FramerSteps

section FramerTx

variable {τ : Type}

theorem write_pdu_idle {w : RtuWorld τ} {sc : τ → Nat → τ}
    {wrt : τ → List Nat → Nat → τ × Int} {fr : τ → τ} (hc : configured w sc wrt fr)
    (hs : w.rtu.state = RTU_STATE_IDLE) (p : byte_ptr) (len : Nat) (h1 : 1 ≤ len)
    (h256 : len ≤ MODBUS_RTU_BUFFER_SIZE) :
    smb_rtu_write_pdu (some p) len w =
      if (wrt w.host p.mem len).2 < 0 then
        ({ w with host := (wrt w.host p.mem len).1,
                  trace := w.trace ++ [RtuEvent.write (p.mem.take len) len] },
          (wrt w.host p.mem len).2)
      else if (wrt w.host p.mem len).2 < (len : Int) then
        ({ rtu := { w.rtu with buffer_index := to_u16 (wrt w.host p.mem len).2,
                               state := RTU_STATE_EMIT,
                               current_tx_buffer := some p.id,
                               current_tx_length := len },
           host := sc (wrt w.host p.mem len).1 w.rtu.t_1_5char_us,
           trace := w.trace ++ [RtuEvent.write (p.mem.take len) len] ++
             [RtuEvent.start_counter w.rtu.t_1_5char_us] }, -EAGAIN)
      else
        ({ rtu := { w.rtu with state := RTU_STATE_WAIT_FOR_TX_COMPLETE },
           host := sc (wrt w.host p.mem len).1 w.rtu.t_3_5char_us,
           trace := w.trace ++ [RtuEvent.write (p.mem.take len) len] ++
             [RtuEvent.start_counter w.rtu.t_3_5char_us] }, 0) := by
  have hc2 : w.rtu.interface = some ⟨some sc, some wrt, some fr⟩ := hc
  have hz : ¬ (len = 0 ∨ len > MODBUS_RTU_BUFFER_SIZE) := by omega
  unfold smb_rtu_write_pdu exec_sm exec_idle
  rw [hc2, hs]
  simp only []
  rw [if_neg (show ¬ len > MODBUS_RTU_BUFFER_SIZE by omega)]
  simp only [if_true, if_neg hz]
  split_ifs <;> first | rfl | contradiction

theorem write_pdu_emit {w : RtuWorld τ} {sc : τ → Nat → τ}
    {wrt : τ → List Nat → Nat → τ × Int} {fr : τ → τ} (hc : configured w sc wrt fr)
    (hs : w.rtu.state = RTU_STATE_EMIT) (p : byte_ptr) (len : Nat)
    (hi : w.rtu.buffer_index < len) (h256 : len ≤ MODBUS_RTU_BUFFER_SIZE)
    (hb : w.rtu.current_tx_buffer = some p.id) (hl : w.rtu.current_tx_length = len) :
    smb_rtu_write_pdu (some p) len w =
      if (wrt w.host (p.mem.drop w.rtu.buffer_index) (len - w.rtu.buffer_index)).2 < 0 then
        ({ rtu := { w.rtu with state := RTU_STATE_WAIT_FOR_TX_COMPLETE },
           host := sc (wrt w.host (p.mem.drop w.rtu.buffer_index)
             (len - w.rtu.buffer_index)).1 w.rtu.t_3_5char_us,
           trace := w.trace ++
             [RtuEvent.write ((p.mem.drop w.rtu.buffer_index).take (len - w.rtu.buffer_index))
               (len - w.rtu.buffer_index)] ++
             [RtuEvent.start_counter w.rtu.t_3_5char_us] },
          (wrt w.host (p.mem.drop w.rtu.buffer_index) (len - w.rtu.buffer_index)).2)
      else if (wrt w.host (p.mem.drop w.rtu.buffer_index) (len - w.rtu.buffer_index)).2 <
          (len : Int) - (w.rtu.buffer_index : Int) then
        ({ rtu := { w.rtu with buffer_index := (w.rtu.buffer_index +
             (wrt w.host (p.mem.drop w.rtu.buffer_index)
               (len - w.rtu.buffer_index)).2.toNat) % 65536 },
           host := sc (wrt w.host (p.mem.drop w.rtu.buffer_index)
             (len - w.rtu.buffer_index)).1 w.rtu.t_1_5char_us,
           trace := w.trace ++
             [RtuEvent.write ((p.mem.drop w.rtu.buffer_index).take (len - w.rtu.buffer_index))
               (len - w.rtu.buffer_index)] ++
             [RtuEvent.start_counter w.rtu.t_1_5char_us] }, -EAGAIN)
      else if (wrt w.host (p.mem.drop w.rtu.buffer_index) (len - w.rtu.buffer_index)).2 =
          (len : Int) - (w.rtu.buffer_index : Int) then
        ({ rtu := { w.rtu with state := RTU_STATE_WAIT_FOR_TX_COMPLETE },
           host := sc (wrt w.host (p.mem.drop w.rtu.buffer_index)
             (len - w.rtu.buffer_index)).1 w.rtu.t_3_5char_us,
           trace := w.trace ++
             [RtuEvent.write ((p.mem.drop w.rtu.buffer_index).take (len - w.rtu.buffer_index))
               (len - w.rtu.buffer_index)] ++
             [RtuEvent.start_counter w.rtu.t_3_5char_us] }, 0)
      else
        ({ w with host := (wrt w.host (p.mem.drop w.rtu.buffer_index)
             (len - w.rtu.buffer_index)).1,
                  trace := w.trace ++
             [RtuEvent.write ((p.mem.drop w.rtu.buffer_index).take (len - w.rtu.buffer_index))
               (len - w.rtu.buffer_index)] }, -EFAULT) := by
  have hc2 : w.rtu.interface = some ⟨some sc, some wrt, some fr⟩ := hc
  have h256n : MODBUS_RTU_BUFFER_SIZE = 256 := rfl
  have hu : to_u16 ((len : Int) - (w.rtu.buffer_index : Int)) = len - w.rtu.buffer_index := by
    unfold to_u16
    rw [h256n] at h256
    omega
  unfold smb_rtu_write_pdu exec_sm exec_emitting
  rw [hc2, hs]
  simp only []
  rw [if_neg (show ¬ len > MODBUS_RTU_BUFFER_SIZE by omega)]
  simp only [if_true]
  rw [if_neg (show ¬ w.rtu.buffer_index ≥ len by omega), if_neg (fun h => h hb),
    if_neg (fun h => h hl), hu]
  split_ifs <;> rfl

end FramerTx

section FramerLemmas2

variable {τ : Type}

theorem timings_le {r : rtu_t τ} (h : timings_ok r) :
    r.t_1_5char_us ≤ r.t_3_5char_us ∧ r.t_3_5char_us < 65536 := by
  obtain ⟨baud, hb⟩ := h
  simp only [baud_table, List.mem_cons, Prod.mk.injEq, List.mem_singleton, List.mem_nil_iff,
    or_false] at hb
  omega

theorem timings_diff {r : rtu_t τ} (h : timings_ok r) :
    to_u16 ((r.t_3_5char_us : Int) - (r.t_1_5char_us : Int)) =
      r.t_3_5char_us - r.t_1_5char_us := by
  obtain ⟨h1, h2⟩ := timings_le h
  unfold to_u16
  omega

/-- With the receive buffer full, a further byte is refused and nothing changes. -/
theorem receive_full {w0 w : RtuWorld τ} {sc : τ → Nat → τ}
    {wrt : τ → List Nat → Nat → τ × Int} {fr : τ → τ} {b : List Nat}
    (hc : configured w0 sc wrt fr) (h : Received w0 b w)
    (hn : b.length = MODBUS_RTU_BUFFER_SIZE) (x : Nat) :
    smb_rtu_receive x w = (w, -ENOBUFS) := by
  rw [receive_receiving (h.interface.trans hc) h.state, if_pos (by rw [h.index, hn])]

theorem receive_full_all {w0 w : RtuWorld τ} {sc : τ → Nat → τ}
    {wrt : τ → List Nat → Nat → τ × Int} {fr : τ → τ} {b : List Nat}
    (hc : configured w0 sc wrt fr) (h : Received w0 b w)
    (hn : b.length = MODBUS_RTU_BUFFER_SIZE) (late : List Nat) :
    rx_bytes late w = w ∧ rx_results late w = List.replicate late.length (-ENOBUFS) := by
  induction late with
  | nil => exact ⟨rfl, rfl⟩
  | cons x late ih =>
    have hx := receive_full hc h hn x
    constructor
    · show rx_bytes late (smb_rtu_receive x w).1 = w
      rw [hx]
      exact ih.1
    · show (smb_rtu_receive x w).2 :: rx_results late (smb_rtu_receive x w).1 = _
      rw [hx]
      show -ENOBUFS :: rx_results late w = _
      rw [ih.2]
      rfl

/-- The bytes copied out of the receive buffer are the bytes received. -/
theorem copied_bytes {w0 w : RtuWorld τ} {b : List Nat} (h : Received w0 b w)
    (hb : is_bytes b) (buf : List Nat) (hbuf : ∀ i, i < b.length → rd buf i = rd w.rtu.rx_buffer i) :
    (List.range b.length).map (fun i => rd buf i) = b := by
  apply rd_ext
  · rw [List.length_map, List.length_range]
  · intro i hi
    rw [List.length_map, List.length_range] at hi
    unfold rd
    rw [List.getD_eq_getElem _ _ (by rw [List.length_map, List.length_range]; exact hi),
      List.getElem_map, List.getElem_range]
    show rd buf i = rd b i
    rw [hbuf i hi, h.bytes i hi, Nat.mod_eq_of_lt (rd_lt hb i)]

end FramerLemmas2

section FramerLemmas3

variable {τ : Type}

/-- `smb_rtu_read_pdu` outside ProcessRxFrame: nothing changes; the result is `-EBUSY` in
the three phases of a transmission and 0 in the other four. -/
theorem read_pdu_other {w : RtuWorld τ} {sc : τ → Nat → τ}
    {wrt : τ → List Nat → Nat → τ × Int} {fr : τ → τ} (hc : configured w sc wrt fr)
    (hs : w.rtu.state ≠ RTU_STATE_PROCESS_RX_FRAME) (p : byte_ptr) (cap : Nat) :
    smb_rtu_read_pdu (some p) cap w =
      (w, [], if w.rtu.state = RTU_STATE_EMIT ∨ w.rtu.state = RTU_STATE_WAIT_FOR_TX_COMPLETE ∨
          w.rtu.state = RTU_STATE_TX_TIMEOUT then -EBUSY else 0) := by
  have hc2 : w.rtu.interface = some ⟨some sc, some wrt, some fr⟩ := hc
  unfold smb_rtu_read_pdu exec_sm
  rw [hc2]
  simp only []
  cases hst : w.rtu.state with
  | RTU_STATE_INIT =>
    unfold exec_init
    rw [hc2]
    rfl
  | RTU_STATE_IDLE =>
    unfold exec_idle
    rw [hc2]
    rfl
  | RTU_STATE_EMIT =>
    unfold exec_emitting
    rw [hc2]
    rfl
  | RTU_STATE_RECEIVE =>
    unfold exec_receiving
    rw [hc2]
    rfl
  | RTU_STATE_CONTROL_AND_WAIT =>
    unfold exec_waiting
    rw [hc2]
    rfl
  | RTU_STATE_PROCESS_RX_FRAME => exact absurd hst hs
  | RTU_STATE_WAIT_FOR_TX_COMPLETE => rfl
  | RTU_STATE_TX_TIMEOUT =>
    unfold exec_tx_timeout
    rw [hc2]
    rfl

end FramerLemmas3

section FramerCalls

variable {τ : Type}

theorem exec_init_calls (e : rtu_event_t) (w : RtuWorld τ) :
    ∃ evs, (exec_init e w).1.trace = w.trace ++ evs ∧ RtuEvent.frame_received ∉ evs := by
  unfold exec_init
  repeat' split
  all_goals first
    | exact ⟨[], (List.append_nil _).symm, by simp⟩
    | exact ⟨[_], rfl, by simp⟩

theorem exec_idle_calls (e : rtu_event_t) (w : RtuWorld τ) :
    ∃ evs, (exec_idle e w).1.trace = w.trace ++ evs ∧ RtuEvent.frame_received ∉ evs := by
  unfold exec_idle
  simp only []
  repeat' split
  all_goals first
    | exact ⟨[], (List.append_nil _).symm, by simp⟩
    | exact ⟨[_], rfl, by simp⟩
    | exact ⟨_, List.append_assoc _ _ _, by simp⟩

theorem exec_emitting_calls (e : rtu_event_t) (w : RtuWorld τ) :
    ∃ evs, (exec_emitting e w).1.trace = w.trace ++ evs ∧ RtuEvent.frame_received ∉ evs := by
  unfold exec_emitting
  simp only []
  repeat' split
  all_goals first
    | exact ⟨[], (List.append_nil _).symm, by simp⟩
    | exact ⟨[_], rfl, by simp⟩
    | exact ⟨_, List.append_assoc _ _ _, by simp⟩

theorem exec_receiving_calls (e : rtu_event_t) (w : RtuWorld τ) :
    ∃ evs, (exec_receiving e w).1.trace = w.trace ++ evs ∧ RtuEvent.frame_received ∉ evs := by
  unfold exec_receiving
  simp only []
  repeat' split
  all_goals first
    | exact ⟨[], (List.append_nil _).symm, by simp⟩
    | exact ⟨[_], rfl, by simp⟩

theorem exec_process_calls (e : rtu_event_t) (w : RtuWorld τ) :
    (exec_process e w).1.trace = w.trace := by
  unfold exec_process
  simp only []
  repeat' split
  all_goals rfl

theorem exec_wait_for_tx_complete_calls (e : rtu_event_t) (w : RtuWorld τ) :
    (exec_wait_for_tx_complete e w).1.trace = w.trace := by
  unfold exec_wait_for_tx_complete
  split <;> rfl

theorem exec_tx_timeout_calls (e : rtu_event_t) (w : RtuWorld τ) :
    ∃ evs, (exec_tx_timeout e w).1.trace = w.trace ++ evs ∧ RtuEvent.frame_received ∉ evs := by
  unfold exec_tx_timeout
  simp only []
  repeat' split
  all_goals first
    | exact ⟨[], (List.append_nil _).symm, by simp⟩
    | exact ⟨[_], rfl, by simp⟩

theorem exec_waiting_calls (e : rtu_event_t) (w : RtuWorld τ) :
    ∃ evs, (exec_waiting e w).1.trace = w.trace ++ evs ∧
      (RtuEvent.frame_received ∈ evs →
        evs = [RtuEvent.frame_received] ∧ e.action = RTU_ACTION_TIMEOUT ∧
        (rd w.rtu.rx_buffer 0 = 0 ∨ rd w.rtu.rx_buffer 0 = w.rtu.addr)) := by
  unfold exec_waiting
  simp only []
  split
  · exact ⟨[], (List.append_nil _).symm, by simp⟩
  · split
    · exact ⟨[], (List.append_nil _).symm, by simp⟩
    · exact ⟨[], (List.append_nil _).symm, by simp⟩
    · split
      · exact ⟨[_], rfl, by simp⟩
      · split
        · rename_i ht
          split
          · rename_i ha
            refine ⟨[RtuEvent.frame_received], rfl, fun _ => ⟨rfl, ht, ?_⟩⟩
            rcases ha with ha | ha
            · exact Or.inl ha.symm
            · exact Or.inr ha.symm
          · exact ⟨[], (List.append_nil _).symm, by simp⟩
        · repeat' split
          all_goals exact ⟨[], (List.append_nil _).symm, by simp⟩

/-- The only event on which the framer calls `frame_received` is a Timeout in
ControlAndWait with the first buffered byte 0 or the configured address; it is then the
only call made. -/
theorem exec_sm_frame_received (e : rtu_event_t) (w : RtuWorld τ) :
    ∃ evs, (exec_sm e w).1.trace = w.trace ++ evs ∧
      (RtuEvent.frame_received ∈ evs →
        evs = [RtuEvent.frame_received] ∧ w.rtu.state = RTU_STATE_CONTROL_AND_WAIT ∧
        e.action = RTU_ACTION_TIMEOUT ∧
        (rd w.rtu.rx_buffer 0 = 0 ∨ rd w.rtu.rx_buffer 0 = w.rtu.addr)) := by
  unfold exec_sm
  cases hst : w.rtu.state with
  | RTU_STATE_INIT =>
    obtain ⟨evs, h1, h2⟩ := exec_init_calls e w
    exact ⟨evs, h1, fun h => absurd h h2⟩
  | RTU_STATE_IDLE =>
    obtain ⟨evs, h1, h2⟩ := exec_idle_calls e w
    exact ⟨evs, h1, fun h => absurd h h2⟩
  | RTU_STATE_EMIT =>
    obtain ⟨evs, h1, h2⟩ := exec_emitting_calls e w
    exact ⟨evs, h1, fun h => absurd h h2⟩
  | RTU_STATE_RECEIVE =>
    obtain ⟨evs, h1, h2⟩ := exec_receiving_calls e w
    exact ⟨evs, h1, fun h => absurd h h2⟩
  | RTU_STATE_CONTROL_AND_WAIT =>
    obtain ⟨evs, h1, h2⟩ := exec_waiting_calls e w
    exact ⟨evs, h1, fun h => ⟨(h2 h).1, rfl, (h2 h).2⟩⟩
  | RTU_STATE_PROCESS_RX_FRAME =>
    exact ⟨[], by rw [List.append_nil]; exact exec_process_calls e w, by simp⟩
  | RTU_STATE_WAIT_FOR_TX_COMPLETE =>
    exact ⟨[], by rw [List.append_nil]; exact exec_wait_for_tx_complete_calls e w, by simp⟩
  | RTU_STATE_TX_TIMEOUT =>
    obtain ⟨evs, h1, h2⟩ := exec_tx_timeout_calls e w
    exact ⟨evs, h1, fun h => absurd h h2⟩

end FramerCalls

section FramerLemmas4

variable {τ : Type}

/-- Bytes that arrive in ControlAndWait are refused: each `smb_rtu_receive` returns
`-EBUSY` and calls `start_counter` with t3.5; `rtu_` does not change. -/
theorem late_bytes {sc : τ → Nat → τ} {wrt : τ → List Nat → Nat → τ × Int} {fr : τ → τ}
    (late : List Nat) :
    ∀ w : RtuWorld τ, configured w sc wrt fr → w.rtu.state = RTU_STATE_CONTROL_AND_WAIT →
      rx_results late w = List.replicate late.length (-EBUSY) ∧
      (rx_bytes late w).rtu = w.rtu ∧
      (rx_bytes late w).trace =
        w.trace ++ List.replicate late.length (RtuEvent.start_counter w.rtu.t_3_5char_us) := by
  induction late with
  | nil =>
    intro w _ _
    exact ⟨rfl, rfl, (List.append_nil _).symm⟩
  | cons x late ih =>
    intro w hc hs
    have hx := receive_waiting hc hs x
    obtain ⟨h1, h2, h3⟩ := ih (call_start_counter sc w.rtu.t_3_5char_us w) hc hs
    refine ⟨?_, ?_, ?_⟩
    · show (smb_rtu_receive x w).2 :: rx_results late (smb_rtu_receive x w).1 = _
      rw [hx]
      show -EBUSY :: rx_results late (call_start_counter sc w.rtu.t_3_5char_us w) = _
      rw [h1]
      rfl
    · show (rx_bytes late (smb_rtu_receive x w).1).rtu = _
      rw [hx]
      exact h2
    · show (rx_bytes late (smb_rtu_receive x w).1).trace = _
      rw [hx]
      show (rx_bytes late (call_start_counter sc w.rtu.t_3_5char_us w)).trace = _
      rw [h3]
      show w.trace ++ [_] ++ _ = _
      rw [List.append_assoc]
      rfl

/-- What `smb_rtu_timer_timeout` in ControlAndWait followed by `smb_rtu_read_pdu` hands
out depends on `rtu_` only. -/
theorem filter_then_read {w v : RtuWorld τ} {sc : τ → Nat → τ}
    {wrt : τ → List Nat → Nat → τ × Int} {fr : τ → τ} (hc : configured w sc wrt fr)
    (hs : w.rtu.state = RTU_STATE_CONTROL_AND_WAIT) (hv : v.rtu = w.rtu) (p : byte_ptr)
    (cap : Nat) :
    (smb_rtu_read_pdu (some p) cap (smb_rtu_timer_timeout v).1).2 =
      (smb_rtu_read_pdu (some p) cap (smb_rtu_timer_timeout w).1).2 := by
  have hcv : configured v sc wrt fr := by
    unfold configured
    rw [hv]
    exact hc
  have hsv : v.rtu.state = RTU_STATE_CONTROL_AND_WAIT := by rw [hv]; exact hs
  rw [timeout_waiting hc hs, timeout_waiting hcv hsv, hv]
  by_cases h : 0 = rd w.rtu.rx_buffer 0 ∨ w.rtu.addr = rd w.rtu.rx_buffer 0
  · rw [if_pos h, if_pos h]
    have hc2 : w.rtu.interface = some ⟨some sc, some wrt, some fr⟩ := hc
    rw [@read_pdu_process τ ⟨{ w.rtu with state := RTU_STATE_PROCESS_RX_FRAME }, fr v.host,
        v.trace ++ [RtuEvent.frame_received]⟩ _ hc2 rfl,
      @read_pdu_process τ ⟨{ w.rtu with state := RTU_STATE_PROCESS_RX_FRAME }, fr w.host,
        w.trace ++ [RtuEvent.frame_received]⟩ _ hc2 rfl]
    by_cases hcap : w.rtu.buffer_index ≥ cap
    · rw [if_pos hcap, if_pos hcap]
    · rw [if_neg hcap, if_neg hcap]
  · rw [if_neg h, if_neg h]
    rw [@read_pdu_other τ ⟨{ w.rtu with state := RTU_STATE_IDLE }, v.host, v.trace⟩
        sc wrt fr hc (fun h => rtu_state_t.noConfusion h),
      @read_pdu_other τ ⟨{ w.rtu with state := RTU_STATE_IDLE }, w.host, w.trace⟩
        sc wrt fr hc (fun h => rtu_state_t.noConfusion h)]

end FramerLemmas4

section FramerTxRun

variable {τ : Type}

/-- One call of `smb_rtu_write_pdu(p, len)` while `s < len` bytes have been accepted and
`host.write` accepts `r` of the bytes it is offered. -/
theorem tx_step {w : RtuWorld τ} {sc : τ → Nat → τ} {wrt : τ → List Nat → Nat → τ × Int}
    {fr : τ → τ} {p : byte_ptr} {len s : Nat} (hc : configured w sc wrt fr)
    (hr : TxReady p len s w) (hs : s < len) (h256 : len ≤ MODBUS_RTU_BUFFER_SIZE)
    (h0 : 0 ≤ host_write_ret p len s w)
    (hle : host_write_ret p len s w ≤ (len : Int) - (s : Int)) :
    (smb_rtu_write_pdu (some p) len w).1.trace =
        w.trace ++ [RtuEvent.write ((p.mem.drop s).take (len - s)) (len - s),
          RtuEvent.start_counter
            (if s + (host_write_ret p len s w).toNat = len then w.rtu.t_3_5char_us
             else w.rtu.t_1_5char_us)] ∧
      (smb_rtu_write_pdu (some p) len w).2 =
        (if s + (host_write_ret p len s w).toNat = len then 0 else -EAGAIN) ∧
      (smb_rtu_write_pdu (some p) len w).1.rtu.state =
        (if s + (host_write_ret p len s w).toNat = len then RTU_STATE_WAIT_FOR_TX_COMPLETE
         else RTU_STATE_EMIT) ∧
      (smb_rtu_write_pdu (some p) len w).1.rtu.interface = w.rtu.interface ∧
      (smb_rtu_write_pdu (some p) len w).1.rtu.t_1_5char_us = w.rtu.t_1_5char_us ∧
      (smb_rtu_write_pdu (some p) len w).1.rtu.t_3_5char_us = w.rtu.t_3_5char_us ∧
      (s + (host_write_ret p len s w).toNat ≠ len →
        TxReady p len (s + (host_write_ret p len s w).toNat)
          (smb_rtu_write_pdu (some p) len w).1) := by
  have hc2 : w.rtu.interface = some ⟨some sc, some wrt, some fr⟩ := hc
  have h256n : MODBUS_RTU_BUFFER_SIZE = 256 := rfl
  have hret : host_write_ret p len s w = (wrt w.host (p.mem.drop s) (len - s)).2 := by
    unfold host_write_ret
    rw [hc2]
  rw [hret] at h0 hle ⊢
  rcases hr with ⟨hst, hs0⟩ | ⟨hst, hidx, hbuf, hlen⟩
  · subst hs0
    have h := write_pdu_idle hc hst p len (by omega) h256
    have e1 : (wrt w.host (p.mem.drop 0) (len - 0)).2 = (wrt w.host p.mem len).2 := rfl
    rw [e1] at h0 hle ⊢
    rw [h, if_neg (by omega)]
    by_cases hd : 0 + (wrt w.host p.mem len).2.toNat = len
    · rw [if_neg (by omega), if_pos hd, if_pos hd, if_pos hd]
      refine ⟨?_, rfl, rfl, rfl, rfl, rfl, fun h => absurd hd h⟩
      show w.trace ++ [_] ++ [_] = _
      rw [List.append_assoc]
      rfl
    · rw [if_pos (by omega), if_neg hd, if_neg hd, if_neg hd]
      refine ⟨?_, rfl, rfl, rfl, rfl, rfl, fun _ => Or.inr ⟨rfl, ?_, rfl, rfl⟩⟩
      · show w.trace ++ [_] ++ [_] = _
        rw [List.append_assoc]
        rfl
      · show to_u16 (wrt w.host p.mem len).2 = _
        unfold to_u16
        omega
  · subst hidx
    have h := write_pdu_emit hc hst p len hs h256 hbuf hlen
    rw [h, if_neg (by omega)]
    by_cases hd : w.rtu.buffer_index +
        (wrt w.host (p.mem.drop w.rtu.buffer_index) (len - w.rtu.buffer_index)).2.toNat = len
    · rw [if_neg (by omega), if_pos (by omega), if_pos hd, if_pos hd, if_pos hd]
      refine ⟨?_, rfl, rfl, rfl, rfl, rfl, fun h => absurd hd h⟩
      show w.trace ++ [_] ++ [_] = _
      rw [List.append_assoc]
      rfl
    · rw [if_pos (by omega), if_neg hd, if_neg hd, if_neg hd]
      refine ⟨?_, rfl, hst, rfl, rfl, rfl, fun _ => Or.inr ⟨hst, ?_, hbuf, hlen⟩⟩
      · show w.trace ++ [_] ++ [_] = _
        rw [List.append_assoc]
        rfl
      · show (w.rtu.buffer_index + _) % 65536 = _
        omega

/-- While bytes remain, the framer that is offered the same buffer and length again is
in the phase `TxReady` with the bytes accepted so far. -/
theorem tx_run {w : RtuWorld τ} {sc : τ → Nat → τ} {wrt : τ → List Nat → Nat → τ × Int}
    {fr : τ → τ} {p : byte_ptr} {len : Nat} (hc : configured w sc wrt fr)
    (hs : w.rtu.state = RTU_STATE_IDLE) (h256 : len ≤ MODBUS_RTU_BUFFER_SIZE) (k : Nat)
    (hres : ∀ j, j < k →
      0 ≤ host_write_ret p len (tx_sent p len j w) (tx_calls p len j w) ∧
      host_write_ret p len (tx_sent p len j w) (tx_calls p len j w) ≤
        (len : Int) - (tx_sent p len j w : Int))
    (hrem : tx_sent p len k w < len) :
    configured (tx_calls p len k w) sc wrt fr ∧
      TxReady p len (tx_sent p len k w) (tx_calls p len k w) ∧
      (tx_calls p len k w).rtu.t_1_5char_us = w.rtu.t_1_5char_us ∧
      (tx_calls p len k w).rtu.t_3_5char_us = w.rtu.t_3_5char_us := by
  induction k with
  | zero => exact ⟨hc, Or.inl ⟨hs, rfl⟩, rfl, rfl⟩
  | succ k ih =>
    have hk := hres k (Nat.lt_succ_self k)
    have hsk : tx_sent p len (k + 1) w =
        tx_sent p len k w +
          (host_write_ret p len (tx_sent p len k w) (tx_calls p len k w)).toNat := rfl
    rw [hsk] at hrem ⊢
    obtain ⟨hck, hrk, ht1, ht3⟩ := ih (fun j hj => hres j (Nat.lt_succ_of_lt hj)) (by omega)
    obtain ⟨_, _, _, hi, h15, h35, hn⟩ := tx_step hck hrk (by omega) h256 hk.1 hk.2
    exact ⟨hi.trans hck, hn (by omega), h15.trans ht1, h35.trans ht3⟩

/-- The bytes accepted in the first `k` calls are the first `tx_sent` bytes of the
buffer, in order. -/
theorem tx_accepted_eq (w : RtuWorld τ) (p : byte_ptr) (len : Nat) (k : Nat)
    (hres : ∀ j, j < k →
      0 ≤ host_write_ret p len (tx_sent p len j w) (tx_calls p len j w) ∧
      host_write_ret p len (tx_sent p len j w) (tx_calls p len j w) ≤
        (len : Int) - (tx_sent p len j w : Int)) :
    tx_accepted p len k w = p.mem.take (tx_sent p len k w) := by
  induction k with
  | zero => rfl
  | succ k ih =>
    have hk := hres k (Nat.lt_succ_self k)
    show tx_accepted p len k w ++ _ = p.mem.take (tx_sent p len k w + _)
    rw [ih (fun j hj => hres j (Nat.lt_succ_of_lt hj)), List.take_add, List.take_take,
      Nat.min_eq_left (by omega)]

end FramerTxRun

section FramerLemmas5

variable {τ : Type}

/-- After 1 to 256 bytes received from Idle, the first of them the configured address or
0, and the two timeouts that end the frame: the frame is pending in ProcessRxFrame. -/
theorem rx_frame_pending {w : RtuWorld τ} {sc : τ → Nat → τ}
    {wrt : τ → List Nat → Nat → τ × Int} {fr : τ → τ} (hc : configured w sc wrt fr)
    (hs : w.rtu.state = RTU_STATE_IDLE) (hl : w.rtu.rx_buffer.length = MODBUS_RTU_BUFFER_SIZE)
    (b : List Nat) (h1 : 1 ≤ b.length) (h256 : b.length ≤ MODBUS_RTU_BUFFER_SIZE)
    (haddr : rd b 0 % 256 = w.rtu.addr ∨ rd b 0 % 256 = 0) :
    (smb_rtu_timer_timeout (rx_bytes b w)).2 = 0 ∧
      (smb_rtu_timer_timeout (smb_rtu_timer_timeout (rx_bytes b w)).1).2 = 0 ∧
      (rx_frame b w).rtu.state = RTU_STATE_PROCESS_RX_FRAME ∧
      (rx_frame b w).rtu.buffer_index = b.length ∧
      (rx_frame b w).rtu.rx_buffer = (rx_bytes b w).rtu.rx_buffer ∧
      (rx_frame b w).rtu.interface = some ⟨some sc, some wrt, some fr⟩ ∧
      (rx_frame b w).trace =
        w.trace ++ List.replicate b.length (RtuEvent.start_counter w.rtu.t_1_5char_us) ++
          [RtuEvent.start_counter
            (to_u16 ((w.rtu.t_3_5char_us : Int) - (w.rtu.t_1_5char_us : Int))),
           RtuEvent.frame_received] := by
  obtain ⟨hr, _⟩ := received_all hc hs hl b h1 h256
  have hc1 : configured (rx_bytes b w) sc wrt fr := hr.interface.trans hc
  have ht1 := timeout_receiving hc1 hr.state
  have hc2 : configured (smb_rtu_timer_timeout (rx_bytes b w)).1 sc wrt fr := by
    rw [ht1]
    exact hc1
  have hs2 : (smb_rtu_timer_timeout (rx_bytes b w)).1.rtu.state =
      RTU_STATE_CONTROL_AND_WAIT := by
    rw [ht1]
  have hrx : (smb_rtu_timer_timeout (rx_bytes b w)).1.rtu.rx_buffer =
      (rx_bytes b w).rtu.rx_buffer := by
    rw [ht1]
  have had : (smb_rtu_timer_timeout (rx_bytes b w)).1.rtu.addr = w.rtu.addr := by
    rw [ht1]
    exact hr.addr
  have h0 : rd (rx_bytes b w).rtu.rx_buffer 0 = rd b 0 % 256 := hr.bytes 0 (by omega)
  have hacc : 0 = rd (smb_rtu_timer_timeout (rx_bytes b w)).1.rtu.rx_buffer 0 ∨
      (smb_rtu_timer_timeout (rx_bytes b w)).1.rtu.addr =
        rd (smb_rtu_timer_timeout (rx_bytes b w)).1.rtu.rx_buffer 0 := by
    rw [hrx, had, h0]
    rcases haddr with h | h
    · exact Or.inr h.symm
    · exact Or.inl h.symm
  have ht2 := timeout_waiting hc2 hs2
  rw [if_pos hacc] at ht2
  have hf : rx_frame b w =
      { rtu := { (smb_rtu_timer_timeout (rx_bytes b w)).1.rtu with
                 state := RTU_STATE_PROCESS_RX_FRAME },
        host := fr (smb_rtu_timer_timeout (rx_bytes b w)).1.host,
        trace := (smb_rtu_timer_timeout (rx_bytes b w)).1.trace ++
          [RtuEvent.frame_received] } := by
    unfold rx_frame
    rw [ht2]
  refine ⟨by rw [ht1], by rw [ht2], by rw [hf], ?_, ?_, ?_, ?_⟩
  · rw [hf, ht1]
    exact hr.index
  · rw [hf, ht1]
  · rw [hf]
    exact hc2
  · rw [hf, ht1]
    show (rx_bytes b w).trace ++ [_] ++ [_] = _
    rw [hr.trace, hr.t_1_5, hr.t_3_5]
    simp only [List.append_assoc, List.cons_append, List.nil_append]

end FramerLemmas5

/-! ### The CRC against its reference -/

section CrcLemmas

theorem crc_shift_eq (c : Nat) : crc_shift c = crc16_bit c := by
  unfold crc_shift crc16_bit
  rw [Nat.and_one_is_mod, Nat.shiftRight_eq_div_pow]
  have h2 : c / 2 ^ 1 = c / 2 := by norm_num
  rw [h2]
  by_cases h : c % 2 = 1
  · rw [if_pos h, if_pos (by omega)]
  · rw [if_neg h, if_neg (by omega)]

theorem crc_update_eq (c b : Nat) : crc_update c b = crc16_byte c b := by
  unfold crc_update crc16_byte
  simp only [List.range, List.range.loop, List.foldl, crc_shift_eq]
  rfl

theorem foldl_range_rd (f : Nat → Nat → Nat) (d : List Nat) :
    ∀ c, (List.range d.length).foldl (fun c i => f c (rd d i)) c = d.foldl f c := by
  induction d using List.reverseRecOn with
  | nil => intro c; rfl
  | append_singleton t a ih =>
    intro c
    rw [List.length_append, List.length_singleton, List.range_succ, List.foldl_append,
      List.foldl_append]
    have h1 : (List.range t.length).foldl (fun c i => f c (rd (t ++ [a]) i)) c =
        (List.range t.length).foldl (fun c i => f c (rd t i)) c := by
      apply List.foldl_ext
      intro c i hi
      have hi2 : i < t.length := List.mem_range.mp hi
      unfold rd
      rw [List.getD_append _ _ _ _ hi2]
    rw [h1, ih]
    simp only [List.foldl_cons, List.foldl_nil]
    unfold rd
    rw [List.getD_append_right _ _ _ _ (Nat.le_refl _)]
    simp

theorem crc_acc_eq (d : List Nat) :
    (List.range d.length).foldl (fun c i => crc_update c (rd d i)) 0xFFFF = crc16_modbus d := by
  rw [foldl_range_rd crc_update d]
  unfold crc16_modbus
  congr 1
  funext c b
  exact crc_update_eq c b

theorem crc16_modbus_lt {d : List Nat} (hd : is_bytes d) : crc16_modbus d < 65536 := by
  rw [← crc_acc_eq]
  exact crc_acc_lt d hd d.length

theorem swap_word (c : Nat) (h : c < 65536) :
    ((c <<< 8) % 65536) ||| (c >>> 8) = byte_swap c := by
  unfold byte_swap
  have h1 : (c <<< 8) % 65536 = (c % 256) <<< 8 := by
    rw [Nat.shiftLeft_eq, Nat.shiftLeft_eq]; omega
  have h2 : c >>> 8 = c / 256 := by
    rw [Nat.shiftRight_eq_div_pow]
  rw [h1, h2, join_bytes _ _ (by omega)]

theorem calculate_crc_eq {d : List Nat} (hd : is_bytes d) :
    calculate_crc d (d.length : Int) = byte_swap (crc16_modbus d) := by
  unfold calculate_crc
  simp only [Int.toNat_ofNat]
  rw [crc_acc_eq, swap_word _ (crc16_modbus_lt hd)]


/-! ### The CRC over a frame and its own CRC bytes -/

theorem crc16_bit_even (m : Nat) : crc16_bit (2 * m) = m := by
  unfold crc16_bit
  rw [if_neg (by omega)]
  omega

theorem crc16_shift_out (k h : Nat) : crc16_bit^[k] (h * 2 ^ k) = h := by
  induction k with
  | zero => simp
  | succ k ih =>
    rw [Function.iterate_succ_apply]
    have e : h * 2 ^ (k + 1) = 2 * (h * 2 ^ k) := by rw [Nat.pow_succ]; ring
    rw [e, crc16_bit_even, ih]

theorem xor_low_byte (c : Nat) : c ^^^ (c % 256) = (c / 256) * 2 ^ 8 := by
  apply Nat.eq_of_testBit_eq
  intro i
  have e : (256 : Nat) = 2 ^ 8 := by norm_num
  rw [e, Nat.testBit_xor, Nat.testBit_mod_two_pow, Nat.mul_comm, Nat.testBit_mul_pow_two,
    ← Nat.shiftRight_eq_div_pow, Nat.testBit_shiftRight]
  by_cases hi : i < 8
  · have h2 : ¬ 8 ≤ i := by omega
    simp [hi, h2]
  · have h2 : 8 ≤ i := by omega
    have h3 : 8 + (i - 8) = i := by omega
    simp [hi, h2, h3]

theorem crc16_byte_low (c : Nat) : crc16_byte c (c % 256) = c / 256 := by
  unfold crc16_byte
  rw [xor_low_byte, crc16_shift_out]

theorem crc16_byte_self (h : Nat) : crc16_byte h h = 0 := by
  unfold crc16_byte
  rw [Nat.xor_self]
  have h0 := crc16_shift_out 8 0
  rw [Nat.zero_mul] at h0
  exact h0

theorem crc16_residue (d : List Nat) :
    crc16_modbus (d ++ [crc16_modbus d % 256, crc16_modbus d / 256]) = 0 := by
  unfold crc16_modbus
  rw [List.foldl_append]
  simp only [List.foldl_cons, List.foldl_nil]
  rw [crc16_byte_low, crc16_byte_self]

theorem byte_swap_hi (c : Nat) (h : c < 65536) : byte_swap c / 256 = c % 256 := by
  unfold byte_swap; omega

theorem byte_swap_lo (c : Nat) (h : c < 65536) : byte_swap c % 256 = c / 256 := by
  unfold byte_swap; omega

theorem stored_hi (w : Nat) (h : w < 65536) : (w &&& 0xFF00) >>> 8 = w / 256 := by
  have h1 := hi_byte w h
  have h2 : (w &&& 0xFF00) >>> 8 < 256 := by
    rw [Nat.shiftRight_eq_div_pow]
    have : w &&& 0xFF00 ≤ w := Nat.and_le_left
    omega
  omega

theorem stored_lo (w : Nat) : w &&& 0x00FF = w % 256 := by
  have h1 := lo_byte w
  have h2 : w &&& 0x00FF ≤ 0xFF := Nat.and_le_right
  omega


end CrcLemmas

/-! ### Index invariants of the framer -/

section IndexInv

variable {τ : Type}

theorem call_start_counter_rtu (sc : τ → Nat → τ) (d : Nat) (w : RtuWorld τ) :
    (call_start_counter sc d w).rtu = w.rtu := rfl

theorem exec_init_index (e : rtu_event_t) (w : RtuWorld τ) (hi : index_inv w.rtu) :
    index_inv (exec_init e w).1.rtu := by
  unfold exec_init
  repeat' split
  all_goals first
    | exact hi
    | (unfold index_inv; simp [call_start_counter, MODBUS_RTU_BUFFER_SIZE])

theorem exec_idle_index (e : rtu_event_t) (w : RtuWorld τ) (hi : index_inv w.rtu)
    (hs : w.rtu.state = RTU_STATE_IDLE) : index_inv (exec_idle e w).1.rtu := by
  unfold exec_idle
  repeat' split
  all_goals try simp only []
  all_goals try split_ifs
  all_goals first
    | exact hi
    | (unfold index_inv at hi ⊢
       simp only [call_start_counter, MODBUS_RTU_BUFFER_SIZE, hs] at *
       refine ⟨by first | omega | (unfold to_u16; omega), fun h => ?_⟩
       first
         | exact absurd h (by decide)
         | (unfold to_u16; omega))

theorem exec_emitting_index (e : rtu_event_t) (w : RtuWorld τ) (hi : index_inv w.rtu)
    (hs : w.rtu.state = RTU_STATE_EMIT) : index_inv (exec_emitting e w).1.rtu := by
  have h2 := hi.2 hs
  unfold exec_emitting
  repeat' split
  all_goals try simp only []
  all_goals try split_ifs
  all_goals first
    | exact hi
    | (unfold index_inv at hi ⊢
       simp only [call_start_counter, MODBUS_RTU_BUFFER_SIZE, hs] at *
       refine ⟨by omega, fun h => ?_⟩
       first
         | exact absurd h (by decide)
         | omega)

theorem exec_receiving_index (e : rtu_event_t) (w : RtuWorld τ) (hi : index_inv w.rtu)
    (hs : w.rtu.state = RTU_STATE_RECEIVE) : index_inv (exec_receiving e w).1.rtu := by
  unfold exec_receiving
  repeat' split
  all_goals try simp only []
  all_goals first
    | exact hi
    | (unfold index_inv at hi ⊢
       simp only [call_start_counter, MODBUS_RTU_BUFFER_SIZE, hs] at *
       refine ⟨by omega, fun h => ?_⟩
       exact absurd h (by decide))

theorem exec_waiting_index (e : rtu_event_t) (w : RtuWorld τ) (hi : index_inv w.rtu)
    (hs : w.rtu.state = RTU_STATE_CONTROL_AND_WAIT) : index_inv (exec_waiting e w).1.rtu := by
  unfold exec_waiting
  repeat' split
  all_goals try simp only []
  all_goals try split_ifs
  all_goals first
    | exact hi
    | (unfold index_inv at hi ⊢
       simp only [call_start_counter, MODBUS_RTU_BUFFER_SIZE, hs] at *
       refine ⟨by omega, fun h => ?_⟩
       exact absurd h (by decide))

theorem exec_process_index (e : rtu_event_t) (w : RtuWorld τ) (hi : index_inv w.rtu) :
    index_inv (exec_process e w).1.rtu := by
  unfold exec_process
  split_ifs
  all_goals first
    | exact hi
    | exact ⟨hi.1, fun h => rtu_state_t.noConfusion h⟩

theorem exec_wait_for_tx_complete_index (e : rtu_event_t) (w : RtuWorld τ)
    (hi : index_inv w.rtu) : index_inv (exec_wait_for_tx_complete e w).1.rtu := by
  unfold exec_wait_for_tx_complete
  split_ifs
  all_goals first
    | exact hi
    | exact ⟨hi.1, fun h => rtu_state_t.noConfusion h⟩

theorem exec_tx_timeout_index (e : rtu_event_t) (w : RtuWorld τ) (hi : index_inv w.rtu) :
    index_inv (exec_tx_timeout e w).1.rtu := by
  unfold exec_tx_timeout
  repeat' split
  all_goals try simp only []
  all_goals first
    | exact hi
    | exact ⟨hi.1, fun h => rtu_state_t.noConfusion h⟩

theorem exec_sm_index (e : rtu_event_t) (w : RtuWorld τ) (hi : index_inv w.rtu) :
    index_inv (exec_sm e w).1.rtu := by
  unfold exec_sm
  split
  · exact exec_init_index e w hi
  · exact exec_idle_index e w hi (by assumption)
  · exact exec_emitting_index e w hi (by assumption)
  · exact exec_receiving_index e w hi (by assumption)
  · exact exec_waiting_index e w hi (by assumption)
  · exact exec_process_index e w hi
  · exact exec_wait_for_tx_complete_index e w hi
  · exact exec_tx_timeout_index e w hi

theorem framer_step_index (op : framer_op) (w : RtuWorld τ) (hi : index_inv w.rtu) :
    index_inv (framer_step op w).1.rtu := by
  cases op with
  | rx byte =>
    show index_inv (smb_rtu_receive byte w).1.rtu
    unfold smb_rtu_receive
    split
    · exact hi
    · exact exec_sm_index _ w hi
  | timeout =>
    show index_inv (smb_rtu_timer_timeout w).1.rtu
    unfold smb_rtu_timer_timeout
    split
    · exact hi
    · exact exec_sm_index _ w hi
  | read_pdu buffer length =>
    show index_inv (smb_rtu_read_pdu (some buffer) length w).1.rtu
    unfold smb_rtu_read_pdu
    split
    · exact hi
    · exact exec_sm_index _ w hi
  | write_pdu buffer length =>
    show index_inv (smb_rtu_write_pdu (some buffer) length w).1.rtu
    unfold smb_rtu_write_pdu
    split
    · exact hi
    · simp only []
      split_ifs
      · exact hi
      · exact exec_sm_index _ w hi

theorem framer_run_index (ops : List framer_op) :
    ∀ w : RtuWorld τ, index_inv w.rtu → index_inv (framer_run ops w).rtu := by
  induction ops with
  | nil => intro w hi; exact hi
  | cons op ops ih => intro w hi; exact ih _ (framer_step_index op w hi)

end IndexInv

/-! ### Calls of `host.write` -/

section FramerWrites

variable {τ : Type}

theorem exec_init_writes (e : rtu_event_t) (w : RtuWorld τ) :
    ∃ evs, (exec_init e w).1.trace = w.trace ++ evs ∧ ∀ ev ∈ evs, ev.is_write = false := by
  unfold exec_init
  repeat' split
  all_goals first
    | exact ⟨[], (List.append_nil _).symm, by simp⟩
    | exact ⟨[_], rfl, by simp [RtuEvent.is_write]⟩

theorem exec_idle_writes (e : rtu_event_t) (w : RtuWorld τ) :
    ∃ evs, (exec_idle e w).1.trace = w.trace ++ evs ∧
      ∀ ev ∈ evs, ev.is_write = true → e.action = RTU_ACTION_TX := by
  unfold exec_idle
  simp only []
  repeat' split
  all_goals first
    | exact ⟨[], (List.append_nil _).symm, by simp⟩
    | exact ⟨[_], rfl, fun _ _ _ => by assumption⟩
    | exact ⟨_, List.append_assoc _ _ _, fun _ _ _ => by assumption⟩
    | exact ⟨[_], rfl, by simp [RtuEvent.is_write]⟩

theorem exec_emitting_writes (e : rtu_event_t) (w : RtuWorld τ) :
    ∃ evs, (exec_emitting e w).1.trace = w.trace ++ evs ∧
      ∀ ev ∈ evs, ev.is_write = true → e.action = RTU_ACTION_TX := by
  unfold exec_emitting
  simp only []
  repeat' split
  all_goals first
    | exact ⟨[], (List.append_nil _).symm, by simp⟩
    | exact ⟨[_], rfl, fun _ _ _ => by assumption⟩
    | exact ⟨_, List.append_assoc _ _ _, fun _ _ _ => by assumption⟩

theorem exec_receiving_writes (e : rtu_event_t) (w : RtuWorld τ) :
    ∃ evs, (exec_receiving e w).1.trace = w.trace ++ evs ∧ ∀ ev ∈ evs, ev.is_write = false := by
  unfold exec_receiving
  simp only []
  repeat' split
  all_goals first
    | exact ⟨[], (List.append_nil _).symm, by simp⟩
    | exact ⟨[_], rfl, by simp [RtuEvent.is_write]⟩

theorem exec_waiting_writes (e : rtu_event_t) (w : RtuWorld τ) :
    ∃ evs, (exec_waiting e w).1.trace = w.trace ++ evs ∧ ∀ ev ∈ evs, ev.is_write = false := by
  unfold exec_waiting
  simp only []
  repeat' split
  all_goals first
    | exact ⟨[], (List.append_nil _).symm, by simp⟩
    | exact ⟨[_], rfl, by simp [RtuEvent.is_write]⟩

theorem exec_tx_timeout_writes (e : rtu_event_t) (w : RtuWorld τ) :
    ∃ evs, (exec_tx_timeout e w).1.trace = w.trace ++ evs ∧ ∀ ev ∈ evs, ev.is_write = false := by
  unfold exec_tx_timeout
  simp only []
  repeat' split
  all_goals first
    | exact ⟨[], (List.append_nil _).symm, by simp⟩
    | exact ⟨[_], rfl, by simp [RtuEvent.is_write]⟩

/-- The framer calls `host.write` on a Tx event in Idle or Emitting and on no other
event. -/
theorem exec_sm_writes (e : rtu_event_t) (w : RtuWorld τ) :
    ∃ evs, (exec_sm e w).1.trace = w.trace ++ evs ∧
      ∀ ev ∈ evs, ev.is_write = true →
        e.action = RTU_ACTION_TX ∧
          (w.rtu.state = RTU_STATE_IDLE ∨ w.rtu.state = RTU_STATE_EMIT) := by
  have hn : ∀ {evs : List RtuEvent}, (∀ ev ∈ evs, ev.is_write = false) →
      ∀ ev ∈ evs, ev.is_write = true →
        e.action = RTU_ACTION_TX ∧
          (w.rtu.state = RTU_STATE_IDLE ∨ w.rtu.state = RTU_STATE_EMIT) := by
    intro evs h ev hev hw
    rw [h ev hev] at hw
    exact absurd hw (by decide)
  unfold exec_sm
  cases hst : w.rtu.state with
  | RTU_STATE_INIT =>
    obtain ⟨evs, h1, h2⟩ := exec_init_writes e w
    exact ⟨evs, h1, by rw [← hst]; exact hn h2⟩
  | RTU_STATE_IDLE =>
    obtain ⟨evs, h1, h2⟩ := exec_idle_writes e w
    exact ⟨evs, h1, fun ev hev hw => ⟨h2 ev hev hw, Or.inl rfl⟩⟩
  | RTU_STATE_EMIT =>
    obtain ⟨evs, h1, h2⟩ := exec_emitting_writes e w
    exact ⟨evs, h1, fun ev hev hw => ⟨h2 ev hev hw, Or.inr rfl⟩⟩
  | RTU_STATE_RECEIVE =>
    obtain ⟨evs, h1, h2⟩ := exec_receiving_writes e w
    exact ⟨evs, h1, by rw [← hst]; exact hn h2⟩
  | RTU_STATE_CONTROL_AND_WAIT =>
    obtain ⟨evs, h1, h2⟩ := exec_waiting_writes e w
    exact ⟨evs, h1, by rw [← hst]; exact hn h2⟩
  | RTU_STATE_PROCESS_RX_FRAME =>
    exact ⟨[], by rw [List.append_nil]; exact exec_process_calls e w, by simp⟩
  | RTU_STATE_WAIT_FOR_TX_COMPLETE =>
    exact ⟨[], by rw [List.append_nil]; exact exec_wait_for_tx_complete_calls e w, by simp⟩
  | RTU_STATE_TX_TIMEOUT =>
    obtain ⟨evs, h1, h2⟩ := exec_tx_timeout_writes e w
    exact ⟨evs, h1, by rw [← hst]; exact hn h2⟩

end FramerWrites

/-! ### The transmit phases and the pending frame -/

section FramerSteps2

variable {τ : Type}

theorem timeout_emitting {w : RtuWorld τ} {sc : τ → Nat → τ}
    {wrt : τ → List Nat → Nat → τ × Int} {fr : τ → τ} (hc : configured w sc wrt fr)
    (hs : w.rtu.state = RTU_STATE_EMIT) :
    smb_rtu_timer_timeout w =
      ({ w with rtu := { w.rtu with state := RTU_STATE_TX_TIMEOUT } }, 0) := by
  have hc2 : w.rtu.interface = some ⟨some sc, some wrt, some fr⟩ := hc
  unfold smb_rtu_timer_timeout exec_sm exec_emitting
  rw [hc2, hs]
  rfl

theorem write_pdu_tx_timeout {w : RtuWorld τ} {sc : τ → Nat → τ}
    {wrt : τ → List Nat → Nat → τ × Int} {fr : τ → τ} (hc : configured w sc wrt fr)
    (hs : w.rtu.state = RTU_STATE_TX_TIMEOUT) (p : byte_ptr) (len : Nat)
    (h256 : len ≤ MODBUS_RTU_BUFFER_SIZE) :
    smb_rtu_write_pdu (some p) len w =
      if w.rtu.current_tx_buffer = some p.id then
        ({ rtu := { w.rtu with state := RTU_STATE_WAIT_FOR_TX_COMPLETE },
           host := sc w.host w.rtu.t_3_5char_us,
           trace := w.trace ++ [RtuEvent.start_counter w.rtu.t_3_5char_us] }, -ETIMEDOUT)
      else (w, -EBUSY) := by
  have hc2 : w.rtu.interface = some ⟨some sc, some wrt, some fr⟩ := hc
  unfold smb_rtu_write_pdu exec_sm exec_tx_timeout
  rw [hc2, hs]
  simp only []
  rw [if_neg (show ¬ len > MODBUS_RTU_BUFFER_SIZE by omega)]
  simp only [if_true]
  split_ifs <;> rfl

theorem receive_tx_timeout {w : RtuWorld τ} {sc : τ → Nat → τ}
    {wrt : τ → List Nat → Nat → τ × Int} {fr : τ → τ} (hc : configured w sc wrt fr)
    (hs : w.rtu.state = RTU_STATE_TX_TIMEOUT) (byte : Nat) :
    smb_rtu_receive byte w = (w, -EBUSY) := by
  have hc2 : w.rtu.interface = some ⟨some sc, some wrt, some fr⟩ := hc
  unfold smb_rtu_receive exec_sm exec_tx_timeout
  rw [hc2, hs]
  rfl

theorem timeout_tx_timeout {w : RtuWorld τ} {sc : τ → Nat → τ}
    {wrt : τ → List Nat → Nat → τ × Int} {fr : τ → τ} (hc : configured w sc wrt fr)
    (hs : w.rtu.state = RTU_STATE_TX_TIMEOUT) :
    smb_rtu_timer_timeout w = (w, -EBUSY) := by
  have hc2 : w.rtu.interface = some ⟨some sc, some wrt, some fr⟩ := hc
  unfold smb_rtu_timer_timeout exec_sm exec_tx_timeout
  rw [hc2, hs]
  rfl

theorem timeout_wait_tx {w : RtuWorld τ} {itf : smb_rtu_if_t τ}
    (hc : w.rtu.interface = some itf) (hs : w.rtu.state = RTU_STATE_WAIT_FOR_TX_COMPLETE) :
    smb_rtu_timer_timeout w = ({ w with rtu := { w.rtu with state := RTU_STATE_IDLE } }, 0) := by
  unfold smb_rtu_timer_timeout exec_sm exec_wait_for_tx_complete
  rw [hc, hs]
  rfl

/-- In WaitForTxComplete every event but a timeout is refused and changes nothing. -/
theorem step_wait_tx {w : RtuWorld τ} {itf : smb_rtu_if_t τ}
    (hc : w.rtu.interface = some itf) (hs : w.rtu.state = RTU_STATE_WAIT_FOR_TX_COMPLETE)
    (op : framer_op) (ht : op.is_timeout = false) :
    (framer_step op w).1 = w ∧ (op.length_ok → (framer_step op w).2 = -EBUSY) := by
  cases op with
  | rx byte =>
    have h : smb_rtu_receive byte w = (w, -EBUSY) := by
      unfold smb_rtu_receive exec_sm exec_wait_for_tx_complete
      rw [hc, hs]
      rfl
    exact ⟨congrArg Prod.fst h, fun _ => congrArg Prod.snd h⟩
  | timeout => exact absurd ht (by decide)
  | read_pdu buffer length =>
    have h : smb_rtu_read_pdu (some buffer) length w = (w, [], -EBUSY) := by
      unfold smb_rtu_read_pdu exec_sm exec_wait_for_tx_complete
      rw [hc, hs]
      rfl
    exact ⟨congrArg Prod.fst h, fun _ => congrArg (fun r => r.2.2) h⟩
  | write_pdu buffer length =>
    have h : smb_rtu_write_pdu (some buffer) length w =
        (w, if length > MODBUS_RTU_BUFFER_SIZE then -EINVAL else -EBUSY) := by
      unfold smb_rtu_write_pdu exec_sm exec_wait_for_tx_complete
      rw [hc, hs]
      simp only []
      split_ifs <;> first | rfl | contradiction
    refine ⟨congrArg Prod.fst h, fun hl => ?_⟩
    have hl2 : ¬ length > MODBUS_RTU_BUFFER_SIZE := Nat.not_lt.mpr hl
    show (smb_rtu_write_pdu (some buffer) length w).2 = -EBUSY
    rw [h, if_neg hl2]

theorem run_wait_tx {w : RtuWorld τ} {itf : smb_rtu_if_t τ}
    (hc : w.rtu.interface = some itf) (hs : w.rtu.state = RTU_STATE_WAIT_FOR_TX_COMPLETE)
    (ops : List framer_op) (ht : ∀ op ∈ ops, op.is_timeout = false) :
    framer_run ops w = w ∧
      ((∀ op ∈ ops, op.length_ok) →
        framer_results ops w = List.replicate ops.length (-EBUSY)) := by
  induction ops with
  | nil => exact ⟨rfl, fun _ => rfl⟩
  | cons op ops ih =>
    obtain ⟨h1, h2⟩ := step_wait_tx hc hs op (ht op (List.mem_cons_self _ _))
    obtain ⟨h3, h4⟩ := ih (fun o ho => ht o (List.mem_cons_of_mem _ ho))
    refine ⟨?_, fun hl => ?_⟩
    · show framer_run ops (framer_step op w).1 = w
      rw [h1, h3]
    · show (framer_step op w).2 :: framer_results ops (framer_step op w).1 = _
      rw [h1, h2 (hl op (List.mem_cons_self _ _)),
        h4 (fun o ho => hl o (List.mem_cons_of_mem _ ho))]
      rfl

/-- In ProcessRxFrame an event that does not offer more room than the pending frame
needs is refused and changes nothing. -/
theorem step_process_refused {w : RtuWorld τ} {itf : smb_rtu_if_t τ}
    (hc : w.rtu.interface = some itf) (hs : w.rtu.state = RTU_STATE_PROCESS_RX_FRAME)
    (hi : w.rtu.buffer_index = MODBUS_RTU_BUFFER_SIZE) (op : framer_op) (hl : op.length_ok) :
    framer_step op w = (w, refused_result op) := by
  cases op with
  | rx byte =>
    show smb_rtu_receive byte w = _
    unfold smb_rtu_receive exec_sm exec_process
    rw [hc, hs]
    rfl
  | timeout =>
    show smb_rtu_timer_timeout w = _
    unfold smb_rtu_timer_timeout exec_sm exec_process
    rw [hc, hs]
    rfl
  | read_pdu buffer length =>
    have h := read_pdu_process hc hs buffer length
    have hl2 : w.rtu.buffer_index ≥ length := by rw [hi]; exact hl
    rw [if_pos hl2] at h
    show ((smb_rtu_read_pdu (some buffer) length w).1,
      (smb_rtu_read_pdu (some buffer) length w).2.2) = _
    rw [h]
    rfl
  | write_pdu buffer length =>
    have hl2 : ¬ length > MODBUS_RTU_BUFFER_SIZE := Nat.not_lt.mpr hl
    show smb_rtu_write_pdu (some buffer) length w = _
    unfold smb_rtu_write_pdu exec_sm exec_process
    rw [hc, hs]
    simp only []
    rw [if_neg hl2]
    rfl

theorem run_process_refused {w : RtuWorld τ} {itf : smb_rtu_if_t τ}
    (hc : w.rtu.interface = some itf) (hs : w.rtu.state = RTU_STATE_PROCESS_RX_FRAME)
    (hi : w.rtu.buffer_index = MODBUS_RTU_BUFFER_SIZE) (ops : List framer_op)
    (hl : ∀ op ∈ ops, op.length_ok) :
    framer_run ops w = w ∧ framer_results ops w = ops.map refused_result := by
  induction ops with
  | nil => exact ⟨rfl, rfl⟩
  | cons op ops ih =>
    have h1 := step_process_refused hc hs hi op (hl op (List.mem_cons_self _ _))
    obtain ⟨h3, h4⟩ := ih (fun o ho => hl o (List.mem_cons_of_mem _ ho))
    refine ⟨?_, ?_⟩
    · show framer_run ops (framer_step op w).1 = w
      rw [h1, h3]
    · show (framer_step op w).2 :: framer_results ops (framer_step op w).1 = _
      rw [h1, h4]
      rfl

/-- The calls a framer API call makes include `host.write` only when it is
`smb_rtu_write_pdu` in Idle or Emitting. -/
theorem framer_step_writes (op : framer_op) (w : RtuWorld τ) :
    ∃ evs, (framer_step op w).1.trace = w.trace ++ evs ∧
      ∀ ev ∈ evs, ev.is_write = true →
        (∃ buffer length, op = framer_op.write_pdu buffer length) ∧
          (w.rtu.state = RTU_STATE_IDLE ∨ w.rtu.state = RTU_STATE_EMIT) := by
  have hnil : ∃ evs, w.trace = w.trace ++ evs ∧
      ∀ ev ∈ evs, ev.is_write = true →
        (∃ buffer length, op = framer_op.write_pdu buffer length) ∧
          (w.rtu.state = RTU_STATE_IDLE ∨ w.rtu.state = RTU_STATE_EMIT) :=
    ⟨[], (List.append_nil _).symm, by simp⟩
  cases op with
  | rx byte =>
    show ∃ evs, (smb_rtu_receive byte w).1.trace = _ ∧ _
    unfold smb_rtu_receive
    split
    · exact hnil
    · obtain ⟨evs, h1, h2⟩ := exec_sm_writes
        { action := RTU_ACTION_RX, bytes := some ⟨rx_byte_id, [byte % 256]⟩, n_bytes := 1 } w
      exact ⟨evs, h1, fun ev hev hw => absurd (h2 ev hev hw).1 (fun h => rtu_action_t.noConfusion h)⟩
  | timeout =>
    show ∃ evs, (smb_rtu_timer_timeout w).1.trace = _ ∧ _
    unfold smb_rtu_timer_timeout
    split
    · exact hnil
    · obtain ⟨evs, h1, h2⟩ := exec_sm_writes
        { action := RTU_ACTION_TIMEOUT, bytes := none, n_bytes := 0 } w
      exact ⟨evs, h1, fun ev hev hw => absurd (h2 ev hev hw).1 (fun h => rtu_action_t.noConfusion h)⟩
  | read_pdu buffer length =>
    show ∃ evs, (smb_rtu_read_pdu (some buffer) length w).1.trace = _ ∧ _
    unfold smb_rtu_read_pdu
    split
    · exact hnil
    · obtain ⟨evs, h1, h2⟩ := exec_sm_writes
        { action := RTU_ACTION_PROCESS_RX, bytes := some buffer, n_bytes := length } w
      exact ⟨evs, h1, fun ev hev hw => absurd (h2 ev hev hw).1 (fun h => rtu_action_t.noConfusion h)⟩
  | write_pdu buffer length =>
    show ∃ evs, (smb_rtu_write_pdu (some buffer) length w).1.trace = _ ∧ _
    unfold smb_rtu_write_pdu
    split
    · exact hnil
    · simp only []
      split_ifs
      · exact hnil
      · obtain ⟨evs, h1, h2⟩ := exec_sm_writes
          { action := RTU_ACTION_TX, bytes := some buffer, n_bytes := length } w
        exact ⟨evs, h1, fun ev hev hw => ⟨⟨buffer, length, rfl⟩, (h2 ev hev hw).2⟩⟩

theorem reset_config_index (addr baud_rate : Nat) (interface : Option (smb_rtu_if_t τ))
    (w : RtuWorld τ) :
    index_inv (smb_rtu_config addr baud_rate interface (smb_rtu_reset w)).1.rtu := by
  have h0 : index_inv (smb_rtu_reset w).rtu :=
    ⟨Nat.zero_le _, fun h => rtu_state_t.noConfusion h⟩
  unfold smb_rtu_config
  repeat' split
  all_goals exact h0

end FramerSteps2

/-! ### Runs of polls -/

section ServerRuns

variable {σ : Type}

theorem send_reply_last (wf : write_frame_fn σ) (pre : World σ) :
    (send_reply wf pre).1.trace.getLast? = some (emitted pre) := by
  rw [send_reply_trace]
  unfold emitted
  simp

/-- A poll that leaves the server in SendReply has ended with `send_reply` on a reply
that is ready. -/
theorem poll_to_send_reply (w : World σ) (rf : read_frame_fn σ) (wf : write_frame_fn σ)
    (cb : smb_server_if_t σ) (hb : bound_to w.server rf wf cb) (hinv : server_inv w.server)
    (hs : (smb_server_poll w).1.server.state = SERVER_STATE_SEND_REPLY) :
    ∃ pre, smb_server_poll w = send_reply wf pre ∧ server_ok pre.server ∧
      reply_ready pre.server := by
  have hout : ∀ x : World σ, server_ok x.server →
      (process_frame wf cb x).1.server.state = SERVER_STATE_SEND_REPLY →
      ∃ pre, process_frame wf cb x = send_reply wf pre ∧ server_ok pre.server ∧
        reply_ready pre.server := by
    intro x hx hst
    rcases process_frame_outcome wf cb x hx with ⟨w1, _, h⟩ | ⟨pre, hc, h⟩
    · rw [h] at hst
      exact server_state_t.noConfusion hst
    · exact ⟨pre, h, hc.ok, hc.len_ge, hc.len_le, hc.crc⟩
  cases hst : w.server.state with
  | SERVER_STATE_IDLE =>
    rw [poll_idle hb hst] at hs ⊢
    rcases exec_state_idle_cases rf wf cb w with ⟨r, h⟩ | ⟨_, _, _, h⟩
    · rw [h] at hs
      have h2 : w.server.state = SERVER_STATE_SEND_REPLY := hs
      rw [hst] at h2
      exact server_state_t.noConfusion h2
    · rw [h] at hs ⊢
      exact hout _ (accepted_ok rf hinv.1) hs
  | SERVER_STATE_PROCESSING_REQUEST =>
    rw [poll_processing hb hst] at hs ⊢
    exact hout w hinv.1 hs
  | SERVER_STATE_SEND_REPLY =>
    rw [poll_send_reply hb hst]
    exact ⟨w, rfl, hinv.1, hinv.2.2 hst⟩

/-- In SendReply the last call the server made is `write_frame` with `frame_length` as
its length. -/
theorem poll_last_write (w : World σ) (rf : read_frame_fn σ) (wf : write_frame_fn σ)
    (cb : smb_server_if_t σ) (hb : bound_to w.server rf wf cb) (hinv : server_inv w.server)
    (hs : (smb_server_poll w).1.server.state = SERVER_STATE_SEND_REPLY) :
    ∃ frame, (smb_server_poll w).1.trace.getLast? =
        some (Event.write_frame frame (smb_server_poll w).1.server.frame_length.toNat) ∧
      frame.length = (smb_server_poll w).1.server.frame_length.toNat := by
  obtain ⟨pre, hp, hok, hr⟩ := poll_to_send_reply w rf wf cb hb hinv hs
  rw [hp] at hs ⊢
  obtain ⟨_, _, _, _, hcases⟩ := send_reply_state wf pre
  have hfl : (send_reply wf pre).1.server.frame_length = pre.server.frame_length := by
    rcases hcases with ⟨h1, _⟩ | ⟨_, h2⟩
    · rw [h1] at hs
      exact server_state_t.noConfusion hs
    · exact h2
  have hu := to_u16_of_range (le_trans (by norm_num) hr.1) hr.2.1
  refine ⟨pre.server.buffer.take pre.server.frame_length.toNat, ?_, ?_⟩
  · rw [send_reply_last, hfl]
    unfold emitted
    rw [hu]
  · rw [hfl, List.length_take, hok.1]
    have h1 := hr.1
    have h2 := hr.2.1
    have : MODBUS_MAX_FRAME_SIZE = 256 := rfl
    omega

theorem run_polls_keeps (env : List (σ → σ)) (rf : read_frame_fn σ) (wf : write_frame_fn σ)
    (cb : smb_server_if_t σ) :
    ∀ w : World σ, bound_to w.server rf wf cb → server_inv w.server →
      (w.server.state = SERVER_STATE_SEND_REPLY →
        ∃ frame, w.trace.getLast? =
            some (Event.write_frame frame w.server.frame_length.toNat) ∧
          frame.length = w.server.frame_length.toNat) →
      bound_to (run_polls env w).server rf wf cb ∧ server_inv (run_polls env w).server ∧
        ((run_polls env w).server.state = SERVER_STATE_SEND_REPLY →
          ∃ frame, (run_polls env w).trace.getLast? =
              some (Event.write_frame frame (run_polls env w).server.frame_length.toNat) ∧
            frame.length = (run_polls env w).server.frame_length.toNat) := by
  induction env with
  | nil => intro w hb hinv hl; exact ⟨hb, hinv, hl⟩
  | cons g env ih =>
    intro w hb hinv _
    obtain ⟨hb1, hinv1, _⟩ := poll_keeps_inv { w with host := g w.host } rf wf cb hb hinv
    exact ih (poll_after g w) hb1 hinv1
      (poll_last_write { w with host := g w.host } rf wf cb hb hinv)

end ServerRuns

section ServerReads

variable {σ : Type}

theorem send_reply_reads (wf : write_frame_fn σ) (pre w : World σ) (evs : List Event)
    (h : pre.trace = w.trace ++ evs) (hn : ∀ e ∈ evs, e.is_read_frame = false) :
    ∃ evs2, (send_reply wf pre).1.trace = w.trace ++ evs2 ∧
      ∀ e ∈ evs2, e.is_read_frame = false := by
  refine ⟨evs ++ [emitted pre], ?_, ?_⟩
  · rw [send_reply_trace, h, List.append_assoc]
    rfl
  · intro e he
    rcases List.mem_append.mp he with he | he
    · exact hn e he
    · rw [List.mem_singleton] at he
      rw [he]
      rfl

theorem error_reply_reads (wf : write_frame_fn σ) (w : World σ) (a c : Nat) :
    ∃ evs, (send_reply wf (prepare_error_reply a c w)).1.trace = w.trace ++ evs ∧
      ∀ e ∈ evs, e.is_read_frame = false :=
  send_reply_reads wf _ w [] (List.append_nil _).symm (by simp)

theorem process_write_regs_reads (wf : write_frame_fn σ) (f : write_regs_fn σ)
    (off n_regs : Nat) (w : World σ) :
    ∃ evs, (process_write_regs wf f off n_regs w).1.trace = w.trace ++ evs ∧
      ∀ e ∈ evs, e.is_read_frame = false := by
  unfold process_write_regs
  simp only []
  split_ifs
  · exact ⟨[_], rfl, by simp [Event.is_read_frame]⟩
  · exact send_reply_reads wf _ w [_] rfl (by simp [Event.is_read_frame])
  · exact send_reply_reads wf _ w [_] rfl (by simp [Event.is_read_frame])

theorem process_read_regs_reads (wf : write_frame_fn σ) (f : read_regs_fn σ)
    (ev : Nat → Nat → Event) (hev : ∀ a b, (ev a b).is_read_frame = false) (w : World σ) :
    ∃ evs, (process_read_regs wf f ev w).1.trace = w.trace ++ evs ∧
      ∀ e ∈ evs, e.is_read_frame = false := by
  unfold process_read_regs
  simp only []
  split_ifs
  · exact error_reply_reads wf w _ _
  · exact ⟨[_], rfl, by simp [hev]⟩
  · exact send_reply_reads wf _ w [_] rfl (by simp [hev])
  · exact send_reply_reads wf _ w [_] rfl (by simp [hev])

theorem process_frame_reads (wf : write_frame_fn σ) (cb : smb_server_if_t σ) (w : World σ) :
    ∃ evs, (process_frame wf cb w).1.trace = w.trace ++ evs ∧
      ∀ e ∈ evs, e.is_read_frame = false := by
  unfold process_frame
  simp only []
  split_ifs
  · unfold process_read_input_regs
    split
    · exact error_reply_reads wf w _ _
    · split_ifs
      · exact error_reply_reads wf w _ _
      · exact process_read_regs_reads wf _ Event.read_input_regs (fun _ _ => rfl) w
  · unfold process_read_holding_regs
    split
    · exact error_reply_reads wf w _ _
    · split_ifs
      · exact error_reply_reads wf w _ _
      · exact process_read_regs_reads wf _ Event.read_holding_regs (fun _ _ => rfl) w
  · unfold process_write_single_reg
    split
    · exact error_reply_reads wf w _ _
    · split_ifs
      · exact error_reply_reads wf w _ _
      · exact process_write_regs_reads wf _ _ _ w
  · unfold process_write_multiple_regs
    split
    · exact error_reply_reads wf w _ _
    · simp only []
      split_ifs
      · exact error_reply_reads wf w _ _
      · exact error_reply_reads wf w _ _
      · exact process_write_regs_reads wf _ _ _ w
  · exact error_reply_reads wf w _ _

theorem exec_state_idle_calls (rf : read_frame_fn σ) (wf : write_frame_fn σ)
    (cb : smb_server_if_t σ) (w : World σ) :
    ∃ rest, (exec_state_idle rf wf cb w).1.trace = w.trace ++ Event.read_frame 256 :: rest ∧
      ∀ e ∈ rest, e.is_read_frame = false := by
  rcases exec_state_idle_cases rf wf cb w with ⟨r, h⟩ | ⟨_, _, _, h⟩
  · rw [h]
    exact ⟨[], rfl, by simp⟩
  · rw [h]
    obtain ⟨evs, h1, h2⟩ := process_frame_reads wf cb (accepted rf w)
    exact ⟨evs, by rw [h1, accepted_trace, List.append_assoc]; rfl, h2⟩

/-- The calls of a poll include `read_frame` only when the server is in Idle. -/
theorem poll_reads (w : World σ) :
    ∃ evs, (smb_server_poll w).1.trace = w.trace ++ evs ∧
      ∀ e ∈ evs, e.is_read_frame = true → w.server.state = SERVER_STATE_IDLE := by
  have hnil : ∃ evs, w.trace = w.trace ++ evs ∧
      ∀ e ∈ evs, e.is_read_frame = true → w.server.state = SERVER_STATE_IDLE :=
    ⟨[], (List.append_nil _).symm, by simp⟩
  have hno : ∀ {evs : List Event}, (∀ e ∈ evs, e.is_read_frame = false) →
      ∀ e ∈ evs, e.is_read_frame = true → w.server.state = SERVER_STATE_IDLE := by
    intro evs h e he ht
    rw [h e he] at ht
    exact absurd ht (by decide)
  unfold smb_server_poll
  split
  · exact hnil
  · split
    · exact hnil
    · split
      · exact hnil
      · split
        · exact hnil
        · split
          · rename_i hst
            obtain ⟨evs, h1, _⟩ := exec_state_idle_calls _ _ _ w
            exact ⟨_, h1, fun _ _ _ => hst⟩
          · obtain ⟨evs, h1, h2⟩ := process_frame_reads _ _ w
            exact ⟨evs, h1, hno h2⟩
          · obtain ⟨evs, h1, h2⟩ := send_reply_reads _ w w [] (List.append_nil _).symm (by simp)
            exact ⟨evs, h1, hno h2⟩

/-- A poll that takes the server from ProcessingRequest or SendReply back to Idle has
ended with a `write_frame` call that returned 0 (reply sent) or a negative value (reply
failed). -/
theorem poll_back_to_idle (w : World σ) (rf : read_frame_fn σ) (wf : write_frame_fn σ)
    (cb : smb_server_if_t σ) (hb : bound_to w.server rf wf cb) (hok : server_ok w.server)
    (hs : w.server.state ≠ SERVER_STATE_IDLE)
    (hs2 : (smb_server_poll w).1.server.state = SERVER_STATE_IDLE) :
    ∃ pre, smb_server_poll w = send_reply wf pre ∧ write_frame_ret wf pre ≤ 0 := by
  have hret : ∀ pre : World σ, (send_reply wf pre).1.server.state = SERVER_STATE_IDLE →
      write_frame_ret wf pre ≤ 0 := by
    intro pre hst
    by_contra hpos
    have h := (send_reply_cases wf pre).2.2 (by omega)
    rw [h.1] at hst
    exact server_state_t.noConfusion hst
  cases hst : w.server.state with
  | SERVER_STATE_IDLE => exact absurd hst hs
  | SERVER_STATE_PROCESSING_REQUEST =>
    rw [poll_processing hb hst] at hs2 ⊢
    rcases process_frame_outcome wf cb w hok with ⟨w1, _, h⟩ | ⟨pre, _, h⟩
    · rw [h] at hs2
      exact server_state_t.noConfusion hs2
    · rw [h] at hs2 ⊢
      exact ⟨pre, rfl, hret pre hs2⟩
  | SERVER_STATE_SEND_REPLY =>
    rw [poll_send_reply hb hst] at hs2 ⊢
    exact ⟨w, rfl, hret w hs2⟩

end ServerReads

/-! ### Reads of zero registers, CRC values -/

section ZeroRead

variable {σ : Type}

theorem blit_nil (buf : List Nat) (off : Nat) : blit buf off [] = buf := by
  unfold blit
  simp

/-- A read request for zero registers whose callback stores nothing and returns 0: the
server state does not change, but for the phase. -/
theorem zero_read_busy (wf : write_frame_fn σ) (cb : smb_server_if_t σ) (f : read_regs_fn σ)
    (ev : Nat → Nat → Event) (x : World σ) (hb : is_bytes x.server.buffer)
    (h8 : x.server.frame_length = 8) (hh : read_handler cb (rd x.server.buffer 1) f ev)
    (hq : be16 x.server.buffer 4 = 0)
    (hz : ∀ h m a, (f h m 0 a).2 = ([], 0)) :
    process_frame wf cb x =
      ({ server := { x.server with state := SERVER_STATE_PROCESSING_REQUEST },
         host := (f x.host (x.server.buffer.drop 3) 0 (be16 x.server.buffer 2)).1,
         trace := x.trace ++ [ev 0 (be16 x.server.buffer 2)] }, -EAGAIN) := by
  have hr : read_regs_ret f x = 0 := by
    unfold read_regs_ret
    rw [hq, hz]
  rw [process_frame_read wf cb x f ev hh, if_neg (by rw [h8]; exact fun h => h rfl),
    process_read_regs_call wf f ev x hb (by rw [hq]; omega), if_pos hr]
  unfold set_processing after_read_regs
  rw [hq, hz, blit_nil]

theorem zero_read_run (rf : read_frame_fn σ) (wf : write_frame_fn σ) (cb : smb_server_if_t σ)
    (f : read_regs_fn σ) (ev : Nat → Nat → Event)
    (hz : ∀ h m a, (f h m 0 a).2 = ([], 0)) (env : List (σ → σ)) :
    ∀ x : World σ, bound_to x.server rf wf cb →
      x.server.state = SERVER_STATE_PROCESSING_REQUEST → is_bytes x.server.buffer →
      x.server.frame_length = 8 → read_handler cb (rd x.server.buffer 1) f ev →
      be16 x.server.buffer 4 = 0 →
      (run_polls env x).server = x.server ∧
        (run_polls env x).trace =
          x.trace ++ List.replicate env.length (ev 0 (be16 x.server.buffer 2)) ∧
        ∀ g : σ → σ, (smb_server_poll (host_step g (run_polls env x))).2 = -EAGAIN := by
  induction env with
  | nil =>
    intro x hb hs hbytes h8 hh hq
    refine ⟨rfl, (List.append_nil _).symm, fun g => ?_⟩
    show (smb_server_poll (host_step g x)).2 = -EAGAIN
    have hp : smb_server_poll (host_step g x) = process_frame wf cb (host_step g x) :=
      poll_processing hb hs
    rw [hp, zero_read_busy wf cb f ev (host_step g x) hbytes h8 hh hq hz]
  | cons g env ih =>
    intro x hb hs hbytes h8 hh hq
    have hp : smb_server_poll (host_step g x) = process_frame wf cb (host_step g x) :=
      poll_processing hb hs
    have hstep : poll_after g x =
        { server := { x.server with state := SERVER_STATE_PROCESSING_REQUEST },
          host := (f (g x.host) (x.server.buffer.drop 3) 0 (be16 x.server.buffer 2)).1,
          trace := x.trace ++ [ev 0 (be16 x.server.buffer 2)] } := by
      show (smb_server_poll (host_step g x)).1 = _
      rw [hp, zero_read_busy wf cb f ev (host_step g x) hbytes h8 hh hq hz]
      rfl
    have hsrv : (poll_after g x).server = x.server := by
      rw [hstep]
      show { x.server with state := SERVER_STATE_PROCESSING_REQUEST } = x.server
      rw [← hs]
    obtain ⟨h1, h2, h4⟩ := ih (poll_after g x)
      (by rw [hsrv]; exact hb) (by rw [hsrv]; exact hs) (by rw [hsrv]; exact hbytes)
      (by rw [hsrv]; exact h8) (by rw [hsrv]; exact hh) (by rw [hsrv]; exact hq)
    refine ⟨?_, ?_, h4⟩
    · show (run_polls env (poll_after g x)).server = x.server
      rw [h1, hsrv]
    · show (run_polls env (poll_after g x)).trace = _
      rw [h2, hsrv, hstep, List.append_assoc]
      rfl

end ZeroRead

section CrcValues

set_option maxRecDepth 8000

theorem crc_check_value : crc16_modbus crc_check_input = 0x4B37 := by decide

theorem crc_test_vectors :
    calculate_crc [0x01, 0x04] 2 = 0x01E3 ∧
      calculate_crc [0x01, 0x84, 0x01] 3 = 0x82C0 ∧
      calculate_crc [0x01, 0x03, 0x00, 0x00, 0x00, 0x02] 6 = 0xC40B := by decide

end CrcValues

/-! ## The claims -/

section Claims

variable {σ : Type}

/-- C3: in every run of polls that follows a successful `smb_server_config`, whatever
the host does, every frame handed to `write_frame` (normal or exception reply, first
attempt or retry), of length `len`, carries a valid trailing CRC: `calculate_crc` over
its first `len - 2` bytes equals `(frame[len-2] << 8) | frame[len-1]`, which is the test
the server applies to inbound frames. -/
theorem C3_reply_crc_valid (server_addr : Nat) (transport : Option (smb_transport_if_t σ))
    (server_cb : Option (smb_server_if_t σ)) (w : World σ) (env : List (σ → σ))
    (hbuf : w.server.buffer.length = MODBUS_MAX_FRAME_SIZE) (haddr : server_addr < 256)
    (hcfg : (smb_server_config server_addr transport server_cb w).2 = 0) :
    ∃ evs, (run_polls env (smb_server_config server_addr transport server_cb w).1).trace =
        w.trace ++ evs ∧
      ∀ frame len, Event.write_frame frame len ∈ evs →
        frame.length = len ∧ 5 ≤ len ∧ crc_matches frame (len : Int) ∧
          calculate_crc frame ((len : Int) - 2) =
            (rd frame ((len : Int) - 2).toNat <<< 8) ||| rd frame ((len : Int) - 1).toNat := by
  obtain ⟨rf, wf, cb, hb, hinv, _, _, ht⟩ :=
    config_success server_addr transport server_cb w hbuf haddr hcfg
  obtain ⟨evs, h1, h2⟩ := run_polls_valid env _ rf wf cb hb hinv
  refine ⟨evs, by rw [h1, ht], ?_⟩
  intro frame len hm
  obtain ⟨⟨hl, hby, hc⟩, h5, _⟩ := h2 frame len hm
  exact ⟨hl, h5, hc, crc_matches_bytes hby hc⟩

/-- C4: for a CRC-valid request of at least 4 bytes whose first byte is the configured
server address and whose function code is `fc`, every frame handed to `write_frame`
while the request is answered (in the poll that reads it and in the polls that follow
until the server is back in Idle, whatever the host does) has byte 0 equal to the server
address and byte 1 equal to `fc` or to `fc | 0x80`. -/
theorem C4_reply_header (w : World σ) (rf : read_frame_fn σ) (wf : write_frame_fn σ)
    (cb : smb_server_if_t σ) (env : List (σ → σ)) (hb : bound_to w.server rf wf cb)
    (hs : w.server.state = SERVER_STATE_IDLE) (hok : server_ok w.server)
    (hlen : 4 ≤ inbound_len rf w)
    (hcrc : crc_matches (inbound_buf rf w) (inbound_len rf w))
    (haddr : rd (inbound_buf rf w) 0 = w.server.addr) :
    ∃ evs, (answer env w).trace = w.trace ++ [Event.read_frame 256] ++ evs ∧
      ∀ frame len, Event.write_frame frame len ∈ evs →
        rd frame 0 = w.server.addr ∧
          (rd frame 1 = rd (inbound_buf rf w) 1 ∨
            rd frame 1 = rd (inbound_buf rf w) 1 ||| 0x80) := by
  unfold answer
  rw [poll_idle hb hs, exec_state_idle_accept rf wf cb hlen hcrc haddr]
  have hst := process_frame_stepped wf cb (accepted rf w) (accepted_ok rf hok)
  obtain ⟨hnext, evs1, ht1, he1⟩ :=
    @answering_step σ (accepted rf w) _ rf wf cb w.server.addr (rd (inbound_buf rf w) 1)
      hb rfl haddr (Or.inl rfl) hst
  obtain ⟨evs2, ht2, he2⟩ := poll_while_busy_header env _ rf wf cb _ _ hnext
  refine ⟨evs1 ++ evs2, ?_, ?_⟩
  · rw [ht2, ht1, accepted_trace, List.append_assoc]
  · intro frame len hm
    rcases List.mem_append.mp hm with hm | hm
    · exact he1 frame len hm
    · exact he2 frame len hm

/-- C5: in Idle, a negative `read_frame` result is forwarded, 0 gives 0, a length of 1, 2
or 3 gives `-EBADMSG`, and a frame of at least 4 bytes whose CRC does not match gives
`-EBADMSG`; in all four cases the poll calls nothing but `read_frame` (no register
callback, no `write_frame`) and the server stays in Idle. -/
theorem C5_frame_validation_failures (w : World σ) (rf : read_frame_fn σ)
    (wf : write_frame_fn σ) (cb : smb_server_if_t σ) (hb : bound_to w.server rf wf cb)
    (hs : w.server.state = SERVER_STATE_IDLE)
    (hfail : inbound_len rf w < 0 ∨ inbound_len rf w = 0 ∨
      (1 ≤ inbound_len rf w ∧ inbound_len rf w ≤ 3) ∨
      (4 ≤ inbound_len rf w ∧ ¬ crc_matches (inbound_buf rf w) (inbound_len rf w))) :
    (smb_server_poll w).2 =
        (if inbound_len rf w < 0 then inbound_len rf w
         else if inbound_len rf w = 0 then 0 else -EBADMSG) ∧
      (smb_server_poll w).1.trace = w.trace ++ [Event.read_frame 256] ∧
      (smb_server_poll w).1.server.state = SERVER_STATE_IDLE := by
  rw [poll_idle hb hs]
  rcases hfail with h | h | ⟨h1, h2⟩ | ⟨h1, h2⟩
  · rw [exec_state_idle_neg rf wf cb h, if_pos h]
    exact ⟨rfl, rfl, hs⟩
  · rw [exec_state_idle_zero rf wf cb h, if_neg (by omega), if_pos h]
    exact ⟨rfl, rfl, hs⟩
  · rw [exec_state_idle_short rf wf cb h1 h2, if_neg (by omega), if_neg (by omega)]
    exact ⟨rfl, rfl, hs⟩
  · rw [exec_state_idle_bad_crc rf wf cb h1 h2, if_neg (by omega), if_neg (by omega)]
    exact ⟨rfl, rfl, hs⟩

/-- C6: a frame whose address byte differs from the configured server address (in
particular one that is neither the server address nor 0) makes the poll call nothing but
`read_frame`: no register callback and no `write_frame`; the server stays in Idle with
`frame_length` 0, and when the frame has at least 4 bytes and a valid CRC the poll
returns 0. -/
theorem C6_foreign_address_ignored (w : World σ) (rf : read_frame_fn σ)
    (wf : write_frame_fn σ) (cb : smb_server_if_t σ) (hb : bound_to w.server rf wf cb)
    (hs : w.server.state = SERVER_STATE_IDLE) (hfl : w.server.frame_length = 0)
    (hna : rd (inbound_buf rf w) 0 ≠ w.server.addr) :
    (smb_server_poll w).1.trace = w.trace ++ [Event.read_frame 256] ∧
      (smb_server_poll w).1.server.state = SERVER_STATE_IDLE ∧
      (smb_server_poll w).1.server.frame_length = 0 ∧
      (4 ≤ inbound_len rf w → crc_matches (inbound_buf rf w) (inbound_len rf w) →
        (smb_server_poll w).2 = 0) := by
  rw [poll_idle hb hs]
  by_cases h0 : inbound_len rf w < 0
  · rw [exec_state_idle_neg rf wf cb h0]
    exact ⟨rfl, hs, hfl, fun h4 => absurd h4 (by omega)⟩
  by_cases h1 : inbound_len rf w = 0
  · rw [exec_state_idle_zero rf wf cb h1]
    exact ⟨rfl, hs, hfl, fun _ _ => rfl⟩
  by_cases h4 : inbound_len rf w ≤ 3
  · rw [exec_state_idle_short rf wf cb (by omega) h4]
    exact ⟨rfl, hs, hfl, fun h4 => absurd h4 (by omega)⟩
  by_cases hc : crc_matches (inbound_buf rf w) (inbound_len rf w)
  · rw [exec_state_idle_other rf wf cb (by omega) hc hna]
    exact ⟨rfl, hs, hfl, fun _ _ => rfl⟩
  · rw [exec_state_idle_bad_crc rf wf cb (by omega) hc]
    exact ⟨rfl, hs, hfl, fun _ h => absurd h hc⟩

/-- C8: a CRC-valid frame of any length from 4 on, addressed to the server, whose
function code has a null callback slot or is none of 0x03, 0x04, 0x06, 0x10, makes the
poll hand `write_frame` exactly the 5-byte exception reply
`[addr, fc | 0x80, 0x01, crc_hi, crc_lo]` (CRC over the first three bytes), and no
register callback is called. -/
theorem C8_illegal_function (w : World σ) (rf : read_frame_fn σ)
    (wf : write_frame_fn σ) (cb : smb_server_if_t σ) (hb : bound_to w.server rf wf cb)
    (hs : w.server.state = SERVER_STATE_IDLE) (hok : server_ok w.server)
    (hlen : 4 ≤ inbound_len rf w)
    (hcrc : crc_matches (inbound_buf rf w) (inbound_len rf w))
    (haddr : rd (inbound_buf rf w) 0 = w.server.addr)
    (hfc : no_handler cb (rd (inbound_buf rf w) 1)) :
    (smb_server_poll w).1.trace =
      w.trace ++ [Event.read_frame 256,
        Event.write_frame
          (exception_frame w.server.addr (rd (inbound_buf rf w) 1)
            MODBUS_EXC_ILLEGAL_FUNCTION) 5] := by
  rw [poll_idle hb hs, exec_state_idle_accept rf wf cb hlen hcrc haddr,
    process_frame_no_handler wf cb (accepted rf w) hfc,
    send_error_reply_trace wf _ _ (accepted_ok rf hok) (by decide), accepted_trace,
    List.append_assoc]
  rfl

/-- C9: for a CRC-valid frame addressed to the server with function code 0x03 or 0x04
and the read callback defined: if the length is not 8 or the big-endian quantity in
bytes 4..5 exceeds 125, the poll hands `write_frame` the exception reply
`[addr, fc | 0x80, 0x03, crc_hi, crc_lo]` and calls no register callback; if the length
is 8 and the quantity is at most 125, the callback is called exactly once in that poll,
with `n_regs` the quantity and `start_addr` the big-endian value of bytes 2..3. -/
theorem C9_read_request_validation (w : World σ) (rf : read_frame_fn σ)
    (wf : write_frame_fn σ) (cb : smb_server_if_t σ) (f : read_regs_fn σ)
    (ev : Nat → Nat → Event) (hb : bound_to w.server rf wf cb)
    (hs : w.server.state = SERVER_STATE_IDLE) (hok : server_ok w.server)
    (hlen : 4 ≤ inbound_len rf w)
    (hcrc : crc_matches (inbound_buf rf w) (inbound_len rf w))
    (haddr : rd (inbound_buf rf w) 0 = w.server.addr)
    (hfc : read_handler cb (rd (inbound_buf rf w) 1) f ev) :
    ((inbound_len rf w ≠ 8 ∨ 125 < be16 (inbound_buf rf w) 4) →
      (smb_server_poll w).1.trace =
        w.trace ++ [Event.read_frame 256,
          Event.write_frame
            (exception_frame w.server.addr (rd (inbound_buf rf w) 1)
              MODBUS_EXC_ILLEGAL_DATA_VALUE) 5]) ∧
    ((inbound_len rf w = 8 ∧ be16 (inbound_buf rf w) 4 ≤ 125) →
      ∃ rest, (smb_server_poll w).1.trace =
          w.trace ++ [Event.read_frame 256,
            ev (be16 (inbound_buf rf w) 4) (be16 (inbound_buf rf w) 2)] ++ rest ∧
        ∀ e ∈ rest, e.is_write_frame = true) := by
  have hok' := accepted_ok rf hok
  have hfl : (accepted rf w).server.frame_length = inbound_len rf w := rfl
  rw [poll_idle hb hs, exec_state_idle_accept rf wf cb hlen hcrc haddr,
    process_frame_read wf cb (accepted rf w) f ev hfc, hfl]
  constructor
  · intro h
    by_cases h8 : inbound_len rf w ≠ 8
    · rw [if_pos h8, send_error_reply_trace wf _ _ hok' (by decide), accepted_trace,
        List.append_assoc]
      rfl
    · have hq : 125 < be16 (accepted rf w).server.buffer 4 := by
        rcases h with h | h
        · exact absurd h h8
        · exact h
      rw [if_neg h8, process_read_regs_too_many wf f ev _ hok'.2.1 hq,
        send_error_reply_trace wf _ _ hok' (by decide), accepted_trace, List.append_assoc]
      rfl
  · rintro ⟨h8, hq⟩
    rw [if_neg (by rw [h8]; exact fun h => h rfl)]
    obtain ⟨rest, h1, h2⟩ := process_read_regs_call_trace wf f ev (accepted rf w) hok'.2.1 hq
    refine ⟨rest, ?_, h2⟩
    rw [h1, accepted_trace, List.append_assoc, List.append_assoc, List.append_assoc]
    rfl

/-- C10: for a CRC-valid frame of length `L` addressed to the server with function code
0x10 and `write_regs` defined, with `q` the 16-bit quantity of bytes 4..5 (whatever its
value): when `L >= 11`, `L = 9 + 2*q`, byte 6 is `2*q` and `q <= 123`, `write_regs` is
called once, with `n_regs = q`, `start_addr` the big-endian value of bytes 2..3 and the
data that start at byte 7; otherwise it is not called and the poll hands `write_frame`
the exception reply `[addr, 0x90, 0x03, crc_hi, crc_lo]`. -/
theorem C10_write_multiple_validation (w : World σ) (rf : read_frame_fn σ)
    (wf : write_frame_fn σ) (cb : smb_server_if_t σ) (f : write_regs_fn σ)
    (hb : bound_to w.server rf wf cb)
    (hs : w.server.state = SERVER_STATE_IDLE) (hok : server_ok w.server)
    (hlen : 4 ≤ inbound_len rf w)
    (hcrc : crc_matches (inbound_buf rf w) (inbound_len rf w))
    (haddr : rd (inbound_buf rf w) 0 = w.server.addr)
    (hfc : rd (inbound_buf rf w) 1 = 0x10) (hcb : cb.write_regs = some f) :
    (write_multiple_valid (inbound_buf rf w) (inbound_len rf w) →
      ∃ rest, (smb_server_poll w).1.trace =
          w.trace ++ [Event.read_frame 256,
            Event.write_regs
              (((inbound_buf rf w).drop 7).take (2 * be16 (inbound_buf rf w) 4))
              (be16 (inbound_buf rf w) 4) (be16 (inbound_buf rf w) 2)] ++ rest ∧
        ∀ e ∈ rest, e.is_write_frame = true) ∧
    (¬ write_multiple_valid (inbound_buf rf w) (inbound_len rf w) →
      (smb_server_poll w).1.trace =
        w.trace ++ [Event.read_frame 256,
          Event.write_frame
            (exception_frame w.server.addr 0x10 MODBUS_EXC_ILLEGAL_DATA_VALUE) 5]) := by
  have hok' := accepted_ok rf hok
  have hfl : (accepted rf w).server.frame_length = inbound_len rf w := rfl
  have hbuf : (accepted rf w).server.buffer = inbound_buf rf w := rfl
  rw [poll_idle hb hs, exec_state_idle_accept rf wf cb hlen hcrc haddr,
    process_frame_write_multiple wf cb (accepted rf w) f hok'.2.1 hfc hcb, hfl, hbuf]
  constructor
  · intro hv
    rw [if_pos hv]
    obtain ⟨rest, h1, h2⟩ :=
      process_write_regs_trace wf f 7 (be16 (inbound_buf rf w) 4) (accepted rf w) hok'.2.1
    refine ⟨rest, ?_, h2⟩
    rw [h1, accepted_trace, List.append_assoc, List.append_assoc, List.append_assoc]
    rfl
  · intro hv
    rw [if_neg hv, send_error_reply_trace wf _ _ hok' (by decide), accepted_trace,
      List.append_assoc, hbuf, hfc]
    rfl

end Claims

/-! ## The claims on concrete requests -/

section Evaluations

set_option maxRecDepth 8000

/-- C1 (the code at the claim's own witness): for the request `01 03 00 00 00 02 C4 0B`
the callback is called with 2 registers from address 0; when it stores `00 01 02 03` and
returns 4, which is `2 * n_regs`, the server hands `write_frame` the exception reply
`01 83 02 C0 F1` (Illegal Data Address) and not the normal reply
`01 03 04 00 01 02 03 EA 92`; the poll returns 0. -/
theorem C1_double_count_gets_exception :
    (smb_server_poll c1_world).1.trace =
      [Event.read_frame 256, Event.read_holding_regs 2 0,
        Event.write_frame [0x01, 0x83, 0x02, 0xC0, 0xF1] 5] ∧
      (smb_server_poll c1_world).2 = 0 := by
  decide


/-- C2 (the code on a partial write): with the transport bound to the framer and a UART
that accepts 4 of the 5 reply bytes, the first poll returns `-EAGAIN` but leaves the
server in Idle, not in SendReply, while the framer is in Emit with 4 bytes sent; the
next poll calls `read_frame`, that is `smb_rtu_read_pdu`, which returns `-EBUSY`, and
does not call `smb_rtu_write_pdu`: the UART `write` has been called once and the last
byte is never handed to it. -/
theorem C2_short_write_is_dropped :
    c2_framer.rtu.state = RTU_STATE_PROCESS_RX_FRAME ∧
    (smb_server_poll c2_world).2 = -EAGAIN ∧
    (smb_server_poll c2_world).1.server.state = SERVER_STATE_IDLE ∧
    (smb_server_poll c2_world).1.trace =
      [Event.read_frame 256, Event.write_frame [0x01, 0x84, 0x01, 0x82, 0xC0] 5] ∧
    (smb_server_poll c2_world).1.host.rtu.state = RTU_STATE_EMIT ∧
    (smb_server_poll c2_world).1.host.rtu.buffer_index = 4 ∧
    (smb_server_poll (smb_server_poll c2_world).1).2 = -EBUSY ∧
    (smb_server_poll (smb_server_poll c2_world).1).1.trace =
      [Event.read_frame 256, Event.write_frame [0x01, 0x84, 0x01, 0x82, 0xC0] 5,
        Event.read_frame 256] ∧
    (smb_server_poll (smb_server_poll c2_world).1).1.host.trace.filter RtuEvent.is_write =
      [RtuEvent.write [0x01, 0x84, 0x01, 0x82, 0xC0] 5] ∧
    (smb_server_poll (smb_server_poll c2_world).1).1.host.rtu.state = RTU_STATE_EMIT := by
  decide


/-- Witness of C3: the server configured for address 1 and polled once on the request
`01 03 00 00 00 02 C4 0B`. -/
theorem C3_reply_crc_valid_witness :
    (smb_server_config 0x01
        (some ⟨some (fixed_read_frame read_two_frame), some (fixed_write_frame 0)⟩)
        (some (holding_only [0x00, 0x01, 0x02, 0x03] 2)) ⟨server_init Unit, (), []⟩).2 = 0 ∧
    ∃ evs, (run_polls [id] c9_world).trace = [] ++ evs ∧
      ∀ frame len, Event.write_frame frame len ∈ evs →
        frame.length = len ∧ 5 ≤ len ∧ crc_matches frame (len : Int) ∧
          calculate_crc frame ((len : Int) - 2) =
            (rd frame ((len : Int) - 2).toNat <<< 8) ||| rd frame ((len : Int) - 1).toNat :=
  ⟨by decide,
   C3_reply_crc_valid 0x01
    (some ⟨some (fixed_read_frame read_two_frame), some (fixed_write_frame 0)⟩)
    (some (holding_only [0x00, 0x01, 0x02, 0x03] 2)) ⟨server_init Unit, (), []⟩ [id]
    (by decide) (by decide) (by decide)⟩


/-- Witness of C4: the request `01 03 00 00 00 02 C4 0B` to server 1. -/
theorem C4_reply_header_witness :
    (4 ≤ inbound_len (fixed_read_frame read_two_frame) c9_world ∧
      crc_matches (inbound_buf (fixed_read_frame read_two_frame) c9_world)
        (inbound_len (fixed_read_frame read_two_frame) c9_world) ∧
      rd (inbound_buf (fixed_read_frame read_two_frame) c9_world) 0 = c9_world.server.addr) ∧
    ∃ evs, (answer [id] c9_world).trace = [] ++ [Event.read_frame 256] ++ evs ∧
      ∀ frame len, Event.write_frame frame len ∈ evs →
        rd frame 0 = 0x01 ∧ (rd frame 1 = 0x03 ∨ rd frame 1 = 0x03 ||| 0x80) :=
  ⟨by decide,
   C4_reply_header c9_world (fixed_read_frame read_two_frame) (fixed_write_frame 0)
    (holding_only [0x00, 0x01, 0x02, 0x03] 2) [id] ⟨rfl, rfl⟩ rfl
    (by unfold server_ok is_bytes; decide) (by decide) (by decide) (by decide)⟩

/-- Witness of C5: the frame `01 04 00 00`, whose CRC does not match. -/
theorem C5_frame_validation_failures_witness :
    (4 ≤ inbound_len (fixed_read_frame c5_frame) c5_world ∧
      ¬ crc_matches (inbound_buf (fixed_read_frame c5_frame) c5_world)
        (inbound_len (fixed_read_frame c5_frame) c5_world)) ∧
    (smb_server_poll c5_world).2 = -EBADMSG ∧
    (smb_server_poll c5_world).1.trace = [Event.read_frame 256] ∧
    (smb_server_poll c5_world).1.server.state = SERVER_STATE_IDLE :=
  ⟨by decide,
   C5_frame_validation_failures c5_world (fixed_read_frame c5_frame)
    (fixed_write_frame 0) no_callbacks ⟨rfl, rfl⟩ rfl (Or.inr (Or.inr (Or.inr (by decide))))⟩

/-- Witness of C6: the CRC-valid frame `02 00 00 D0` polled by server 1. -/
theorem C6_foreign_address_ignored_witness :
    (rd (inbound_buf (fixed_read_frame c6_frame) c6_world) 0 = 0x02 ∧
      c6_world.server.addr = 0x01 ∧
      crc_matches (inbound_buf (fixed_read_frame c6_frame) c6_world)
        (inbound_len (fixed_read_frame c6_frame) c6_world)) ∧
    (smb_server_poll c6_world).1.trace = [Event.read_frame 256] ∧
    (smb_server_poll c6_world).1.server.state = SERVER_STATE_IDLE ∧
    (smb_server_poll c6_world).1.server.frame_length = 0 ∧
    (smb_server_poll c6_world).2 = 0 :=
  have h := C6_foreign_address_ignored c6_world (fixed_read_frame c6_frame)
    (fixed_write_frame 0) no_callbacks ⟨rfl, rfl⟩ rfl rfl (by decide)
  ⟨by decide, h.1, h.2.1, h.2.2.1, h.2.2.2 (by decide) (by decide)⟩

/-- Witness of C8: the request `01 04 01 E3` with `read_input_regs` null is answered
with `01 84 01 82 C0`. -/
theorem C8_illegal_function_witness :
    (crc_matches (inbound_buf (fixed_read_frame c8_frame) c8_world)
        (inbound_len (fixed_read_frame c8_frame) c8_world) ∧
      no_callbacks.read_input_regs = none) ∧
    (smb_server_poll c8_world).1.trace =
      [Event.read_frame 256, Event.write_frame [0x01, 0x84, 0x01, 0x82, 0xC0] 5] :=
  ⟨⟨by decide, rfl⟩,
   C8_illegal_function c8_world (fixed_read_frame c8_frame)
    (fixed_write_frame 0) no_callbacks ⟨rfl, rfl⟩ rfl (by unfold server_ok is_bytes; decide)
    (by decide) (by decide) (by decide) (Or.inr (Or.inl ⟨by decide, rfl⟩))⟩

/-- Witness of C9: the request `01 03 00 00 00 02 C4 0B` makes the server call
`read_holding_regs` once, for 2 registers from address 0. -/
theorem C9_read_request_validation_witness :
    (inbound_len (fixed_read_frame read_two_frame) c9_world = 8 ∧
      be16 (inbound_buf (fixed_read_frame read_two_frame) c9_world) 4 ≤ 125) ∧
    ∃ rest, (smb_server_poll c9_world).1.trace =
        [] ++ [Event.read_frame 256, Event.read_holding_regs 2 0] ++ rest ∧
      ∀ e ∈ rest, e.is_write_frame = true :=
  ⟨by decide,
   (C9_read_request_validation c9_world (fixed_read_frame read_two_frame)
    (fixed_write_frame 0) (holding_only [0x00, 0x01, 0x02, 0x03] 2)
    (fixed_read_regs [0x00, 0x01, 0x02, 0x03] 2) Event.read_holding_regs ⟨rfl, rfl⟩ rfl
    (by unfold server_ok is_bytes; decide) (by decide) (by decide) (by decide)
    (Or.inl ⟨by decide, rfl, rfl⟩)).2 (by decide)⟩

/-- Witness of C10: the request `01 10 42 73 00 01 02 40 2A 7F 48` makes the server call
`write_regs` once, for 1 register at address 0x4273 with the data `40 2A`. -/
theorem C10_write_multiple_validation_witness :
    (be16 (inbound_buf (fixed_read_frame c10_frame) c10_world) 4 = 1 ∧
      write_multiple_valid (inbound_buf (fixed_read_frame c10_frame) c10_world)
        (inbound_len (fixed_read_frame c10_frame) c10_world)) ∧
    ∃ rest, (smb_server_poll c10_world).1.trace =
        [] ++ [Event.read_frame 256, Event.write_regs [0x40, 0x2A] 1 0x4273] ++ rest ∧
      ∀ e ∈ rest, e.is_write_frame = true :=
  ⟨by decide,
   (C10_write_multiple_validation c10_world (fixed_read_frame c10_frame)
    (fixed_write_frame 0) (write_only 1) (fixed_write_regs 1) ⟨rfl, rfl⟩ rfl
    (by unfold server_ok is_bytes; decide) (by decide) (by decide) (by decide) (by decide)
    rfl).1 (by decide)⟩

end Evaluations

/-! ## Register calls, emission and configuration -/

section Claims2

variable {σ τ : Type}

/-- C11: write-single echo.  For a CRC-valid 8-byte request addressed to the server with
function code 0x06 and `write_regs` defined, the poll that reads it calls `write_regs`
once with `n_regs = 1`, `start_addr` the big-endian value of bytes 2..3 and the data
bytes 4..5; if that call returns 1, the poll then calls `write_frame` once, with
length 8 and a frame that is byte for byte the request, CRC bytes included. -/
theorem C11_write_single_echo (w : World σ) (rf : read_frame_fn σ) (wf : write_frame_fn σ)
    (cb : smb_server_if_t σ) (f : write_regs_fn σ) (hb : bound_to w.server rf wf cb)
    (hs : w.server.state = SERVER_STATE_IDLE) (hok : server_ok w.server)
    (hlen : inbound_len rf w = 8)
    (hcrc : crc_matches (inbound_buf rf w) 8)
    (haddr : rd (inbound_buf rf w) 0 = w.server.addr)
    (hfc : rd (inbound_buf rf w) 1 = 0x06) (hcb : cb.write_regs = some f)
    (hret : write_regs_ret f 4 1 (accepted rf w) = 1) :
    (smb_server_poll w).1.trace =
      w.trace ++ [Event.read_frame 256,
        Event.write_regs [rd (inbound_buf rf w) 4, rd (inbound_buf rf w) 5] 1
          (be16 (inbound_buf rf w) 2),
        Event.write_frame ((inbound_buf rf w).take 8) 8] := by
  have hok2 := accepted_ok rf hok
  have hc : register_call cb (accepted rf w) = some (write_call f 4 1 (accepted rf w)) :=
    register_call_write_single cb _ f hfc hcb hlen
  have hret2 : (write_call f 4 1 (accepted rf w)).ret = 1 := hret
  have hn : (write_call f 4 1 (accepted rf w)).n_regs = 1 := rfl
  have h1 : (1 : Int) = ((1 : Nat) : Int) := rfl
  rw [poll_idle hb hs,
    exec_state_idle_accept rf wf cb (by rw [hlen]; decide) (by rw [hlen]; exact hcrc) haddr,
    process_frame_call wf cb _ _ hok2.2.1 hc, hret2, if_neg (by decide), hn, if_pos h1,
    send_reply_trace]
  have hbuf : (write_call f 4 1 (accepted rf w)).reply.server.buffer = inbound_buf rf w :=
    compose_write_reply_echo (after_write_regs f 4 1 (accepted rf w)) hok2.2.1 hcrc
  have hfl : (write_call f 4 1 (accepted rf w)).reply.server.frame_length = 8 := rfl
  have htr : (write_call f 4 1 (accepted rf w)).reply.trace =
      w.trace ++ [Event.read_frame 256] ++
        [Event.write_regs (((inbound_buf rf w).drop 4).take (2 * 1)) 1
          (be16 (inbound_buf rf w) 2)] := rfl
  have h8 : to_u16 8 = 8 := by decide
  rw [hbuf, hfl, htr, h8, drop_take_two _ 4 (by
    have : (inbound_buf rf w).length = 256 := hok2.1
    omega)]
  simp only [List.append_assoc, List.cons_append, List.nil_append]

/-- C12: write-multiple normal reply.  For a valid 0x10 request with quantity `q`, if
`write_regs` returns `q`, the poll calls `write_frame` once, with length 8 and the frame
made of the first six bytes of the request (address, 0x10, start address, quantity)
followed by the CRC over those six bytes, high byte of the CRC word first. -/
theorem C12_write_multiple_reply (w : World σ) (rf : read_frame_fn σ)
    (wf : write_frame_fn σ) (cb : smb_server_if_t σ) (f : write_regs_fn σ)
    (hb : bound_to w.server rf wf cb)
    (hs : w.server.state = SERVER_STATE_IDLE) (hok : server_ok w.server)
    (hcrc : crc_matches (inbound_buf rf w) (inbound_len rf w))
    (haddr : rd (inbound_buf rf w) 0 = w.server.addr)
    (hfc : rd (inbound_buf rf w) 1 = 0x10) (hcb : cb.write_regs = some f)
    (hv : write_multiple_valid (inbound_buf rf w) (inbound_len rf w))
    (hret : write_regs_ret f 7 (be16 (inbound_buf rf w) 4) (accepted rf w) =
      (be16 (inbound_buf rf w) 4 : Int)) :
    (smb_server_poll w).1.trace =
      w.trace ++ [Event.read_frame 256,
        Event.write_regs (((inbound_buf rf w).drop 7).take (2 * be16 (inbound_buf rf w) 4))
          (be16 (inbound_buf rf w) 4) (be16 (inbound_buf rf w) 2),
        Event.write_frame
          ((inbound_buf rf w).take 6 ++
            [calculate_crc ((inbound_buf rf w).take 6) 6 / 256,
             calculate_crc ((inbound_buf rf w).take 6) 6 % 256]) 8] := by
  have hok2 := accepted_ok rf hok
  have hc : register_call cb (accepted rf w) =
      some (write_call f 7 (be16 (inbound_buf rf w) 4) (accepted rf w)) :=
    register_call_write_multiple cb _ f hfc hcb hv
  have hret2 : (write_call f 7 (be16 (inbound_buf rf w) 4) (accepted rf w)).ret =
      (be16 (inbound_buf rf w) 4 : Int) := hret
  have hn : (write_call f 7 (be16 (inbound_buf rf w) 4) (accepted rf w)).n_regs =
      be16 (inbound_buf rf w) 4 := rfl
  have hq : (be16 (inbound_buf rf w) 4 : Int) ≠ 0 := by
    obtain ⟨h11, h9, _, _⟩ := hv
    omega
  rw [poll_idle hb hs,
    exec_state_idle_accept rf wf cb (by have := hv.1; omega) hcrc haddr,
    process_frame_call wf cb _ _ hok2.2.1 hc, hret2, if_neg hq, hn, if_pos rfl,
    send_reply_trace]
  have hfl : (write_call f 7 (be16 (inbound_buf rf w) 4) (accepted rf w)
      ).reply.server.frame_length = 8 := rfl
  have htr : (write_call f 7 (be16 (inbound_buf rf w) 4) (accepted rf w)).reply.trace =
      w.trace ++ [Event.read_frame 256] ++
        [Event.write_regs (((inbound_buf rf w).drop 7).take (2 * be16 (inbound_buf rf w) 4))
          (be16 (inbound_buf rf w) 4) (be16 (inbound_buf rf w) 2)] := rfl
  have hbuf : (write_call f 7 (be16 (inbound_buf rf w) 4) (accepted rf w)
      ).reply.server.buffer.take 8 =
      (inbound_buf rf w).take 6 ++
        [calculate_crc ((inbound_buf rf w).take 6) 6 / 256,
         calculate_crc ((inbound_buf rf w).take 6) 6 % 256] :=
    compose_write_reply_frame (after_write_regs f 7 _ (accepted rf w)) hok2.2.1 (by
      have : (inbound_buf rf w).length = 256 := hok2.1
      show 8 ≤ (inbound_buf rf w).length
      omega)
  have h8 : to_u16 8 = 8 := by decide
  rw [hfl, htr, h8, hbuf]
  simp only [List.append_assoc, List.cons_append, List.nil_append]

/-- C13: callback errors become exception 0x02.  For a valid request (0x03, 0x04, 0x06
or 0x10: one that leads to the register call `c`) whose callback returns a negative
value, the poll calls the callback once and then `write_frame` once, with the 5-byte
frame `[addr, fc | 0x80, 0x02, crc_hi, crc_lo]`; the value `smb_server_poll` returns is
the one `send_reply` derives from the result of `write_frame` alone: 0 when `write_frame`
returns 0, `-EAGAIN` when it returns a positive value, the value itself when it is
negative. -/
theorem C13_callback_error_is_exception (w : World σ) (rf : read_frame_fn σ)
    (wf : write_frame_fn σ) (cb : smb_server_if_t σ) (c : RegisterCall σ)
    (hb : bound_to w.server rf wf cb)
    (hs : w.server.state = SERVER_STATE_IDLE) (hok : server_ok w.server)
    (hlen : 4 ≤ inbound_len rf w)
    (hcrc : crc_matches (inbound_buf rf w) (inbound_len rf w))
    (haddr : rd (inbound_buf rf w) 0 = w.server.addr)
    (hc : register_call cb (accepted rf w) = some c) (hneg : c.ret < 0) :
    (rd (inbound_buf rf w) 1 = 0x03 ∨ rd (inbound_buf rf w) 1 = 0x04 ∨
      rd (inbound_buf rf w) 1 = 0x06 ∨ rd (inbound_buf rf w) 1 = 0x10) ∧
    (smb_server_poll w).1.trace =
      w.trace ++ [Event.read_frame 256, c.event,
        Event.write_frame
          (exception_frame w.server.addr (rd (inbound_buf rf w) 1)
            MODBUS_EXC_ILLEGAL_DATA_ADDRESS) 5] ∧
    (smb_server_poll w).2 =
      emit_result (write_frame_ret wf
        (prepare_error_reply w.server.addr MODBUS_EXC_ILLEGAL_DATA_ADDRESS c.after)) ∧
    (write_frame_ret wf
        (prepare_error_reply w.server.addr MODBUS_EXC_ILLEGAL_DATA_ADDRESS c.after) = 0 →
      (smb_server_poll w).2 = 0) := by
  have hok2 := accepted_ok rf hok
  obtain ⟨hd, htr, _, _⟩ := register_call_after cb _ c hok2 hc
  have hn : ¬ c.ret = (c.n_regs : Int) := by omega
  have hfcs : rd (inbound_buf rf w) 1 = 0x03 ∨ rd (inbound_buf rf w) 1 = 0x04 ∨
      rd (inbound_buf rf w) 1 = 0x06 ∨ rd (inbound_buf rf w) 1 = 0x10 := by
    rcases register_call_cases cb _ c hc with ⟨f, ev, hh, _⟩ | ⟨f, h1, _⟩ | ⟨f, h1, _⟩
    · rcases hh with ⟨h1, _⟩ | ⟨h1, _⟩
      · exact Or.inl h1
      · exact Or.inr (Or.inl h1)
    · exact Or.inr (Or.inr (Or.inl h1))
    · exact Or.inr (Or.inr (Or.inr h1))
  have hpoll : smb_server_poll w =
      send_reply wf (prepare_error_reply w.server.addr MODBUS_EXC_ILLEGAL_DATA_ADDRESS
        c.after) := by
    rw [poll_idle hb hs, exec_state_idle_accept rf wf cb hlen hcrc haddr,
      process_frame_call wf cb _ _ hok2.2.1 hc, if_neg (by omega), if_neg hn]
    rfl
  have haddr2 : c.after.server.addr = w.server.addr := hd.addr
  have hfc2 : rd c.after.server.buffer 1 = rd (inbound_buf rf w) 1 := hd.head 1 (by decide)
  refine ⟨hfcs, ?_, ?_, ?_⟩
  · rw [hpoll]
    have := send_error_reply_trace wf MODBUS_EXC_ILLEGAL_DATA_ADDRESS c.after hd.ok
      (by decide)
    rw [haddr2, hfc2, htr, accepted_trace] at this
    rw [this]
    simp only [List.append_assoc, List.singleton_append, List.cons_append, List.nil_append]
  · rw [hpoll, send_reply_result]
  · intro h0
    rw [hpoll, send_reply_result, h0]
    rfl

/-- C15: emit semantics.  A poll either calls `write_frame` not at all, or calls it
exactly once, as its last call, on the buffer and frame length of a world `pre`.  With
`r` the value `write_frame` returned: if `r = 0` the server is back in Idle with frame
length 0 and the poll returns 0; if `r < 0` the server is back in Idle with frame
length 0 and the poll returns `r`; if `r > 0` the server is in SendReply, the poll
returns `-EAGAIN`, and the next poll, whatever the host did in between, makes exactly one
call: `write_frame` with the same buffer contents and the same length. -/
theorem C15_emit_semantics (w : World σ) (rf : read_frame_fn σ) (wf : write_frame_fn σ)
    (cb : smb_server_if_t σ) (hb : bound_to w.server rf wf cb)
    (hinv : server_inv w.server) :
    (∃ evs, (smb_server_poll w).1.trace = w.trace ++ evs ∧
        ∀ e ∈ evs, e.is_write_frame = false) ∨
      (∃ pre evs, pre.trace = w.trace ++ evs ∧ (∀ e ∈ evs, e.is_write_frame = false) ∧
        (smb_server_poll w).1.trace = pre.trace ++ [emitted pre] ∧
        (write_frame_ret wf pre = 0 →
          (smb_server_poll w).1.server.state = SERVER_STATE_IDLE ∧
          (smb_server_poll w).1.server.frame_length = 0 ∧ (smb_server_poll w).2 = 0) ∧
        (write_frame_ret wf pre < 0 →
          (smb_server_poll w).1.server.state = SERVER_STATE_IDLE ∧
          (smb_server_poll w).1.server.frame_length = 0 ∧
          (smb_server_poll w).2 = write_frame_ret wf pre) ∧
        (0 < write_frame_ret wf pre →
          (smb_server_poll w).1.server.state = SERVER_STATE_SEND_REPLY ∧
          (smb_server_poll w).2 = -EAGAIN ∧
          ∀ g : σ → σ, (poll_after g (smb_server_poll w).1).trace =
            (smb_server_poll w).1.trace ++ [emitted pre])) := by
  rcases poll_emits w rf wf cb hb hinv with h | ⟨pre, hp, hbp, _, _, evs, ht, he⟩
  · exact Or.inl h
  · right
    obtain ⟨h0, hneg, hpos⟩ := send_reply_cases wf pre
    rw [hp]
    refine ⟨pre, evs, ht, he, send_reply_trace wf pre, h0, hneg, ?_⟩
    intro hr
    obtain ⟨hst, hfl, hbuf, hret⟩ := hpos hr
    refine ⟨hst, hret, fun g => ?_⟩
    obtain ⟨_, _, htr, hcb, _⟩ := send_reply_state wf pre
    have hb2 : bound_to (host_step g (send_reply wf pre).1).server rf wf cb :=
      ⟨htr.trans hbp.1, hcb.trans hbp.2⟩
    have hp2 : smb_server_poll (host_step g (send_reply wf pre).1) =
        send_reply wf (host_step g (send_reply wf pre).1) := poll_send_reply hb2 hst
    show (smb_server_poll (host_step g (send_reply wf pre).1)).1.trace = _
    rw [hp2, send_reply_trace]
    show (send_reply wf pre).1.trace ++
      [Event.write_frame ((send_reply wf pre).1.server.buffer.take
        (to_u16 (send_reply wf pre).1.server.frame_length))
        (to_u16 (send_reply wf pre).1.server.frame_length)] = _
    rw [hbuf, hfl]
    rfl

/-- C16: `smb_server_config` returns `-EINVAL` when the address is 0; otherwise `-EFAULT`
when the transport, one of its two slots or the callback set is null; otherwise 0,
whatever the register callback slots are.  After a call that does not return 0 the
server is zeroized and unconfigured, whatever it was before, and the next poll returns
`-EFAULT` and calls nothing (the world, trace included, is unchanged). -/
theorem C16_server_configuration (server_addr : Nat)
    (transport : Option (smb_transport_if_t σ)) (server_cb : Option (smb_server_if_t σ))
    (w : World σ) :
    (smb_server_config server_addr transport server_cb w).2 =
        (if server_addr = 0 then -EINVAL
         else if transport_complete transport = true ∧ server_cb.isSome = true then 0
         else -EFAULT) ∧
      ((smb_server_config server_addr transport server_cb w).2 ≠ 0 →
        zeroized (smb_server_config server_addr transport server_cb w).1.server ∧
        (smb_server_config server_addr transport server_cb w).1.trace = w.trace ∧
        ∀ g : σ → σ,
          smb_server_poll
              { (smb_server_config server_addr transport server_cb w).1 with
                host := g (smb_server_config server_addr transport server_cb w).1.host } =
            ({ (smb_server_config server_addr transport server_cb w).1 with
                host := g (smb_server_config server_addr transport server_cb w).1.host },
              -EFAULT)) := by
  have hz : ∀ b ∈ w.server.buffer.map (fun _ => 0), b = 0 := by
    intro b hb
    rw [List.mem_map] at hb
    obtain ⟨_, _, rfl⟩ := hb
    rfl
  unfold smb_server_config
  simp only []
  by_cases h0 : server_addr = 0
  · rw [if_pos h0.symm, if_pos h0]
    exact ⟨rfl, fun _ => ⟨⟨rfl, rfl, rfl, rfl, rfl, rfl, hz⟩, rfl, fun _ => rfl⟩⟩
  rw [if_neg (fun h => h0 h.symm), if_neg h0]
  cases transport with
  | none =>
    exact ⟨rfl, fun _ => ⟨⟨rfl, rfl, rfl, rfl, rfl, rfl, hz⟩, rfl, fun _ => rfl⟩⟩
  | some t =>
    obtain ⟨trf, twf⟩ := t
    cases trf with
    | none =>
      exact ⟨rfl, fun _ => ⟨⟨rfl, rfl, rfl, rfl, rfl, rfl, hz⟩, rfl, fun _ => rfl⟩⟩
    | some rf =>
      cases twf with
      | none =>
        exact ⟨rfl, fun _ => ⟨⟨rfl, rfl, rfl, rfl, rfl, rfl, hz⟩, rfl, fun _ => rfl⟩⟩
      | some wf =>
        cases server_cb with
        | none =>
          exact ⟨rfl, fun _ => ⟨⟨rfl, rfl, rfl, rfl, rfl, rfl, hz⟩, rfl, fun _ => rfl⟩⟩
        | some cb =>
          exact ⟨rfl, fun h => absurd rfl h⟩

/-- C18: with a valid address and a complete interface, `smb_rtu_config` returns 0 if
and only if the baud rate is one of 1200, 2400, 4800, 9600, 14400, 19200, 28800, 38400,
57600, 76800, 115200, and `-EINVAL` otherwise (the framer is then left as it was); on
success the stored pair `(t_1_5char_us, t_3_5char_us)` is the row of the baud-rate table
and `start_counter` is called exactly once, with the t3.5 value: it is the only call
made. -/
theorem C18_baud_rate_table (addr baud_rate : Nat) (interface : Option (smb_rtu_if_t τ))
    (w : RtuWorld τ) (h0 : addr ≠ 0) (h255 : addr ≠ 255)
    (hitf : interface_complete interface = true) :
    ((smb_rtu_config addr baud_rate interface w).2 = 0 ↔ baud_rate ∈ supported_bauds) ∧
      (baud_rate ∉ supported_bauds →
        smb_rtu_config addr baud_rate interface w = (w, -EINVAL)) ∧
      (baud_rate ∈ supported_bauds →
        (baud_rate, (smb_rtu_config addr baud_rate interface w).1.rtu.t_1_5char_us,
          (smb_rtu_config addr baud_rate interface w).1.rtu.t_3_5char_us) ∈ baud_table ∧
        (smb_rtu_config addr baud_rate interface w).1.trace =
          w.trace ++ [RtuEvent.start_counter
            (smb_rtu_config addr baud_rate interface w).1.rtu.t_3_5char_us]) := by
  obtain ⟨sc, wr, fr, rfl⟩ := (interface_complete_iff interface).mp hitf
  rw [smb_rtu_config_complete addr baud_rate sc wr fr w h0 h255]
  obtain ⟨hsome, hnone⟩ := baud_rate_timings_spec baud_rate
  cases ht : baud_rate_timings baud_rate with
  | none =>
    have hn := hnone.mp ht
    refine ⟨⟨fun h => absurd h neg_EINVAL_ne, fun h => absurd h hn⟩, fun _ => rfl,
      fun h => absurd h hn⟩
  | some t =>
    have hin : baud_rate ∈ supported_bauds := by
      by_contra hc
      rw [hnone.mpr hc] at ht
      exact Option.noConfusion ht
    exact ⟨⟨fun _ => hin, fun _ => rfl⟩, fun h => absurd hin h,
      fun _ => ⟨(hsome t).mp ht, rfl⟩⟩

/-- C19 (amended): the checks are made in the order of the source.  (a) In every world
`v`, configured or not, when the interface pointer or one of its three slots is null,
`smb_rtu_config` changes nothing and returns `-EINVAL` for the addresses 0 and 255 and
`-EFAULT` for every other address, whatever the baud rate; (b) after `smb_rtu_reset` each
of `smb_rtu_receive`, `smb_rtu_timer_timeout`, `smb_rtu_read_pdu` and `smb_rtu_write_pdu`
returns `-EFAULT` and changes no state, whatever the byte, the buffer and the length `n`;
(c) on a configured framer `w`, in every phase, `smb_rtu_read_pdu` and
`smb_rtu_write_pdu` with a null buffer return `-EFAULT`, whatever the length `n`, and
`smb_rtu_write_pdu` with a non-null buffer and a length above 256 returns `-EINVAL`, all
three without any call into the host and without a change of state. -/
theorem C19_framer_argument_validation (addr baud_rate : Nat)
    (interface : Option (smb_rtu_if_t τ)) (itf : smb_rtu_if_t τ) (v w : RtuWorld τ)
    (byte n length : Nat) (buffer : Option byte_ptr) (p : byte_ptr)
    (hnull : interface_complete interface = false)
    (hcfg : w.rtu.interface = some itf) (hlong : MODBUS_RTU_BUFFER_SIZE < length) :
    smb_rtu_config addr baud_rate interface v =
        (v, if addr = 0 ∨ addr = 255 then -EINVAL else -EFAULT) ∧
      (smb_rtu_receive byte (smb_rtu_reset v) = (smb_rtu_reset v, -EFAULT) ∧
        smb_rtu_timer_timeout (smb_rtu_reset v) = (smb_rtu_reset v, -EFAULT) ∧
        smb_rtu_read_pdu buffer n (smb_rtu_reset v) = (smb_rtu_reset v, [], -EFAULT) ∧
        smb_rtu_write_pdu buffer n (smb_rtu_reset v) = (smb_rtu_reset v, -EFAULT)) ∧
      (smb_rtu_read_pdu none n w = (w, [], -EFAULT) ∧
        smb_rtu_write_pdu none n w = (w, -EFAULT) ∧
        smb_rtu_write_pdu (some p) length w = (w, -EINVAL)) := by
  refine ⟨?_, ⟨rfl, rfl, rfl, rfl⟩, ?_, ?_, ?_⟩
  · unfold smb_rtu_config
    by_cases h0 : addr = 0
    · rw [if_pos h0.symm, if_pos (Or.inl h0)]
    by_cases h255 : addr = 255
    · rw [if_neg (fun h => h0 h.symm),
        if_pos (show UINT8_MAX = addr from h255.symm), if_pos (Or.inr h255)]
    rw [if_neg (fun h => h0 h.symm), if_neg (fun h : UINT8_MAX = addr => h255 h.symm),
      if_neg (fun h => h.elim h0 h255)]
    match interface, hnull with
    | none, _ => rfl
    | some ⟨none, _, _⟩, _ => rfl
    | some ⟨some _, none, _⟩, _ => rfl
    | some ⟨some _, some _, none⟩, _ => rfl
  · unfold smb_rtu_read_pdu
    rw [hcfg]
  · unfold smb_rtu_write_pdu
    rw [hcfg]
  · unfold smb_rtu_write_pdu
    rw [hcfg]
    simp only []
    rw [if_pos hlong]

end Claims2

/-! ## The claims on concrete requests, continued -/

section Evaluations2

set_option maxRecDepth 8000

/-- Witness of C11: the request `01 06 00 00 42 42 39 5B` with a `write_regs` that
returns 1; the frame handed to `write_frame` is the request itself. -/
theorem C11_write_single_echo_witness :
    (smb_server_poll c11_world).1.trace =
      [] ++ [Event.read_frame 256, Event.write_regs [0x42, 0x42] 1 0,
        Event.write_frame [0x01, 0x06, 0x00, 0x00, 0x42, 0x42, 0x39, 0x5B] 8] :=
  C11_write_single_echo c11_world (fixed_read_frame c11_frame) (fixed_write_frame 0)
    (write_only 1) (fixed_write_regs 1) ⟨rfl, rfl⟩ rfl
    (by unfold server_ok is_bytes; decide) (by decide) (by decide) (by decide) (by decide)
    rfl (by decide)

/-- The buffer after `read_frame` has stored `c12_frame`: the frame and one untouched
byte. -/
theorem c12_buf : inbound_buf (fixed_read_frame c12_frame) c12_world = c12_frame ++ [0] := by
  decide

/-- Byte `i` of `c12_frame` is `i` for the data bytes. -/
theorem c12_payload : ∀ i, i < 253 → 7 ≤ i → rd (c12_frame ++ [0]) i = i := by
  decide

/-- The CRC register of `calculate_crc` over `c12_frame`, after 7, 39, 71, ..., 253
bytes. -/
theorem c12_chunks :
    (List.range' 0 7).foldl (fun c i => crc_update c (rd (c12_frame ++ [0]) i)) 0xFFFF = 28105 ∧
    (List.range' 7 32).foldl (fun c i => crc_update c i) 28105 = 28635 ∧
    (List.range' 39 32).foldl (fun c i => crc_update c i) 28635 = 26857 ∧
    (List.range' 71 32).foldl (fun c i => crc_update c i) 26857 = 4091 ∧
    (List.range' 103 32).foldl (fun c i => crc_update c i) 4091 = 41678 ∧
    (List.range' 135 32).foldl (fun c i => crc_update c i) 41678 = 34156 ∧
    (List.range' 167 32).foldl (fun c i => crc_update c i) 34156 = 37597 ∧
    (List.range' 199 32).foldl (fun c i => crc_update c i) 37597 = 18567 ∧
    (List.range' 231 22).foldl (fun c i => crc_update c i) 18567 = 34295 :=
  ⟨by decide, by decide, by decide, by decide, by decide, by decide, by decide, by decide,
    by decide⟩

/-- The CRC register after the loop over the first 253 bytes of `c12_frame`. -/
theorem c12_crc_loop :
    (List.range 253).foldl (fun c i => crc_update c (rd (c12_frame ++ [0]) i)) 0xFFFF =
      34295 := by
  obtain ⟨h0, h1, h2, h3, h4, h5, h6, h7, h8⟩ := c12_chunks
  rw [List.range_eq_range', foldl_range'_split _ _ 0 7 246, h0, Nat.zero_add,
    foldl_range'_congr _ (fun c i => crc_update c i) 7 246
      (fun c i hi1 hi2 => by
        show crc_update c (rd (c12_frame ++ [0]) i) = crc_update c i
        rw [c12_payload i (by omega) hi1]),
    foldl_range'_split _ _ 7 32 214, h1,
    foldl_range'_split _ _ 39 32 182, h2,
    foldl_range'_split _ _ 71 32 150, h3,
    foldl_range'_split _ _ 103 32 118, h4,
    foldl_range'_split _ _ 135 32 86, h5,
    foldl_range'_split _ _ 167 32 54, h6,
    foldl_range'_split _ _ 199 32 22, h7, h8]

theorem c12_len : inbound_len (fixed_read_frame c12_frame) c12_world = 255 := by decide

theorem c12_tail : rd (c12_frame ++ [0]) 253 = 0xF7 ∧ rd (c12_frame ++ [0]) 254 = 0x85 := by
  decide

/-- The frame `c12_frame` passes the CRC test of `exec_state_idle`. -/
theorem c12_frame_crc :
    crc_matches (inbound_buf (fixed_read_frame c12_frame) c12_world)
      (inbound_len (fixed_read_frame c12_frame) c12_world) := by
  rw [c12_len, c12_buf]
  exact crc_matches_of_loop (c12_frame ++ [0]) 253 34295 0xF7 0x85 c12_crc_loop c12_tail.1
    c12_tail.2 (by decide)

/-- Witness of C12 on the request for 123 registers from address 0x4273: the reply is
`01 10 42 73 00 7B 65 89`. -/
theorem C12_write_multiple_reply_witness :
    (smb_server_poll c12_world).1.trace =
      [] ++ [Event.read_frame 256,
        Event.write_regs ((List.range 246).map (· + 7)) 0x7B 0x4273,
        Event.write_frame [0x01, 0x10, 0x42, 0x73, 0x00, 0x7B, 0x65, 0x89] 8] :=
  C12_write_multiple_reply c12_world (fixed_read_frame c12_frame) (fixed_write_frame 0)
    (write_only 123) (fixed_write_regs 123) ⟨rfl, rfl⟩ rfl
    (by unfold server_ok is_bytes; decide) c12_frame_crc (by decide) (by decide) rfl
    (by decide) (by decide)

/-- Witness of C13: the request `01 06 00 00 00 04 88 09` with a `write_regs` that returns -1;
the reply is the exception frame `01 86 02 C3 A1` and the poll returns 0. -/
theorem C13_callback_error_is_exception_witness :
    (smb_server_poll c13_world).1.trace =
      [] ++ [Event.read_frame 256, Event.write_regs [0x00, 0x04] 1 0,
        Event.write_frame [0x01, 0x86, 0x02, 0xC3, 0xA1] 5] ∧
    (smb_server_poll c13_world).2 = 0 :=
  ⟨(C13_callback_error_is_exception c13_world (fixed_read_frame c13_frame)
      (fixed_write_frame 0) (write_only (-1))
      (write_call (fixed_write_regs (-1)) 4 1 (accepted (fixed_read_frame c13_frame) c13_world))
      ⟨rfl, rfl⟩ rfl (by unfold server_ok is_bytes; decide) (by decide) (by decide)
      (by decide) rfl (by decide)).2.1,
   by decide⟩

/-- Witness of C15: a host whose `write_frame` returns 7 for the 8-byte reply; the poll returns
`-EAGAIN` in SendReply and the next poll hands the same 8 bytes to `write_frame`. -/
theorem C15_emit_semantics_witness :
    ((∃ evs, (smb_server_poll c15_world).1.trace = c15_world.trace ++ evs ∧
        ∀ e ∈ evs, e.is_write_frame = false) ∨
      (∃ pre evs, pre.trace = c15_world.trace ++ evs ∧
        (∀ e ∈ evs, e.is_write_frame = false) ∧
        (smb_server_poll c15_world).1.trace = pre.trace ++ [emitted pre] ∧
        (write_frame_ret (fixed_write_frame 7) pre = 0 →
          (smb_server_poll c15_world).1.server.state = SERVER_STATE_IDLE ∧
          (smb_server_poll c15_world).1.server.frame_length = 0 ∧
          (smb_server_poll c15_world).2 = 0) ∧
        (write_frame_ret (fixed_write_frame 7) pre < 0 →
          (smb_server_poll c15_world).1.server.state = SERVER_STATE_IDLE ∧
          (smb_server_poll c15_world).1.server.frame_length = 0 ∧
          (smb_server_poll c15_world).2 = write_frame_ret (fixed_write_frame 7) pre) ∧
        (0 < write_frame_ret (fixed_write_frame 7) pre →
          (smb_server_poll c15_world).1.server.state = SERVER_STATE_SEND_REPLY ∧
          (smb_server_poll c15_world).2 = -EAGAIN ∧
          ∀ g : Unit → Unit, (poll_after g (smb_server_poll c15_world).1).trace =
            (smb_server_poll c15_world).1.trace ++ [emitted pre]))) ∧
    (smb_server_poll c15_world).2 = -EAGAIN ∧
    (smb_server_poll c15_world).1.server.state = SERVER_STATE_SEND_REPLY ∧
    (smb_server_poll (smb_server_poll c15_world).1).1.trace =
      [Event.read_frame 256, Event.write_regs [0x42, 0x42] 1 0,
        Event.write_frame [0x01, 0x06, 0x00, 0x00, 0x42, 0x42, 0x39, 0x5B] 8,
        Event.write_frame [0x01, 0x06, 0x00, 0x00, 0x42, 0x42, 0x39, 0x5B] 8] :=
  ⟨C15_emit_semantics c15_world (fixed_read_frame c11_frame) (fixed_write_frame 7)
      (write_only 1) ⟨rfl, rfl⟩
      ⟨by unfold server_ok is_bytes; decide, fun _ => rfl,
        fun h => server_state_t.noConfusion h⟩,
   by decide, by decide, by decide⟩

/-- Witness of C16: on a server that was configured, a call with address 0 returns `-EINVAL`, leaves
the server zeroized, and the next poll returns `-EFAULT` without a call. -/
theorem C16_server_configuration_witness :
    (smb_server_config 0 (some ⟨some (fixed_read_frame c11_frame), some (fixed_write_frame 0)⟩)
        (some (write_only 1)) c11_world).2 = -EINVAL ∧
    zeroized (smb_server_config 0
      (some ⟨some (fixed_read_frame c11_frame), some (fixed_write_frame 0)⟩)
      (some (write_only 1)) c11_world).1.server ∧
    (smb_server_poll (smb_server_config 0
      (some ⟨some (fixed_read_frame c11_frame), some (fixed_write_frame 0)⟩)
      (some (write_only 1)) c11_world).1).2 = -EFAULT ∧
    (smb_server_poll (smb_server_config 0
      (some ⟨some (fixed_read_frame c11_frame), some (fixed_write_frame 0)⟩)
      (some (write_only 1)) c11_world).1).1.trace = [] :=
  have h := C16_server_configuration 0
    (some ⟨some (fixed_read_frame c11_frame), some (fixed_write_frame 0)⟩)
    (some (write_only 1)) c11_world
  ⟨h.1, (h.2 (by decide)).1, by decide, by decide⟩

/-- C17 (the code on every 8-bit address): with 9600 baud and a complete interface
`smb_rtu_config` returns 0 for the addresses 248 to 254 and stores them, where
`simple_modbus_rtu.h` gives the range as 1-247 and `-EINVAL` as the result for a wrong
server address; 0 and 255 are the only addresses it rejects. -/
theorem C17_addresses_248_to_254_accepted :
    (∀ a ∈ [248, 249, 250, 251, 252, 253, 254],
      (smb_rtu_config a 9600 (some slow_uart) ⟨rtu_init Nat, 0, []⟩).2 = 0 ∧
      (smb_rtu_config a 9600 (some slow_uart) ⟨rtu_init Nat, 0, []⟩).1.rtu.addr = a) ∧
    (∀ a ∈ List.range 256,
      ((smb_rtu_config a 9600 (some slow_uart) ⟨rtu_init Nat, 0, []⟩).2 = -EINVAL ↔
        (a = 0 ∨ a = 255)) ∧
      ((smb_rtu_config a 9600 (some slow_uart) ⟨rtu_init Nat, 0, []⟩).2 = 0 ↔
        (1 ≤ a ∧ a ≤ 254))) := by
  decide

/-- Witness of C18: at 9600 baud the call returns 0, stores (1719, 4010) and calls `start_counter`
once, with 4010. -/
theorem C18_baud_rate_table_witness :
    (smb_rtu_config 0x01 9600 (some slow_uart) ⟨rtu_init Nat, 0, []⟩).2 = 0 ∧
    ((9600, (smb_rtu_config 0x01 9600 (some slow_uart) ⟨rtu_init Nat, 0, []⟩).1.rtu.t_1_5char_us,
      (smb_rtu_config 0x01 9600 (some slow_uart) ⟨rtu_init Nat, 0, []⟩).1.rtu.t_3_5char_us) ∈
        baud_table ∧
      (smb_rtu_config 0x01 9600 (some slow_uart) ⟨rtu_init Nat, 0, []⟩).1.trace =
        [] ++ [RtuEvent.start_counter 4010]) :=
  have h := C18_baud_rate_table 0x01 9600 (some slow_uart) ⟨rtu_init Nat, 0, []⟩
    (by decide) (by decide) rfl
  ⟨h.1.mpr (by decide), h.2.2 (by decide)⟩

/-- C19 (as stated, refuted): with a null interface pointer, or with a null
`frame_received` slot, `smb_rtu_config` returns `-EINVAL`, not `-EFAULT`, for the
addresses 0 and 255: the address is checked first. -/
theorem C19_null_interface_with_bad_address :
    (smb_rtu_config 0 9600 (none : Option (smb_rtu_if_t Nat)) ⟨rtu_init Nat, 0, []⟩).2 =
        -EINVAL ∧
      (smb_rtu_config 255 9600 (none : Option (smb_rtu_if_t Nat)) ⟨rtu_init Nat, 0, []⟩).2 =
        -EINVAL ∧
      (smb_rtu_config 0 9600
        (some { start_counter := some (fun h _ => h), write := some (fun h _ _ => (h, 0)),
                frame_received := none }) ⟨rtu_init Nat, 0, []⟩).2 = -EINVAL ∧
      -EINVAL ≠ -EFAULT := by
  decide

/-- Witness of C19 (amended): on the unconfigured framer a configuration with a null
interface pointer returns `-EFAULT`, and after a reset the four API functions return
`-EFAULT`, with a buffer and a length of 10; on the configured framer `idle_framer` a
configuration without `frame_received` returns `-EFAULT`, null buffers with a length of
10 give `-EFAULT` and a length of 257 gives `-EINVAL`. -/
theorem C19_framer_argument_validation_witness :
    (smb_rtu_config 0x01 9600 (none : Option (smb_rtu_if_t Nat)) ⟨rtu_init Nat, 0, []⟩ =
        (⟨rtu_init Nat, 0, []⟩, -EFAULT) ∧
      (smb_rtu_receive 0x00 (smb_rtu_reset ⟨rtu_init Nat, 0, []⟩) =
          (smb_rtu_reset ⟨rtu_init Nat, 0, []⟩, -EFAULT) ∧
        smb_rtu_timer_timeout (smb_rtu_reset ⟨rtu_init Nat, 0, []⟩) =
          (smb_rtu_reset ⟨rtu_init Nat, 0, []⟩, -EFAULT) ∧
        smb_rtu_read_pdu (some five_bytes) 10 (smb_rtu_reset ⟨rtu_init Nat, 0, []⟩) =
          (smb_rtu_reset ⟨rtu_init Nat, 0, []⟩, [], -EFAULT) ∧
        smb_rtu_write_pdu (some five_bytes) 10 (smb_rtu_reset ⟨rtu_init Nat, 0, []⟩) =
          (smb_rtu_reset ⟨rtu_init Nat, 0, []⟩, -EFAULT)) ∧
      (smb_rtu_read_pdu none 10 idle_framer = (idle_framer, [], -EFAULT) ∧
        smb_rtu_write_pdu none 10 idle_framer = (idle_framer, -EFAULT) ∧
        smb_rtu_write_pdu (some five_bytes) 257 idle_framer = (idle_framer, -EINVAL))) ∧
    smb_rtu_config 0x01 9600
        (some { start_counter := some (fun h _ => h), write := some (fun h _ _ => (h, 0)),
                frame_received := none }) idle_framer = (idle_framer, -EFAULT) :=
  ⟨C19_framer_argument_validation 0x01 9600 none slow_uart ⟨rtu_init Nat, 0, []⟩ idle_framer
    0x00 10 257 (some five_bytes) five_bytes rfl rfl (by decide),
   (C19_framer_argument_validation 0x01 9600
    (some { start_counter := some (fun h _ => h), write := some (fun h _ _ => (h, 0)),
            frame_received := none }) slow_uart idle_framer idle_framer 0x00 10 257
    (some five_bytes) five_bytes rfl rfl (by decide)).1⟩

/-- C20 (the code after a second configuration): a successful `smb_rtu_config` leaves the
phase as it was. Called in Idle it returns 0 and the framer is still in Idle, so that the
next received byte is accepted (result 0, phase Receive) before any timeout. Called in Emit,
after the UART accepted four of five bytes, it returns 0 and the framer is still in Emit
with `buffer_index` reset to 0, so that the next `smb_rtu_write_pdu` writes all five bytes
again; without the call it writes the one byte that is left. -/
theorem C20_config_keeps_phase :
    (idle_framer.rtu.state = RTU_STATE_IDLE ∧
      (smb_rtu_config 0x01 9600 (some slow_uart) idle_framer).2 = 0 ∧
      (smb_rtu_config 0x01 9600 (some slow_uart) idle_framer).1.rtu.state = RTU_STATE_IDLE ∧
      (smb_rtu_receive 0x01 (smb_rtu_config 0x01 9600 (some slow_uart) idle_framer).1).2 = 0 ∧
      (smb_rtu_receive 0x01
        (smb_rtu_config 0x01 9600 (some slow_uart) idle_framer).1).1.rtu.state =
          RTU_STATE_RECEIVE) ∧
    (emitting_framer.rtu.state = RTU_STATE_EMIT ∧ emitting_framer.rtu.buffer_index = 4 ∧
      (smb_rtu_config 0x01 9600 (some slow_uart) emitting_framer).2 = 0 ∧
      (smb_rtu_config 0x01 9600 (some slow_uart) emitting_framer).1.rtu.state =
        RTU_STATE_EMIT ∧
      (smb_rtu_config 0x01 9600 (some slow_uart) emitting_framer).1.rtu.buffer_index = 0 ∧
      (smb_rtu_write_pdu (some five_bytes) 5
        (smb_rtu_config 0x01 9600 (some slow_uart) emitting_framer).1).1.trace =
          emitting_framer.trace ++ [RtuEvent.start_counter 4010,
            RtuEvent.write [0x01, 0x84, 0x01, 0x82, 0xC0] 5, RtuEvent.start_counter 4010] ∧
      (smb_rtu_write_pdu (some five_bytes) 5 emitting_framer).1.trace =
        emitting_framer.trace ++ [RtuEvent.write [0xC0] 1, RtuEvent.start_counter 4010]) ∧
    (smb_rtu_config 0x01 9600 (some slow_uart) (smb_rtu_reset idle_framer)).1.rtu.state =
      RTU_STATE_INIT := by
  decide

end Evaluations2

/-! ## The framer -/

section Claims3

variable {τ : Type}

/-- C21: Init phase.  On a configured framer in Init, every Rx event and every Tx event
(whatever its buffer and length) returns `-EAGAIN`, makes one call, `start_counter` with
t3.5, and changes nothing in `rtu_`: the phase stays Init.  So do `smb_rtu_receive` and
`smb_rtu_write_pdu` with a buffer and a length of at most 256.  A Timeout event returns
0, makes no call, sets `buffer_index` to 0 and the phase to Idle. -/
theorem C21_init_phase (w : RtuWorld τ) (itf : smb_rtu_if_t τ) (sc : τ → Nat → τ)
    (e : rtu_event_t) (byte len : Nat) (p : byte_ptr)
    (hitf : w.rtu.interface = some itf) (hsc : itf.start_counter = some sc)
    (hs : w.rtu.state = RTU_STATE_INIT)
    (he : e.action = RTU_ACTION_RX ∨ e.action = RTU_ACTION_TX)
    (hlen : len ≤ MODBUS_RTU_BUFFER_SIZE) :
    exec_sm e w =
        ({ w with host := sc w.host w.rtu.t_3_5char_us,
                  trace := w.trace ++ [RtuEvent.start_counter w.rtu.t_3_5char_us] },
          [], -EAGAIN) ∧
      smb_rtu_receive byte w =
        ({ w with host := sc w.host w.rtu.t_3_5char_us,
                  trace := w.trace ++ [RtuEvent.start_counter w.rtu.t_3_5char_us] },
          -EAGAIN) ∧
      smb_rtu_write_pdu (some p) len w =
        ({ w with host := sc w.host w.rtu.t_3_5char_us,
                  trace := w.trace ++ [RtuEvent.start_counter w.rtu.t_3_5char_us] },
          -EAGAIN) ∧
      smb_rtu_timer_timeout w =
        ({ w with rtu := { w.rtu with state := RTU_STATE_IDLE, buffer_index := 0 } }, 0) := by
  have h1 : ∀ e : rtu_event_t, e.action = RTU_ACTION_RX ∨ e.action = RTU_ACTION_TX →
      exec_sm e w =
        ({ w with host := sc w.host w.rtu.t_3_5char_us,
                  trace := w.trace ++ [RtuEvent.start_counter w.rtu.t_3_5char_us] },
          [], -EAGAIN) := by
    intro e he
    unfold exec_sm exec_init
    rw [hs, hitf]
    simp only []
    rw [hsc]
    simp only []
    rcases he with he | he <;> rw [he] <;> rfl
  refine ⟨h1 e he, ?_, ?_, ?_⟩
  · unfold smb_rtu_receive
    rw [hitf]
    simp only []
    rw [h1 _ (Or.inl rfl)]
  · unfold smb_rtu_write_pdu
    rw [hitf]
    simp only []
    rw [if_neg (by omega), h1 _ (Or.inr rfl)]
  · unfold smb_rtu_timer_timeout exec_sm exec_init
    rw [hitf, hs]
    simp only []
    rw [hsc]
    rfl

/-- C22: reception round trip.  On a configured framer in Idle, for every byte sequence
`b` of 1 to 256 bytes whose first byte is the configured address or 0: each
`smb_rtu_receive` returns 0, the two timeouts return 0 and leave the framer in
ProcessRxFrame after one call of `frame_received`, and `smb_rtu_read_pdu(out, cap)` with
`cap` above the length of `b` returns that length, stores `b` in `out` in the order of
arrival, makes no call and leaves the framer in Idle. -/
theorem C22_reception_round_trip (w : RtuWorld τ) (sc : τ → Nat → τ)
    (wrt : τ → List Nat → Nat → τ × Int) (fr : τ → τ) (b : List Nat) (p : byte_ptr)
    (cap : Nat) (hc : configured w sc wrt fr) (hs : w.rtu.state = RTU_STATE_IDLE)
    (hl : w.rtu.rx_buffer.length = MODBUS_RTU_BUFFER_SIZE) (hb : is_bytes b)
    (h1 : 1 ≤ b.length) (h256 : b.length ≤ MODBUS_RTU_BUFFER_SIZE)
    (haddr : rd b 0 = w.rtu.addr ∨ rd b 0 = 0) (hcap : b.length < cap) :
    rx_results b w = List.replicate b.length 0 ∧
      (smb_rtu_timer_timeout (rx_bytes b w)).2 = 0 ∧
      (smb_rtu_timer_timeout (smb_rtu_timer_timeout (rx_bytes b w)).1).2 = 0 ∧
      (rx_frame b w).rtu.state = RTU_STATE_PROCESS_RX_FRAME ∧
      (rx_frame b w).trace =
        w.trace ++ List.replicate b.length (RtuEvent.start_counter w.rtu.t_1_5char_us) ++
          [RtuEvent.start_counter
            (to_u16 ((w.rtu.t_3_5char_us : Int) - (w.rtu.t_1_5char_us : Int))),
           RtuEvent.frame_received] ∧
      (smb_rtu_read_pdu (some p) cap (rx_frame b w)).2.2 = (b.length : Int) ∧
      (smb_rtu_read_pdu (some p) cap (rx_frame b w)).2.1 = b ∧
      (smb_rtu_read_pdu (some p) cap (rx_frame b w)).1.rtu.state = RTU_STATE_IDLE ∧
      (smb_rtu_read_pdu (some p) cap (rx_frame b w)).1.trace = (rx_frame b w).trace := by
  obtain ⟨hr, hres⟩ := received_all hc hs hl b h1 h256
  have h0 : rd b 0 % 256 = rd b 0 := Nat.mod_eq_of_lt (rd_lt hb 0)
  obtain ⟨ht1, ht2, hst, hidx, hbuf, hcf, htr⟩ :=
    rx_frame_pending hc hs hl b h1 h256 (by rw [h0]; exact haddr)
  have hrd := read_pdu_process hcf hst p cap
  rw [if_neg (by rw [hidx]; omega)] at hrd
  refine ⟨hres, ht1, ht2, hst, htr, ?_, ?_, ?_, ?_⟩
  · rw [hrd, hidx]
  · rw [hrd]
    show (List.range (rx_frame b w).rtu.buffer_index).map
      (fun i => rd (rx_frame b w).rtu.rx_buffer i) = b
    rw [hidx, hbuf]
    exact copied_bytes hr hb _ (fun _ _ => rfl)
  · rw [hrd]
  · rw [hrd]

/-- C23: receive buffer limit.  On a configured framer in Idle, each of up to 256 bytes
received in a row is accepted: `smb_rtu_receive` returns 0 and makes one call,
`start_counter` with t1.5; the framer is then in Receiving with the bytes buffered in
order.  After 256 bytes every further `smb_rtu_receive` returns `-ENOBUFS` and changes
nothing: no call, same phase, same `buffer_index`, same buffered bytes. -/
theorem C23_receive_buffer_limit (w : RtuWorld τ) (sc : τ → Nat → τ)
    (wrt : τ → List Nat → Nat → τ × Int) (fr : τ → τ) (b late : List Nat)
    (hc : configured w sc wrt fr) (hs : w.rtu.state = RTU_STATE_IDLE)
    (hl : w.rtu.rx_buffer.length = MODBUS_RTU_BUFFER_SIZE)
    (h1 : 1 ≤ b.length) (h256 : b.length ≤ MODBUS_RTU_BUFFER_SIZE) :
    rx_results b w = List.replicate b.length 0 ∧
      (rx_bytes b w).trace =
        w.trace ++ List.replicate b.length (RtuEvent.start_counter w.rtu.t_1_5char_us) ∧
      (rx_bytes b w).rtu.state = RTU_STATE_RECEIVE ∧
      (rx_bytes b w).rtu.buffer_index = b.length ∧
      (∀ i, i < b.length → rd (rx_bytes b w).rtu.rx_buffer i = rd b i % 256) ∧
      (b.length = MODBUS_RTU_BUFFER_SIZE →
        rx_results late (rx_bytes b w) = List.replicate late.length (-ENOBUFS) ∧
        rx_bytes late (rx_bytes b w) = rx_bytes b w) := by
  obtain ⟨hr, hres⟩ := received_all hc hs hl b h1 h256
  refine ⟨hres, hr.trace, hr.state, hr.index, hr.bytes, fun hn => ?_⟩
  obtain ⟨h2, h3⟩ := receive_full_all hc hr hn late
  exact ⟨h3, h2⟩

/-- C24: silent-interval detection.  On a configured framer whose timings are a row of
the baud-rate table: in Receiving a Timeout returns 0, moves to ControlAndWait and makes
one call, `start_counter` with `t3.5 - t1.5` (t1.5 is the smaller value); in
ControlAndWait every `smb_rtu_receive` returns `-EBUSY`, makes one call, `start_counter`
with t3.5, and changes nothing in `rtu_` (phase, `buffer_index`, buffered bytes), however
many late bytes arrive, so that the following Timeout and `smb_rtu_read_pdu` hand out
what they hand out without the late bytes. -/
theorem C24_silent_interval (w : RtuWorld τ) (sc : τ → Nat → τ)
    (wrt : τ → List Nat → Nat → τ × Int) (fr : τ → τ) (byte : Nat) (late : List Nat)
    (p : byte_ptr) (cap : Nat) (hc : configured w sc wrt fr) (ht : timings_ok w.rtu) :
    (w.rtu.state = RTU_STATE_RECEIVE →
      w.rtu.t_1_5char_us ≤ w.rtu.t_3_5char_us ∧
      smb_rtu_timer_timeout w =
        ({ rtu := { w.rtu with state := RTU_STATE_CONTROL_AND_WAIT },
           host := sc w.host (w.rtu.t_3_5char_us - w.rtu.t_1_5char_us),
           trace := w.trace ++
             [RtuEvent.start_counter (w.rtu.t_3_5char_us - w.rtu.t_1_5char_us)] }, 0)) ∧
    (w.rtu.state = RTU_STATE_CONTROL_AND_WAIT →
      smb_rtu_receive byte w =
        ({ w with host := sc w.host w.rtu.t_3_5char_us,
                  trace := w.trace ++ [RtuEvent.start_counter w.rtu.t_3_5char_us] },
          -EBUSY) ∧
      rx_results late w = List.replicate late.length (-EBUSY) ∧
      (rx_bytes late w).rtu = w.rtu ∧
      (rx_bytes late w).trace =
        w.trace ++ List.replicate late.length (RtuEvent.start_counter w.rtu.t_3_5char_us) ∧
      (smb_rtu_read_pdu (some p) cap (smb_rtu_timer_timeout (rx_bytes late w)).1).2 =
        (smb_rtu_read_pdu (some p) cap (smb_rtu_timer_timeout w).1).2) := by
  constructor
  · intro hs
    refine ⟨(timings_le ht).1, ?_⟩
    rw [timeout_receiving hc hs, timings_diff ht]
  · intro hs
    obtain ⟨h1, h2, h3⟩ := late_bytes late w hc hs
    exact ⟨receive_waiting hc hs byte, h1, h2, h3, filter_then_read hc hs h2 p cap⟩

/-- C25: address filter.  On a configured framer in ControlAndWait a Timeout returns 0;
if the first buffered byte is the configured address or 0 it moves to ProcessRxFrame and
makes one call, `frame_received`; otherwise it moves to Idle and makes no call, and a
following `smb_rtu_read_pdu` returns 0 and changes nothing.  For every event `e` in every
world `v`, whatever the phase: if the calls `exec_sm` makes include `frame_received` then
it is the only call made, the phase was ControlAndWait, the event a Timeout and the first
buffered byte 0 or the configured address. -/
theorem C25_address_filter (w v : RtuWorld τ) (sc : τ → Nat → τ)
    (wrt : τ → List Nat → Nat → τ × Int) (fr : τ → τ) (e : rtu_event_t) (p : byte_ptr)
    (cap : Nat) (hc : configured w sc wrt fr)
    (hs : w.rtu.state = RTU_STATE_CONTROL_AND_WAIT) :
    ((rd w.rtu.rx_buffer 0 = w.rtu.addr ∨ rd w.rtu.rx_buffer 0 = 0) →
      smb_rtu_timer_timeout w =
        ({ rtu := { w.rtu with state := RTU_STATE_PROCESS_RX_FRAME },
           host := fr w.host,
           trace := w.trace ++ [RtuEvent.frame_received] }, 0)) ∧
    (¬ (rd w.rtu.rx_buffer 0 = w.rtu.addr ∨ rd w.rtu.rx_buffer 0 = 0) →
      smb_rtu_timer_timeout w = ({ w with rtu := { w.rtu with state := RTU_STATE_IDLE } }, 0) ∧
      smb_rtu_read_pdu (some p) cap (smb_rtu_timer_timeout w).1 =
        ((smb_rtu_timer_timeout w).1, [], 0)) ∧
    (∃ evs, (exec_sm e v).1.trace = v.trace ++ evs ∧
      (RtuEvent.frame_received ∈ evs →
        evs = [RtuEvent.frame_received] ∧ v.rtu.state = RTU_STATE_CONTROL_AND_WAIT ∧
        e.action = RTU_ACTION_TIMEOUT ∧
        (rd v.rtu.rx_buffer 0 = 0 ∨ rd v.rtu.rx_buffer 0 = v.rtu.addr))) := by
  have ht := timeout_waiting hc hs
  refine ⟨fun h => ?_, fun h => ?_, exec_sm_frame_received e v⟩
  · rw [ht, if_pos (by
      rcases h with h | h
      · exact Or.inr h.symm
      · exact Or.inl h.symm)]
  · have hn : ¬ (0 = rd w.rtu.rx_buffer 0 ∨ w.rtu.addr = rd w.rtu.rx_buffer 0) := by
      intro h2
      apply h
      rcases h2 with h2 | h2
      · exact Or.inr h2.symm
      · exact Or.inl h2.symm
    rw [ht, if_neg hn]
    refine ⟨rfl, ?_⟩
    rw [@read_pdu_other τ ⟨{ w.rtu with state := RTU_STATE_IDLE }, w.host, w.trace⟩
      sc wrt fr hc (fun h => rtu_state_t.noConfusion h)]
    rfl

/-- C27 (amended): on a configured framer `smb_rtu_read_pdu` with a non-null buffer
changes nothing in any phase other than ProcessRxFrame; it returns 0 in Init, Idle,
Receiving and ControlAndWait, and `-EBUSY` in Emitting, WaitForTxComplete and
TxTimeout. -/
theorem C27_read_pdu_outside_process (w : RtuWorld τ) (sc : τ → Nat → τ)
    (wrt : τ → List Nat → Nat → τ × Int) (fr : τ → τ) (p : byte_ptr) (cap : Nat)
    (hc : configured w sc wrt fr) :
    ((w.rtu.state = RTU_STATE_INIT ∨ w.rtu.state = RTU_STATE_IDLE ∨
        w.rtu.state = RTU_STATE_RECEIVE ∨ w.rtu.state = RTU_STATE_CONTROL_AND_WAIT) →
      smb_rtu_read_pdu (some p) cap w = (w, [], 0)) ∧
    ((w.rtu.state = RTU_STATE_EMIT ∨ w.rtu.state = RTU_STATE_WAIT_FOR_TX_COMPLETE ∨
        w.rtu.state = RTU_STATE_TX_TIMEOUT) →
      smb_rtu_read_pdu (some p) cap w = (w, [], -EBUSY)) := by
  constructor
  · intro h
    rw [read_pdu_other hc (by
      rcases h with h | h | h | h <;> rw [h] <;> exact fun h => rtu_state_t.noConfusion h),
      if_neg (by
      rcases h with h | h | h | h <;> rw [h] <;> decide)]
  · intro h
    rw [read_pdu_other hc (by
      rcases h with h | h | h <;> rw [h] <;> exact fun h => rtu_state_t.noConfusion h),
      if_pos h]

/-- C28: Tx in Idle.  On a configured framer in Idle, `smb_rtu_write_pdu(buf, len)` with
`1 <= len <= 256` calls `host.write(buf, len)` once; with `r` its result: if
`0 <= r < len` the framer records the buffer identity, `len` and `r` bytes sent, calls
`start_counter` with t1.5, is in Emitting and returns `-EAGAIN`; if `r = len` it calls
`start_counter` with t3.5, is in WaitForTxComplete and returns 0; if `r < 0` it returns
`r`, makes no other call and changes nothing in `rtu_`. -/
theorem C28_tx_in_idle (w : RtuWorld τ) (sc : τ → Nat → τ)
    (wrt : τ → List Nat → Nat → τ × Int) (fr : τ → τ) (p : byte_ptr) (len : Nat)
    (hc : configured w sc wrt fr) (hs : w.rtu.state = RTU_STATE_IDLE) (h1 : 1 ≤ len)
    (h256 : len ≤ MODBUS_RTU_BUFFER_SIZE) :
    (0 ≤ (wrt w.host p.mem len).2 → (wrt w.host p.mem len).2 < (len : Int) →
      smb_rtu_write_pdu (some p) len w =
        ({ rtu := { w.rtu with buffer_index := (wrt w.host p.mem len).2.toNat,
                               state := RTU_STATE_EMIT,
                               current_tx_buffer := some p.id,
                               current_tx_length := len },
           host := sc (wrt w.host p.mem len).1 w.rtu.t_1_5char_us,
           trace := w.trace ++ [RtuEvent.write (p.mem.take len) len,
             RtuEvent.start_counter w.rtu.t_1_5char_us] }, -EAGAIN)) ∧
    ((wrt w.host p.mem len).2 = (len : Int) →
      smb_rtu_write_pdu (some p) len w =
        ({ rtu := { w.rtu with state := RTU_STATE_WAIT_FOR_TX_COMPLETE },
           host := sc (wrt w.host p.mem len).1 w.rtu.t_3_5char_us,
           trace := w.trace ++ [RtuEvent.write (p.mem.take len) len,
             RtuEvent.start_counter w.rtu.t_3_5char_us] }, 0)) ∧
    ((wrt w.host p.mem len).2 < 0 →
      smb_rtu_write_pdu (some p) len w =
        ({ w with host := (wrt w.host p.mem len).1,
                  trace := w.trace ++ [RtuEvent.write (p.mem.take len) len] },
          (wrt w.host p.mem len).2)) := by
  have h := write_pdu_idle hc hs p len h1 h256
  have h256n : MODBUS_RTU_BUFFER_SIZE = 256 := rfl
  refine ⟨fun h0 hlt => ?_, fun he => ?_, fun hneg => ?_⟩
  · rw [h, if_neg (by omega), if_pos hlt]
    have hu : to_u16 (wrt w.host p.mem len).2 = (wrt w.host p.mem len).2.toNat := by
      unfold to_u16
      omega
    rw [hu, List.append_assoc]
    rfl
  · rw [h, if_neg (by omega), if_neg (by omega), List.append_assoc]
    rfl
  · rw [h, if_pos hneg]

/-- C29: partial-write continuation.  A configured framer in Idle is offered the same
buffer `p` and length `len <= 256` again and again, with no other event in between, and
each result of `host.write` is between 0 and the length offered.  With `s` the sum of the
results of the first `k` calls, `s < len`: the next call hands `host.write` the unsent
bytes `p[s..len]` and nothing else; it returns `-EAGAIN`, calls `start_counter` with t1.5
and stays in Emitting when bytes remain after it, and returns 0, calls `start_counter`
with t3.5 and moves to WaitForTxComplete when the sum reaches `len`.  The bytes accepted
by the host up to and including this call are the first bytes of `p`, each once and in
order: all of `p[0..len]` when the sum reaches `len`. -/
theorem C29_partial_write_continuation (w : RtuWorld τ) (sc : τ → Nat → τ)
    (wrt : τ → List Nat → Nat → τ × Int) (fr : τ → τ) (p : byte_ptr) (len k : Nat)
    (hc : configured w sc wrt fr) (hs : w.rtu.state = RTU_STATE_IDLE)
    (h256 : len ≤ MODBUS_RTU_BUFFER_SIZE)
    (hres : ∀ j, j ≤ k →
      0 ≤ host_write_ret p len (tx_sent p len j w) (tx_calls p len j w) ∧
      host_write_ret p len (tx_sent p len j w) (tx_calls p len j w) ≤
        (len : Int) - (tx_sent p len j w : Int))
    (hrem : tx_sent p len k w < len) :
    (smb_rtu_write_pdu (some p) len (tx_calls p len k w)).1.trace =
        (tx_calls p len k w).trace ++
          [RtuEvent.write ((p.mem.drop (tx_sent p len k w)).take (len - tx_sent p len k w))
            (len - tx_sent p len k w),
           RtuEvent.start_counter
            (if tx_sent p len (k + 1) w = len then w.rtu.t_3_5char_us
             else w.rtu.t_1_5char_us)] ∧
      (smb_rtu_write_pdu (some p) len (tx_calls p len k w)).2 =
        (if tx_sent p len (k + 1) w = len then 0 else -EAGAIN) ∧
      (smb_rtu_write_pdu (some p) len (tx_calls p len k w)).1.rtu.state =
        (if tx_sent p len (k + 1) w = len then RTU_STATE_WAIT_FOR_TX_COMPLETE
         else RTU_STATE_EMIT) ∧
      tx_accepted p len (k + 1) w = p.mem.take (tx_sent p len (k + 1) w) ∧
      (tx_sent p len (k + 1) w = len → tx_accepted p len (k + 1) w = p.mem.take len) := by
  obtain ⟨hck, hrk, ht1, ht3⟩ :=
    tx_run hc hs h256 k (fun j hj => hres j (Nat.le_of_lt hj)) hrem
  have hk := hres k (Nat.le_refl k)
  obtain ⟨h1, h2, h3, _⟩ := tx_step hck hrk hrem h256 hk.1 hk.2
  have hacc := tx_accepted_eq w p len (k + 1) (fun j hj => hres j (Nat.le_of_lt_succ hj))
  rw [ht1, ht3] at h1
  exact ⟨h1, h2, h3, hacc, fun h => by rw [hacc, h]⟩

/-- C30 (amended): on a configured framer in Emitting, `smb_rtu_write_pdu(buf, len)` with
`len <= 256` and a buffer other than the recorded one, or a length other than the
recorded one, calls nothing and changes nothing; it returns `-EFAULT` when `len` is at
most the number of bytes already sent, else `-EBUSY` when the buffer is not the recorded
one, else `-EINVAL`. -/
theorem C30_mismatched_retry (w : RtuWorld τ) (sc : τ → Nat → τ)
    (wrt : τ → List Nat → Nat → τ × Int) (fr : τ → τ) (p : byte_ptr) (len : Nat)
    (hc : configured w sc wrt fr) (hs : w.rtu.state = RTU_STATE_EMIT)
    (h256 : len ≤ MODBUS_RTU_BUFFER_SIZE)
    (hm : w.rtu.current_tx_buffer ≠ some p.id ∨ w.rtu.current_tx_length ≠ len) :
    smb_rtu_write_pdu (some p) len w =
      (w, if len ≤ w.rtu.buffer_index then -EFAULT
          else if w.rtu.current_tx_buffer ≠ some p.id then -EBUSY
          else -EINVAL) := by
  have hc2 : w.rtu.interface = some ⟨some sc, some wrt, some fr⟩ := hc
  unfold smb_rtu_write_pdu exec_sm exec_emitting
  rw [hc2, hs]
  simp only []
  rw [if_neg (show ¬ len > MODBUS_RTU_BUFFER_SIZE by omega)]
  simp only [if_true]
  by_cases hi : len ≤ w.rtu.buffer_index
  · rw [if_pos (show w.rtu.buffer_index ≥ len from hi), if_pos hi]
  · rw [if_neg (show ¬ w.rtu.buffer_index ≥ len from hi), if_neg hi]
    by_cases hb : w.rtu.current_tx_buffer ≠ some p.id
    · rw [if_pos hb, if_pos hb]
    · rw [if_neg hb, if_neg hb]
      have hl : w.rtu.current_tx_length ≠ len := by
        rcases hm with hm | hm
        · exact absurd hm hb
        · exact hm
      rw [if_pos hl]

end Claims3

/-! ## The framer on concrete byte streams -/

section Evaluations3

set_option maxRecDepth 8000

/-- Witness of C21: right after `smb_rtu_config` a received byte and a 42-byte
`smb_rtu_write_pdu` return `-EAGAIN`, re-arm t3.5 (4010 us at 9600 baud) and leave the
phase Init; the timeout returns 0 and moves to Idle. -/
theorem C21_init_phase_witness :
    (smb_rtu_receive 0x01 init_framer).2 = -EAGAIN ∧
      (smb_rtu_receive 0x01 init_framer).1.trace =
        [RtuEvent.start_counter 4010, RtuEvent.start_counter 4010] ∧
      (smb_rtu_receive 0x01 init_framer).1.rtu.state = RTU_STATE_INIT ∧
      (smb_rtu_write_pdu (some pdu42) 42 init_framer).2 = -EAGAIN ∧
      (smb_rtu_write_pdu (some pdu42) 42 init_framer).1.trace =
        [RtuEvent.start_counter 4010, RtuEvent.start_counter 4010] ∧
      (smb_rtu_timer_timeout init_framer).2 = 0 ∧
      (smb_rtu_timer_timeout init_framer).1.rtu.state = RTU_STATE_IDLE ∧
      (smb_rtu_timer_timeout init_framer).1.rtu.buffer_index = 0 :=
  have h := C21_init_phase init_framer slow_uart (fun h _ => h)
    ⟨RTU_ACTION_RX, none, 0⟩ 0x01 42 pdu42 rfl rfl rfl (Or.inl rfl) (by decide)
  ⟨by rw [h.2.1], by rw [h.2.1]; rfl, by rw [h.2.1]; rfl, by rw [h.2.2.1],
    by rw [h.2.2.1]; rfl, by rw [h.2.2.2], by rw [h.2.2.2], by rw [h.2.2.2]⟩

/-- Witness of C22: the bytes `01 02 03 04` received in Idle by server 1 and read out
with a capacity of 5. -/
theorem C22_reception_round_trip_witness :
    rx_results [0x01, 0x02, 0x03, 0x04] idle_framer = [0, 0, 0, 0] ∧
      pending_framer.rtu.state = RTU_STATE_PROCESS_RX_FRAME ∧
      (smb_rtu_read_pdu (some five_bytes) 5 pending_framer).2.2 = 4 ∧
      (smb_rtu_read_pdu (some five_bytes) 5 pending_framer).2.1 = [0x01, 0x02, 0x03, 0x04] ∧
      (smb_rtu_read_pdu (some five_bytes) 5 pending_framer).1.rtu.state = RTU_STATE_IDLE :=
  have h := C22_reception_round_trip idle_framer _ _ _ [0x01, 0x02, 0x03, 0x04] five_bytes 5
    rfl rfl (by decide) (by unfold is_bytes; decide) (by decide) (by decide) (Or.inl rfl)
    (by decide)
  ⟨h.1, h.2.2.2.1, h.2.2.2.2.2.1, h.2.2.2.2.2.2.1, h.2.2.2.2.2.2.2.1⟩

/-- Witness of C23: 256 bytes received in Idle are all accepted; two more bytes are
refused with `-ENOBUFS` and change nothing. -/
theorem C23_receive_buffer_limit_witness :
    rx_results full_frame idle_framer = List.replicate 256 0 ∧
      (rx_bytes full_frame idle_framer).trace =
        idle_framer.trace ++ List.replicate 256 (RtuEvent.start_counter 1719) ∧
      (rx_bytes full_frame idle_framer).rtu.state = RTU_STATE_RECEIVE ∧
      (rx_bytes full_frame idle_framer).rtu.buffer_index = 256 ∧
      rx_results [0x02, 0x02] (rx_bytes full_frame idle_framer) = [-ENOBUFS, -ENOBUFS] ∧
      rx_bytes [0x02, 0x02] (rx_bytes full_frame idle_framer) =
        rx_bytes full_frame idle_framer :=
  have h := C23_receive_buffer_limit idle_framer _ _ _ full_frame [0x02, 0x02] rfl rfl
    (by decide) (by decide) (by decide)
  ⟨h.1, h.2.1, h.2.2.1, h.2.2.2.1, (h.2.2.2.2.2 (by decide)).1, (h.2.2.2.2.2 (by decide)).2⟩

/-- Witness of C24: at 9600 baud the timeout in Receiving arms 4010 - 1719 = 2291 us; two
late bytes in ControlAndWait are refused and the frame read out afterwards is
`01 02 03 04`. -/
theorem C24_silent_interval_witness :
    ((smb_rtu_timer_timeout receiving_framer).1.rtu.state = RTU_STATE_CONTROL_AND_WAIT ∧
      (smb_rtu_timer_timeout receiving_framer).1.trace =
        receiving_framer.trace ++ [RtuEvent.start_counter 2291]) ∧
    ((smb_rtu_receive 0x05 waiting_framer).2 = -EBUSY ∧
      rx_results [0x05, 0x06] waiting_framer = [-EBUSY, -EBUSY] ∧
      (rx_bytes [0x05, 0x06] waiting_framer).trace =
        waiting_framer.trace ++ [RtuEvent.start_counter 4010, RtuEvent.start_counter 4010] ∧
      (smb_rtu_read_pdu (some five_bytes) 5
        (smb_rtu_timer_timeout (rx_bytes [0x05, 0x06] waiting_framer)).1).2 =
          ([0x01, 0x02, 0x03, 0x04], 4)) :=
  have h1 := (C24_silent_interval receiving_framer _ _ _ 0x05 [0x05, 0x06] five_bytes 5 rfl
    ⟨9600, by decide⟩).1 rfl
  have h2 := (C24_silent_interval waiting_framer _ _ _ 0x05 [0x05, 0x06] five_bytes 5 rfl
    ⟨9600, by decide⟩).2 rfl
  ⟨⟨by rw [h1.2], by rw [h1.2]; rfl⟩,
    ⟨by rw [h2.1], h2.2.1, h2.2.2.2.1, h2.2.2.2.2.trans (by decide)⟩⟩

/-- Witness of C25: the frame `01 02 03 04` is accepted by server 1 with one call of
`frame_received`; the frame `2B 02 03 04` is dropped without a call and a following
`smb_rtu_read_pdu` returns 0. -/
theorem C25_address_filter_witness :
    ((smb_rtu_timer_timeout waiting_framer).1.rtu.state = RTU_STATE_PROCESS_RX_FRAME ∧
      (smb_rtu_timer_timeout waiting_framer).1.trace =
        waiting_framer.trace ++ [RtuEvent.frame_received]) ∧
    ((smb_rtu_timer_timeout foreign_framer).1.rtu.state = RTU_STATE_IDLE ∧
      (smb_rtu_timer_timeout foreign_framer).1.trace = foreign_framer.trace ∧
      (smb_rtu_read_pdu (some five_bytes) 5 (smb_rtu_timer_timeout foreign_framer).1).2 =
        ([], 0)) :=
  have h1 := (C25_address_filter waiting_framer idle_framer _ _ _
    ⟨RTU_ACTION_TIMEOUT, none, 0⟩ five_bytes 5 rfl rfl).1 (Or.inl (by decide))
  have h2 := (C25_address_filter foreign_framer idle_framer _ _ _
    ⟨RTU_ACTION_TIMEOUT, none, 0⟩ five_bytes 5 rfl rfl).2.1 (by decide)
  ⟨⟨by rw [h1], by rw [h1]⟩, ⟨by rw [h2.1], by rw [h2.1], by rw [h2.2]⟩⟩

/-- C26 (the code at a capacity equal to the length of the pending frame): with the
4-byte frame `01 02 03 04` pending, `smb_rtu_read_pdu` returns `-EINVAL` for a capacity
of 4, as it does for 3, and the frame stays pending; a capacity of 5 is needed to read
the 4 bytes.  Over all capacities up to 300 it returns `-EINVAL` exactly for those of at
most 4.  With a frame of 256 bytes pending, the largest the framer accepts, a capacity of
256 gives `-EINVAL` too. -/
theorem C26_exact_capacity_is_rejected :
    (pending_framer.rtu.state = RTU_STATE_PROCESS_RX_FRAME ∧
      pending_framer.rtu.buffer_index = 4) ∧
    ((smb_rtu_read_pdu (some five_bytes) 4 pending_framer).2 = ([], -EINVAL) ∧
      (smb_rtu_read_pdu (some five_bytes) 4 pending_framer).1.rtu.state =
        RTU_STATE_PROCESS_RX_FRAME ∧
      (smb_rtu_read_pdu (some five_bytes) 3 pending_framer).2 = ([], -EINVAL) ∧
      (smb_rtu_read_pdu (some five_bytes) 5 pending_framer).2 =
        ([0x01, 0x02, 0x03, 0x04], 4)) ∧
    (∀ cap ∈ List.range 301,
      ((smb_rtu_read_pdu (some five_bytes) cap pending_framer).2.2 = -EINVAL ↔ cap ≤ 4)) ∧
    ((rx_frame full_frame idle_framer).rtu.state = RTU_STATE_PROCESS_RX_FRAME ∧
      (rx_frame full_frame idle_framer).rtu.buffer_index = 256 ∧
      smb_rtu_read_pdu (some five_bytes) 256 (rx_frame full_frame idle_framer) =
        (rx_frame full_frame idle_framer, [], -EINVAL)) := by
  refine ⟨by decide, by decide, by decide, ?_⟩
  obtain ⟨_, _, hst, hidx, _, hcf, _⟩ :=
    @rx_frame_pending Nat idle_framer _ _ _ rfl rfl (by decide) full_frame (by decide)
      (by decide) (Or.inl (by decide))
  refine ⟨hst, hidx, ?_⟩
  rw [read_pdu_process hcf hst, if_pos (by rw [hidx]; decide)]

/-- C27 (as stated, refuted): in Emitting, in WaitForTxComplete and in TxTimeout
`smb_rtu_read_pdu` returns `-EBUSY`, not 0. -/
theorem C27_read_pdu_busy_while_sending :
    (emitting_framer.rtu.state = RTU_STATE_EMIT ∧
      (smb_rtu_read_pdu (some five_bytes) 5 emitting_framer).2 = ([], -EBUSY)) ∧
    (tx_done_framer.rtu.state = RTU_STATE_WAIT_FOR_TX_COMPLETE ∧
      (smb_rtu_read_pdu (some five_bytes) 5 tx_done_framer).2 = ([], -EBUSY)) ∧
    (tx_timeout_framer.rtu.state = RTU_STATE_TX_TIMEOUT ∧
      (smb_rtu_read_pdu (some five_bytes) 5 tx_timeout_framer).2 = ([], -EBUSY)) := by
  decide

/-- Witness of C27 (amended): `smb_rtu_read_pdu` returns 0 in Idle and `-EBUSY` in
Emitting, and changes nothing. -/
theorem C27_read_pdu_outside_process_witness :
    smb_rtu_read_pdu (some five_bytes) 5 idle_framer = (idle_framer, [], 0) ∧
      smb_rtu_read_pdu (some five_bytes) 5 emitting_framer = (emitting_framer, [], -EBUSY) :=
  ⟨(C27_read_pdu_outside_process idle_framer _ _ _ five_bytes 5 rfl).1 (Or.inr (Or.inl rfl)),
   (C27_read_pdu_outside_process emitting_framer _ _ _ five_bytes 5 rfl).2 (Or.inl rfl)⟩

/-- Witness of C28: `smb_rtu_write_pdu(five_bytes, 5)` in Idle on a UART that accepts 4
of the 5 bytes. -/
theorem C28_tx_in_idle_witness :
    (smb_rtu_write_pdu (some five_bytes) 5 idle_framer).2 = -EAGAIN ∧
      (smb_rtu_write_pdu (some five_bytes) 5 idle_framer).1.rtu.state = RTU_STATE_EMIT ∧
      (smb_rtu_write_pdu (some five_bytes) 5 idle_framer).1.rtu.buffer_index = 4 ∧
      (smb_rtu_write_pdu (some five_bytes) 5 idle_framer).1.rtu.current_tx_buffer = some 2 ∧
      (smb_rtu_write_pdu (some five_bytes) 5 idle_framer).1.rtu.current_tx_length = 5 ∧
      (smb_rtu_write_pdu (some five_bytes) 5 idle_framer).1.trace =
        idle_framer.trace ++ [RtuEvent.write [0x01, 0x84, 0x01, 0x82, 0xC0] 5,
          RtuEvent.start_counter 1719] :=
  have h := (C28_tx_in_idle idle_framer _ _ _ five_bytes 5 rfl rfl (by decide)
    (by decide)).1 (by decide) (by decide)
  ⟨by rw [h], by rw [h], by rw [h]; rfl, by rw [h]; rfl, by rw [h], by rw [h]; rfl⟩

/-- Witness of C29: the 42-byte PDU `pdu42` on a UART that accepts 41 bytes, then 1.  The
first call offers the 42 bytes, returns `-EAGAIN` and arms t1.5; the second offers the
last byte alone, returns 0 and arms t3.5; the bytes accepted are the 42 bytes of the
PDU. -/
theorem C29_partial_write_continuation_witness :
    ((smb_rtu_write_pdu (some pdu42) 42 idle_framer).1.trace =
        idle_framer.trace ++ [RtuEvent.write pdu42.mem 42, RtuEvent.start_counter 1719] ∧
      (smb_rtu_write_pdu (some pdu42) 42 idle_framer).2 = -EAGAIN) ∧
    (tx_sent pdu42 42 1 idle_framer = 41 ∧
      (smb_rtu_write_pdu (some pdu42) 42 (tx_calls pdu42 42 1 idle_framer)).1.trace =
        (tx_calls pdu42 42 1 idle_framer).trace ++
          [RtuEvent.write [49] 1, RtuEvent.start_counter 4010] ∧
      (smb_rtu_write_pdu (some pdu42) 42 (tx_calls pdu42 42 1 idle_framer)).2 = 0 ∧
      (smb_rtu_write_pdu (some pdu42) 42 (tx_calls pdu42 42 1 idle_framer)).1.rtu.state =
        RTU_STATE_WAIT_FOR_TX_COMPLETE ∧
      tx_accepted pdu42 42 2 idle_framer = pdu42.mem) :=
  have h0 := C29_partial_write_continuation idle_framer _ _ _ pdu42 42 0 rfl rfl (by decide)
    (by decide) (by decide)
  have h1 := C29_partial_write_continuation idle_framer _ _ _ pdu42 42 1 rfl rfl (by decide)
    (by decide) (by decide)
  ⟨⟨h0.1, h0.2.1⟩, ⟨by decide, h1.1, h1.2.1, h1.2.2.1, h1.2.2.2.2 (by decide)⟩⟩

/-- C30 (as stated, refuted): in Emitting with 4 of 5 bytes sent, a retry with another
buffer and a length of 4 returns `-EFAULT`, not `-EBUSY`, and a retry with the recorded
buffer and a length of 4 returns `-EFAULT`, not `-EINVAL`; so does every length of at
most 4, 0 included. -/
theorem C30_short_retry_is_a_fault :
    (emitting_framer.rtu.state = RTU_STATE_EMIT ∧ emitting_framer.rtu.buffer_index = 4 ∧
      emitting_framer.rtu.current_tx_buffer = some five_bytes.id ∧
      emitting_framer.rtu.current_tx_length = 5) ∧
    (smb_rtu_write_pdu (some other_bytes) 4 emitting_framer).2 = -EFAULT ∧
    (smb_rtu_write_pdu (some five_bytes) 4 emitting_framer).2 = -EFAULT ∧
    (∀ len ∈ List.range 5,
      (smb_rtu_write_pdu (some other_bytes) len emitting_framer).2 = -EFAULT ∧
      (smb_rtu_write_pdu (some five_bytes) len emitting_framer).2 = -EFAULT) := by
  decide

/-- Witness of C30 (amended): in Emitting with 4 of 5 bytes sent, another buffer with
length 5 gives `-EBUSY`, the recorded buffer with length 6 gives `-EINVAL` and another
buffer with length 4 gives `-EFAULT`; nothing changes. -/
theorem C30_mismatched_retry_witness :
    smb_rtu_write_pdu (some other_bytes) 5 emitting_framer = (emitting_framer, -EBUSY) ∧
      smb_rtu_write_pdu (some five_bytes) 6 emitting_framer = (emitting_framer, -EINVAL) ∧
      smb_rtu_write_pdu (some other_bytes) 4 emitting_framer = (emitting_framer, -EFAULT) :=
  ⟨C30_mismatched_retry emitting_framer _ _ _ other_bytes 5 rfl rfl (by decide)
      (Or.inl (by decide)),
   C30_mismatched_retry emitting_framer _ _ _ five_bytes 6 rfl rfl (by decide)
      (Or.inr (by decide)),
   C30_mismatched_retry emitting_framer _ _ _ other_bytes 4 rfl rfl (by decide)
      (Or.inl (by decide))⟩

end Evaluations3

/-! ## Transmission outcomes, invariants and the CRC -/

section Claims4

variable {σ τ : Type}

/-- C31 (amended): Tx outcome in Emitting.  On a configured framer in Emitting with
`s < len <= 256` bytes sent, `smb_rtu_write_pdu(buf, len)` with the recorded buffer and
length calls `host.write` once, on the unsent bytes `buf[s..len]`; with `r` its result:
if `r = len - s` the framer calls `start_counter` with t3.5, moves to WaitForTxComplete
and returns 0; if `0 <= r < len - s` it adds `r` to the bytes sent, calls `start_counter`
with t1.5, stays in Emitting and returns `-EAGAIN`; if `r < 0` it calls `start_counter`
with t3.5, moves to WaitForTxComplete and returns `r`; if `r > len - s` it returns
`-EFAULT`, makes no other call and changes nothing in `rtu_`. -/
theorem C31_tx_outcome_in_emitting (w : RtuWorld τ) (sc : τ → Nat → τ)
    (wrt : τ → List Nat → Nat → τ × Int) (fr : τ → τ) (p : byte_ptr) (len : Nat)
    (hc : configured w sc wrt fr) (hs : w.rtu.state = RTU_STATE_EMIT)
    (hi : w.rtu.buffer_index < len) (h256 : len ≤ MODBUS_RTU_BUFFER_SIZE)
    (hb : w.rtu.current_tx_buffer = some p.id) (hl : w.rtu.current_tx_length = len) :
    ((wrt w.host (p.mem.drop w.rtu.buffer_index) (len - w.rtu.buffer_index)).2 =
        (len : Int) - (w.rtu.buffer_index : Int) →
      smb_rtu_write_pdu (some p) len w =
        ({ rtu := { w.rtu with state := RTU_STATE_WAIT_FOR_TX_COMPLETE },
           host := sc (wrt w.host (p.mem.drop w.rtu.buffer_index)
             (len - w.rtu.buffer_index)).1 w.rtu.t_3_5char_us,
           trace := w.trace ++
             [RtuEvent.write ((p.mem.drop w.rtu.buffer_index).take (len - w.rtu.buffer_index))
               (len - w.rtu.buffer_index),
              RtuEvent.start_counter w.rtu.t_3_5char_us] }, 0)) ∧
    (0 ≤ (wrt w.host (p.mem.drop w.rtu.buffer_index) (len - w.rtu.buffer_index)).2 →
      (wrt w.host (p.mem.drop w.rtu.buffer_index) (len - w.rtu.buffer_index)).2 <
        (len : Int) - (w.rtu.buffer_index : Int) →
      smb_rtu_write_pdu (some p) len w =
        ({ rtu := { w.rtu with buffer_index := w.rtu.buffer_index +
             (wrt w.host (p.mem.drop w.rtu.buffer_index) (len - w.rtu.buffer_index)).2.toNat },
           host := sc (wrt w.host (p.mem.drop w.rtu.buffer_index)
             (len - w.rtu.buffer_index)).1 w.rtu.t_1_5char_us,
           trace := w.trace ++
             [RtuEvent.write ((p.mem.drop w.rtu.buffer_index).take (len - w.rtu.buffer_index))
               (len - w.rtu.buffer_index),
              RtuEvent.start_counter w.rtu.t_1_5char_us] }, -EAGAIN)) ∧
    ((wrt w.host (p.mem.drop w.rtu.buffer_index) (len - w.rtu.buffer_index)).2 < 0 →
      smb_rtu_write_pdu (some p) len w =
        ({ rtu := { w.rtu with state := RTU_STATE_WAIT_FOR_TX_COMPLETE },
           host := sc (wrt w.host (p.mem.drop w.rtu.buffer_index)
             (len - w.rtu.buffer_index)).1 w.rtu.t_3_5char_us,
           trace := w.trace ++
             [RtuEvent.write ((p.mem.drop w.rtu.buffer_index).take (len - w.rtu.buffer_index))
               (len - w.rtu.buffer_index),
              RtuEvent.start_counter w.rtu.t_3_5char_us] },
          (wrt w.host (p.mem.drop w.rtu.buffer_index) (len - w.rtu.buffer_index)).2)) ∧
    ((len : Int) - (w.rtu.buffer_index : Int) <
        (wrt w.host (p.mem.drop w.rtu.buffer_index) (len - w.rtu.buffer_index)).2 →
      smb_rtu_write_pdu (some p) len w =
        ({ w with host := (wrt w.host (p.mem.drop w.rtu.buffer_index)
             (len - w.rtu.buffer_index)).1,
                  trace := w.trace ++
             [RtuEvent.write ((p.mem.drop w.rtu.buffer_index).take (len - w.rtu.buffer_index))
               (len - w.rtu.buffer_index)] }, -EFAULT)) := by
  have h := write_pdu_emit hc hs p len hi h256 hb hl
  have h256n : MODBUS_RTU_BUFFER_SIZE = 256 := rfl
  refine ⟨fun he => ?_, fun h0 hlt => ?_, fun hneg => ?_, fun hgt => ?_⟩
  · rw [h, if_neg (by omega), if_neg (by omega), if_pos he, List.append_assoc]
    rfl
  · rw [h, if_neg (by omega), if_pos hlt, List.append_assoc]
    have hm : (w.rtu.buffer_index +
        (wrt w.host (p.mem.drop w.rtu.buffer_index) (len - w.rtu.buffer_index)).2.toNat) %
          65536 = w.rtu.buffer_index +
        (wrt w.host (p.mem.drop w.rtu.buffer_index) (len - w.rtu.buffer_index)).2.toNat := by
      omega
    rw [hm]
    rfl
  · rw [h, if_pos hneg, List.append_assoc]
    rfl
  · rw [h, if_neg (by omega), if_neg (by omega), if_neg (by omega)]

/-- C32: transmit timeout.  On a configured framer: a Timeout in Emitting returns 0 and
moves to TxTimeout.  In TxTimeout `smb_rtu_write_pdu` with the recorded buffer returns
`-ETIMEDOUT`, makes one call, `start_counter` with t3.5 (no `host.write`), and moves to
WaitForTxComplete; with another buffer it returns `-EBUSY`, and so do `smb_rtu_receive`,
`smb_rtu_read_pdu` and a Timeout, all without a call or a change.  After the
`-ETIMEDOUT` every event but a Timeout changes nothing and returns `-EBUSY`; after the
Timeout that follows, `smb_rtu_write_pdu(q, n)` hands `q[0..n]` to `host.write`. -/
theorem C32_transmit_timeout (w : RtuWorld τ) (sc : τ → Nat → τ)
    (wrt : τ → List Nat → Nat → τ × Int) (fr : τ → τ) (p q : byte_ptr) (len n byte cap : Nat)
    (ops : List framer_op) (hc : configured w sc wrt fr)
    (h256 : len ≤ MODBUS_RTU_BUFFER_SIZE) (hn1 : 1 ≤ n) (hn256 : n ≤ MODBUS_RTU_BUFFER_SIZE)
    (hops : ∀ op ∈ ops, op.is_timeout = false ∧ op.length_ok) :
    (w.rtu.state = RTU_STATE_EMIT →
      smb_rtu_timer_timeout w =
        ({ w with rtu := { w.rtu with state := RTU_STATE_TX_TIMEOUT } }, 0)) ∧
    (w.rtu.state = RTU_STATE_TX_TIMEOUT →
      (w.rtu.current_tx_buffer ≠ some p.id → smb_rtu_write_pdu (some p) len w = (w, -EBUSY)) ∧
      smb_rtu_receive byte w = (w, -EBUSY) ∧
      smb_rtu_read_pdu (some p) cap w = (w, [], -EBUSY) ∧
      smb_rtu_timer_timeout w = (w, -EBUSY) ∧
      (w.rtu.current_tx_buffer = some p.id →
        smb_rtu_write_pdu (some p) len w =
          ({ rtu := { w.rtu with state := RTU_STATE_WAIT_FOR_TX_COMPLETE },
             host := sc w.host w.rtu.t_3_5char_us,
             trace := w.trace ++ [RtuEvent.start_counter w.rtu.t_3_5char_us] }, -ETIMEDOUT) ∧
        framer_run ops (smb_rtu_write_pdu (some p) len w).1 =
          (smb_rtu_write_pdu (some p) len w).1 ∧
        framer_results ops (smb_rtu_write_pdu (some p) len w).1 =
          List.replicate ops.length (-EBUSY) ∧
        (smb_rtu_timer_timeout (smb_rtu_write_pdu (some p) len w).1).2 = 0 ∧
        (smb_rtu_timer_timeout (smb_rtu_write_pdu (some p) len w).1).1.rtu.state =
          RTU_STATE_IDLE ∧
        ∃ rest,
          (smb_rtu_write_pdu (some q) n
            (smb_rtu_timer_timeout (smb_rtu_write_pdu (some p) len w).1).1).1.trace =
          w.trace ++ [RtuEvent.start_counter w.rtu.t_3_5char_us] ++
            [RtuEvent.write (q.mem.take n) n] ++ rest)) := by
  refine ⟨fun hs => timeout_emitting hc hs, fun hs => ?_⟩
  have hw := write_pdu_tx_timeout hc hs p len h256
  refine ⟨fun hne => by rw [hw, if_neg hne], receive_tx_timeout hc hs byte, ?_,
    timeout_tx_timeout hc hs, fun heq => ?_⟩
  · rw [read_pdu_other hc (by rw [hs]; exact fun h => rtu_state_t.noConfusion h),
      if_pos (Or.inr (Or.inr hs))]
  · rw [if_pos heq] at hw
    have hc2 : w.rtu.interface = some ⟨some sc, some wrt, some fr⟩ := hc
    have hr := @run_wait_tx τ
      ⟨{ w.rtu with state := RTU_STATE_WAIT_FOR_TX_COMPLETE }, sc w.host w.rtu.t_3_5char_us,
        w.trace ++ [RtuEvent.start_counter w.rtu.t_3_5char_us]⟩ _ hc2 rfl ops
      (fun op ho => (hops op ho).1)
    have ht := @timeout_wait_tx τ
      ⟨{ w.rtu with state := RTU_STATE_WAIT_FOR_TX_COMPLETE }, sc w.host w.rtu.t_3_5char_us,
        w.trace ++ [RtuEvent.start_counter w.rtu.t_3_5char_us]⟩ _ hc2 rfl
    rw [hw]
    refine ⟨rfl, hr.1, hr.2 (fun op ho => (hops op ho).2), ?_, ?_, ?_⟩
    · rw [ht]
    · rw [ht]
    · rw [ht]
      have hi := @write_pdu_idle τ
        ⟨{ w.rtu with state := RTU_STATE_IDLE }, sc w.host w.rtu.t_3_5char_us,
          w.trace ++ [RtuEvent.start_counter w.rtu.t_3_5char_us]⟩ sc wrt fr hc2 rfl q n hn1 hn256
      rw [hi]
      split_ifs
      · exact ⟨[], (List.append_nil _).symm⟩
      · exact ⟨_, rfl⟩
      · exact ⟨_, rfl⟩

/-- C33: inter-frame silence guard and half-duplex.  On a configured framer in
WaitForTxComplete a Timeout returns 0 and moves to Idle; every other event changes
nothing (no call is made) and, with a length of at most 256, returns `-EBUSY`, so that
nothing is written however many such events follow.  For every event `e` in every world
`v`, `exec_sm` calls `host.write` only if `e` is a Tx event and the phase is Idle or
Emitting, and so does every API call. -/
theorem C33_silence_guard (w v : RtuWorld τ) (sc : τ → Nat → τ)
    (wrt : τ → List Nat → Nat → τ × Int) (fr : τ → τ) (e : rtu_event_t) (o : framer_op)
    (ops : List framer_op) (hc : configured w sc wrt fr)
    (hs : w.rtu.state = RTU_STATE_WAIT_FOR_TX_COMPLETE)
    (hops : ∀ op ∈ ops, op.is_timeout = false) :
    smb_rtu_timer_timeout w = ({ w with rtu := { w.rtu with state := RTU_STATE_IDLE } }, 0) ∧
    framer_run ops w = w ∧
    ((∀ op ∈ ops, op.length_ok) → framer_results ops w = List.replicate ops.length (-EBUSY)) ∧
    (∃ evs, (exec_sm e v).1.trace = v.trace ++ evs ∧
      ∀ ev ∈ evs, ev.is_write = true →
        e.action = RTU_ACTION_TX ∧
          (v.rtu.state = RTU_STATE_IDLE ∨ v.rtu.state = RTU_STATE_EMIT)) ∧
    (∃ evs, (framer_step o v).1.trace = v.trace ++ evs ∧
      ∀ ev ∈ evs, ev.is_write = true →
        (∃ buffer length, o = framer_op.write_pdu buffer length) ∧
          (v.rtu.state = RTU_STATE_IDLE ∨ v.rtu.state = RTU_STATE_EMIT)) := by
  have hc2 : w.rtu.interface = some ⟨some sc, some wrt, some fr⟩ := hc
  obtain ⟨h1, h2⟩ := run_wait_tx hc2 hs ops hops
  exact ⟨timeout_wait_tx hc2 hs, h1, h2, exec_sm_writes e v, framer_step_writes o v⟩

/-- C34: CRC reference.  For every byte sequence `d` (of any length, 0 to 254 included)
`calculate_crc(d)` is the reference CRC-16 of Modbus RTU (shift right, polynomial 0xA001,
initial value 0xFFFF, no final XOR) with its two bytes exchanged, so that the high byte
of the returned word, stored first, is the low byte of the reference CRC and the low
byte, stored second, is its high byte.  The reference CRC of `123456789` is 0x4B37, the
check value of CRC-16/MODBUS; `calculate_crc` gives 0x01E3 for `01 04`, 0x82C0 for
`01 84 01` and 0xC40B for `01 03 00 00 00 02`. -/
theorem C34_crc_reference (d : List Nat) (hd : is_bytes d) :
    calculate_crc d (d.length : Int) = byte_swap (crc16_modbus d) ∧
      (calculate_crc d (d.length : Int) &&& 0xFF00) >>> 8 = crc16_modbus d % 256 ∧
      calculate_crc d (d.length : Int) &&& 0x00FF = crc16_modbus d / 256 ∧
      crc16_modbus crc_check_input = 0x4B37 ∧
      calculate_crc [0x01, 0x04] 2 = 0x01E3 ∧
      calculate_crc [0x01, 0x84, 0x01] 3 = 0x82C0 ∧
      calculate_crc [0x01, 0x03, 0x00, 0x00, 0x00, 0x02] 6 = 0xC40B := by
  have hc := crc16_modbus_lt hd
  have hw := calculate_crc_lt d hd (d.length : Int)
  refine ⟨calculate_crc_eq hd, ?_, ?_, crc_check_value, crc_test_vectors⟩
  · rw [stored_hi _ hw, calculate_crc_eq hd, byte_swap_hi _ hc]
  · rw [stored_lo, calculate_crc_eq hd, byte_swap_lo _ hc]

/-- C35: index invariants of the framer.  After `smb_rtu_reset`, `smb_rtu_config` (with
any arguments, successful or not) and any sequence of received bytes, timeouts,
`smb_rtu_read_pdu` and `smb_rtu_write_pdu` calls, whatever the host returns:
`buffer_index` is at most 256, and in Emitting it is below the recorded frame length,
which is at most 256. -/
theorem C35_index_invariants (w : RtuWorld τ) (addr baud_rate : Nat)
    (interface : Option (smb_rtu_if_t τ)) (ops : List framer_op) :
    (framer_run ops (smb_rtu_config addr baud_rate interface (smb_rtu_reset w)).1).rtu.buffer_index
        ≤ 256 ∧
      ((framer_run ops (smb_rtu_config addr baud_rate interface (smb_rtu_reset w)).1).rtu.state =
          RTU_STATE_EMIT →
        (framer_run ops
            (smb_rtu_config addr baud_rate interface (smb_rtu_reset w)).1).rtu.buffer_index <
          (framer_run ops
            (smb_rtu_config addr baud_rate interface (smb_rtu_reset w)).1).rtu.current_tx_length ∧
        (framer_run ops
            (smb_rtu_config addr baud_rate interface (smb_rtu_reset w)).1).rtu.current_tx_length
          ≤ 256) :=
  framer_run_index ops _ (reset_config_index addr baud_rate interface w)

/-- C36: server length invariants.  In every state `v` the server reaches from a
successful `smb_server_config` through any number of polls, whatever the host does in
between and whatever `read_frame` and the register callbacks return: in Idle
`frame_length` is 0; in SendReply `frame_length` is between 5 and 256, it is the length
of the last call made, a `write_frame`, and the length the next poll passes to
`write_frame`. -/
theorem C36_server_length_invariants (server_addr : Nat)
    (transport : Option (smb_transport_if_t σ)) (server_cb : Option (smb_server_if_t σ))
    (w v : World σ) (env : List (σ → σ))
    (hbuf : w.server.buffer.length = MODBUS_MAX_FRAME_SIZE) (haddr : server_addr < 256)
    (hcfg : (smb_server_config server_addr transport server_cb w).2 = 0)
    (hv : v = run_polls env (smb_server_config server_addr transport server_cb w).1) :
    (v.server.state = SERVER_STATE_IDLE → v.server.frame_length = 0) ∧
    (v.server.state = SERVER_STATE_SEND_REPLY →
      5 ≤ v.server.frame_length ∧ v.server.frame_length ≤ 256 ∧
      (∃ frame, v.trace.getLast? =
          some (Event.write_frame frame v.server.frame_length.toNat) ∧
        frame.length = v.server.frame_length.toNat) ∧
      (smb_server_poll v).1.trace =
        v.trace ++ [Event.write_frame (v.server.buffer.take v.server.frame_length.toNat)
          v.server.frame_length.toNat]) := by
  obtain ⟨rf, wf, cb, hb, hinv, _, hst, _⟩ :=
    config_success server_addr transport server_cb w hbuf haddr hcfg
  obtain ⟨hb2, hinv2, hlast⟩ := run_polls_keeps env rf wf cb _ hb hinv
    (fun h => by rw [hst] at h; exact server_state_t.noConfusion h)
  rw [← hv] at hb2 hinv2 hlast
  refine ⟨hinv2.2.1, fun hs => ?_⟩
  have hr := hinv2.2.2 hs
  refine ⟨hr.1, hr.2.1, hlast hs, ?_⟩
  rw [poll_send_reply hb2 hs]
  exact (sent_frame wf v hinv2.1 hr).1

/-- C37: no new frame is read while a request is in flight.  For every server state `v`:
the calls a poll makes include `read_frame` only if the server is in Idle.  For a
configured server `w` in ProcessingRequest or SendReply, a poll that takes it back to
Idle has ended with a `write_frame` call that returned 0 (the reply was sent) or a
negative value (it failed); in Idle a poll calls `read_frame` once, first. -/
theorem C37_no_read_while_in_flight (w v : World σ) (rf : read_frame_fn σ)
    (wf : write_frame_fn σ) (cb : smb_server_if_t σ) (hb : bound_to w.server rf wf cb)
    (hok : server_ok w.server) :
    (∃ evs, (smb_server_poll v).1.trace = v.trace ++ evs ∧
      ∀ e ∈ evs, e.is_read_frame = true → v.server.state = SERVER_STATE_IDLE) ∧
    (w.server.state ≠ SERVER_STATE_IDLE →
      (∃ evs, (smb_server_poll w).1.trace = w.trace ++ evs ∧
        ∀ e ∈ evs, e.is_read_frame = false) ∧
      ((smb_server_poll w).1.server.state = SERVER_STATE_IDLE →
        ∃ pre, smb_server_poll w = send_reply wf pre ∧ write_frame_ret wf pre ≤ 0)) ∧
    (w.server.state = SERVER_STATE_IDLE →
      ∃ rest, (smb_server_poll w).1.trace = w.trace ++ Event.read_frame 256 :: rest ∧
        ∀ e ∈ rest, e.is_read_frame = false) := by
  refine ⟨poll_reads v, fun hs => ⟨?_, poll_back_to_idle w rf wf cb hb hok hs⟩, fun hs => ?_⟩
  · obtain ⟨evs, h1, h2⟩ := poll_reads w
    refine ⟨evs, h1, fun e he => ?_⟩
    cases hr : e.is_read_frame with
    | false => rfl
    | true => exact absurd (h2 e he hr) hs
  · rw [poll_idle hb hs]
    exact exec_state_idle_calls rf wf cb w

/-- C38: CRC residue.  For every byte sequence `d` (of any length, 0 to 254 included),
with `w = calculate_crc(d)`: the CRC of `d` followed by the two bytes `w >> 8` and
`w & 0xFF`, the way the server stores them, is 0. -/
theorem C38_crc_residue (d : List Nat) (hd : is_bytes d) :
    calculate_crc
        (d ++ [calculate_crc d (d.length : Int) >>> 8, calculate_crc d (d.length : Int) &&& 0xFF])
        ((d.length + 2 : Nat) : Int) = 0 ∧
      calculate_crc
        (d ++ [(calculate_crc d (d.length : Int) &&& 0xFF00) >>> 8,
               calculate_crc d (d.length : Int) &&& 0x00FF])
        ((d.length + 2 : Nat) : Int) = 0 := by
  have hc := crc16_modbus_lt hd
  have hw := calculate_crc_lt d hd (d.length : Int)
  have h1 : calculate_crc d (d.length : Int) >>> 8 = crc16_modbus d % 256 := by
    rw [Nat.shiftRight_eq_div_pow, calculate_crc_eq hd]
    exact byte_swap_hi _ hc
  have h2 : calculate_crc d (d.length : Int) &&& 0xFF = crc16_modbus d / 256 := by
    rw [stored_lo, calculate_crc_eq hd, byte_swap_lo _ hc]
  have hb : is_bytes (d ++ [crc16_modbus d % 256, crc16_modbus d / 256]) := by
    intro b hm
    rcases List.mem_append.mp hm with hm | hm
    · exact hd b hm
    · simp only [List.mem_cons, List.mem_singleton, List.not_mem_nil, or_false] at hm
      rcases hm with hm | hm <;> omega
  have hlen : ((d.length + 2 : Nat) : Int) =
      ((d ++ [crc16_modbus d % 256, crc16_modbus d / 256]).length : Int) := by
    simp
  have h0 : calculate_crc (d ++ [crc16_modbus d % 256, crc16_modbus d / 256])
      ((d.length + 2 : Nat) : Int) = 0 := by
    rw [hlen, calculate_crc_eq hb, crc16_residue]
    rfl
  refine ⟨by rw [h1, h2]; exact h0, ?_⟩
  rw [stored_hi _ hw, ← Nat.shiftRight_eq_div_pow _ 8, h1, h2]
  exact h0

/-- C39: a full-size frame wedges the framer.  On a configured framer in Idle, after 256
bytes whose first is the configured address or 0 and the two timeouts that end the frame,
the framer is in ProcessRxFrame with `buffer_index` 256; from then on every received
byte and every `smb_rtu_write_pdu` returns `-EBUSY`, every timeout `-EFAULT` and every
`smb_rtu_read_pdu` with a capacity of at most 256 `-EINVAL`, and none of them changes
anything: after any sequence of such events the framer is as it was. -/
theorem C39_full_frame_wedges (w : RtuWorld τ) (sc : τ → Nat → τ)
    (wrt : τ → List Nat → Nat → τ × Int) (fr : τ → τ) (b : List Nat) (ops : List framer_op)
    (hc : configured w sc wrt fr) (hs : w.rtu.state = RTU_STATE_IDLE)
    (hl : w.rtu.rx_buffer.length = MODBUS_RTU_BUFFER_SIZE) (hb : is_bytes b)
    (h256 : b.length = MODBUS_RTU_BUFFER_SIZE)
    (haddr : rd b 0 = w.rtu.addr ∨ rd b 0 = 0) (hops : ∀ op ∈ ops, op.length_ok) :
    (rx_frame b w).rtu.state = RTU_STATE_PROCESS_RX_FRAME ∧
      (rx_frame b w).rtu.buffer_index = 256 ∧
      framer_run ops (rx_frame b w) = rx_frame b w ∧
      framer_results ops (rx_frame b w) = ops.map refused_result ∧
      (framer_run ops (rx_frame b w)).rtu.state = RTU_STATE_PROCESS_RX_FRAME := by
  have h0 : rd b 0 % 256 = rd b 0 := Nat.mod_eq_of_lt (rd_lt hb 0)
  have h256n : MODBUS_RTU_BUFFER_SIZE = 256 := rfl
  obtain ⟨_, _, hst, hidx, _, hcf, _⟩ :=
    rx_frame_pending hc hs hl b (by omega) (by omega) (by rw [h0]; exact haddr)
  have hi : (rx_frame b w).rtu.buffer_index = MODBUS_RTU_BUFFER_SIZE := by rw [hidx, h256]
  obtain ⟨h1, h2⟩ := run_process_refused hcf hst hi ops hops
  exact ⟨hst, hi, h1, h2, by rw [h1]; exact hst⟩

/-- C40: zero-quantity reads are never answered normally.  For a CRC-valid 8-byte request
addressed to the server with function code 0x03 or 0x04, quantity 0 and the read callback
defined, the poll that reads it calls the callback with `n_regs = 0`.  If the callback
returns 0 the poll returns `-EAGAIN`, calls nothing else and leaves the server in
ProcessingRequest; if it returns any other value the poll hands `write_frame` the
exception reply `[addr, fc | 0x80, 0x02, crc_hi, crc_lo]` as its only other call (so no
exception 0x03 and no normal reply).  With a callback that always returns 0 and stores
nothing, every later poll returns `-EAGAIN` and `write_frame` is never called. -/
theorem C40_zero_quantity_read (w : World σ) (rf : read_frame_fn σ)
    (wf : write_frame_fn σ) (cb : smb_server_if_t σ) (f : read_regs_fn σ)
    (ev : Nat → Nat → Event) (env : List (σ → σ)) (g : σ → σ)
    (hb : bound_to w.server rf wf cb)
    (hs : w.server.state = SERVER_STATE_IDLE) (hok : server_ok w.server)
    (hlen : inbound_len rf w = 8)
    (hcrc : crc_matches (inbound_buf rf w) 8)
    (haddr : rd (inbound_buf rf w) 0 = w.server.addr)
    (hfc : read_handler cb (rd (inbound_buf rf w) 1) f ev)
    (hq : be16 (inbound_buf rf w) 4 = 0) :
    (read_regs_ret f (accepted rf w) = 0 →
      (smb_server_poll w).2 = -EAGAIN ∧
      (smb_server_poll w).1.server.state = SERVER_STATE_PROCESSING_REQUEST ∧
      (smb_server_poll w).1.trace =
        w.trace ++ [Event.read_frame 256, ev 0 (be16 (inbound_buf rf w) 2)]) ∧
    (read_regs_ret f (accepted rf w) ≠ 0 →
      (smb_server_poll w).1.trace =
        w.trace ++ [Event.read_frame 256, ev 0 (be16 (inbound_buf rf w) 2),
          Event.write_frame
            (exception_frame w.server.addr (rd (inbound_buf rf w) 1)
              MODBUS_EXC_ILLEGAL_DATA_ADDRESS) 5]) ∧
    ((∀ h m a, (f h m 0 a).2 = ([], 0)) →
      (run_polls env (smb_server_poll w).1).server.state = SERVER_STATE_PROCESSING_REQUEST ∧
      (run_polls env (smb_server_poll w).1).trace =
        w.trace ++ Event.read_frame 256 ::
          List.replicate (env.length + 1) (ev 0 (be16 (inbound_buf rf w) 2)) ∧
      (smb_server_poll (host_step g (run_polls env (smb_server_poll w).1))).2 = -EAGAIN) := by
  have hok2 := accepted_ok rf hok
  have hfl : (accepted rf w).server.frame_length = 8 := hlen
  have hbuf : (accepted rf w).server.buffer = inbound_buf rf w := rfl
  have hd := derived_after_read_regs (derived_refl _ hok2) f ev (by
    intro a b
    rcases hfc with ⟨_, _, h⟩ | ⟨_, _, h⟩ <;> rw [h] <;> rfl)
  have hpoll : smb_server_poll w = process_read_regs wf f ev (accepted rf w) := by
    rw [poll_idle hb hs,
      exec_state_idle_accept rf wf cb (by rw [hlen]; norm_num) (by rw [hlen]; exact hcrc) haddr,
      process_frame_read wf cb (accepted rf w) f ev hfc, if_neg (by rw [hfl]; exact fun h => h rfl)]
  have hcall := process_read_regs_call wf f ev (accepted rf w) hok2.2.1
    (by rw [hbuf, hq]; omega)
  rw [hbuf, hq] at hcall
  have htr : (after_read_regs f ev (accepted rf w)).trace =
      w.trace ++ [Event.read_frame 256, ev 0 (be16 (inbound_buf rf w) 2)] := by
    show (accepted rf w).trace ++ [ev (be16 (accepted rf w).server.buffer 4) _] = _
    rw [accepted_trace, hbuf, hq, List.append_assoc]
    rfl
  refine ⟨fun hz => ?_, fun hnz => ?_, fun hquiet => ?_⟩
  · rw [hpoll, hcall, if_pos hz]
    exact ⟨rfl, rfl, htr⟩
  · have hne : ¬ read_regs_ret f (accepted rf w) = ((0 : Nat) : Int) := hnz
    have ha : (accepted rf w).server.addr =
        (after_read_regs f ev (accepted rf w)).server.addr := hd.addr.symm
    rw [hpoll, hcall, if_neg hnz, if_neg hne, ha,
      send_error_reply_trace wf MODBUS_EXC_ILLEGAL_DATA_ADDRESS _ hd.ok (by decide), htr,
      hd.addr, hd.head 1 (by omega), List.append_assoc]
    rfl
  · have hz : read_regs_ret f (accepted rf w) = 0 := by
      unfold read_regs_ret
      rw [hbuf, hq, hquiet]
    have hbusy := zero_read_busy wf cb f ev (accepted rf w) hok2.2.1 hfl hfc hq hquiet
    have hp1 : (smb_server_poll w).1 =
        { server := { (accepted rf w).server with state := SERVER_STATE_PROCESSING_REQUEST },
          host := (f (accepted rf w).host ((accepted rf w).server.buffer.drop 3) 0
            (be16 (accepted rf w).server.buffer 2)).1,
          trace := (accepted rf w).trace ++ [ev 0 (be16 (accepted rf w).server.buffer 2)] } := by
      rw [poll_idle hb hs,
        exec_state_idle_accept rf wf cb (by rw [hlen]; norm_num) (by rw [hlen]; exact hcrc)
          haddr, hbusy]
    obtain ⟨h1, h2, h3⟩ := zero_read_run rf wf cb f ev hquiet env (smb_server_poll w).1
      (by rw [hp1]; exact hb) (by rw [hp1]) (by rw [hp1]; exact hok2.2.1)
      (by rw [hp1]; exact hfl) (by rw [hp1]; exact hfc) (by rw [hp1]; exact hq)
    refine ⟨by rw [h1, hp1], ?_, h3 g⟩
    rw [h2, hp1]
    show (accepted rf w).trace ++ [ev 0 (be16 (inbound_buf rf w) 2)] ++
      List.replicate env.length (ev 0 (be16 (inbound_buf rf w) 2)) = _
    rw [accepted_trace, List.append_assoc, List.append_assoc]
    rfl

end Claims4

/-! ## Transmission outcomes, invariants and the CRC on concrete inputs -/

section Evaluations4

set_option maxRecDepth 8000

/-- C31 (as stated, refuted): in Emitting with 4 of 5 bytes sent, `host.write` is offered
the last byte and returns 2, which is more than the 1 byte that remains; the call returns
`-EFAULT`, not 0, the framer stays in Emitting with 4 bytes sent and no timer is armed. -/
theorem C31_overrun_is_a_fault :
    (overrun_framer.rtu.state = RTU_STATE_EMIT ∧ overrun_framer.rtu.buffer_index = 4 ∧
      overrun_framer.rtu.current_tx_buffer = some five_bytes.id ∧
      overrun_framer.rtu.current_tx_length = 5) ∧
    host_write_ret five_bytes 5 4 overrun_framer = 2 ∧
    (smb_rtu_write_pdu (some five_bytes) 5 overrun_framer).2 = -EFAULT ∧
    (smb_rtu_write_pdu (some five_bytes) 5 overrun_framer).1.rtu.state = RTU_STATE_EMIT ∧
    (smb_rtu_write_pdu (some five_bytes) 5 overrun_framer).1.rtu.buffer_index = 4 ∧
    (smb_rtu_write_pdu (some five_bytes) 5 overrun_framer).1.trace =
      overrun_framer.trace ++ [RtuEvent.write [0xC0] 1] := by
  decide

/-- Witness of C31 (amended): in Emitting with 4 of 5 bytes sent, the UART accepts the
last byte: the call returns 0, arms t3.5 and the framer is in WaitForTxComplete. -/
theorem C31_tx_outcome_in_emitting_witness :
    (smb_rtu_write_pdu (some five_bytes) 5 emitting_framer).2 = 0 ∧
      (smb_rtu_write_pdu (some five_bytes) 5 emitting_framer).1.rtu.state =
        RTU_STATE_WAIT_FOR_TX_COMPLETE ∧
      (smb_rtu_write_pdu (some five_bytes) 5 emitting_framer).1.trace =
        emitting_framer.trace ++ [RtuEvent.write [0xC0] 1, RtuEvent.start_counter 4010] :=
  have h := (C31_tx_outcome_in_emitting emitting_framer _ _ _ five_bytes 5 rfl rfl (by decide)
    (by decide) rfl rfl).1 (by decide)
  ⟨by rw [h], by rw [h], by rw [h]; rfl⟩

/-- Witness of C32: the framer in TxTimeout after 4 of the 5 bytes of `five_bytes`; the
retry returns `-ETIMEDOUT` and arms t3.5, a byte, another write and a read are then
refused with `-EBUSY`, and after the timeout `other_bytes` is handed to the UART. -/
theorem C32_transmit_timeout_witness :
    (smb_rtu_timer_timeout emitting_framer).2 = 0 ∧
    (smb_rtu_timer_timeout emitting_framer).1.rtu.state = RTU_STATE_TX_TIMEOUT ∧
    smb_rtu_write_pdu (some other_bytes) 5 tx_timeout_framer = (tx_timeout_framer, -EBUSY) ∧
    (smb_rtu_write_pdu (some five_bytes) 5 tx_timeout_framer).2 = -ETIMEDOUT ∧
    (smb_rtu_write_pdu (some five_bytes) 5 tx_timeout_framer).1.trace =
      tx_timeout_framer.trace ++ [RtuEvent.start_counter 4010] ∧
    framer_results
      [framer_op.rx 7, framer_op.write_pdu other_bytes 5, framer_op.read_pdu five_bytes 256]
      (smb_rtu_write_pdu (some five_bytes) 5 tx_timeout_framer).1 = [-EBUSY, -EBUSY, -EBUSY] ∧
    ∃ rest,
      (smb_rtu_write_pdu (some other_bytes) 5
        (smb_rtu_timer_timeout
          (smb_rtu_write_pdu (some five_bytes) 5 tx_timeout_framer).1).1).1.trace =
      tx_timeout_framer.trace ++ [RtuEvent.start_counter 4010] ++
        [RtuEvent.write [0x01, 0x84, 0x01, 0x82, 0xC0] 5] ++ rest :=
  have h1 := (C32_transmit_timeout emitting_framer _ _ _ five_bytes other_bytes 5 5 7 256 []
    rfl (by decide) (by decide) (by decide) (by decide)).1 rfl
  have h2 := (C32_transmit_timeout tx_timeout_framer _ _ _ other_bytes other_bytes 5 5 7 256 []
    rfl (by decide) (by decide) (by decide) (by decide)).2 rfl
  have h3 := (C32_transmit_timeout tx_timeout_framer _ _ _ five_bytes other_bytes 5 5 7 256
    [framer_op.rx 7, framer_op.write_pdu other_bytes 5, framer_op.read_pdu five_bytes 256]
    rfl (by decide) (by decide) (by decide) (by decide)).2 rfl
  have h4 := h3.2.2.2.2 (by decide)
  ⟨by rw [h1], by rw [h1], h2.1 (by decide), by rw [h4.1], by rw [h4.1]; rfl, h4.2.2.1,
    h4.2.2.2.2.2⟩

/-- Witness of C33: the framer in WaitForTxComplete after the 5 bytes of `five_bytes`; a
byte, a write and a read are refused with `-EBUSY` and change nothing, the timeout
returns 0 and leads to Idle. -/
theorem C33_silence_guard_witness :
    tx_done_framer.rtu.state = RTU_STATE_WAIT_FOR_TX_COMPLETE ∧
    (smb_rtu_timer_timeout tx_done_framer).2 = 0 ∧
    (smb_rtu_timer_timeout tx_done_framer).1.rtu.state = RTU_STATE_IDLE ∧
    framer_run
      [framer_op.rx 7, framer_op.write_pdu other_bytes 5, framer_op.read_pdu five_bytes 256]
      tx_done_framer = tx_done_framer ∧
    framer_results
      [framer_op.rx 7, framer_op.write_pdu other_bytes 5, framer_op.read_pdu five_bytes 256]
      tx_done_framer = [-EBUSY, -EBUSY, -EBUSY] :=
  have h := C33_silence_guard tx_done_framer idle_framer _ _ _
    { action := RTU_ACTION_TX, bytes := some five_bytes, n_bytes := 5 }
    (framer_op.write_pdu five_bytes 5)
    [framer_op.rx 7, framer_op.write_pdu other_bytes 5, framer_op.read_pdu five_bytes 256]
    rfl rfl (by decide)
  ⟨rfl, by rw [h.1], by rw [h.1], h.2.1, h.2.2.1 (by decide)⟩

/-- Witness of C34: the reference CRC of `01 04` is 0xE301; `calculate_crc` returns
0x01E3, whose bytes `01 E3` are stored in this order. -/
theorem C34_crc_reference_witness :
    crc16_modbus [0x01, 0x04] = 0xE301 ∧
    calculate_crc [0x01, 0x04] 2 = byte_swap 0xE301 ∧
    (calculate_crc [0x01, 0x04] 2 &&& 0xFF00) >>> 8 = 0x01 ∧
    calculate_crc [0x01, 0x04] 2 &&& 0x00FF = 0xE3 :=
  have h := C34_crc_reference [0x01, 0x04] (by unfold is_bytes; decide)
  have hc : crc16_modbus [0x01, 0x04] = 0xE301 := by decide
  ⟨hc, by rw [← hc]; exact h.1,
    (show (calculate_crc [0x01, 0x04] 2 &&& 0xFF00) >>> 8 = crc16_modbus [0x01, 0x04] % 256
      from h.2.1).trans (by rw [hc]),
    (show calculate_crc [0x01, 0x04] 2 &&& 0x00FF = crc16_modbus [0x01, 0x04] / 256
      from h.2.2.1).trans (by rw [hc])⟩

/-- Evaluation for C35: on `slow_uart` the start-up timeout and
`smb_rtu_write_pdu(five_bytes, 5)` lead to Emitting with 4 bytes sent of 5. -/
theorem C35_index_invariants_witness :
    (framer_run [framer_op.timeout, framer_op.write_pdu five_bytes 5]
      (smb_rtu_config 0x01 9600 (some slow_uart)
        (smb_rtu_reset ⟨rtu_init Nat, 0, []⟩)).1).rtu.state = RTU_STATE_EMIT ∧
    (framer_run [framer_op.timeout, framer_op.write_pdu five_bytes 5]
      (smb_rtu_config 0x01 9600 (some slow_uart)
        (smb_rtu_reset ⟨rtu_init Nat, 0, []⟩)).1).rtu.buffer_index = 4 ∧
    (framer_run [framer_op.timeout, framer_op.write_pdu five_bytes 5]
        (smb_rtu_config 0x01 9600 (some slow_uart)
          (smb_rtu_reset ⟨rtu_init Nat, 0, []⟩)).1).rtu.buffer_index <
      (framer_run [framer_op.timeout, framer_op.write_pdu five_bytes 5]
        (smb_rtu_config 0x01 9600 (some slow_uart)
          (smb_rtu_reset ⟨rtu_init Nat, 0, []⟩)).1).rtu.current_tx_length :=
  have h := C35_index_invariants ⟨rtu_init Nat, 0, []⟩ 0x01 9600 (some slow_uart)
    [framer_op.timeout, framer_op.write_pdu five_bytes 5]
  ⟨by decide, by decide, (h.2 (by decide)).1⟩

/-- Witness of C36: the write request `01 06 00 00 42 42 39 5B` on a host whose
`write_frame` returns 7; after one poll the server is in SendReply with `frame_length`
8, the last call is `write_frame` with length 8 and the next poll passes 8 again. -/
theorem C36_server_length_invariants_witness :
    (run_polls [id] c15_world).server.state = SERVER_STATE_SEND_REPLY ∧
    (run_polls [id] c15_world).server.frame_length = 8 ∧
    5 ≤ (run_polls [id] c15_world).server.frame_length ∧
    (run_polls [id] c15_world).server.frame_length ≤ 256 ∧
    (∃ frame, (run_polls [id] c15_world).trace.getLast? =
        some (Event.write_frame frame (run_polls [id] c15_world).server.frame_length.toNat) ∧
      frame.length = (run_polls [id] c15_world).server.frame_length.toNat) ∧
    (smb_server_poll (run_polls [id] c15_world)).1.trace =
      (run_polls [id] c15_world).trace ++
        [Event.write_frame [0x01, 0x06, 0x00, 0x00, 0x42, 0x42, 0x39, 0x5B] 8] :=
  have h := (C36_server_length_invariants 0x01
    (some ⟨some (fixed_read_frame c11_frame), some (fixed_write_frame 7)⟩)
    (some (write_only 1)) ⟨server_init Unit, (), []⟩ (run_polls [id] c15_world) [id]
    (by decide) (by decide) (by decide) rfl).2 (by decide)
  ⟨by decide, by decide, h.1, h.2.1, h.2.2.1, h.2.2.2.trans (by decide)⟩

/-- Witness of C37: the server `c14_world` after the poll in which `write_regs` reported
busy is in ProcessingRequest; the next poll calls `write_regs` and `write_frame`, not
`read_frame`, and is back in Idle after `write_frame` returned 0. -/
theorem C37_no_read_while_in_flight_witness :
    (smb_server_poll c14_world).1.server.state = SERVER_STATE_PROCESSING_REQUEST ∧
    (∃ evs, (smb_server_poll (smb_server_poll c14_world).1).1.trace =
        (smb_server_poll c14_world).1.trace ++ evs ∧
      ∀ e ∈ evs, e.is_read_frame = false) ∧
    (smb_server_poll (smb_server_poll c14_world).1).1.server.state = SERVER_STATE_IDLE ∧
    (∃ pre, smb_server_poll (smb_server_poll c14_world).1 =
        send_reply (fun h _ _ => (h, 0)) pre ∧
      write_frame_ret (fun h _ _ => (h, 0)) pre ≤ 0) ∧
    ∃ rest, (smb_server_poll c14_world).1.trace =
        c14_world.trace ++ Event.read_frame 256 :: rest ∧
      ∀ e ∈ rest, e.is_read_frame = false :=
  have h := C37_no_read_while_in_flight (smb_server_poll c14_world).1 c14_world
    (fun h _ _ => (h, c13_frame, 8)) (fun h _ _ => (h, 0))
    { read_input_regs := none, read_holding_regs := none, write_regs := some busy_once }
    ⟨rfl, rfl⟩ (by unfold server_ok is_bytes; decide)
  have h0 := C37_no_read_while_in_flight c14_world c14_world
    (fun h _ _ => (h, c13_frame, 8)) (fun h _ _ => (h, 0))
    { read_input_regs := none, read_holding_regs := none, write_regs := some busy_once }
    ⟨rfl, rfl⟩ (by unfold server_ok is_bytes; decide)
  ⟨by decide, (h.2.1 (by decide)).1, by decide, (h.2.1 (by decide)).2 (by decide),
    h0.2.2 (by decide)⟩

/-- Witness of C38: the CRC of `01 84 01` is 0x82C0, and the CRC of `01 84 01 82 C0`
is 0. -/
theorem C38_crc_residue_witness :
    calculate_crc [0x01, 0x84, 0x01] 3 = 0x82C0 ∧
    calculate_crc [0x01, 0x84, 0x01, 0x82, 0xC0] 5 = 0 :=
  have h := C38_crc_residue [0x01, 0x84, 0x01] (by unfold is_bytes; decide)
  have hc : calculate_crc [0x01, 0x84, 0x01] 3 = 0x82C0 := by decide
  have h1 : calculate_crc
      ([0x01, 0x84, 0x01] ++ [calculate_crc [0x01, 0x84, 0x01] 3 >>> 8,
        calculate_crc [0x01, 0x84, 0x01] 3 &&& 0xFF]) 5 = 0 := h.1
  ⟨hc, by rw [hc] at h1; exact h1⟩

/-- Witness of C39: after the 256 bytes of `full_frame` and the two timeouts, a byte, a
write, a timeout and a read with capacity 256 are refused and leave the framer as it
was, in ProcessRxFrame. -/
theorem C39_full_frame_wedges_witness :
    (rx_frame full_frame idle_framer).rtu.state = RTU_STATE_PROCESS_RX_FRAME ∧
    (rx_frame full_frame idle_framer).rtu.buffer_index = 256 ∧
    framer_run
      [framer_op.rx 1, framer_op.write_pdu five_bytes 5, framer_op.timeout,
        framer_op.read_pdu five_bytes 256]
      (rx_frame full_frame idle_framer) = rx_frame full_frame idle_framer ∧
    framer_results
      [framer_op.rx 1, framer_op.write_pdu five_bytes 5, framer_op.timeout,
        framer_op.read_pdu five_bytes 256]
      (rx_frame full_frame idle_framer) = [-EBUSY, -EBUSY, -EFAULT, -EINVAL] :=
  have h := C39_full_frame_wedges idle_framer _ _ _ full_frame
    [framer_op.rx 1, framer_op.write_pdu five_bytes 5, framer_op.timeout,
      framer_op.read_pdu five_bytes 256]
    rfl rfl (by decide) (by unfold is_bytes; decide) (by decide) (by decide) (by decide)
  ⟨h.1, h.2.1, h.2.2.1, h.2.2.2.1⟩

/-- Witness of C40: the request `01 03 00 00 00 00 45 CA`.  With a callback that returns
0 the poll returns `-EAGAIN` after `read_frame` and `read_holding_regs(0, 0)`, and three
more polls call the callback three more times and nothing else; with a callback that
returns 1 the poll hands `write_frame` the exception reply `01 83 02 C0 F1`. -/
theorem C40_zero_quantity_read_witness :
    ((smb_server_poll c40_busy_world).2 = -EAGAIN ∧
      (smb_server_poll c40_busy_world).1.server.state = SERVER_STATE_PROCESSING_REQUEST ∧
      (smb_server_poll c40_busy_world).1.trace =
        [] ++ [Event.read_frame 256, Event.read_holding_regs 0 0]) ∧
    ((run_polls [id, id, id] (smb_server_poll c40_busy_world).1).server.state =
        SERVER_STATE_PROCESSING_REQUEST ∧
      (run_polls [id, id, id] (smb_server_poll c40_busy_world).1).trace =
        [] ++ Event.read_frame 256 :: List.replicate 4 (Event.read_holding_regs 0 0) ∧
      (smb_server_poll
        (host_step id (run_polls [id, id, id] (smb_server_poll c40_busy_world).1))).2 =
          -EAGAIN) ∧
    (smb_server_poll c40_fail_world).1.trace =
      [Event.read_frame 256, Event.read_holding_regs 0 0,
        Event.write_frame [0x01, 0x83, 0x02, 0xC0, 0xF1] 5] :=
  have h := C40_zero_quantity_read c40_busy_world (fixed_read_frame zero_read_frame)
    (fixed_write_frame 0) (holding_only [] 0) (fixed_read_regs [] 0) Event.read_holding_regs
    [id, id, id] id ⟨rfl, rfl⟩ rfl (by unfold server_ok is_bytes; decide) (by decide)
    (by decide) (by decide) (Or.inl ⟨by decide, rfl, rfl⟩) (by decide)
  have h2 := C40_zero_quantity_read c40_fail_world (fixed_read_frame zero_read_frame)
    (fixed_write_frame 0) (holding_only [] 1) (fixed_read_regs [] 1) Event.read_holding_regs
    [] id ⟨rfl, rfl⟩ rfl (by unfold server_ok is_bytes; decide) (by decide)
    (by decide) (by decide) (Or.inl ⟨by decide, rfl, rfl⟩) (by decide)
  ⟨h.1 (by decide), h.2.2 (fun _ _ _ => rfl), (h2.2.1 (by decide)).trans (by decide)⟩

end Evaluations4

end SimpleModbus
